import Mathlib

/-! mlx5 software steering: matcher compiler and matcher-chain linker.

A shallow embedding of `drivers/net/ethernet/mellanox/mlx5/core/steering/dr_matcher.c`.

* C integers and bit-fields are natural numbers; a C truth test `x` is `x != 0`.
* Return codes are integers (`0` success, `-E...` failure).
* Pointers to hash tables are identifiers into a store (`World.htbls`); the
  kernel `list_head` list of a table is a Lean list and a list node is a
  position in it.
* Functions of the driver that live outside `dr_matcher.c` (STE builders,
  hardware post-send, allocation) are parameters (`ste_ops`, `Env`).
-/

namespace DrMatcher

/-! ## Error codes (errno-base.h / errno.h) -/

def ENOMEM : Int := 12
def EBUSY : Int := 16
def EINVAL : Int := 22
def EOPNOTSUPP : Int := 95

/-! ## Match mask -/

/-- The fields of `struct mlx5dr_match_spec` that `dr_matcher.c` names;
`other` stands for every remaining byte of the record. -/
structure mlx5dr_match_spec where
  smac_47_16 : Nat := 0
  smac_15_0 : Nat := 0
  ethertype : Nat := 0
  dmac_47_16 : Nat := 0
  dmac_15_0 : Nat := 0
  first_prio : Nat := 0
  first_cfi : Nat := 0
  first_vid : Nat := 0
  ip_protocol : Nat := 0
  ip_dscp : Nat := 0
  ip_ecn : Nat := 0
  cvlan_tag : Nat := 0
  svlan_tag : Nat := 0
  frag : Nat := 0
  ip_version : Nat := 0
  tcp_flags : Nat := 0
  tcp_sport : Nat := 0
  tcp_dport : Nat := 0
  ttl_hoplimit : Nat := 0
  udp_sport : Nat := 0
  udp_dport : Nat := 0
  src_ip_127_96 : Nat := 0
  src_ip_95_64 : Nat := 0
  src_ip_63_32 : Nat := 0
  src_ip_31_0 : Nat := 0
  dst_ip_127_96 : Nat := 0
  dst_ip_95_64 : Nat := 0
  dst_ip_63_32 : Nat := 0
  dst_ip_31_0 : Nat := 0
  other : Nat := 0
deriving DecidableEq, Repr

/-- The fields of `struct mlx5dr_match_misc` named in `dr_matcher.c`. -/
structure mlx5dr_match_misc where
  source_sqn : Nat := 0
  source_port : Nat := 0
  source_eswitch_owner_vhca_id : Nat := 0
  outer_second_prio : Nat := 0
  outer_second_cfi : Nat := 0
  outer_second_vid : Nat := 0
  inner_second_prio : Nat := 0
  inner_second_cfi : Nat := 0
  inner_second_vid : Nat := 0
  outer_second_cvlan_tag : Nat := 0
  inner_second_cvlan_tag : Nat := 0
  outer_second_svlan_tag : Nat := 0
  inner_second_svlan_tag : Nat := 0
  gre_c_present : Nat := 0
  gre_k_present : Nat := 0
  gre_s_present : Nat := 0
  gre_protocol : Nat := 0
  gre_key_h : Nat := 0
  gre_key_l : Nat := 0
  vxlan_vni : Nat := 0
  geneve_vni : Nat := 0
  geneve_oam : Nat := 0
  geneve_opt_len : Nat := 0
  geneve_protocol_type : Nat := 0
  outer_ipv6_flow_label : Nat := 0
  inner_ipv6_flow_label : Nat := 0
  other : Nat := 0
deriving DecidableEq, Repr

/-- The fields of `struct mlx5dr_match_misc2` named in `dr_matcher.c`. -/
structure mlx5dr_match_misc2 where
  outer_first_mpls_label : Nat := 0
  outer_first_mpls_exp : Nat := 0
  outer_first_mpls_s_bos : Nat := 0
  outer_first_mpls_ttl : Nat := 0
  inner_first_mpls_label : Nat := 0
  inner_first_mpls_exp : Nat := 0
  inner_first_mpls_s_bos : Nat := 0
  inner_first_mpls_ttl : Nat := 0
  outer_first_mpls_over_gre_label : Nat := 0
  outer_first_mpls_over_gre_exp : Nat := 0
  outer_first_mpls_over_gre_s_bos : Nat := 0
  outer_first_mpls_over_gre_ttl : Nat := 0
  outer_first_mpls_over_udp_label : Nat := 0
  outer_first_mpls_over_udp_exp : Nat := 0
  outer_first_mpls_over_udp_s_bos : Nat := 0
  outer_first_mpls_over_udp_ttl : Nat := 0
  metadata_reg_c_7 : Nat := 0
  metadata_reg_c_6 : Nat := 0
  metadata_reg_c_5 : Nat := 0
  metadata_reg_c_4 : Nat := 0
  metadata_reg_c_3 : Nat := 0
  metadata_reg_c_2 : Nat := 0
  metadata_reg_c_1 : Nat := 0
  metadata_reg_c_0 : Nat := 0
  metadata_reg_a : Nat := 0
  other : Nat := 0
deriving DecidableEq, Repr

/-- The fields of `struct mlx5dr_match_misc3` named in `dr_matcher.c`; the
ICMPv4 fields are read only through the header macro `DR_MASK_IS_ICMPV4_SET`
and are part of `other`. -/
structure mlx5dr_match_misc3 where
  inner_tcp_seq_num : Nat := 0
  outer_tcp_seq_num : Nat := 0
  inner_tcp_ack_num : Nat := 0
  outer_tcp_ack_num : Nat := 0
  outer_vxlan_gpe_vni : Nat := 0
  outer_vxlan_gpe_next_protocol : Nat := 0
  outer_vxlan_gpe_flags : Nat := 0
  icmpv6_header_data : Nat := 0
  icmpv6_type : Nat := 0
  icmpv6_code : Nat := 0
  geneve_tlv_option_0_data : Nat := 0
  other : Nat := 0
deriving DecidableEq, Repr

/-- The fields of `struct mlx5dr_match_misc4` named in `dr_matcher.c`. -/
structure mlx5dr_match_misc4 where
  prog_sample_field_value_0 : Nat := 0
  prog_sample_field_id_0 : Nat := 0
  prog_sample_field_value_1 : Nat := 0
  prog_sample_field_id_1 : Nat := 0
  prog_sample_field_value_2 : Nat := 0
  prog_sample_field_id_2 : Nat := 0
  prog_sample_field_value_3 : Nat := 0
  prog_sample_field_id_3 : Nat := 0
  other : Nat := 0
deriving DecidableEq, Repr

/-- The record `struct mlx5dr_match_param`: the six sub-records of a mask. -/
structure mlx5dr_match_param where
  outer : mlx5dr_match_spec := {}
  misc : mlx5dr_match_misc := {}
  inner : mlx5dr_match_spec := {}
  misc2 : mlx5dr_match_misc2 := {}
  misc3 : mlx5dr_match_misc3 := {}
  misc4 : mlx5dr_match_misc4 := {}
deriving DecidableEq, Repr

/-- The caller's mask buffer, `struct mlx5dr_match_parameters`. -/
structure mlx5dr_match_parameters where
  match_sz : Nat
  match_buf : List Nat
deriving DecidableEq, Repr

/-! ## Header constants

The enumerators and macros below are declared in headers that are not part of
`dr_matcher.c`; they are taken as parameters. -/

/-- Constants and macros of `dr_types.h` / `mlx5_ifc.h` used by `dr_matcher.c`. -/
structure dr_hdr where
  DR_MATCHER_CRITERIA_EMPTY : Nat
  DR_MATCHER_CRITERIA_OUTER : Nat
  DR_MATCHER_CRITERIA_MISC : Nat
  DR_MATCHER_CRITERIA_INNER : Nat
  DR_MATCHER_CRITERIA_MISC2 : Nat
  DR_MATCHER_CRITERIA_MISC3 : Nat
  DR_MATCHER_CRITERIA_MISC4 : Nat
  DR_MATCHER_CRITERIA_MAX : Nat
  MLX5_HW_CONNECTX_6DX : Nat
  MLX5_FLEX_PARSER_GENEVE_ENABLED : Nat
  MLX5_FLEX_PARSER_MPLS_OVER_GRE_ENABLED : Nat
  MLX5_FLEX_PARSER_MPLS_OVER_UDP_ENABLED : Nat
  MLX5_FLEX_PARSER_VXLAN_GPE_ENABLED : Nat
  MLX5_FLEX_PARSER_ICMP_V4_ENABLED : Nat
  MLX5_FLEX_PARSER_ICMP_V6_ENABLED : Nat
  MLX5_ST_SZ_DW_MATCH_PARAM : Nat
  MLX5DR_STE_LU_TYPE_DONT_CARE : Nat
  DR_STE_HTBL_TYPE_LEGACY : Nat
  DR_STE_HTBL_TYPE_MATCH : Nat
  DR_CHUNK_SIZE_1 : Nat
  DR_MASK_IS_ICMPV4_SET : mlx5dr_match_misc3 → Bool

/-! ## Field-presence predicates -/

def dr_mask_is_smac_set (spec : mlx5dr_match_spec) : Bool :=
  spec.smac_47_16 != 0 || spec.smac_15_0 != 0

def dr_mask_is_dmac_set (spec : mlx5dr_match_spec) : Bool :=
  spec.dmac_47_16 != 0 || spec.dmac_15_0 != 0

def dr_mask_is_src_addr_set (spec : mlx5dr_match_spec) : Bool :=
  spec.src_ip_127_96 != 0 || spec.src_ip_95_64 != 0 ||
  spec.src_ip_63_32 != 0 || spec.src_ip_31_0 != 0

def dr_mask_is_dst_addr_set (spec : mlx5dr_match_spec) : Bool :=
  spec.dst_ip_127_96 != 0 || spec.dst_ip_95_64 != 0 ||
  spec.dst_ip_63_32 != 0 || spec.dst_ip_31_0 != 0

def dr_mask_is_ipv6_only_match_set (spec : mlx5dr_match_spec) : Bool :=
  spec.src_ip_127_96 != 0 || spec.src_ip_95_64 != 0 ||
  spec.src_ip_63_32 != 0 ||
  spec.dst_ip_127_96 != 0 || spec.dst_ip_95_64 != 0 ||
  spec.dst_ip_63_32 != 0

def dr_mask_is_l3_base_set (spec : mlx5dr_match_spec) : Bool :=
  spec.ip_protocol != 0 || spec.frag != 0 || spec.tcp_flags != 0 ||
  spec.ip_ecn != 0 || spec.ip_dscp != 0

def dr_mask_is_tcp_udp_base_set (spec : mlx5dr_match_spec) : Bool :=
  spec.tcp_sport != 0 || spec.tcp_dport != 0 ||
  spec.udp_sport != 0 || spec.udp_dport != 0

def dr_mask_is_ipv4_set (spec : mlx5dr_match_spec) : Bool :=
  spec.dst_ip_31_0 != 0 || spec.src_ip_31_0 != 0

def dr_mask_is_ipv4_5_tuple_set (spec : mlx5dr_match_spec) : Bool :=
  dr_mask_is_l3_base_set spec ||
  dr_mask_is_tcp_udp_base_set spec ||
  dr_mask_is_ipv4_set spec

def dr_mask_is_eth_l2_tnl_set (misc : mlx5dr_match_misc) : Bool :=
  misc.vxlan_vni != 0

def dr_mask_is_ttl_set (spec : mlx5dr_match_spec) : Bool :=
  spec.ttl_hoplimit != 0

/-- Macro `DR_MASK_IS_L2_DST(_spec, _misc, _inner_outer)`; `inner` selects the
`inner_` or the `outer_` fields of `misc`. -/
def DR_MASK_IS_L2_DST (spec : mlx5dr_match_spec) (misc : mlx5dr_match_misc)
    (inner : Bool) : Bool :=
  spec.first_vid != 0 ||
  spec.first_cfi != 0 || spec.first_prio != 0 || spec.cvlan_tag != 0 ||
  spec.svlan_tag != 0 || spec.dmac_47_16 != 0 || spec.dmac_15_0 != 0 ||
  spec.ethertype != 0 || spec.ip_version != 0 ||
  (if inner then misc.inner_second_vid else misc.outer_second_vid) != 0 ||
  (if inner then misc.inner_second_cfi else misc.outer_second_cfi) != 0 ||
  (if inner then misc.inner_second_prio else misc.outer_second_prio) != 0 ||
  (if inner then misc.inner_second_cvlan_tag else misc.outer_second_cvlan_tag) != 0 ||
  (if inner then misc.inner_second_svlan_tag else misc.outer_second_svlan_tag) != 0

/-- Macro `DR_MASK_IS_ETH_L4_SET(_spec, _misc, _inner_outer)`. -/
def DR_MASK_IS_ETH_L4_SET (spec : mlx5dr_match_spec) (misc : mlx5dr_match_misc)
    (inner : Bool) : Bool :=
  dr_mask_is_l3_base_set spec ||
  dr_mask_is_tcp_udp_base_set spec ||
  dr_mask_is_ttl_set spec ||
  (if inner then misc.inner_ipv6_flow_label else misc.outer_ipv6_flow_label) != 0

/-- Macro `DR_MASK_IS_ETH_L4_MISC_SET(_misc3, _inner_outer)`. -/
def DR_MASK_IS_ETH_L4_MISC_SET (misc3 : mlx5dr_match_misc3) (inner : Bool) : Bool :=
  (if inner then misc3.inner_tcp_seq_num else misc3.outer_tcp_seq_num) != 0 ||
  (if inner then misc3.inner_tcp_ack_num else misc3.outer_tcp_ack_num) != 0

/-- Macro `DR_MASK_IS_FIRST_MPLS_SET(_misc2, _inner_outer)`. -/
def DR_MASK_IS_FIRST_MPLS_SET (misc2 : mlx5dr_match_misc2) (inner : Bool) : Bool :=
  (if inner then misc2.inner_first_mpls_label else misc2.outer_first_mpls_label) != 0 ||
  (if inner then misc2.inner_first_mpls_exp else misc2.outer_first_mpls_exp) != 0 ||
  (if inner then misc2.inner_first_mpls_s_bos else misc2.outer_first_mpls_s_bos) != 0 ||
  (if inner then misc2.inner_first_mpls_ttl else misc2.outer_first_mpls_ttl) != 0

def dr_mask_is_tnl_gre_set (misc : mlx5dr_match_misc) : Bool :=
  misc.gre_key_h != 0 || misc.gre_key_l != 0 ||
  misc.gre_protocol != 0 || misc.gre_c_present != 0 ||
  misc.gre_k_present != 0 || misc.gre_s_present != 0

def DR_MASK_IS_OUTER_MPLS_OVER_GRE_SET (misc2 : mlx5dr_match_misc2) : Bool :=
  misc2.outer_first_mpls_over_gre_label != 0 ||
  misc2.outer_first_mpls_over_gre_exp != 0 ||
  misc2.outer_first_mpls_over_gre_s_bos != 0 ||
  misc2.outer_first_mpls_over_gre_ttl != 0

def DR_MASK_IS_OUTER_MPLS_OVER_UDP_SET (misc2 : mlx5dr_match_misc2) : Bool :=
  misc2.outer_first_mpls_over_udp_label != 0 ||
  misc2.outer_first_mpls_over_udp_exp != 0 ||
  misc2.outer_first_mpls_over_udp_s_bos != 0 ||
  misc2.outer_first_mpls_over_udp_ttl != 0

def dr_mask_is_vxlan_gpe_set (misc3 : mlx5dr_match_misc3) : Bool :=
  misc3.outer_vxlan_gpe_vni != 0 ||
  misc3.outer_vxlan_gpe_next_protocol != 0 ||
  misc3.outer_vxlan_gpe_flags != 0

/-! ## Capability gate -/

/-- The fields of `struct mlx5dr_cmd_caps` read by `dr_matcher.c`. -/
structure mlx5dr_cmd_caps where
  sw_format_ver : Nat
  flex_protocols : Nat
  definer_format_sup : Nat
deriving DecidableEq, Repr

def dr_matcher_supp_vxlan_gpe (K : dr_hdr) (caps : mlx5dr_cmd_caps) : Bool :=
  caps.sw_format_ver == K.MLX5_HW_CONNECTX_6DX ||
  (caps.flex_protocols &&& K.MLX5_FLEX_PARSER_VXLAN_GPE_ENABLED) != 0

def dr_mask_is_tnl_vxlan_gpe (K : dr_hdr) (mask : mlx5dr_match_param)
    (caps : mlx5dr_cmd_caps) : Bool :=
  dr_mask_is_vxlan_gpe_set mask.misc3 && dr_matcher_supp_vxlan_gpe K caps

def dr_mask_is_tnl_geneve_set (misc : mlx5dr_match_misc) : Bool :=
  misc.geneve_vni != 0 ||
  misc.geneve_oam != 0 ||
  misc.geneve_protocol_type != 0 ||
  misc.geneve_opt_len != 0

def dr_mask_is_tnl_geneve_tlv_option (misc3 : mlx5dr_match_misc3) : Bool :=
  misc3.geneve_tlv_option_0_data != 0

def dr_matcher_supp_tnl_geneve (K : dr_hdr) (caps : mlx5dr_cmd_caps) : Bool :=
  caps.sw_format_ver == K.MLX5_HW_CONNECTX_6DX ||
  (caps.flex_protocols &&& K.MLX5_FLEX_PARSER_GENEVE_ENABLED) != 0

def dr_mask_is_tnl_geneve (K : dr_hdr) (mask : mlx5dr_match_param)
    (caps : mlx5dr_cmd_caps) : Bool :=
  dr_mask_is_tnl_geneve_set mask.misc && dr_matcher_supp_tnl_geneve K caps

def dr_matcher_supp_icmp_v4 (K : dr_hdr) (caps : mlx5dr_cmd_caps) : Bool :=
  caps.sw_format_ver == K.MLX5_HW_CONNECTX_6DX ||
  (caps.flex_protocols &&& K.MLX5_FLEX_PARSER_ICMP_V4_ENABLED) != 0

def dr_matcher_supp_icmp_v6 (K : dr_hdr) (caps : mlx5dr_cmd_caps) : Bool :=
  caps.sw_format_ver == K.MLX5_HW_CONNECTX_6DX ||
  (caps.flex_protocols &&& K.MLX5_FLEX_PARSER_ICMP_V6_ENABLED) != 0

def dr_mask_is_icmpv6_set (misc3 : mlx5dr_match_misc3) : Bool :=
  misc3.icmpv6_type != 0 || misc3.icmpv6_code != 0 ||
  misc3.icmpv6_header_data != 0

def dr_mask_is_icmp (K : dr_hdr) (mask : mlx5dr_match_param)
    (caps : mlx5dr_cmd_caps) : Bool :=
  if K.DR_MASK_IS_ICMPV4_SET mask.misc3 then
    dr_matcher_supp_icmp_v4 K caps
  else if dr_mask_is_icmpv6_set mask.misc3 then
    dr_matcher_supp_icmp_v6 K caps
  else
    false

def dr_mask_is_wqe_metadata_set (misc2 : mlx5dr_match_misc2) : Bool :=
  misc2.metadata_reg_a != 0

def dr_mask_is_reg_c_0_3_set (misc2 : mlx5dr_match_misc2) : Bool :=
  misc2.metadata_reg_c_0 != 0 || misc2.metadata_reg_c_1 != 0 ||
  misc2.metadata_reg_c_2 != 0 || misc2.metadata_reg_c_3 != 0

def dr_mask_is_reg_c_4_7_set (misc2 : mlx5dr_match_misc2) : Bool :=
  misc2.metadata_reg_c_4 != 0 || misc2.metadata_reg_c_5 != 0 ||
  misc2.metadata_reg_c_6 != 0 || misc2.metadata_reg_c_7 != 0

def dr_mask_is_gvmi_or_qpn_set (misc : mlx5dr_match_misc) : Bool :=
  misc.source_sqn != 0 || misc.source_port != 0

def dr_mask_is_flex_parser_id_0_3_set (flex_parser_id flex_parser_value : Nat) : Bool :=
  if flex_parser_id != 0 then
    decide (flex_parser_id < 4)
  else
    -- Using flex_parser 0 means that id is zero, thus value must be set
    flex_parser_value != 0

def dr_mask_is_flex_parser_0_3_set (misc4 : mlx5dr_match_misc4) : Bool :=
  dr_mask_is_flex_parser_id_0_3_set misc4.prog_sample_field_id_0
      misc4.prog_sample_field_value_0 ||
  dr_mask_is_flex_parser_id_0_3_set misc4.prog_sample_field_id_1
      misc4.prog_sample_field_value_1 ||
  dr_mask_is_flex_parser_id_0_3_set misc4.prog_sample_field_id_2
      misc4.prog_sample_field_value_2 ||
  dr_mask_is_flex_parser_id_0_3_set misc4.prog_sample_field_id_3
      misc4.prog_sample_field_value_3

def dr_mask_is_flex_parser_id_4_7_set (flex_parser_id : Nat) : Bool :=
  decide (flex_parser_id ≥ 4) && decide (flex_parser_id < 8)

def dr_mask_is_flex_parser_4_7_set (misc4 : mlx5dr_match_misc4) : Bool :=
  dr_mask_is_flex_parser_id_4_7_set misc4.prog_sample_field_id_0 ||
  dr_mask_is_flex_parser_id_4_7_set misc4.prog_sample_field_id_1 ||
  dr_mask_is_flex_parser_id_4_7_set misc4.prog_sample_field_id_2 ||
  dr_mask_is_flex_parser_id_4_7_set misc4.prog_sample_field_id_3

def dr_matcher_supp_tnl_mpls_over_gre (K : dr_hdr) (caps : mlx5dr_cmd_caps) : Bool :=
  (caps.flex_protocols &&& K.MLX5_FLEX_PARSER_MPLS_OVER_GRE_ENABLED) != 0

def dr_mask_is_tnl_mpls_over_gre (K : dr_hdr) (mask : mlx5dr_match_param)
    (caps : mlx5dr_cmd_caps) : Bool :=
  DR_MASK_IS_OUTER_MPLS_OVER_GRE_SET mask.misc2 &&
  dr_matcher_supp_tnl_mpls_over_gre K caps

def dr_matcher_supp_tnl_mpls_over_udp (K : dr_hdr) (caps : mlx5dr_cmd_caps) : Bool :=
  (caps.flex_protocols &&& K.MLX5_FLEX_PARSER_MPLS_OVER_UDP_ENABLED) != 0

def dr_mask_is_tnl_mpls_over_udp (K : dr_hdr) (mask : mlx5dr_match_param)
    (caps : mlx5dr_cmd_caps) : Bool :=
  DR_MASK_IS_OUTER_MPLS_OVER_UDP_SET mask.misc2 &&
  dr_matcher_supp_tnl_mpls_over_udp K caps

/-- The byte loop of `dr_matcher_is_mask_consumed`: it returns true exactly
when every byte of the `mlx5dr_match_param` is zero, that is when every field
of every sub-record is zero. -/
def dr_matcher_is_mask_consumed (mask : mlx5dr_match_param) : Bool :=
  mask == {}

def dr_matcher_copy_mask (K : dr_hdr) (dst_mask src_mask : mlx5dr_match_param)
    (match_criteria : Nat) : mlx5dr_match_param :=
  let dst_mask := if match_criteria &&& K.DR_MATCHER_CRITERIA_OUTER != 0 then
    { dst_mask with outer := src_mask.outer } else dst_mask
  let dst_mask := if match_criteria &&& K.DR_MATCHER_CRITERIA_MISC != 0 then
    { dst_mask with misc := src_mask.misc } else dst_mask
  let dst_mask := if match_criteria &&& K.DR_MATCHER_CRITERIA_INNER != 0 then
    { dst_mask with inner := src_mask.inner } else dst_mask
  let dst_mask := if match_criteria &&& K.DR_MATCHER_CRITERIA_MISC2 != 0 then
    { dst_mask with misc2 := src_mask.misc2 } else dst_mask
  let dst_mask := if match_criteria &&& K.DR_MATCHER_CRITERIA_MISC3 != 0 then
    { dst_mask with misc3 := src_mask.misc3 } else dst_mask
  let dst_mask := if match_criteria &&& K.DR_MATCHER_CRITERIA_MISC4 != 0 then
    { dst_mask with misc4 := src_mask.misc4 } else dst_mask
  dst_mask

/-! ## Domains, builders and per-direction matcher state -/

/-- Address families, `enum mlx5dr_ipv` (`DR_RULE_IPV_MAX` is the number of
enumerators and is the bound of the loops over the builder arrays). -/
inductive mlx5dr_ipv where
  | DR_RULE_IPV4
  | DR_RULE_IPV6
deriving DecidableEq, Repr

/-- Domain kinds, `enum mlx5dr_domain_type`. -/
inductive mlx5dr_domain_type where
  | MLX5DR_DOMAIN_TYPE_NIC_RX
  | MLX5DR_DOMAIN_TYPE_NIC_TX
  | MLX5DR_DOMAIN_TYPE_FDB
deriving DecidableEq, Repr

/-- Direction of a per-direction domain, `enum mlx5dr_domain_nic_type`. -/
inductive mlx5dr_domain_nic_type where
  | DR_DOMAIN_NIC_TYPE_RX
  | DR_DOMAIN_NIC_TYPE_TX
deriving DecidableEq, Repr

open mlx5dr_ipv mlx5dr_domain_type mlx5dr_domain_nic_type

/-- The fields of `struct mlx5dr_domain` read by `dr_matcher.c`
(`caps` is `info.caps`). -/
structure mlx5dr_domain where
  type : mlx5dr_domain_type
  caps : mlx5dr_cmd_caps
deriving DecidableEq, Repr

/-- The fields of `struct mlx5dr_ste_build` used by `dr_matcher.c`;
`match_buf` is the C field `match`, `other` the remaining bytes. The zero
record is what `memset(sb, 0, sizeof(*sb))` leaves. -/
structure mlx5dr_ste_build where
  lu_type : Nat := 0
  htbl_type : Nat := 0
  byte_mask : Nat := 0
  definer_id : Nat := 0
  format_id : Nat := 0
  match_buf : Nat := 0
  other : Nat := 0
deriving DecidableEq, Repr

/-- The STE builder entry points `mlx5dr_ste_build_<name>` called by the
selector. -/
inductive ste_build_id where
  | general_purpose
  | register_0
  | register_1
  | src_gvmi_qpn
  | eth_l2_src_dst
  | eth_l2_src
  | eth_l2_dst
  | eth_l3_ipv6_dst
  | eth_l3_ipv6_src
  | eth_ipv6_l3_l4
  | eth_l3_ipv4_5_tuple
  | eth_l3_ipv4_misc
  | tnl_vxlan_gpe
  | tnl_geneve
  | tnl_geneve_tlv_option
  | eth_l4_misc
  | mpls
  | tnl_mpls_over_gre
  | tnl_mpls_over_udp
  | icmp
  | tnl_gre
  | eth_l2_tnl
  | flex_parser_0
  | flex_parser_1
  | empty_always_hit
deriving DecidableEq, Repr

/-- The functions of `dr_ste.c` that the selector calls. They are outside
`dr_matcher.c` and are parameters of the embedding.

* `build b dmn mask inner rx` is the call
  `mlx5dr_ste_build_<b>(ste_ctx, sb, &mask, [caps | dmn,] inner, rx)`:
  it yields the descriptor stored in `*sb` and the mask it leaves behind;
* `mlx5dr_ste_build_empty_always_hit rx` yields the always-match descriptor
  (it takes no mask);
* `mlx5dr_ste_build_pre_check dmn criteria mask` is the return code of the
  pre-check;
* `mlx5dr_ste_copy_param criteria set_param mask` is the value it leaves in
  `*set_param`. -/
structure ste_ops where
  build : ste_build_id → mlx5dr_domain → mlx5dr_match_param → Bool → Bool →
    mlx5dr_ste_build × mlx5dr_match_param
  mlx5dr_ste_build_empty_always_hit : Bool → mlx5dr_ste_build
  mlx5dr_ste_build_pre_check : mlx5dr_domain → Nat → mlx5dr_match_param → Int
  mlx5dr_ste_copy_param : Nat → mlx5dr_match_param → mlx5dr_match_parameters →
    mlx5dr_match_param

/-- Pointers to hash tables (`struct mlx5dr_ste_htbl *`); `0` is `NULL`. -/
abbrev HtblId := Nat

/-- Per-direction matcher state, `struct mlx5dr_matcher_rx_tx`.

* `ste_builder` points to one of the arrays `ste_builder_arr[o][i]`
  (`none` is `NULL`);
* `sel_runs` is a ghost field: the family pairs for which
  `dr_matcher_set_ste_builders` was entered, in call order;
* `sel_calls` is a ghost field: the builder calls `(builder, inner)` issued
  by the most recent selector run for each family pair. -/
structure mlx5dr_matcher_rx_tx where
  s_htbl : HtblId := 0
  e_anchor : HtblId := 0
  ste_builder : Option (mlx5dr_ipv × mlx5dr_ipv) := none
  ste_builder_arr : mlx5dr_ipv → mlx5dr_ipv → Nat → mlx5dr_ste_build :=
    fun _ _ _ => {}
  num_of_builders_arr : mlx5dr_ipv → mlx5dr_ipv → Nat := fun _ _ => 0
  num_of_builders : Nat := 0
  sel_runs : List (mlx5dr_ipv × mlx5dr_ipv) := []
  sel_calls : mlx5dr_ipv → mlx5dr_ipv → List (ste_build_id × Bool) := fun _ _ => []

/-- A matcher, `struct mlx5dr_matcher`; `id` is the address of the object
returned by `kzalloc`. -/
structure mlx5dr_matcher where
  id : Nat
  prio : Nat := 0
  match_criteria : Nat := 0
  mask : mlx5dr_match_param := {}
  rx : mlx5dr_matcher_rx_tx := {}
  tx : mlx5dr_matcher_rx_tx := {}
  refcount : Nat := 0

/-- Per-direction table state, `struct mlx5dr_table_rx_tx`; `nic_dmn_type` is
`nic_dmn->type`. -/
structure mlx5dr_table_rx_tx where
  s_anchor : HtblId
  default_icm_addr : Nat
  nic_dmn_type : mlx5dr_domain_nic_type
deriving DecidableEq, Repr

/-- A table, `struct mlx5dr_table`; `matcher_list` is the kernel list
`tbl->matcher_list` from head to tail. -/
structure mlx5dr_table where
  dmn : mlx5dr_domain
  rx : mlx5dr_table_rx_tx
  tx : mlx5dr_table_rx_tx
  refcount : Nat
  matcher_list : List mlx5dr_matcher

/-! ## Template selector -/

/-- Local state of one run of `dr_matcher_set_ste_builders`: the working
`mask`, the builder array `sb`, the write index `idx`, and (ghost) the
builder calls made so far. -/
structure sel_state where
  mask : mlx5dr_match_param
  sb : Nat → mlx5dr_ste_build
  idx : Nat
  calls : List (ste_build_id × Bool)

/-- One call `mlx5dr_ste_build_<b>(ste_ctx, &sb[idx++], &mask, ..., inner, rx)`. -/
def sel_state.build (ops : ste_ops) (dmn : mlx5dr_domain) (rx : Bool)
    (b : ste_build_id) (inner : Bool) (s : sel_state) : sel_state :=
  { mask := (ops.build b dmn s.mask inner rx).2
    sb := Function.update s.sb s.idx (ops.build b dmn s.mask inner rx).1
    idx := s.idx + 1
    calls := s.calls ++ [(b, inner)] }

/-- The call `mlx5dr_ste_build_empty_always_hit(&sb[idx++], rx)`. -/
def sel_state.build_empty (ops : ste_ops) (rx : Bool) (s : sel_state) : sel_state :=
  { mask := s.mask
    sb := Function.update s.sb s.idx (ops.mlx5dr_ste_build_empty_always_hit rx)
    idx := s.idx + 1
    calls := s.calls ++ [(ste_build_id.empty_always_hit, false)] }

/-- The body of `dr_matcher_set_large_ste_builders`: its first statement is
`return -EOPNOTSUPP;` ("Disabling match definers"), nothing after it runs. -/
def dr_matcher_set_large_ste_builders : Int := -EOPNOTSUPP

/-- The block `/* Outer */` of `dr_matcher_set_ste_builders` (the body of its
`if`), with `inner = false`. -/
def dr_matcher_set_ste_builders_outer (K : dr_hdr) (ops : ste_ops)
    (dmn : mlx5dr_domain) (rx : Bool) (outer_ipv : mlx5dr_ipv)
    (s : sel_state) : sel_state :=
  let inner := false
  let s := if dr_mask_is_wqe_metadata_set s.mask.misc2 then
    s.build ops dmn rx .general_purpose inner else s
  let s := if dr_mask_is_reg_c_0_3_set s.mask.misc2 then
    s.build ops dmn rx .register_0 inner else s
  let s := if dr_mask_is_reg_c_4_7_set s.mask.misc2 then
    s.build ops dmn rx .register_1 inner else s
  let s := if dr_mask_is_gvmi_or_qpn_set s.mask.misc &&
      (dmn.type == MLX5DR_DOMAIN_TYPE_FDB ||
       dmn.type == MLX5DR_DOMAIN_TYPE_NIC_RX) then
    s.build ops dmn rx .src_gvmi_qpn inner else s
  let s := if dr_mask_is_smac_set s.mask.outer &&
      dr_mask_is_dmac_set s.mask.outer then
    s.build ops dmn rx .eth_l2_src_dst inner else s
  let s := if dr_mask_is_smac_set s.mask.outer then
    s.build ops dmn rx .eth_l2_src inner else s
  let s := if DR_MASK_IS_L2_DST s.mask.outer s.mask.misc false then
    s.build ops dmn rx .eth_l2_dst inner else s
  let s := if outer_ipv == DR_RULE_IPV6 then
    let s := if dr_mask_is_dst_addr_set s.mask.outer then
      s.build ops dmn rx .eth_l3_ipv6_dst inner else s
    let s := if dr_mask_is_src_addr_set s.mask.outer then
      s.build ops dmn rx .eth_l3_ipv6_src inner else s
    let s := if DR_MASK_IS_ETH_L4_SET s.mask.outer s.mask.misc false then
      s.build ops dmn rx .eth_ipv6_l3_l4 inner else s
    s
  else
    let s := if dr_mask_is_ipv4_5_tuple_set s.mask.outer then
      s.build ops dmn rx .eth_l3_ipv4_5_tuple inner else s
    let s := if dr_mask_is_ttl_set s.mask.outer then
      s.build ops dmn rx .eth_l3_ipv4_misc inner else s
    s
  let s := if dr_mask_is_tnl_vxlan_gpe K s.mask dmn.caps then
    s.build ops dmn rx .tnl_vxlan_gpe inner
  else if dr_mask_is_tnl_geneve K s.mask dmn.caps then
    let s := s.build ops dmn rx .tnl_geneve inner
    let s := if dr_mask_is_tnl_geneve_tlv_option s.mask.misc3 then
      s.build ops dmn rx .tnl_geneve_tlv_option inner else s
    s
  else s
  let s := if DR_MASK_IS_ETH_L4_MISC_SET s.mask.misc3 false then
    s.build ops dmn rx .eth_l4_misc inner else s
  let s := if DR_MASK_IS_FIRST_MPLS_SET s.mask.misc2 false then
    s.build ops dmn rx .mpls inner else s
  let s := if dr_mask_is_tnl_mpls_over_gre K s.mask dmn.caps then
    s.build ops dmn rx .tnl_mpls_over_gre inner
  else if dr_mask_is_tnl_mpls_over_udp K s.mask dmn.caps then
    s.build ops dmn rx .tnl_mpls_over_udp inner
  else s
  let s := if dr_mask_is_icmp K s.mask dmn.caps then
    s.build ops dmn rx .icmp inner else s
  let s := if dr_mask_is_tnl_gre_set s.mask.misc then
    s.build ops dmn rx .tnl_gre inner else s
  s

/-- The block `/* Inner */` of `dr_matcher_set_ste_builders` (the body of its
`if`), with `inner = true`. -/
def dr_matcher_set_ste_builders_inner (K : dr_hdr) (ops : ste_ops)
    (dmn : mlx5dr_domain) (rx : Bool) (inner_ipv : mlx5dr_ipv)
    (s : sel_state) : sel_state :=
  let inner := true
  let s := if dr_mask_is_eth_l2_tnl_set s.mask.misc then
    s.build ops dmn rx .eth_l2_tnl inner else s
  let s := if dr_mask_is_smac_set s.mask.inner &&
      dr_mask_is_dmac_set s.mask.inner then
    s.build ops dmn rx .eth_l2_src_dst inner else s
  let s := if dr_mask_is_smac_set s.mask.inner then
    s.build ops dmn rx .eth_l2_src inner else s
  let s := if DR_MASK_IS_L2_DST s.mask.inner s.mask.misc true then
    s.build ops dmn rx .eth_l2_dst inner else s
  let s := if inner_ipv == DR_RULE_IPV6 then
    let s := if dr_mask_is_dst_addr_set s.mask.inner then
      s.build ops dmn rx .eth_l3_ipv6_dst inner else s
    let s := if dr_mask_is_src_addr_set s.mask.inner then
      s.build ops dmn rx .eth_l3_ipv6_src inner else s
    let s := if DR_MASK_IS_ETH_L4_SET s.mask.inner s.mask.misc true then
      s.build ops dmn rx .eth_ipv6_l3_l4 inner else s
    s
  else
    let s := if dr_mask_is_ipv4_5_tuple_set s.mask.inner then
      s.build ops dmn rx .eth_l3_ipv4_5_tuple inner else s
    let s := if dr_mask_is_ttl_set s.mask.inner then
      s.build ops dmn rx .eth_l3_ipv4_misc inner else s
    s
  let s := if DR_MASK_IS_ETH_L4_MISC_SET s.mask.misc3 true then
    s.build ops dmn rx .eth_l4_misc inner else s
  let s := if DR_MASK_IS_FIRST_MPLS_SET s.mask.misc2 true then
    s.build ops dmn rx .mpls inner else s
  let s := if dr_mask_is_tnl_mpls_over_gre K s.mask dmn.caps then
    s.build ops dmn rx .tnl_mpls_over_gre inner
  else if dr_mask_is_tnl_mpls_over_udp K s.mask dmn.caps then
    s.build ops dmn rx .tnl_mpls_over_udp inner
  else s
  s

/-- The selector `dr_matcher_set_ste_builders` from the copy of the working
mask up to the always-match fallback: the final local state and the flag
`allow_empty_match` are not returned by the C function and are exposed here
for the statements about a run. -/
def dr_matcher_set_ste_builders_run (K : dr_hdr) (ops : ste_ops)
    (dmn : mlx5dr_domain) (matcher : mlx5dr_matcher) (rx : Bool)
    (sb : Nat → mlx5dr_ste_build) (outer_ipv inner_ipv : mlx5dr_ipv) :
    sel_state × Bool :=
  -- Create a temporary mask to track and clear used mask fields
  let mask := dr_matcher_copy_mask K {} matcher.mask matcher.match_criteria
  -- Optimize RX pipe by reducing source port match, since
  -- the FDB RX part is connected only to the wire.
  let opt := dmn.type == MLX5DR_DOMAIN_TYPE_FDB && rx && mask.misc.source_port != 0
  let mask := if opt then
    { mask with misc := { mask.misc with source_port := 0, source_eswitch_owner_vhca_id := 0 } }
    else mask
  let allow_empty_match := opt
  let s : sel_state := { mask := mask, sb := sb, idx := 0, calls := [] }
  -- Outer
  let s := if matcher.match_criteria &&& (K.DR_MATCHER_CRITERIA_OUTER |||
      K.DR_MATCHER_CRITERIA_MISC ||| K.DR_MATCHER_CRITERIA_MISC2 |||
      K.DR_MATCHER_CRITERIA_MISC3) != 0 then
    dr_matcher_set_ste_builders_outer K ops dmn rx outer_ipv s else s
  -- Inner
  let s := if matcher.match_criteria &&& (K.DR_MATCHER_CRITERIA_INNER |||
      K.DR_MATCHER_CRITERIA_MISC ||| K.DR_MATCHER_CRITERIA_MISC2 |||
      K.DR_MATCHER_CRITERIA_MISC3) != 0 then
    dr_matcher_set_ste_builders_inner K ops dmn rx inner_ipv s else s
  let s := if matcher.match_criteria &&& K.DR_MATCHER_CRITERIA_MISC4 != 0 then
    let s := if dr_mask_is_flex_parser_0_3_set s.mask.misc4 then
      s.build ops dmn rx .flex_parser_0 false else s
    let s := if dr_mask_is_flex_parser_4_7_set s.mask.misc4 then
      s.build ops dmn rx .flex_parser_1 false else s
    s
  else s
  -- Empty matcher, takes all
  let s := if (s.idx == 0 && allow_empty_match) ||
      matcher.match_criteria == K.DR_MATCHER_CRITERIA_EMPTY then
    s.build_empty ops rx else s
  (s, allow_empty_match)

/-- The selector `dr_matcher_set_ste_builders`: return code and the
per-direction state it leaves. The builders are written in place into
`ste_builder_arr[outer_ipv][inner_ipv]`, also by a run that fails. -/
def dr_matcher_set_ste_builders (K : dr_hdr) (ops : ste_ops)
    (dmn : mlx5dr_domain) (matcher : mlx5dr_matcher)
    (nic_tbl : mlx5dr_table_rx_tx) (nic_matcher : mlx5dr_matcher_rx_tx)
    (outer_ipv inner_ipv : mlx5dr_ipv) : Int × mlx5dr_matcher_rx_tx :=
  let nic_matcher := { nic_matcher with
    sel_runs := nic_matcher.sel_runs ++ [(outer_ipv, inner_ipv)] }
  let rx := nic_tbl.nic_dmn_type == DR_DOMAIN_NIC_TYPE_RX
  let ret := ops.mlx5dr_ste_build_pre_check dmn matcher.match_criteria matcher.mask
  if ret != 0 then (ret, nic_matcher) else
  -- Use a large definers for matching if possible
  let ret := dr_matcher_set_large_ste_builders
  if ret == 0 then (0, nic_matcher) else
  let r := dr_matcher_set_ste_builders_run K ops dmn matcher rx
    (nic_matcher.ste_builder_arr outer_ipv inner_ipv) outer_ipv inner_ipv
  let s := r.1
  let nic_matcher := { nic_matcher with
    ste_builder_arr := fun o i =>
      if o = outer_ipv ∧ i = inner_ipv then s.sb else nic_matcher.ste_builder_arr o i
    sel_calls := fun o i =>
      if o = outer_ipv ∧ i = inner_ipv then s.calls else nic_matcher.sel_calls o i }
  if s.idx == 0 then
    -- Cannot generate any valid rules from mask
    (-EINVAL, nic_matcher)
  else if !dr_matcher_is_mask_consumed s.mask then
    -- Mask contains unsupported parameters
    (-EOPNOTSUPP, nic_matcher)
  else
    (0, { nic_matcher with
      ste_builder := some (outer_ipv, inner_ipv)
      num_of_builders_arr := fun o i =>
        if o = outer_ipv ∧ i = inner_ipv then s.idx else nic_matcher.num_of_builders_arr o i })

/-- The result of `dr_matcher_get_mask_ip_versions` in its four output
parameters. -/
structure mask_ip_versions where
  outer_ipv4 : Bool
  outer_ipv6 : Bool
  inner_ipv4 : Bool
  inner_ipv6 : Bool
deriving DecidableEq, Repr

/-- The function `dr_matcher_get_mask_ip_versions`: `error ret` is the return
code of a failure (the output parameters are then not written). -/
def dr_matcher_get_mask_ip_versions (K : dr_hdr) (matcher : mlx5dr_matcher) :
    Except Int mask_ip_versions :=
  let outer_ipv6_mask_present := false
  let inner_ipv6_mask_present := false
  let outer_ipv := 0
  let inner_ipv := 0
  let (outer_ipv, outer_ipv6_mask_present) :=
    if matcher.match_criteria &&& K.DR_MATCHER_CRITERIA_OUTER != 0 then
      (matcher.mask.outer.ip_version, dr_mask_is_ipv6_only_match_set matcher.mask.outer)
    else (outer_ipv, outer_ipv6_mask_present)
  let (inner_ipv, inner_ipv6_mask_present) :=
    if matcher.match_criteria &&& K.DR_MATCHER_CRITERIA_INNER != 0 then
      (matcher.mask.inner.ip_version, dr_mask_is_ipv6_only_match_set matcher.mask.inner)
    else (inner_ipv, inner_ipv6_mask_present)
  if (outer_ipv == 4 && outer_ipv6_mask_present) ||
     (inner_ipv == 4 && inner_ipv6_mask_present) then
    .error (-EINVAL)
  else
    let (outer_ipv4, outer_ipv6) :=
      if outer_ipv == 0xf then (true, true)
      else if outer_ipv == 6 || outer_ipv6_mask_present then (false, true)
      else (true, false)
    let (inner_ipv4, inner_ipv6) :=
      if inner_ipv == 0xf then (true, true)
      else if inner_ipv == 6 || inner_ipv6_mask_present then (false, true)
      else (true, false)
    .ok { outer_ipv4 := outer_ipv4, outer_ipv6 := outer_ipv6,
          inner_ipv4 := inner_ipv4, inner_ipv6 := inner_ipv6 }

def dr_matcher_set_all_ste_builders (K : dr_hdr) (ops : ste_ops)
    (dmn : mlx5dr_domain) (matcher : mlx5dr_matcher)
    (nic_tbl : mlx5dr_table_rx_tx) (nic_matcher : mlx5dr_matcher_rx_tx) :
    Int × mlx5dr_matcher_rx_tx :=
  match dr_matcher_get_mask_ip_versions K matcher with
  | .error ret =>
    -- Cannot generate IPv4/6 rules with given IP ver/addr mask
    (ret, nic_matcher)
  | .ok v =>
    let nic_matcher := if v.outer_ipv4 && v.inner_ipv4 then
      (dr_matcher_set_ste_builders K ops dmn matcher nic_tbl nic_matcher
        DR_RULE_IPV4 DR_RULE_IPV4).2 else nic_matcher
    let nic_matcher := if v.outer_ipv4 && v.inner_ipv6 then
      (dr_matcher_set_ste_builders K ops dmn matcher nic_tbl nic_matcher
        DR_RULE_IPV4 DR_RULE_IPV6).2 else nic_matcher
    let nic_matcher := if v.outer_ipv6 && v.inner_ipv4 then
      (dr_matcher_set_ste_builders K ops dmn matcher nic_tbl nic_matcher
        DR_RULE_IPV6 DR_RULE_IPV4).2 else nic_matcher
    let nic_matcher := if v.outer_ipv6 && v.inner_ipv6 then
      (dr_matcher_set_ste_builders K ops dmn matcher nic_tbl nic_matcher
        DR_RULE_IPV6 DR_RULE_IPV6).2 else nic_matcher
    if nic_matcher.ste_builder.isNone then
      -- Cannot generate IPv4 or IPv6 rules with given mask
      (-EINVAL, nic_matcher)
    else
      (0, nic_matcher)

/-! ## Hash tables, hardware and allocation -/

/-- The connect request `struct mlx5dr_htbl_connect_info`: `type` together
with the member of the union that belongs to it. -/
inductive mlx5dr_htbl_connect_info where
  | CONNECT_HIT (hit_next_htbl : HtblId)
  | CONNECT_MISS (miss_icm_addr : Nat)
deriving DecidableEq, Repr

open mlx5dr_htbl_connect_info

/-- A hash table, `struct mlx5dr_ste_htbl`, with the fields `dr_matcher.c`
touches: `chunk_size` is the size class the table was allocated with,
`icm_addr` is `chunk->icm_addr`, `next_htbl` is
`ste_arr[0].next_htbl`, and `pointing_ste = some a` says that `pointing_ste`
is the entry array `ste_arr` of table `a`.
Ghost fields: `hw` is the connect request of the last post-send for this
table that succeeded, `freed` tells that the table was released. -/
structure mlx5dr_ste_htbl where
  chunk_size : Nat := 0
  htbl_type : Nat := 0
  lu_type : Nat := 0
  byte_mask : Nat := 0
  refcount : Nat := 0
  icm_addr : Nat := 0
  next_htbl : Option HtblId := none
  pointing_ste : Option HtblId := none
  hw : Option mlx5dr_htbl_connect_info := none
  freed : Bool := false
deriving DecidableEq, Repr

/-- One call of `mlx5dr_ste_htbl_init_and_postsend` as the hardware sees it. -/
structure postsend_call where
  htbl : HtblId
  info : mlx5dr_htbl_connect_info
  update_hw_ste : Bool
deriving DecidableEq, Repr

/-- The part of the driver state outside the table and the matcher: the store
of hash tables, the allocation counters, and the ghost logs of the calls made
to the device (`posts`, `destroyed_definers`) and of `kfree(matcher)`. -/
structure World where
  htbls : HtblId → mlx5dr_ste_htbl
  brk : Nat
  alloc_calls : Nat
  posts : List postsend_call
  destroyed_definers : List Nat
  kfreed : List Nat

/-- The outcomes of the external calls, fixed in advance: `kzalloc` is the
address `kzalloc` returns for the matcher (`none` is `NULL`),
`htbl_alloc_ok n` tells whether the `n`-th call of `mlx5dr_ste_htbl_alloc`
succeeds, `icm_addr h` is the ICM address of the chunk of a new table `h`,
and `postsend_ret n` is the return code of the `n`-th post-send. -/
structure Env where
  kzalloc : Option Nat
  htbl_alloc_ok : Nat → Bool
  icm_addr : HtblId → Nat
  postsend_ret : Nat → Int

def World.set_next_htbl (w : World) (h : HtblId) (n : Option HtblId) : World :=
  { w with htbls := Function.update w.htbls h { w.htbls h with next_htbl := n } }

def World.set_pointing_ste (w : World) (h : HtblId) (a : Option HtblId) : World :=
  { w with htbls := Function.update w.htbls h { w.htbls h with pointing_ste := a } }

/-- Modelled from the spec: `mlx5dr_ste_htbl_init_and_postsend` (dr_ste.c),
the "hardware anchor-link program (hit target or miss address)"; "hardware
calls either complete or return a definitive failure". The call is logged;
when it completes the table is programmed with the request, when it fails
the programmed state is left as it was. No software link field is touched. -/
def mlx5dr_ste_htbl_init_and_postsend (E : Env) (w : World) (htbl : HtblId)
    (info : mlx5dr_htbl_connect_info) (update_hw_ste : Bool) : Int × World :=
  let ret := E.postsend_ret w.posts.length
  let w := { w with posts := w.posts ++ [⟨htbl, info, update_hw_ste⟩] }
  if ret = 0 then
    (0, { w with htbls := Function.update w.htbls htbl { w.htbls htbl with hw := some info } })
  else
    (ret, w)

/-- Modelled from the spec: `mlx5dr_ste_htbl_alloc` (dr_ste.c), "hash-table
allocate": a new table, distinct from every table allocated before, with no
links and no reference, or `NULL` (`0`) on failure. -/
def mlx5dr_ste_htbl_alloc (E : Env) (w : World)
    (chunk_size htbl_type lu_type byte_mask : Nat) :
    HtblId × World :=
  if E.htbl_alloc_ok w.alloc_calls then
    (w.brk + 1,
     { w with
       htbls := Function.update w.htbls (w.brk + 1) (
         { chunk_size := chunk_size, htbl_type := htbl_type, lu_type := lu_type,
           byte_mask := byte_mask, icm_addr := E.icm_addr (w.brk + 1) })
       brk := w.brk + 1
       alloc_calls := w.alloc_calls + 1 })
  else
    (0, { w with alloc_calls := w.alloc_calls + 1 })

/-- Modelled from the spec: `mlx5dr_ste_htbl_free` (dr_ste.c), "hash-table
free": the table is released. -/
def mlx5dr_ste_htbl_free (w : World) (htbl : HtblId) : World :=
  { w with htbls := Function.update w.htbls htbl { w.htbls htbl with freed := true } }

/-- Modelled from the spec: `mlx5dr_htbl_get` (dr_types.h), "pin": one more
reference on the table. -/
def mlx5dr_htbl_get (w : World) (htbl : HtblId) : World :=
  { w with htbls := Function.update w.htbls htbl (
      { w.htbls htbl with refcount := (w.htbls htbl).refcount + 1 }) }

/-- Modelled from the spec: `mlx5dr_htbl_put` (dr_types.h), "unpin": one
reference less, and the table is released when none is left. -/
def mlx5dr_htbl_put (w : World) (htbl : HtblId) : World :=
  let w := { w with htbls := Function.update w.htbls htbl (
      { w.htbls htbl with refcount := (w.htbls htbl).refcount - 1 }) }
  if (w.htbls htbl).refcount = 0 then mlx5dr_ste_htbl_free w htbl else w

/-! ## Chain linker -/

def dr_matcher_connect (E : Env) (w : World) (nic_tbl : mlx5dr_table_rx_tx)
    (curr_nic_matcher : mlx5dr_matcher_rx_tx)
    (next_nic_matcher prev_nic_matcher : Option mlx5dr_matcher_rx_tx) : Int × World :=
  -- Connect end anchor hash table to next_htbl or to the default address
  let info := match next_nic_matcher with
    | some next => CONNECT_HIT next.s_htbl
    | none => CONNECT_MISS nic_tbl.default_icm_addr
  let r := mlx5dr_ste_htbl_init_and_postsend E w curr_nic_matcher.e_anchor info
    next_nic_matcher.isSome
  if r.1 ≠ 0 then r else
  let w := r.2
  -- Connect start hash table to end anchor
  let info := CONNECT_MISS (w.htbls curr_nic_matcher.e_anchor).icm_addr
  let r := mlx5dr_ste_htbl_init_and_postsend E w curr_nic_matcher.s_htbl info false
  if r.1 ≠ 0 then r else
  let w := r.2
  -- Connect previous hash table to matcher start hash table
  let prev_htbl := match prev_nic_matcher with
    | some prev => prev.e_anchor
    | none => nic_tbl.s_anchor
  let info := CONNECT_HIT curr_nic_matcher.s_htbl
  let r := mlx5dr_ste_htbl_init_and_postsend E w prev_htbl info true
  if r.1 ≠ 0 then r else
  let w := r.2
  -- Update the pointing ste and next hash table
  let w := w.set_pointing_ste curr_nic_matcher.s_htbl (some prev_htbl)
  let w := w.set_next_htbl prev_htbl (some curr_nic_matcher.s_htbl)
  let w := match next_nic_matcher with
    | some next =>
      (w.set_pointing_ste next.s_htbl (some curr_nic_matcher.e_anchor)).set_next_htbl
        curr_nic_matcher.e_anchor (some next.s_htbl)
    | none => w
  (0, w)

/-- The loop `list_for_each_entry(tmp_matcher, &tbl->matcher_list, ...)` of
`dr_matcher_add_to_tbl`, started at list position `pos` with the current
value of `first`: the position of `next_matcher` (`none` is `NULL`) and the
final value of `first`. -/
def dr_matcher_add_to_tbl_loop (prio : Nat) :
    Nat → Bool → List mlx5dr_matcher → Option Nat × Bool
  | _, first, [] => (none, first)
  | pos, first, tmp_matcher :: rest =>
    if tmp_matcher.prio ≥ prio then (some pos, first)
    else dr_matcher_add_to_tbl_loop prio (pos + 1) false rest

/-- A list with `x` linked in so that it takes position `k`. -/
def list_insert_at (l : List mlx5dr_matcher) (k : Nat) (x : mlx5dr_matcher) :
    List mlx5dr_matcher :=
  l.take k ++ x :: l.drop k

/-- Return code, world and table left by a function of the linker. -/
structure tbl_result where
  ret : Int
  w : World
  tbl : mlx5dr_table

/-- The function `dr_matcher_add_to_tbl`. List nodes are list positions:
`list_prev_entry` of the node at `n` is the node at `n - 1`, `list_last_entry`
is the node at `length - 1`; `list_add(new, node p)` links `new` in at
`p + 1`, `list_add_tail(new, node n)` at `n`, `list_add(new, head)` at `0`. -/
def dr_matcher_add_to_tbl (E : Env) (w : World) (tbl : mlx5dr_table)
    (matcher : mlx5dr_matcher) : tbl_result :=
  let dmn := tbl.dmn
  let lp := dr_matcher_add_to_tbl_loop matcher.prio 0 true tbl.matcher_list
  let next_pos := lp.1
  let first := lp.2
  let prev_pos : Option Nat :=
    if next_pos.isSome && !first then next_pos.map (· - 1)
    else if !first then some (tbl.matcher_list.length - 1)
    else none
  let next_matcher := next_pos.bind (tbl.matcher_list[·]?)
  let prev_matcher := prev_pos.bind (tbl.matcher_list[·]?)
  let r : Int × World :=
    if dmn.type = MLX5DR_DOMAIN_TYPE_FDB ∨ dmn.type = MLX5DR_DOMAIN_TYPE_NIC_RX then
      dr_matcher_connect E w tbl.rx matcher.rx
        (next_matcher.map (·.rx)) (prev_matcher.map (·.rx))
    else (0, w)
  if r.1 ≠ 0 then ⟨r.1, r.2, tbl⟩ else
  let w := r.2
  let r : Int × World :=
    if dmn.type = MLX5DR_DOMAIN_TYPE_FDB ∨ dmn.type = MLX5DR_DOMAIN_TYPE_NIC_TX then
      dr_matcher_connect E w tbl.tx matcher.tx
        (next_matcher.map (·.tx)) (prev_matcher.map (·.tx))
    else (0, w)
  if r.1 ≠ 0 then ⟨r.1, r.2, tbl⟩ else
  let w := r.2
  let matcher_list :=
    match prev_pos, next_pos with
    | some p, _ => list_insert_at tbl.matcher_list (p + 1) matcher
    | none, some n => list_insert_at tbl.matcher_list n matcher
    | none, none => list_insert_at tbl.matcher_list 0 matcher
  ⟨0, w, { tbl with matcher_list := matcher_list }⟩

def dr_matcher_disconnect (E : Env) (w : World) (nic_tbl : mlx5dr_table_rx_tx)
    (next_nic_matcher prev_nic_matcher : Option mlx5dr_matcher_rx_tx) : Int × World :=
  let prev_anchor := match prev_nic_matcher with
    | some prev => prev.e_anchor
    | none => nic_tbl.s_anchor
  -- Connect previous anchor hash table to next matcher or to the default address
  match next_nic_matcher with
  | some next =>
    let w := w.set_pointing_ste next.s_htbl (some prev_anchor)
    let w := w.set_next_htbl prev_anchor (some next.s_htbl)
    mlx5dr_ste_htbl_init_and_postsend E w prev_anchor (CONNECT_HIT next.s_htbl) true
  | none =>
    let w := w.set_next_htbl prev_anchor none
    mlx5dr_ste_htbl_init_and_postsend E w prev_anchor
      (CONNECT_MISS nic_tbl.default_icm_addr) true

/-- The node of `matcher` in the table list: the position of the entry with
its address. -/
def matcher_pos : List mlx5dr_matcher → mlx5dr_matcher → Option Nat
  | [], _ => none
  | m :: rest, matcher =>
    if m.id = matcher.id then some 0 else (matcher_pos rest matcher).map (· + 1)

/-- The function `dr_matcher_remove_from_tbl`. The node of `matcher` is its
position `i` in the list: `list_is_last` holds when `i + 1` is the length,
`matcher_list.prev == &tbl->matcher_list` when `i = 0`, and `list_del` erases
position `i`. A matcher that is not in the list has the self-linked node left
by `INIT_LIST_HEAD` in `mlx5dr_matcher_create`: its next and previous entries
are the matcher itself and `list_del` changes no list. -/
def dr_matcher_remove_from_tbl (E : Env) (w : World) (tbl : mlx5dr_table)
    (matcher : mlx5dr_matcher) : tbl_result :=
  let dmn := tbl.dmn
  let pos := matcher_pos tbl.matcher_list matcher
  let next_matcher : Option mlx5dr_matcher :=
    match pos with
    | some i => if i + 1 = tbl.matcher_list.length then none else tbl.matcher_list[i + 1]?
    | none => some matcher
  let prev_matcher : Option mlx5dr_matcher :=
    match pos with
    | some i => if i = 0 then none else tbl.matcher_list[i - 1]?
    | none => some matcher
  let r : Int × World :=
    if dmn.type = MLX5DR_DOMAIN_TYPE_FDB ∨ dmn.type = MLX5DR_DOMAIN_TYPE_NIC_RX then
      dr_matcher_disconnect E w tbl.rx
        (next_matcher.map (·.rx)) (prev_matcher.map (·.rx))
    else (0, w)
  if r.1 ≠ 0 then ⟨r.1, r.2, tbl⟩ else
  let w := r.2
  let r : Int × World :=
    if dmn.type = MLX5DR_DOMAIN_TYPE_FDB ∨ dmn.type = MLX5DR_DOMAIN_TYPE_NIC_TX then
      dr_matcher_disconnect E w tbl.tx
        (next_matcher.map (·.tx)) (prev_matcher.map (·.tx))
    else (0, w)
  if r.1 ≠ 0 then ⟨r.1, r.2, tbl⟩ else
  let w := r.2
  let matcher_list :=
    match pos with
    | some i => tbl.matcher_list.eraseIdx i
    | none => tbl.matcher_list
  ⟨0, w, { tbl with matcher_list := matcher_list }⟩

/-! ## Matcher lifecycle -/

/-- The function `dr_matcher_destroy_definer_objs`: for `i < idx`, in
increasing order, the definer `sb[i].definer_id` is destroyed on the device
(logged) and `sb[i]` is zeroed. -/
def dr_matcher_destroy_definer_objs (w : World) (sb : Nat → mlx5dr_ste_build)
    (idx : Nat) : World × (Nat → mlx5dr_ste_build) :=
  (List.range idx).foldl
    (fun acc i =>
      ({ acc.1 with destroyed_definers := acc.1.destroyed_definers ++ [(acc.2 i).definer_id] },
       Function.update acc.2 i {}))
    (w, sb)

/-- The function `dr_matcher_clear_ste_builders`: the two nested loops over
`DR_RULE_IPV_MAX` visit the four family pairs in row order. -/
def dr_matcher_clear_ste_builders (K : dr_hdr) (w : World)
    (nic_matcher : mlx5dr_matcher_rx_tx) : World × mlx5dr_matcher_rx_tx :=
  [(DR_RULE_IPV4, DR_RULE_IPV4), (DR_RULE_IPV4, DR_RULE_IPV6),
   (DR_RULE_IPV6, DR_RULE_IPV4), (DR_RULE_IPV6, DR_RULE_IPV6)].foldl
    (fun acc ij =>
      let sb := acc.2.ste_builder_arr ij.1 ij.2
      let num_of_builders := acc.2.num_of_builders_arr ij.1 ij.2
      if (sb 0).htbl_type = K.DR_STE_HTBL_TYPE_MATCH then
        let r := dr_matcher_destroy_definer_objs acc.1 sb num_of_builders
        (r.1, { acc.2 with
          ste_builder_arr := fun o i =>
            if o = ij.1 ∧ i = ij.2 then r.2 else acc.2.ste_builder_arr o i })
      else acc)
    (w, nic_matcher)

def dr_matcher_uninit_nic (K : dr_hdr) (w : World)
    (nic_matcher : mlx5dr_matcher_rx_tx) : World × mlx5dr_matcher_rx_tx :=
  let r := dr_matcher_clear_ste_builders K w nic_matcher
  let w := mlx5dr_htbl_put r.1 nic_matcher.s_htbl
  let w := mlx5dr_htbl_put w nic_matcher.e_anchor
  (w, r.2)

def dr_matcher_uninit_fdb (K : dr_hdr) (w : World) (matcher : mlx5dr_matcher) :
    World × mlx5dr_matcher :=
  let r := dr_matcher_uninit_nic K w matcher.rx
  let matcher := { matcher with rx := r.2 }
  let r := dr_matcher_uninit_nic K r.1 matcher.tx
  (r.1, { matcher with tx := r.2 })

/-- The function `dr_matcher_uninit`; the `default:` branch of its switch is
not reachable for a value of `mlx5dr_domain_type`. -/
def dr_matcher_uninit (K : dr_hdr) (w : World) (dmn : mlx5dr_domain)
    (matcher : mlx5dr_matcher) : World × mlx5dr_matcher :=
  match dmn.type with
  | MLX5DR_DOMAIN_TYPE_NIC_RX =>
    let r := dr_matcher_uninit_nic K w matcher.rx
    (r.1, { matcher with rx := r.2 })
  | MLX5DR_DOMAIN_TYPE_NIC_TX =>
    let r := dr_matcher_uninit_nic K w matcher.tx
    (r.1, { matcher with tx := r.2 })
  | MLX5DR_DOMAIN_TYPE_FDB =>
    dr_matcher_uninit_fdb K w matcher

/-- Return code, world and per-direction state left by an initialisation. -/
structure nic_result where
  ret : Int
  w : World
  nic_matcher : mlx5dr_matcher_rx_tx

/-- Return code, world and matcher left by an initialisation. -/
structure matcher_result where
  ret : Int
  w : World
  matcher : mlx5dr_matcher

def dr_matcher_init_nic (K : dr_hdr) (ops : ste_ops) (E : Env) (w : World)
    (dmn : mlx5dr_domain) (matcher : mlx5dr_matcher) (nic_tbl : mlx5dr_table_rx_tx)
    (nic_matcher : mlx5dr_matcher_rx_tx) : nic_result :=
  let r := dr_matcher_set_all_ste_builders K ops dmn matcher nic_tbl nic_matcher
  if r.1 ≠ 0 then ⟨r.1, w, r.2⟩ else
  let nic_matcher := r.2
  let a := mlx5dr_ste_htbl_alloc E w K.DR_CHUNK_SIZE_1 K.DR_STE_HTBL_TYPE_LEGACY
    K.MLX5DR_STE_LU_TYPE_DONT_CARE 0
  let nic_matcher := { nic_matcher with e_anchor := a.1 }
  let w := a.2
  if nic_matcher.e_anchor = 0 then
    -- clear_ste_builders:
    let c := dr_matcher_clear_ste_builders K w nic_matcher
    ⟨-ENOMEM, c.1, c.2⟩
  else
  let sb0 : mlx5dr_ste_build := match nic_matcher.ste_builder with
    | some oi => nic_matcher.ste_builder_arr oi.1 oi.2 0
    | none => {}
  let a := mlx5dr_ste_htbl_alloc E w K.DR_CHUNK_SIZE_1 sb0.htbl_type sb0.lu_type
    sb0.byte_mask
  let nic_matcher := { nic_matcher with s_htbl := a.1 }
  let w := a.2
  if nic_matcher.s_htbl = 0 then
    -- free_e_htbl:
    let w := mlx5dr_ste_htbl_free w nic_matcher.e_anchor
    -- clear_ste_builders:
    let c := dr_matcher_clear_ste_builders K w nic_matcher
    ⟨-ENOMEM, c.1, c.2⟩
  else
  -- make sure the tables exist while empty
  let w := mlx5dr_htbl_get w nic_matcher.s_htbl
  let w := mlx5dr_htbl_get w nic_matcher.e_anchor
  ⟨0, w, nic_matcher⟩

def dr_matcher_init_fdb (K : dr_hdr) (ops : ste_ops) (E : Env) (w : World)
    (tbl : mlx5dr_table) (matcher : mlx5dr_matcher) : matcher_result :=
  let r := dr_matcher_init_nic K ops E w tbl.dmn matcher tbl.rx matcher.rx
  let matcher := { matcher with rx := r.nic_matcher }
  if r.ret ≠ 0 then ⟨r.ret, r.w, matcher⟩ else
  let r := dr_matcher_init_nic K ops E r.w tbl.dmn matcher tbl.tx matcher.tx
  let matcher := { matcher with tx := r.nic_matcher }
  if r.ret ≠ 0 then
    -- uninit_nic_rx:
    let u := dr_matcher_uninit_nic K r.w matcher.rx
    ⟨r.ret, u.1, { matcher with rx := u.2 }⟩
  else
  ⟨0, r.w, matcher⟩

/-- The function `dr_matcher_init`; `mask = none` is a `NULL` mask. The
assignments `matcher->rx.nic_tbl = &tbl->rx` and `matcher->tx.nic_tbl =
&tbl->tx` are rendered by passing `tbl.rx` (`tbl.tx`) wherever the
per-direction state `matcher.rx` (`matcher.tx`) is used. -/
def dr_matcher_init (K : dr_hdr) (ops : ste_ops) (E : Env) (w : World)
    (tbl : mlx5dr_table) (matcher : mlx5dr_matcher)
    (mask : Option mlx5dr_match_parameters) : matcher_result :=
  let dmn := tbl.dmn
  if matcher.match_criteria ≥ K.DR_MATCHER_CRITERIA_MAX then
    -- Invalid match criteria attribute
    ⟨-EINVAL, w, matcher⟩
  else
  if (match mask with
      | some mask => decide (mask.match_sz > K.MLX5_ST_SZ_DW_MATCH_PARAM * 4)
      | none => false) then
    -- Invalid match size attribute
    ⟨-EINVAL, w, matcher⟩
  else
  let matcher := match mask with
    | some mask =>
      { matcher with
        mask := ops.mlx5dr_ste_copy_param matcher.match_criteria matcher.mask mask }
    | none => matcher
  match dmn.type with
  | MLX5DR_DOMAIN_TYPE_NIC_RX =>
    let r := dr_matcher_init_nic K ops E w dmn matcher tbl.rx matcher.rx
    ⟨r.ret, r.w, { matcher with rx := r.nic_matcher }⟩
  | MLX5DR_DOMAIN_TYPE_NIC_TX =>
    let r := dr_matcher_init_nic K ops E w dmn matcher tbl.tx matcher.tx
    ⟨r.ret, r.w, { matcher with tx := r.nic_matcher }⟩
  | MLX5DR_DOMAIN_TYPE_FDB =>
    dr_matcher_init_fdb K ops E w tbl matcher

/-- What `mlx5dr_matcher_create` returns and leaves: `matcher = none` is the
`NULL` return. -/
structure create_result where
  matcher : Option mlx5dr_matcher
  w : World
  tbl : mlx5dr_table

/-- The call `kfree(matcher)`, logged. -/
def kfree_matcher (w : World) (matcher : mlx5dr_matcher) : World :=
  { w with kfreed := w.kfreed ++ [matcher.id] }

def mlx5dr_matcher_create (K : dr_hdr) (ops : ste_ops) (E : Env) (w : World)
    (tbl : mlx5dr_table) (priority : Nat) (match_criteria_enable : Nat)
    (mask : Option mlx5dr_match_parameters) : create_result :=
  -- refcount_inc(&tbl->refcount)
  let tbl := { tbl with refcount := tbl.refcount + 1 }
  match E.kzalloc with
  | none =>
    -- dec_ref:
    ⟨none, w, { tbl with refcount := tbl.refcount - 1 }⟩
  | some addr =>
    let matcher : mlx5dr_matcher :=
      { id := addr, prio := priority, match_criteria := match_criteria_enable,
        refcount := 1 }
    let r := dr_matcher_init K ops E w tbl matcher mask
    if r.ret ≠ 0 then
      -- free_matcher:
      let w := kfree_matcher r.w r.matcher
      -- dec_ref:
      ⟨none, w, { tbl with refcount := tbl.refcount - 1 }⟩
    else
    let matcher := r.matcher
    let a := dr_matcher_add_to_tbl E r.w tbl matcher
    if a.ret ≠ 0 then
      -- matcher_uninit:
      let u := dr_matcher_uninit K a.w tbl.dmn matcher
      -- free_matcher:
      let w := kfree_matcher u.1 u.2
      -- dec_ref:
      ⟨none, w, { a.tbl with refcount := a.tbl.refcount - 1 }⟩
    else
    ⟨some matcher, a.w, a.tbl⟩

/-- The function `mlx5dr_matcher_destroy`; the return value of
`dr_matcher_remove_from_tbl` is not looked at. -/
def mlx5dr_matcher_destroy (K : dr_hdr) (E : Env) (w : World) (tbl : mlx5dr_table)
    (matcher : mlx5dr_matcher) : tbl_result :=
  if matcher.refcount > 1 then ⟨-EBUSY, w, tbl⟩ else
  let r := dr_matcher_remove_from_tbl E w tbl matcher
  let u := dr_matcher_uninit K r.w tbl.dmn matcher
  let tbl := { r.tbl with refcount := r.tbl.refcount - 1 }
  let w := kfree_matcher u.1 u.2
  ⟨0, w, tbl⟩

/-! ## Concrete instances used for evaluation -/

/-- The header constants with the values of the upstream headers
(`dr_types.h`, `mlx5_ifc.h`, `device.h`); the ICMPv4 macro reads the bytes
of `misc3` that `dr_matcher.c` does not name. -/
def hdr_upstream : dr_hdr where
  DR_MATCHER_CRITERIA_EMPTY := 0
  DR_MATCHER_CRITERIA_OUTER := 1
  DR_MATCHER_CRITERIA_MISC := 2
  DR_MATCHER_CRITERIA_INNER := 4
  DR_MATCHER_CRITERIA_MISC2 := 8
  DR_MATCHER_CRITERIA_MISC3 := 16
  DR_MATCHER_CRITERIA_MISC4 := 32
  DR_MATCHER_CRITERIA_MAX := 64
  MLX5_HW_CONNECTX_6DX := 1
  MLX5_FLEX_PARSER_GENEVE_ENABLED := 8
  MLX5_FLEX_PARSER_MPLS_OVER_GRE_ENABLED := 16
  MLX5_FLEX_PARSER_MPLS_OVER_UDP_ENABLED := 32
  MLX5_FLEX_PARSER_VXLAN_GPE_ENABLED := 128
  MLX5_FLEX_PARSER_ICMP_V4_ENABLED := 256
  MLX5_FLEX_PARSER_ICMP_V6_ENABLED := 512
  MLX5_ST_SZ_DW_MATCH_PARAM := 128
  MLX5DR_STE_LU_TYPE_DONT_CARE := 15
  DR_STE_HTBL_TYPE_LEGACY := 0
  DR_STE_HTBL_TYPE_MATCH := 1
  DR_CHUNK_SIZE_1 := 0
  DR_MASK_IS_ICMPV4_SET := fun misc3 => misc3.other != 0

/-- Builders that consume nothing and a pre-check that accepts everything;
`mlx5dr_ste_copy_param` keeps the zeroed mask of the new matcher. -/
def ops_idle : ste_ops where
  build := fun _ _ mask _ _ => ({}, mask)
  mlx5dr_ste_build_empty_always_hit := fun _ => {}
  mlx5dr_ste_build_pre_check := fun _ _ _ => 0
  mlx5dr_ste_copy_param := fun _ set_param _ => set_param

/-- An environment in which `kzalloc` returns address `addr`, every
allocation succeeds, and the post-sends numbered in `fail` return `-5`
(`-EIO`) while all others succeed. -/
def env_with (addr : Nat) (fail : List Nat) : Env where
  kzalloc := some addr
  htbl_alloc_ok := fun _ => true
  icm_addr := fun h => 1000 + h
  postsend_ret := fun n => if n ∈ fail then -5 else 0

/-- A world holding the two start anchors `1` (receive) and `2` (transmit)
of one table and nothing else. -/
def world_init : World where
  htbls := fun h => { icm_addr := 1000 + h }
  brk := 2
  alloc_calls := 0
  posts := []
  destroyed_definers := []
  kfreed := []

/-- An empty table of a domain of kind `t` with start anchors `1` and `2`,
default miss address `7` and one reference. -/
def table_init (t : mlx5dr_domain_type) : mlx5dr_table where
  dmn := { type := t, caps := { sw_format_ver := 0, flex_protocols := 0, definer_format_sup := 0 } }
  rx := { s_anchor := 1, default_icm_addr := 7, nic_dmn_type := DR_DOMAIN_NIC_TYPE_RX }
  tx := { s_anchor := 2, default_icm_addr := 7, nic_dmn_type := DR_DOMAIN_NIC_TYPE_TX }
  refcount := 1
  matcher_list := []

/-! ## Views of the linker functions and properties used in the statements -/

/-- The number of leading entries of the list that the loop of
`dr_matcher_add_to_tbl` steps over: those before the first entry whose
priority is at least `prio`. -/
def ins_pos (prio : Nat) : List mlx5dr_matcher → Nat
  | [] => 0
  | x :: xs => if x.prio ≥ prio then 0 else ins_pos prio xs + 1

/-- The position of `next_matcher` after the loop of `dr_matcher_add_to_tbl`. -/
def add_next_pos (tbl : mlx5dr_table) (matcher : mlx5dr_matcher) : Option Nat :=
  (dr_matcher_add_to_tbl_loop matcher.prio 0 true tbl.matcher_list).1

/-- The value of `first` after the loop of `dr_matcher_add_to_tbl`. -/
def add_first (tbl : mlx5dr_table) (matcher : mlx5dr_matcher) : Bool :=
  (dr_matcher_add_to_tbl_loop matcher.prio 0 true tbl.matcher_list).2

/-- The position of `prev_matcher` in `dr_matcher_add_to_tbl`. -/
def add_prev_pos (tbl : mlx5dr_table) (matcher : mlx5dr_matcher) : Option Nat :=
  if (add_next_pos tbl matcher).isSome && !(add_first tbl matcher) then
    (add_next_pos tbl matcher).map (· - 1)
  else if !(add_first tbl matcher) then some (tbl.matcher_list.length - 1)
  else none

/-- The entry `next_matcher` of `dr_matcher_add_to_tbl`. -/
def add_next (tbl : mlx5dr_table) (matcher : mlx5dr_matcher) : Option mlx5dr_matcher :=
  (add_next_pos tbl matcher).bind (tbl.matcher_list[·]?)

/-- The entry `prev_matcher` of `dr_matcher_add_to_tbl`. -/
def add_prev (tbl : mlx5dr_table) (matcher : mlx5dr_matcher) : Option mlx5dr_matcher :=
  (add_prev_pos tbl matcher).bind (tbl.matcher_list[·]?)

/-- The receive-side step of `dr_matcher_add_to_tbl`. -/
def add_rx (E : Env) (w : World) (tbl : mlx5dr_table) (matcher : mlx5dr_matcher) :
    Int × World :=
  if tbl.dmn.type = MLX5DR_DOMAIN_TYPE_FDB ∨ tbl.dmn.type = MLX5DR_DOMAIN_TYPE_NIC_RX then
    dr_matcher_connect E w tbl.rx matcher.rx
      ((add_next tbl matcher).map (·.rx)) ((add_prev tbl matcher).map (·.rx))
  else (0, w)

/-- The transmit-side step of `dr_matcher_add_to_tbl`. -/
def add_tx (E : Env) (w : World) (tbl : mlx5dr_table) (matcher : mlx5dr_matcher) :
    Int × World :=
  if tbl.dmn.type = MLX5DR_DOMAIN_TYPE_FDB ∨ tbl.dmn.type = MLX5DR_DOMAIN_TYPE_NIC_TX then
    dr_matcher_connect E w tbl.tx matcher.tx
      ((add_next tbl matcher).map (·.tx)) ((add_prev tbl matcher).map (·.tx))
  else (0, w)

/-- The list that the last step of `dr_matcher_add_to_tbl` leaves. -/
def add_list (tbl : mlx5dr_table) (matcher : mlx5dr_matcher) : List mlx5dr_matcher :=
  match add_prev_pos tbl matcher, add_next_pos tbl matcher with
  | some p, _ => list_insert_at tbl.matcher_list (p + 1) matcher
  | none, some n => list_insert_at tbl.matcher_list n matcher
  | none, none => list_insert_at tbl.matcher_list 0 matcher

/-- The entry `next_matcher` of `dr_matcher_remove_from_tbl`. -/
def rem_next (tbl : mlx5dr_table) (matcher : mlx5dr_matcher) : Option mlx5dr_matcher :=
  match matcher_pos tbl.matcher_list matcher with
  | some i => if i + 1 = tbl.matcher_list.length then none else tbl.matcher_list[i + 1]?
  | none => some matcher

/-- The entry `prev_matcher` of `dr_matcher_remove_from_tbl`. -/
def rem_prev (tbl : mlx5dr_table) (matcher : mlx5dr_matcher) : Option mlx5dr_matcher :=
  match matcher_pos tbl.matcher_list matcher with
  | some i => if i = 0 then none else tbl.matcher_list[i - 1]?
  | none => some matcher

/-- The receive-side step of `dr_matcher_remove_from_tbl`. -/
def rem_rx (E : Env) (w : World) (tbl : mlx5dr_table) (matcher : mlx5dr_matcher) :
    Int × World :=
  if tbl.dmn.type = MLX5DR_DOMAIN_TYPE_FDB ∨ tbl.dmn.type = MLX5DR_DOMAIN_TYPE_NIC_RX then
    dr_matcher_disconnect E w tbl.rx
      ((rem_next tbl matcher).map (·.rx)) ((rem_prev tbl matcher).map (·.rx))
  else (0, w)

/-- The transmit-side step of `dr_matcher_remove_from_tbl`. -/
def rem_tx (E : Env) (w : World) (tbl : mlx5dr_table) (matcher : mlx5dr_matcher) :
    Int × World :=
  if tbl.dmn.type = MLX5DR_DOMAIN_TYPE_FDB ∨ tbl.dmn.type = MLX5DR_DOMAIN_TYPE_NIC_TX then
    dr_matcher_disconnect E w tbl.tx
      ((rem_next tbl matcher).map (·.tx)) ((rem_prev tbl matcher).map (·.tx))
  else (0, w)

/-- The list that `list_del` leaves in `dr_matcher_remove_from_tbl`. -/
def rem_list (tbl : mlx5dr_table) (matcher : mlx5dr_matcher) : List mlx5dr_matcher :=
  match matcher_pos tbl.matcher_list matcher with
  | some i => tbl.matcher_list.eraseIdx i
  | none => tbl.matcher_list

/-- The hit links along a list of per-direction matcher states, starting at
anchor `a`: the anchor's `next_htbl` is the start table of the first matcher,
whose `pointing_ste` is the entry array of that anchor, and the same holds
from the end anchor of each matcher to the matcher after it. -/
def chain_links (w : World) : HtblId → List mlx5dr_matcher_rx_tx → Prop
  | _, [] => True
  | a, m :: ms =>
    (w.htbls a).next_htbl = some m.s_htbl ∧
    (w.htbls m.s_htbl).pointing_ste = some a ∧
    chain_links w m.e_anchor ms

/-- The last anchor of the chain that starts at anchor `a`: the end anchor of
the last matcher, or `a` for the empty list. -/
def end_anchor : HtblId → List mlx5dr_matcher_rx_tx → HtblId
  | a, [] => a
  | _, m :: ms => end_anchor m.e_anchor ms

/-- Anchor `h` ends the chain: it has no next table and is programmed to
miss to the default address `d`. -/
def chain_end (w : World) (d : Nat) (h : HtblId) : Prop :=
  (w.htbls h).next_htbl = none ∧ (w.htbls h).hw = some (CONNECT_MISS d)

/-- The chain invariant of one direction, for the listed matchers `L`. -/
def chain_inv (w : World) (nic_tbl : mlx5dr_table_rx_tx)
    (L : List mlx5dr_matcher_rx_tx) : Prop :=
  chain_links w nic_tbl.s_anchor L ∧
  (L ≠ [] → chain_end w nic_tbl.default_icm_addr (end_anchor nic_tbl.s_anchor L))

/-- The start tables and end anchors of a list of per-direction states. -/
def nic_htbls : List mlx5dr_matcher_rx_tx → List HtblId
  | [] => []
  | m :: ms => m.s_htbl :: m.e_anchor :: nic_htbls ms

/-- The domain uses the receive direction. -/
def uses_rx (tbl : mlx5dr_table) : Prop :=
  tbl.dmn.type = MLX5DR_DOMAIN_TYPE_FDB ∨ tbl.dmn.type = MLX5DR_DOMAIN_TYPE_NIC_RX

/-- The domain uses the transmit direction. -/
def uses_tx (tbl : mlx5dr_table) : Prop :=
  tbl.dmn.type = MLX5DR_DOMAIN_TYPE_FDB ∨ tbl.dmn.type = MLX5DR_DOMAIN_TYPE_NIC_TX

instance (tbl : mlx5dr_table) : Decidable (uses_rx tbl) := by
  unfold uses_rx; infer_instance

instance (tbl : mlx5dr_table) : Decidable (uses_tx tbl) := by
  unfold uses_tx; infer_instance

/-- All hash tables of the table and of the matchers `l`, in the directions
the domain uses: the start anchor, then start table and end anchor of each
matcher. -/
def tbl_htbls (tbl : mlx5dr_table) (l : List mlx5dr_matcher) : List HtblId :=
  (if uses_rx tbl then tbl.rx.s_anchor :: nic_htbls (l.map (·.rx)) else []) ++
  (if uses_tx tbl then tbl.tx.s_anchor :: nic_htbls (l.map (·.tx)) else [])

/-- The chain invariant of a table: `chain_inv` in each direction the domain
uses. -/
def tbl_chain_inv (w : World) (tbl : mlx5dr_table) : Prop :=
  (uses_rx tbl → chain_inv w tbl.rx (tbl.matcher_list.map (·.rx))) ∧
  (uses_tx tbl → chain_inv w tbl.tx (tbl.matcher_list.map (·.tx)))

/-- Walk of the hit links from anchor `a`: follow `next_htbl` to a start
table, go to the end anchor of the matcher in `L` that owns it, and repeat;
the walk ends at an anchor without next table. It returns the start tables
visited and what the last anchor is programmed with (`none` when the walk
ran out of fuel or met a table that no matcher of `L` owns). -/
def walk_hits (w : World) (L : List mlx5dr_matcher_rx_tx) :
    Nat → HtblId → List HtblId × Option mlx5dr_htbl_connect_info
  | 0, _ => ([], none)
  | fuel + 1, a =>
    match (w.htbls a).next_htbl with
    | none => ([], (w.htbls a).hw)
    | some s =>
      match L.find? (fun m => m.s_htbl == s) with
      | none => ([s], none)
      | some m => (s :: (walk_hits w L fuel m.e_anchor).1, (walk_hits w L fuel m.e_anchor).2)

/-- The list is in non-decreasing order of priority. -/
def sorted_by_prio (l : List mlx5dr_matcher) : Prop :=
  l.Pairwise (fun a b => a.prio ≤ b.prio)

/-- Ties broken by insertion order: in `res` every entry other than
`matcher` that has the priority of `matcher` stands before `matcher`. -/
def placed_after_ties (res : List mlx5dr_matcher) (matcher : mlx5dr_matcher) : Prop :=
  ∀ i < res.length, ∀ j < res.length,
    (res[i]?.map (·.id) ≠ some matcher.id ∧ res[i]?.map (·.prio) = some matcher.prio ∧
      res[j]?.map (·.id) = some matcher.id) → i < j

instance (res : List mlx5dr_matcher) (matcher : mlx5dr_matcher) :
    Decidable (placed_after_ties res matcher) := by
  unfold placed_after_ties; infer_instance

/-- A first matcher of priority 5 created in an empty receive-only table. -/
def ex_first : create_result :=
  mlx5dr_matcher_create hdr_upstream ops_idle (env_with 10 []) world_init
    (table_init MLX5DR_DOMAIN_TYPE_NIC_RX) 5 0 none

/-- The second matcher, of the same priority 5, initialised in the state
that `ex_first` left and about to be added to the table. -/
def ex_second : matcher_result :=
  dr_matcher_init hdr_upstream ops_idle (env_with 11 []) ex_first.w ex_first.tbl
    { id := 11, prio := 5, match_criteria := 0, refcount := 1 } none

/-- The state after the second matcher was added: the list holds the matchers
11 and 10, both of priority 5. -/
def ex_two : tbl_result :=
  dr_matcher_add_to_tbl (env_with 11 []) ex_second.w ex_first.tbl ex_second.matcher

/-- The anchor in front of the new matcher in `dr_matcher_connect` and in
front of the removed one in `dr_matcher_disconnect`. -/
def prev_anchor (nic_tbl : mlx5dr_table_rx_tx) (prev : Option mlx5dr_matcher_rx_tx) : HtblId :=
  match prev with
  | some q => q.e_anchor
  | none => nic_tbl.s_anchor

/-- The world after a post-send that succeeded. -/
def World.set_hw (w : World) (h : HtblId) (info : mlx5dr_htbl_connect_info) (u : Bool) : World :=
  { w with posts := w.posts ++ [⟨h, info, u⟩]
           htbls := Function.update w.htbls h { w.htbls h with hw := some info } }

/-- The world `dr_matcher_connect` leaves when its three post-sends succeed. -/
def connect_world (w : World) (nic_tbl : mlx5dr_table_rx_tx) (c : mlx5dr_matcher_rx_tx)
    (next prev : Option mlx5dr_matcher_rx_tx) : World :=
  let w1 := w.set_hw c.e_anchor
    (match next with
      | some n => CONNECT_HIT n.s_htbl
      | none => CONNECT_MISS nic_tbl.default_icm_addr) next.isSome
  let w2 := w1.set_hw c.s_htbl (CONNECT_MISS (w1.htbls c.e_anchor).icm_addr) false
  let w3 := w2.set_hw (prev_anchor nic_tbl prev) (CONNECT_HIT c.s_htbl) true
  let w4 := w3.set_pointing_ste c.s_htbl (some (prev_anchor nic_tbl prev))
  let w5 := w4.set_next_htbl (prev_anchor nic_tbl prev) (some c.s_htbl)
  match next with
  | some n => (w5.set_pointing_ste n.s_htbl (some c.e_anchor)).set_next_htbl c.e_anchor
      (some n.s_htbl)
  | none => w5

/-- The world `dr_matcher_disconnect` leaves when its post-send succeeds. -/
def disconnect_world (w : World) (nic_tbl : mlx5dr_table_rx_tx)
    (next prev : Option mlx5dr_matcher_rx_tx) : World :=
  match next with
  | some n =>
    ((w.set_pointing_ste n.s_htbl (some (prev_anchor nic_tbl prev))).set_next_htbl
      (prev_anchor nic_tbl prev) (some n.s_htbl)).set_hw
      (prev_anchor nic_tbl prev) (CONNECT_HIT n.s_htbl) true
  | none =>
    (w.set_next_htbl (prev_anchor nic_tbl prev) none).set_hw (prev_anchor nic_tbl prev)
      (CONNECT_MISS nic_tbl.default_icm_addr) true

/-- The chain of one direction in its closed form: the links hold and the
last anchor ends the chain (also for the empty list, where the last anchor
is the start anchor of the table). -/
def chain_strong (w : World) (nic_tbl : mlx5dr_table_rx_tx)
    (L : List mlx5dr_matcher_rx_tx) : Prop :=
  chain_links w nic_tbl.s_anchor L ∧
  chain_end w nic_tbl.default_icm_addr (end_anchor nic_tbl.s_anchor L)

/-- Walking the hit links from the start anchor of one direction visits the
start tables of the listed matchers in list order and ends at an anchor
programmed to miss to the default address. -/
def walk_ok (w : World) (nic_tbl : mlx5dr_table_rx_tx) (L : List mlx5dr_matcher_rx_tx) : Prop :=
  walk_hits w L (L.length + 1) nic_tbl.s_anchor =
    (L.map (·.s_htbl), some (CONNECT_MISS nic_tbl.default_icm_addr))

/-- The walk property `walk_ok` in each direction the domain uses. -/
def tbl_walk_ok (w : World) (tbl : mlx5dr_table) : Prop :=
  (uses_rx tbl → walk_ok w tbl.rx (tbl.matcher_list.map (·.rx))) ∧
  (uses_tx tbl → walk_ok w tbl.tx (tbl.matcher_list.map (·.tx)))

/-- Decision procedure for `chain_links`. -/
def chain_links_dec (w : World) :
    (a : HtblId) → (L : List mlx5dr_matcher_rx_tx) → Decidable (chain_links w a L)
  | _, [] => isTrue trivial
  | a, m :: ms =>
    have := chain_links_dec w m.e_anchor ms
    (inferInstance : Decidable ((w.htbls a).next_htbl = some m.s_htbl ∧
      (w.htbls m.s_htbl).pointing_ste = some a ∧ chain_links w m.e_anchor ms))

instance (w : World) (a : HtblId) (L : List mlx5dr_matcher_rx_tx) :
    Decidable (chain_links w a L) := chain_links_dec w a L

instance (w : World) (d : Nat) (h : HtblId) : Decidable (chain_end w d h) := by
  unfold chain_end; infer_instance

instance (L : List mlx5dr_matcher_rx_tx) : Decidable (L ≠ []) :=
  match L with
  | [] => isFalse (fun h => h rfl)
  | _ :: _ => isTrue (fun h => List.noConfusion h)

instance (w : World) (nic_tbl : mlx5dr_table_rx_tx) (L : List mlx5dr_matcher_rx_tx) :
    Decidable (chain_inv w nic_tbl L) := by
  unfold chain_inv; infer_instance

instance (w : World) (tbl : mlx5dr_table) : Decidable (tbl_chain_inv w tbl) := by
  unfold tbl_chain_inv; infer_instance

instance (w : World) (nic_tbl : mlx5dr_table_rx_tx) (L : List mlx5dr_matcher_rx_tx) :
    Decidable (walk_ok w nic_tbl L) := by
  unfold walk_ok; infer_instance

instance (w : World) (tbl : mlx5dr_table) : Decidable (tbl_walk_ok w tbl) := by
  unfold tbl_walk_ok; infer_instance

/-- A combined (FDB) table after two creates: matcher 10 of priority 5 and
matcher 11 of priority 7. -/
def fdb_two : create_result :=
  mlx5dr_matcher_create hdr_upstream ops_idle (env_with 11 [])
    (mlx5dr_matcher_create hdr_upstream ops_idle (env_with 10 []) world_init
      (table_init MLX5DR_DOMAIN_TYPE_FDB) 5 0 none).w
    (mlx5dr_matcher_create hdr_upstream ops_idle (env_with 10 []) world_init
      (table_init MLX5DR_DOMAIN_TYPE_FDB) 5 0 none).tbl 7 0 none

/-- A third matcher, address 12 and priority 6, initialised in the state of
`fdb_two`; it belongs between the two listed matchers. -/
def fdb_third : matcher_result :=
  dr_matcher_init hdr_upstream ops_idle (env_with 12 []) fdb_two.w fdb_two.tbl
    { id := 12, prio := 6, match_criteria := 0, refcount := 1 } none

/-- The state after the third matcher was added: the list is 10, 12, 11. -/
def fdb_three : tbl_result :=
  dr_matcher_add_to_tbl (env_with 12 []) fdb_third.w fdb_two.tbl fdb_third.matcher

/-- The world after a post-send that failed: the call was issued, nothing
else changed. -/
def World.log_post (w : World) (h : HtblId) (info : mlx5dr_htbl_connect_info) (u : Bool) :
    World :=
  { w with posts := w.posts ++ [⟨h, info, u⟩] }

/-- Update (a) of `dr_matcher_connect`: the end anchor of the new matcher is
programmed to hit the start table of the next matcher, or to miss to the
default address of the table when there is no next matcher. -/
def connect_call_a (nic_tbl : mlx5dr_table_rx_tx) (curr : mlx5dr_matcher_rx_tx)
    (next : Option mlx5dr_matcher_rx_tx) : postsend_call :=
  match next with
  | some n => ⟨curr.e_anchor, CONNECT_HIT n.s_htbl, true⟩
  | none => ⟨curr.e_anchor, CONNECT_MISS nic_tbl.default_icm_addr, false⟩

/-- Update (b) of `dr_matcher_connect`: the start table of the new matcher is
programmed to miss to the address of its own end anchor. -/
def connect_call_b (w : World) (curr : mlx5dr_matcher_rx_tx) : postsend_call :=
  ⟨curr.s_htbl, CONNECT_MISS (w.htbls curr.e_anchor).icm_addr, false⟩

/-- Update (c) of `dr_matcher_connect`: the end anchor of the previous
matcher, or the start anchor of the table when there is none, is programmed
to hit the start table of the new matcher. -/
def connect_call_c (nic_tbl : mlx5dr_table_rx_tx) (curr : mlx5dr_matcher_rx_tx)
    (prev : Option mlx5dr_matcher_rx_tx) : postsend_call :=
  match prev with
  | some p => ⟨p.e_anchor, CONNECT_HIT curr.s_htbl, true⟩
  | none => ⟨nic_tbl.s_anchor, CONNECT_HIT curr.s_htbl, true⟩

/-- No software link field differs between the two worlds. -/
def links_unchanged (w w' : World) : Prop :=
  ∀ h, (w'.htbls h).next_htbl = (w.htbls h).next_htbl ∧
    (w'.htbls h).pointing_ste = (w.htbls h).pointing_ste

/-- The table after `refcount_inc(&tbl->refcount)` in `mlx5dr_matcher_create`. -/
def create_tbl (tbl : mlx5dr_table) : mlx5dr_table :=
  { tbl with refcount := tbl.refcount + 1 }

/-- The matcher of `mlx5dr_matcher_create` before `dr_matcher_init`. -/
def create_matcher (addr priority match_criteria_enable : Nat) : mlx5dr_matcher :=
  { id := addr, prio := priority, match_criteria := match_criteria_enable, refcount := 1 }

/-- The call of `dr_matcher_init` in `mlx5dr_matcher_create`. -/
def create_init (K : dr_hdr) (ops : ste_ops) (E : Env) (w : World) (tbl : mlx5dr_table)
    (priority match_criteria_enable : Nat) (mask : Option mlx5dr_match_parameters)
    (addr : Nat) : matcher_result :=
  dr_matcher_init K ops E w (create_tbl tbl)
    (create_matcher addr priority match_criteria_enable) mask

/-- The call of `dr_matcher_add_to_tbl` in `mlx5dr_matcher_create`. -/
def create_add (K : dr_hdr) (ops : ste_ops) (E : Env) (w : World) (tbl : mlx5dr_table)
    (priority match_criteria_enable : Nat) (mask : Option mlx5dr_match_parameters)
    (addr : Nat) : tbl_result :=
  dr_matcher_add_to_tbl E (create_init K ops E w tbl priority match_criteria_enable mask addr).w
    (create_tbl tbl) (create_init K ops E w tbl priority match_criteria_enable mask addr).matcher

/-- A matcher initialised for the empty combined (FDB) table: the matcher
that `mlx5dr_matcher_create` passes to `dr_matcher_add_to_tbl` in
`fdb_failed`. Its receive tables are 3 (end anchor) and 4 (start table). -/
def fdb_failed_init : matcher_result :=
  create_init hdr_upstream ops_idle (env_with 10 [3]) world_init
    (table_init MLX5DR_DOMAIN_TYPE_FDB) 5 0 none 10

/-- A create in the empty combined (FDB) table in which the three receive-side
updates succeed and the first transmit-side update (post-send number 3)
fails. -/
def fdb_failed : create_result :=
  mlx5dr_matcher_create hdr_upstream ops_idle (env_with 10 [3]) world_init
    (table_init MLX5DR_DOMAIN_TYPE_FDB) 5 0 none

/-- The destroy of the matcher that `ex_first` returned, the only one of its
table, with the hardware relink (post-send number 3) failing. -/
def destroy_failed : tbl_result :=
  match ex_first.matcher with
  | some m => mlx5dr_matcher_destroy hdr_upstream (env_with 0 [3]) ex_first.w ex_first.tbl m
  | none => ⟨1, ex_first.w, ex_first.tbl⟩

/-- Some IPv6-only field of the layer is nonzero: one of the source or
destination address words above bit 31. -/
def ipv6_only_fields_present (spec : mlx5dr_match_spec) : Prop :=
  spec.src_ip_127_96 ≠ 0 ∨ spec.src_ip_95_64 ≠ 0 ∨ spec.src_ip_63_32 ≠ 0 ∨
  spec.dst_ip_127_96 ≠ 0 ∨ spec.dst_ip_95_64 ≠ 0 ∨ spec.dst_ip_63_32 ≠ 0

instance (spec : mlx5dr_match_spec) : Decidable (ipv6_only_fields_present spec) := by
  unfold ipv6_only_fields_present; infer_instance

/-- The mask asks for IPv4 on an active layer (criteria bit set,
`ip_version = 4`) while an IPv6-only field of that layer is nonzero. -/
def ipv4_with_ipv6_fields (K : dr_hdr) (match_criteria : Nat)
    (mask : mlx5dr_match_param) : Prop :=
  (match_criteria &&& K.DR_MATCHER_CRITERIA_OUTER ≠ 0 ∧ mask.outer.ip_version = 4 ∧
    ipv6_only_fields_present mask.outer) ∨
  (match_criteria &&& K.DR_MATCHER_CRITERIA_INNER ≠ 0 ∧ mask.inner.ip_version = 4 ∧
    ipv6_only_fields_present mask.inner)

instance (K : dr_hdr) (match_criteria : Nat) (mask : mlx5dr_match_param) :
    Decidable (ipv4_with_ipv6_fields K match_criteria mask) := by
  unfold ipv4_with_ipv6_fields; infer_instance

/-- The mask that `dr_matcher_init` stores in the matcher: what
`mlx5dr_ste_copy_param` makes of the caller's buffer, or the mask the matcher
had for a `NULL` buffer. -/
def init_mask (ops : ste_ops) (matcher : mlx5dr_matcher)
    (mask : Option mlx5dr_match_parameters) : mlx5dr_match_param :=
  match mask with
  | some p => ops.mlx5dr_ste_copy_param matcher.match_criteria matcher.mask p
  | none => matcher.mask

/-- A matcher with criteria OUTER whose outer mask asks for `ip_version = 4`
together with a nonzero upper word of the source address. -/
def ex_v4_with_v6 : mlx5dr_matcher :=
  { id := 20, match_criteria := 1, refcount := 1,
    mask := { outer := { ip_version := 4, src_ip_127_96 := 0xffffffff } } }

/-- The families `dr_matcher_get_mask_ip_versions` selects for one layer
from the `ip_version` it read and the IPv6-only flag: `(ipv4, ipv6)`. -/
def layer_families (ipv : Nat) (ipv6_mask_present : Bool) : Bool × Bool :=
  if ipv == 0xf then (true, true)
  else if ipv == 6 || ipv6_mask_present then (false, true)
  else (true, false)

/-- The `ip_version` that `dr_matcher_get_mask_ip_versions` reads for a
layer: that of the mask when the criteria bit `bit` is set, else 0. -/
def layer_ipv (match_criteria bit : Nat) (spec : mlx5dr_match_spec) : Nat :=
  if match_criteria &&& bit != 0 then spec.ip_version else 0

/-- The IPv6-only flag that `dr_matcher_get_mask_ip_versions` computes for a
layer: the predicate on the mask when the criteria bit is set, else false. -/
def layer_present (match_criteria bit : Nat) (spec : mlx5dr_match_spec) : Bool :=
  if match_criteria &&& bit != 0 then dr_mask_is_ipv6_only_match_set spec else false

/-- A matcher with criteria OUTER and INNER whose outer `ip_version` is the
wildcard `0xf` and whose inner `ip_version` is 6. -/
def ex_wild_outer_v6_inner : mlx5dr_matcher :=
  { id := 21, match_criteria := 5, refcount := 1,
    mask := { outer := { ip_version := 0xf }, inner := { ip_version := 6 } } }

/-- The statements of the selector body as a tree: a builder call, a
sequence, and a conditional on the working mask. -/
inductive sel_prog where
  | skip
  | call (b : ste_build_id) (inner : Bool)
  | seq (p q : sel_prog)
  | ite (c : mlx5dr_match_param → Bool) (p q : sel_prog)

/-- Execution of a statement tree on the local state of the selector. -/
def sel_prog.run (ops : ste_ops) (dmn : mlx5dr_domain) (rx : Bool) :
    sel_prog → sel_state → sel_state
  | .skip, s => s
  | .call b inner, s => s.build ops dmn rx b inner
  | .seq p q, s => q.run ops dmn rx (p.run ops dmn rx s)
  | .ite c p q, s => if c s.mask then p.run ops dmn rx s else q.run ops dmn rx s

/-- The statement `if (c(&mask)) mlx5dr_ste_build_<b>(..., inner, rx);`. -/
def sel_prog.when (c : mlx5dr_match_param → Bool) (b : ste_build_id) (inner : Bool) :
    sel_prog :=
  .ite c (.call b inner) .skip

/-- A list of statements in sequence. -/
def sel_prog.seqs : List sel_prog → sel_prog
  | [] => .skip
  | p :: ps => .seq p (sel_prog.seqs ps)

/-- The block `/* Outer */` of `dr_matcher_set_ste_builders` as a statement
tree. -/
def outer_prog (K : dr_hdr) (dmn : mlx5dr_domain) (outer_ipv : mlx5dr_ipv) : sel_prog :=
  .seqs [
    .when (fun m => dr_mask_is_wqe_metadata_set m.misc2) .general_purpose false,
    .when (fun m => dr_mask_is_reg_c_0_3_set m.misc2) .register_0 false,
    .when (fun m => dr_mask_is_reg_c_4_7_set m.misc2) .register_1 false,
    .when (fun m => dr_mask_is_gvmi_or_qpn_set m.misc &&
      (dmn.type == MLX5DR_DOMAIN_TYPE_FDB ||
       dmn.type == MLX5DR_DOMAIN_TYPE_NIC_RX)) .src_gvmi_qpn false,
    .when (fun m => dr_mask_is_smac_set m.outer && dr_mask_is_dmac_set m.outer)
      .eth_l2_src_dst false,
    .when (fun m => dr_mask_is_smac_set m.outer) .eth_l2_src false,
    .when (fun m => DR_MASK_IS_L2_DST m.outer m.misc false) .eth_l2_dst false,
    .ite (fun _ => outer_ipv == DR_RULE_IPV6)
      (.seqs [
        .when (fun m => dr_mask_is_dst_addr_set m.outer) .eth_l3_ipv6_dst false,
        .when (fun m => dr_mask_is_src_addr_set m.outer) .eth_l3_ipv6_src false,
        .when (fun m => DR_MASK_IS_ETH_L4_SET m.outer m.misc false) .eth_ipv6_l3_l4 false])
      (.seqs [
        .when (fun m => dr_mask_is_ipv4_5_tuple_set m.outer) .eth_l3_ipv4_5_tuple false,
        .when (fun m => dr_mask_is_ttl_set m.outer) .eth_l3_ipv4_misc false]),
    .ite (fun m => dr_mask_is_tnl_vxlan_gpe K m dmn.caps)
      (.call .tnl_vxlan_gpe false)
      (.ite (fun m => dr_mask_is_tnl_geneve K m dmn.caps)
        (.seq (.call .tnl_geneve false)
          (.when (fun m => dr_mask_is_tnl_geneve_tlv_option m.misc3)
            .tnl_geneve_tlv_option false))
        .skip),
    .when (fun m => DR_MASK_IS_ETH_L4_MISC_SET m.misc3 false) .eth_l4_misc false,
    .when (fun m => DR_MASK_IS_FIRST_MPLS_SET m.misc2 false) .mpls false,
    .ite (fun m => dr_mask_is_tnl_mpls_over_gre K m dmn.caps)
      (.call .tnl_mpls_over_gre false)
      (.when (fun m => dr_mask_is_tnl_mpls_over_udp K m dmn.caps) .tnl_mpls_over_udp false),
    .when (fun m => dr_mask_is_icmp K m dmn.caps) .icmp false,
    .when (fun m => dr_mask_is_tnl_gre_set m.misc) .tnl_gre false]

/-- The block `/* Inner */` of `dr_matcher_set_ste_builders` as a statement
tree. -/
def inner_prog (K : dr_hdr) (dmn : mlx5dr_domain) (inner_ipv : mlx5dr_ipv) : sel_prog :=
  .seqs [
    .when (fun m => dr_mask_is_eth_l2_tnl_set m.misc) .eth_l2_tnl true,
    .when (fun m => dr_mask_is_smac_set m.inner && dr_mask_is_dmac_set m.inner)
      .eth_l2_src_dst true,
    .when (fun m => dr_mask_is_smac_set m.inner) .eth_l2_src true,
    .when (fun m => DR_MASK_IS_L2_DST m.inner m.misc true) .eth_l2_dst true,
    .ite (fun _ => inner_ipv == DR_RULE_IPV6)
      (.seqs [
        .when (fun m => dr_mask_is_dst_addr_set m.inner) .eth_l3_ipv6_dst true,
        .when (fun m => dr_mask_is_src_addr_set m.inner) .eth_l3_ipv6_src true,
        .when (fun m => DR_MASK_IS_ETH_L4_SET m.inner m.misc true) .eth_ipv6_l3_l4 true])
      (.seqs [
        .when (fun m => dr_mask_is_ipv4_5_tuple_set m.inner) .eth_l3_ipv4_5_tuple true,
        .when (fun m => dr_mask_is_ttl_set m.inner) .eth_l3_ipv4_misc true]),
    .when (fun m => DR_MASK_IS_ETH_L4_MISC_SET m.misc3 true) .eth_l4_misc true,
    .when (fun m => DR_MASK_IS_FIRST_MPLS_SET m.misc2 true) .mpls true,
    .ite (fun m => dr_mask_is_tnl_mpls_over_gre K m dmn.caps)
      (.call .tnl_mpls_over_gre true)
      (.when (fun m => dr_mask_is_tnl_mpls_over_udp K m dmn.caps) .tnl_mpls_over_udp true)]

/-- The three guarded blocks of `dr_matcher_set_ste_builders` (outer, inner,
flex parsers) as one statement tree. -/
def full_prog (K : dr_hdr) (dmn : mlx5dr_domain) (match_criteria : Nat)
    (outer_ipv inner_ipv : mlx5dr_ipv) : sel_prog :=
  .seqs [
    .ite (fun _ => match_criteria &&& (K.DR_MATCHER_CRITERIA_OUTER |||
        K.DR_MATCHER_CRITERIA_MISC ||| K.DR_MATCHER_CRITERIA_MISC2 |||
        K.DR_MATCHER_CRITERIA_MISC3) != 0)
      (outer_prog K dmn outer_ipv) .skip,
    .ite (fun _ => match_criteria &&& (K.DR_MATCHER_CRITERIA_INNER |||
        K.DR_MATCHER_CRITERIA_MISC ||| K.DR_MATCHER_CRITERIA_MISC2 |||
        K.DR_MATCHER_CRITERIA_MISC3) != 0)
      (inner_prog K dmn inner_ipv) .skip,
    .ite (fun _ => match_criteria &&& K.DR_MATCHER_CRITERIA_MISC4 != 0)
      (.seqs [
        .when (fun m => dr_mask_is_flex_parser_0_3_set m.misc4) .flex_parser_0 false,
        .when (fun m => dr_mask_is_flex_parser_4_7_set m.misc4) .flex_parser_1 false])
      .skip]

/-- The temporary mask of `dr_matcher_set_ste_builders` right after
`dr_matcher_copy_mask`. -/
def sel_copied_mask (K : dr_hdr) (matcher : mlx5dr_matcher) : mlx5dr_match_param :=
  dr_matcher_copy_mask K {} matcher.mask matcher.match_criteria

/-- The condition of the FDB receive optimisation in
`dr_matcher_set_ste_builders`; it is also the value of `allow_empty_match`. -/
def sel_wire_opt (K : dr_hdr) (dmn : mlx5dr_domain) (matcher : mlx5dr_matcher)
    (rx : Bool) : Bool :=
  dmn.type == MLX5DR_DOMAIN_TYPE_FDB && rx && (sel_copied_mask K matcher).misc.source_port != 0

/-- The working mask of `dr_matcher_set_ste_builders` when the first builder
condition is evaluated. -/
def sel_working_mask (K : dr_hdr) (dmn : mlx5dr_domain) (matcher : mlx5dr_matcher)
    (rx : Bool) : mlx5dr_match_param :=
  if sel_wire_opt K dmn matcher rx then
    { sel_copied_mask K matcher with
      misc := { (sel_copied_mask K matcher).misc with
        source_port := 0, source_eswitch_owner_vhca_id := 0 } }
  else sel_copied_mask K matcher

/-- The local state of `dr_matcher_set_ste_builders` before the comment
`/* Empty matcher, takes all */`. -/
def sel_pre (K : dr_hdr) (ops : ste_ops) (dmn : mlx5dr_domain) (matcher : mlx5dr_matcher)
    (rx : Bool) (sb : Nat → mlx5dr_ste_build) (outer_ipv inner_ipv : mlx5dr_ipv) : sel_state :=
  (full_prog K dmn matcher.match_criteria outer_ipv inner_ipv).run ops dmn rx
    { mask := sel_working_mask K dmn matcher rx, sb := sb, idx := 0, calls := [] }

/-- The statement after the comment `/* Empty matcher, takes all */`. -/
def sel_fallback (K : dr_hdr) (ops : ste_ops) (matcher : mlx5dr_matcher) (rx : Bool)
    (allow_empty_match : Bool) (s : sel_state) : sel_state :=
  if (s.idx == 0 && allow_empty_match) ||
      matcher.match_criteria == K.DR_MATCHER_CRITERIA_EMPTY then
    s.build_empty ops rx else s

/-- The statement tree `p` preserves the property `I` of the local state. -/
@[irreducible]
def sel_prog.keeps (ops : ste_ops) (dmn : mlx5dr_domain) (rx : Bool)
    (I : sel_state → Prop) (p : sel_prog) : Prop :=
  ∀ s, I s → I (p.run ops dmn rx s)

/-- The local state of a run of `dr_matcher_set_ste_builders` for the
direction of `nic_tbl` when it reaches the checks of `idx` and of the
consumed mask; `sb` is the builder array the run writes to. -/
def sel_final (K : dr_hdr) (ops : ste_ops) (dmn : mlx5dr_domain) (matcher : mlx5dr_matcher)
    (nic_tbl : mlx5dr_table_rx_tx) (sb : Nat → mlx5dr_ste_build)
    (outer_ipv inner_ipv : mlx5dr_ipv) : sel_state :=
  (dr_matcher_set_ste_builders_run K ops dmn matcher
    (nic_tbl.nic_dmn_type == DR_DOMAIN_NIC_TYPE_RX) sb outer_ipv inner_ipv).1

/-- A run of `dr_matcher_set_ste_builders` yields a nonempty builder set
that fully consumes the working mask: the pre-check passes, `idx` is not
zero and `dr_matcher_is_mask_consumed` holds at the end. -/
def sel_run_ok (K : dr_hdr) (ops : ste_ops) (dmn : mlx5dr_domain) (matcher : mlx5dr_matcher)
    (nic_tbl : mlx5dr_table_rx_tx) (outer_ipv inner_ipv : mlx5dr_ipv) : Bool :=
  ops.mlx5dr_ste_build_pre_check dmn matcher.match_criteria matcher.mask == 0 &&
  (sel_final K ops dmn matcher nic_tbl (fun _ => {}) outer_ipv inner_ipv).idx != 0 &&
  dr_matcher_is_mask_consumed
    (sel_final K ops dmn matcher nic_tbl (fun _ => {}) outer_ipv inner_ipv).mask

/-- The families selected for one layer, IPv4 first. -/
def ipv_families (ipv4 ipv6 : Bool) : List mlx5dr_ipv :=
  (if ipv4 then [DR_RULE_IPV4] else []) ++ (if ipv6 then [DR_RULE_IPV6] else [])

/-- The product of the families selected for the outer and for the inner
layer, as pairs (outer family, inner family). -/
def family_pairs (v : mask_ip_versions) : List (mlx5dr_ipv × mlx5dr_ipv) :=
  (ipv_families v.outer_ipv4 v.outer_ipv6).product (ipv_families v.inner_ipv4 v.inner_ipv6)

/-- One of the four guarded calls in `dr_matcher_set_all_ste_builders`:
`if (b) dr_matcher_set_ste_builders(matcher, nic_matcher, o, i);`. -/
def set_all_step (K : dr_hdr) (ops : ste_ops) (dmn : mlx5dr_domain) (matcher : mlx5dr_matcher)
    (nic_tbl : mlx5dr_table_rx_tx) (b : Bool) (o i : mlx5dr_ipv)
    (nic_matcher : mlx5dr_matcher_rx_tx) : mlx5dr_matcher_rx_tx :=
  if b then (dr_matcher_set_ste_builders K ops dmn matcher nic_tbl nic_matcher o i).2
  else nic_matcher

/-- The per-direction state after the four guarded calls of
`dr_matcher_set_all_ste_builders`. -/
def set_all_runs (K : dr_hdr) (ops : ste_ops) (dmn : mlx5dr_domain) (matcher : mlx5dr_matcher)
    (nic_tbl : mlx5dr_table_rx_tx) (nic_matcher : mlx5dr_matcher_rx_tx)
    (v : mask_ip_versions) : mlx5dr_matcher_rx_tx :=
  set_all_step K ops dmn matcher nic_tbl (v.outer_ipv6 && v.inner_ipv6) DR_RULE_IPV6 DR_RULE_IPV6
    (set_all_step K ops dmn matcher nic_tbl (v.outer_ipv6 && v.inner_ipv4)
      DR_RULE_IPV6 DR_RULE_IPV4
      (set_all_step K ops dmn matcher nic_tbl (v.outer_ipv4 && v.inner_ipv6)
        DR_RULE_IPV4 DR_RULE_IPV6
        (set_all_step K ops dmn matcher nic_tbl (v.outer_ipv4 && v.inner_ipv4)
          DR_RULE_IPV4 DR_RULE_IPV4 nic_matcher)))

/-- Applies `f` to the inner or to the outer header fields of a mask. -/
def on_spec (inner : Bool) (f : mlx5dr_match_spec → mlx5dr_match_spec)
    (mask : mlx5dr_match_param) : mlx5dr_match_param :=
  if inner then { mask with inner := f mask.inner } else { mask with outer := f mask.outer }

/-- Builders of which three consume fields: the L2 destination builder clears
`ip_version`, the IPv6 destination builder clears the four words of the
destination address, and the IPv4 5-tuple builder clears the low words of both
addresses; all other builders consume nothing. The pre-check accepts
everything. -/
def ops_clearing : ste_ops where
  build := fun b _ mask inner _ =>
    match b with
    | .eth_l2_dst => ({}, on_spec inner (fun sp => { sp with ip_version := 0 }) mask)
    | .eth_l3_ipv6_dst => ({}, on_spec inner (fun sp => { sp with
        dst_ip_127_96 := 0, dst_ip_95_64 := 0, dst_ip_63_32 := 0, dst_ip_31_0 := 0 }) mask)
    | .eth_l3_ipv4_5_tuple => ({}, on_spec inner (fun sp => { sp with
        dst_ip_31_0 := 0, src_ip_31_0 := 0 }) mask)
    | _ => ({}, mask)
  mlx5dr_ste_build_empty_always_hit := fun _ => {}
  mlx5dr_ste_build_pre_check := fun _ _ _ => 0
  mlx5dr_ste_copy_param := fun _ set_param _ => set_param

/-- A matcher with criteria OUTER whose outer mask has the wildcard
`ip_version` and the upper word of the destination address. -/
def ex_wild_v6_dst : mlx5dr_matcher :=
  { id := 22, match_criteria := 1, refcount := 1,
    mask := { outer := { ip_version := 0xf, dst_ip_127_96 := 0xffffffff } } }

/-- A matcher with criteria OUTER whose outer mask has only the source MAC. -/
def ex_smac : mlx5dr_matcher :=
  { id := 23, match_criteria := 1, refcount := 1,
    mask := { outer := { smac_47_16 := 0xffffffff, smac_15_0 := 0xffff } } }

/-- The selection for an outer wildcard and inner IPv6: both outer families,
inner IPv6 alone. -/
def ex_sel_wild_v6 : mask_ip_versions :=
  { outer_ipv4 := true, outer_ipv6 := true, inner_ipv4 := false, inner_ipv6 := true }

/-- The selection for an outer wildcard when the criteria have no INNER bit:
both outer families, inner IPv4 alone. -/
def ex_sel_wild_outer : mask_ip_versions :=
  { outer_ipv4 := true, outer_ipv6 := true, inner_ipv4 := true, inner_ipv6 := false }

/-- A matcher with criteria MISC whose mask has only
`misc.source_eswitch_owner_vhca_id`. -/
def ex_vhca : mlx5dr_matcher :=
  { id := 24, match_criteria := 2, refcount := 1,
    mask := { misc := { source_eswitch_owner_vhca_id := 0xffff } } }

/-- A matcher with empty criteria and some mask. -/
def ex_empty_criteria : mlx5dr_matcher :=
  { id := 25, match_criteria := 0, refcount := 1,
    mask := { outer := { smac_15_0 := 0xffff } } }

/-- The criteria select the outer header fields and no other part of the
mask, and are not `DR_MATCHER_CRITERIA_EMPTY`. -/
def criteria_outer_only (K : dr_hdr) (c : Nat) : Prop :=
  c &&& K.DR_MATCHER_CRITERIA_OUTER ≠ 0 ∧
  c &&& K.DR_MATCHER_CRITERIA_MISC = 0 ∧
  c &&& K.DR_MATCHER_CRITERIA_INNER = 0 ∧
  c &&& K.DR_MATCHER_CRITERIA_MISC2 = 0 ∧
  c &&& K.DR_MATCHER_CRITERIA_MISC3 = 0 ∧
  c &&& K.DR_MATCHER_CRITERIA_MISC4 = 0 ∧
  c ≠ K.DR_MATCHER_CRITERIA_EMPTY

instance (K : dr_hdr) (c : Nat) : Decidable (criteria_outer_only K c) := by
  unfold criteria_outer_only; infer_instance

/-- A matcher with criteria OUTER whose outer mask has only the low words of
the destination and of the source address. -/
def ex_ipv4_addrs : mlx5dr_matcher :=
  { id := 27, match_criteria := 1, refcount := 1,
    mask := { outer := { dst_ip_31_0 := 0xffffffff, src_ip_31_0 := 0xffffff00 } } }

/-- A matcher with criteria OUTER whose outer mask has only the wildcard
`ip_version`. -/
def ex_wild_only : mlx5dr_matcher :=
  { id := 28, match_criteria := 1, refcount := 1,
    mask := { outer := { ip_version := 0xf } } }

/-- The selection of IPv4 alone on both layers. -/
def ex_sel_v4 : mask_ip_versions :=
  { outer_ipv4 := true, outer_ipv6 := false, inner_ipv4 := true, inner_ipv6 := false }

/-- The optional protocols whose builder the selector calls only when the
device capabilities support the protocol. -/
inductive gated_proto where
  | vxlan_gpe
  | geneve
  | mpls_over_gre
  | mpls_over_udp
  | icmp_v4
  | icmp_v6
deriving DecidableEq, Repr

/-- Some field of the protocol is set in the mask: the field test of the
protocol's predicate in `dr_matcher.c`. -/
def gated_proto.is_set (K : dr_hdr) : gated_proto → mlx5dr_match_param → Bool
  | .vxlan_gpe, m => dr_mask_is_vxlan_gpe_set m.misc3
  | .geneve, m => dr_mask_is_tnl_geneve_set m.misc
  | .mpls_over_gre, m => DR_MASK_IS_OUTER_MPLS_OVER_GRE_SET m.misc2
  | .mpls_over_udp, m => DR_MASK_IS_OUTER_MPLS_OVER_UDP_SET m.misc2
  | .icmp_v4, m => K.DR_MASK_IS_ICMPV4_SET m.misc3
  | .icmp_v6, m => dr_mask_is_icmpv6_set m.misc3

/-- The capability test of the protocol, `dr_matcher_supp_<protocol>`. -/
def gated_proto.supp (K : dr_hdr) : gated_proto → mlx5dr_cmd_caps → Bool
  | .vxlan_gpe, caps => dr_matcher_supp_vxlan_gpe K caps
  | .geneve, caps => dr_matcher_supp_tnl_geneve K caps
  | .mpls_over_gre, caps => dr_matcher_supp_tnl_mpls_over_gre K caps
  | .mpls_over_udp, caps => dr_matcher_supp_tnl_mpls_over_udp K caps
  | .icmp_v4, caps => dr_matcher_supp_icmp_v4 K caps
  | .icmp_v6, caps => dr_matcher_supp_icmp_v6 K caps

/-- The builder that consumes the fields of the protocol. -/
def gated_proto.builder : gated_proto → ste_build_id
  | .vxlan_gpe => .tnl_vxlan_gpe
  | .geneve => .tnl_geneve
  | .mpls_over_gre => .tnl_mpls_over_gre
  | .mpls_over_udp => .tnl_mpls_over_udp
  | .icmp_v4 => .icmp
  | .icmp_v6 => .icmp

/-- The condition that guards every call of the protocol's builder in
`dr_matcher_set_ste_builders`. -/
def gated_proto.gate (K : dr_hdr) : gated_proto → mlx5dr_match_param → mlx5dr_cmd_caps → Bool
  | .vxlan_gpe, m, caps => dr_mask_is_tnl_vxlan_gpe K m caps
  | .geneve, m, caps => dr_mask_is_tnl_geneve K m caps
  | .mpls_over_gre, m, caps => dr_mask_is_tnl_mpls_over_gre K m caps
  | .mpls_over_udp, m, caps => dr_mask_is_tnl_mpls_over_udp K m caps
  | .icmp_v4, m, caps => dr_mask_is_icmp K m caps
  | .icmp_v6, m, caps => dr_mask_is_icmp K m caps

/-- A matcher with criteria OUTER and MISC3 whose mask has the source MAC and
the VXLAN-GPE VNI. -/
def ex_smac_vxlan_gpe : mlx5dr_matcher :=
  { id := 29, match_criteria := 17, refcount := 1,
    mask := { outer := { smac_47_16 := 0xffffffff, smac_15_0 := 0xffff },
              misc3 := { outer_vxlan_gpe_vni := 0xffffff } } }

/-- A matcher with criteria MISC3 whose mask has only the VXLAN-GPE VNI. -/
def ex_vxlan_gpe_only : mlx5dr_matcher :=
  { id := 30, match_criteria := 16, refcount := 1,
    mask := { misc3 := { outer_vxlan_gpe_vni := 0xffffff } } }

/-- The mask has `geneve_tlv_option_0_data` while every GENEVE base field is
zero. -/
def geneve_tlv_without_base (m : mlx5dr_match_param) : Bool :=
  !dr_mask_is_tnl_geneve_set m.misc && dr_mask_is_tnl_geneve_tlv_option m.misc3

/-- A matcher with criteria OUTER and MISC3 whose mask has the source MAC and
`geneve_tlv_option_0_data`. -/
def ex_smac_geneve_tlv : mlx5dr_matcher :=
  { id := 31, match_criteria := 17, refcount := 1,
    mask := { outer := { smac_47_16 := 0xffffffff, smac_15_0 := 0xffff },
              misc3 := { geneve_tlv_option_0_data := 0xffffffff } } }

/-- A matcher with criteria MISC3 whose mask has only
`geneve_tlv_option_0_data`. -/
def ex_geneve_tlv_only : mlx5dr_matcher :=
  { id := 32, match_criteria := 16, refcount := 1,
    mask := { misc3 := { geneve_tlv_option_0_data := 0xffffffff } } }

/-- A mask buffer of `4 * 128 + 1` bytes, one more than a match parameter. -/
def ex_oversized : mlx5dr_match_parameters :=
  { match_sz := 513, match_buf := [] }

/-- The function `mlx5dr_matcher_select_builders`: return code and the
per-direction state it leaves (its first parameter `matcher` is used for the
debug message only). `ste_builder` points to the array of the pair. -/
def mlx5dr_matcher_select_builders (nic_matcher : mlx5dr_matcher_rx_tx)
    (outer_ipv inner_ipv : mlx5dr_ipv) : Int × mlx5dr_matcher_rx_tx :=
  let nic_matcher := { nic_matcher with
    ste_builder := some (outer_ipv, inner_ipv)
    num_of_builders := nic_matcher.num_of_builders_arr outer_ipv inner_ipv }
  if nic_matcher.num_of_builders = 0 then
    -- Rule not supported on this matcher due to IP related fields
    (-EINVAL, nic_matcher)
  else
    (0, nic_matcher)

/-- The per-direction state that `dr_matcher_set_all_ste_builders` leaves for
the receive direction of a NIC receive table with the clearing builders and
the mask of `ex_wild_v6_dst`: the run for (IPv4, IPv4) failed, the run for
(IPv6, IPv4) succeeded. -/
def ex_after_set_all : mlx5dr_matcher_rx_tx :=
  (dr_matcher_set_all_ste_builders hdr_upstream ops_clearing
    (table_init MLX5DR_DOMAIN_TYPE_NIC_RX).dmn ex_wild_v6_dst
    (table_init MLX5DR_DOMAIN_TYPE_NIC_RX).rx {}).2

/-- The two argument checks at the head of `dr_matcher_init`. -/
def init_rejected (K : dr_hdr) (matcher : mlx5dr_matcher)
    (mask : Option mlx5dr_match_parameters) : Prop :=
  matcher.match_criteria ≥ K.DR_MATCHER_CRITERIA_MAX ∨
  ∃ p, mask = some p ∧ p.match_sz > K.MLX5_ST_SZ_DW_MATCH_PARAM * 4

/-- The builder `sb[i]` after a successful iteration of the loop of
`dr_matcher_create_definer_objs`; `W` is the width in bits of the field
`lu_type` (declared in `dr_types.h`). -/
def definer_created (K : dr_hdr) (W : Nat) (sb : mlx5dr_ste_build) (definer_id : Nat) :
    mlx5dr_ste_build :=
  { sb with
    -- The lu_type combines the definer and the entry type
    lu_type := (sb.lu_type ||| definer_id) % 2 ^ W
    htbl_type := K.DR_STE_HTBL_TYPE_MATCH
    definer_id := definer_id }

/-- The loop of `dr_matcher_create_definer_objs` with `n` iterations left at
index `i`. `create i format_id match` is the outcome of the call
`mlx5dr_cmd_create_definer(mdev, sb[i].format_id, sb[i].match, &definer_id)`
of iteration `i`: its return code and the id it stores. -/
def dr_matcher_create_definer_objs_loop (K : dr_hdr) (W : Nat)
    (create : Nat → Nat → Nat → Int × Nat) (w : World) :
    Nat → Nat → (Nat → mlx5dr_ste_build) → Int × World × (Nat → mlx5dr_ste_build)
  | 0, _, sb => (0, w, sb)
  | n + 1, i, sb =>
    let r := create i (sb i).format_id (sb i).match_buf
    if r.1 ≠ 0 then
      -- cleanup:
      let d := dr_matcher_destroy_definer_objs w sb i
      (r.1, d.1, d.2)
    else
      dr_matcher_create_definer_objs_loop K W create w n (i + 1)
        (Function.update sb i (definer_created K W (sb i) r.2))

/-- The function `dr_matcher_create_definer_objs`. -/
def dr_matcher_create_definer_objs (K : dr_hdr) (W : Nat)
    (create : Nat → Nat → Nat → Int × Nat) (w : World) (sb : Nat → mlx5dr_ste_build)
    (idx : Nat) : Int × World × (Nat → mlx5dr_ste_build) :=
  dr_matcher_create_definer_objs_loop K W create w idx 0 sb

/-- A device on which the definer of iteration `i` gets the id `100 + i` and
the creation fails with `-5` (`-EIO`) in the iterations listed in `fail`. -/
def create_with (fail : List Nat) : Nat → Nat → Nat → Int × Nat :=
  fun i _ _ => if i ∈ fail then (-5, 0) else (0, 100 + i)

/-- Three builders with lookup types 1, 2 and 3. -/
def ex_three_builders : Nat → mlx5dr_ste_build :=
  fun i => if i < 3 then { lu_type := i + 1, format_id := 22 } else {}

/-- The definer objects one family pair of a direction holds: the
`definer_id` of its `num_of_builders` slots when its first builder has the
table type `DR_STE_HTBL_TYPE_MATCH`, none otherwise. -/
def held_definers_at (K : dr_hdr) (nic_matcher : mlx5dr_matcher_rx_tx)
    (ij : mlx5dr_ipv × mlx5dr_ipv) : List Nat :=
  if (nic_matcher.ste_builder_arr ij.1 ij.2 0).htbl_type = K.DR_STE_HTBL_TYPE_MATCH then
    (List.range (nic_matcher.num_of_builders_arr ij.1 ij.2)).map
      (fun j => (nic_matcher.ste_builder_arr ij.1 ij.2 j).definer_id)
  else []

/-- The definer objects held by the builder arrays of a direction, in the
order in which `dr_matcher_clear_ste_builders` visits the family pairs. -/
def held_definers (K : dr_hdr) (nic_matcher : mlx5dr_matcher_rx_tx) : List Nat :=
  [(DR_RULE_IPV4, DR_RULE_IPV4), (DR_RULE_IPV4, DR_RULE_IPV6),
   (DR_RULE_IPV6, DR_RULE_IPV4), (DR_RULE_IPV6, DR_RULE_IPV6)].flatMap
    (held_definers_at K nic_matcher)

/-- The body of the loops of `dr_matcher_clear_ste_builders` for one family
pair. -/
def clear_ste_builders_step (K : dr_hdr) (acc : World × mlx5dr_matcher_rx_tx)
    (ij : mlx5dr_ipv × mlx5dr_ipv) : World × mlx5dr_matcher_rx_tx :=
  let sb := acc.2.ste_builder_arr ij.1 ij.2
  let num_of_builders := acc.2.num_of_builders_arr ij.1 ij.2
  if (sb 0).htbl_type = K.DR_STE_HTBL_TYPE_MATCH then
    let r := dr_matcher_destroy_definer_objs acc.1 sb num_of_builders
    (r.1, { acc.2 with
      ste_builder_arr := fun o i =>
        if o = ij.1 ∧ i = ij.2 then r.2 else acc.2.ste_builder_arr o i })
  else acc

/-- The matcher as `dr_matcher_init` passes it to the per-direction
initialisation: with the caller's mask copied in. -/
def init_copied (ops : ste_ops) (matcher : mlx5dr_matcher)
    (mask : Option mlx5dr_match_parameters) : mlx5dr_matcher :=
  { matcher with mask := init_mask ops matcher mask }

/-- The largest number of builder calls satisfying `Q` that one execution of
a statement tree can issue: calls in sequence add up, of the two branches of
a conditional only one runs. -/
def sel_prog.maxc (Q : ste_build_id × Bool → Bool) : sel_prog → Nat
  | .skip => 0
  | .call b inner => if Q (b, inner) then 1 else 0
  | .seq p q => p.maxc Q + q.maxc Q
  | .ite _ p q => max (p.maxc Q) (q.maxc Q)

/-- The last family combination, in the order of the calls in
`dr_matcher_set_all_ste_builders`, whose selector run succeeds (`none` when
none does). -/
def last_ok_pair (K : dr_hdr) (ops : ste_ops) (dmn : mlx5dr_domain) (matcher : mlx5dr_matcher)
    (nic_tbl : mlx5dr_table_rx_tx) (v : mask_ip_versions) : Option (mlx5dr_ipv × mlx5dr_ipv) :=
  ((family_pairs v).filter (fun p => sel_run_ok K ops dmn matcher nic_tbl p.1 p.2)).getLast?

/-- Builders as `ops_clearing`, of which the L2 source builder in addition
consumes the two words of the source MAC. -/
def ops_l2_src : ste_ops where
  build := fun b dmn mask inner rx =>
    match b with
    | .eth_l2_src =>
      ({}, on_spec inner (fun sp => { sp with smac_47_16 := 0, smac_15_0 := 0 }) mask)
    | _ => ops_clearing.build b dmn mask inner rx
  mlx5dr_ste_build_empty_always_hit := fun _ => {}
  mlx5dr_ste_build_pre_check := fun _ _ _ => 0
  mlx5dr_ste_copy_param := fun _ set_param _ => set_param

/-- A matcher with criteria OUTER and MISC3 whose mask has the wildcard
`ip_version` and the VXLAN-GPE VNI. -/
def ex_wild_vxlan_gpe : mlx5dr_matcher :=
  { id := 36, match_criteria := 17, refcount := 1,
    mask := { outer := { ip_version := 0xf },
              misc3 := { outer_vxlan_gpe_vni := 0xffffff } } }

/-- The mask in which only the VXLAN-GPE VNI is set. -/
def ex_mask_vni : mlx5dr_match_param :=
  { misc3 := { outer_vxlan_gpe_vni := 0xffffff } }

/-! # Theorems -/

/-! ## The priority-ordered matcher list -/

theorem add_to_tbl_eq (E : Env) (w : World) (tbl : mlx5dr_table) (matcher : mlx5dr_matcher) :
    dr_matcher_add_to_tbl E w tbl matcher =
      if (add_rx E w tbl matcher).1 ≠ 0 then
        ⟨(add_rx E w tbl matcher).1, (add_rx E w tbl matcher).2, tbl⟩
      else if (add_tx E (add_rx E w tbl matcher).2 tbl matcher).1 ≠ 0 then
        ⟨(add_tx E (add_rx E w tbl matcher).2 tbl matcher).1,
         (add_tx E (add_rx E w tbl matcher).2 tbl matcher).2, tbl⟩
      else
        ⟨0, (add_tx E (add_rx E w tbl matcher).2 tbl matcher).2,
         { tbl with matcher_list := add_list tbl matcher }⟩ := rfl

theorem add_loop_eq (prio : Nat) (l : List mlx5dr_matcher) (pos : Nat) (first : Bool) :
    dr_matcher_add_to_tbl_loop prio pos first l =
      (if ins_pos prio l < l.length then some (pos + ins_pos prio l) else none,
       if ins_pos prio l = 0 then first else false) := by
  induction l generalizing pos first with
  | nil => simp [dr_matcher_add_to_tbl_loop, ins_pos]
  | cons x xs ih =>
    by_cases hx : x.prio ≥ prio
    · simp [dr_matcher_add_to_tbl_loop, ins_pos, hx]
    · simp [dr_matcher_add_to_tbl_loop, ins_pos, hx, ih]
      split_ifs
      all_goals simp_all
      all_goals omega

theorem ins_pos_le (prio : Nat) (l : List mlx5dr_matcher) : ins_pos prio l ≤ l.length := by
  induction l with
  | nil => simp [ins_pos]
  | cons x xs ih =>
    simp only [ins_pos]
    split_ifs
    · simp
    · simp only [List.length_cons]; omega

theorem add_next_pos_eq (tbl : mlx5dr_table) (matcher : mlx5dr_matcher) :
    add_next_pos tbl matcher =
      if ins_pos matcher.prio tbl.matcher_list < tbl.matcher_list.length then
        some (ins_pos matcher.prio tbl.matcher_list) else none := by
  simp [add_next_pos, add_loop_eq]

theorem add_first_eq (tbl : mlx5dr_table) (matcher : mlx5dr_matcher) :
    add_first tbl matcher = decide (ins_pos matcher.prio tbl.matcher_list = 0) := by
  simp [add_first, add_loop_eq]

theorem add_prev_pos_eq (tbl : mlx5dr_table) (matcher : mlx5dr_matcher) :
    add_prev_pos tbl matcher =
      if ins_pos matcher.prio tbl.matcher_list = 0 then none
      else some (ins_pos matcher.prio tbl.matcher_list - 1) := by
  have hle := ins_pos_le matcher.prio tbl.matcher_list
  simp only [add_prev_pos, add_next_pos_eq, add_first_eq]
  by_cases h0 : ins_pos matcher.prio tbl.matcher_list = 0
  · simp [h0]
  · by_cases hl : ins_pos matcher.prio tbl.matcher_list < tbl.matcher_list.length
    · simp [h0, hl]
    · simp [h0, hl]
      omega

theorem add_list_eq (tbl : mlx5dr_table) (matcher : mlx5dr_matcher) :
    add_list tbl matcher =
      list_insert_at tbl.matcher_list (ins_pos matcher.prio tbl.matcher_list) matcher := by
  have hle := ins_pos_le matcher.prio tbl.matcher_list
  simp only [add_list, add_prev_pos_eq, add_next_pos_eq]
  by_cases h0 : ins_pos matcher.prio tbl.matcher_list = 0
  · simp only [h0]; split_ifs <;> rfl
  · simp only [h0, if_false]
    congr 1; omega

theorem add_to_tbl_list (E : Env) (w : World) (tbl : mlx5dr_table) (matcher : mlx5dr_matcher)
    (h : (dr_matcher_add_to_tbl E w tbl matcher).ret = 0) :
    (dr_matcher_add_to_tbl E w tbl matcher).tbl.matcher_list =
      list_insert_at tbl.matcher_list (ins_pos matcher.prio tbl.matcher_list) matcher := by
  rw [add_to_tbl_eq] at h ⊢
  split_ifs at h ⊢ with h1 h2
  · exact absurd h h1
  · exact absurd h h2
  · exact add_list_eq tbl matcher

theorem ins_pos_take_lt (prio : Nat) (l : List mlx5dr_matcher) :
    ∀ x ∈ l.take (ins_pos prio l), x.prio < prio := by
  induction l with
  | nil => simp [ins_pos]
  | cons a as ih =>
    by_cases ha : a.prio ≥ prio
    · simp [ins_pos, ha]
    · intro x hx
      simp only [ins_pos, ha, if_false, List.take_succ_cons, List.mem_cons] at hx
      rcases hx with rfl | hx
      · omega
      · exact ih x hx

theorem ins_pos_head_ge (prio : Nat) (l : List mlx5dr_matcher) :
    ∀ y, (l.drop (ins_pos prio l)).head? = some y → prio ≤ y.prio := by
  induction l with
  | nil => simp [ins_pos]
  | cons a as ih =>
    by_cases ha : a.prio ≥ prio
    · intro y hy
      simp only [ins_pos, ha, if_true, List.drop_zero, List.head?_cons, Option.some.injEq] at hy
      subst hy; exact ha
    · intro y hy
      simp only [ins_pos, ha, if_false, List.drop_succ_cons] at hy
      exact ih y hy

theorem ins_pos_drop_ge (prio : Nat) (l : List mlx5dr_matcher) (hs : sorted_by_prio l) :
    ∀ y ∈ l.drop (ins_pos prio l), prio ≤ y.prio := by
  induction l with
  | nil => simp [ins_pos]
  | cons a as ih =>
    have hs' : sorted_by_prio as := (List.pairwise_cons.mp hs).2
    have hhead := (List.pairwise_cons.mp hs).1
    by_cases ha : a.prio ≥ prio
    · intro y hy
      simp only [ins_pos, ha, if_true, List.drop_zero, List.mem_cons] at hy
      rcases hy with rfl | hy
      · exact ha
      · exact le_trans ha (hhead y hy)
    · intro y hy
      simp only [ins_pos, ha, if_false, List.drop_succ_cons] at hy
      exact ih hs' y hy

/-- C1 (as amended): `dr_matcher_add_to_tbl` links the new matcher in right
before the first entry whose priority is at least its own (at the tail when
there is none). Every entry in front of it has a strictly lower priority, so
every entry already in the list with the same priority comes after the new
matcher: among matchers of equal priority the one added later comes first. -/
theorem add_to_tbl_new_before_ties (E : Env) (w : World) (tbl : mlx5dr_table)
    (matcher : mlx5dr_matcher)
    (h : (dr_matcher_add_to_tbl E w tbl matcher).ret = 0) :
    ∃ l₁ l₂, tbl.matcher_list = l₁ ++ l₂ ∧
      (dr_matcher_add_to_tbl E w tbl matcher).tbl.matcher_list = l₁ ++ matcher :: l₂ ∧
      (∀ x ∈ l₁, x.prio < matcher.prio) ∧
      (∀ x ∈ l₁, x.prio ≠ matcher.prio) ∧
      (∀ y, l₂.head? = some y → matcher.prio ≤ y.prio) := by
  refine ⟨tbl.matcher_list.take (ins_pos matcher.prio tbl.matcher_list),
    tbl.matcher_list.drop (ins_pos matcher.prio tbl.matcher_list), ?_, ?_, ?_, ?_, ?_⟩
  · exact (List.take_append_drop _ _).symm
  · rw [add_to_tbl_list E w tbl matcher h]; rfl
  · exact ins_pos_take_lt _ _
  · intro x hx; exact Nat.ne_of_lt (ins_pos_take_lt _ _ x hx)
  · exact ins_pos_head_ge _ _

/-- C1, witness: adding the second matcher of priority 5 succeeds and puts it
in front of the first one. -/
theorem add_to_tbl_new_before_ties_witness :
    (dr_matcher_add_to_tbl (env_with 11 []) ex_second.w ex_first.tbl ex_second.matcher).ret = 0 ∧
    ∃ l₁ l₂, ex_first.tbl.matcher_list = l₁ ++ l₂ ∧
      (dr_matcher_add_to_tbl (env_with 11 []) ex_second.w ex_first.tbl
        ex_second.matcher).tbl.matcher_list = l₁ ++ ex_second.matcher :: l₂ ∧
      (∀ x ∈ l₁, x.prio < ex_second.matcher.prio) ∧
      (∀ x ∈ l₁, x.prio ≠ ex_second.matcher.prio) ∧
      (∀ y, l₂.head? = some y → ex_second.matcher.prio ≤ y.prio) :=
  ⟨by decide, add_to_tbl_new_before_ties _ _ _ _ (by decide)⟩

/-- C1, counterexample: the table holds one matcher of priority 5 (address
10); adding a second matcher of priority 5 (address 11) succeeds and leaves
the list `[11, 10]`: the later matcher stands before the earlier one of the
same priority. -/
theorem add_to_tbl_ties_counterexample :
    (dr_matcher_add_to_tbl (env_with 11 []) ex_second.w ex_first.tbl ex_second.matcher).ret = 0 ∧
    (dr_matcher_add_to_tbl (env_with 11 []) ex_second.w ex_first.tbl
      ex_second.matcher).tbl.matcher_list.map (fun m => (m.id, m.prio)) = [(11, 5), (10, 5)] ∧
    ¬ placed_after_ties
      (dr_matcher_add_to_tbl (env_with 11 []) ex_second.w ex_first.tbl
        ex_second.matcher).tbl.matcher_list ex_second.matcher := by
  decide

theorem remove_from_tbl_eq (E : Env) (w : World) (tbl : mlx5dr_table)
    (matcher : mlx5dr_matcher) :
    dr_matcher_remove_from_tbl E w tbl matcher =
      if (rem_rx E w tbl matcher).1 ≠ 0 then
        ⟨(rem_rx E w tbl matcher).1, (rem_rx E w tbl matcher).2, tbl⟩
      else if (rem_tx E (rem_rx E w tbl matcher).2 tbl matcher).1 ≠ 0 then
        ⟨(rem_tx E (rem_rx E w tbl matcher).2 tbl matcher).1,
         (rem_tx E (rem_rx E w tbl matcher).2 tbl matcher).2, tbl⟩
      else
        ⟨0, (rem_tx E (rem_rx E w tbl matcher).2 tbl matcher).2,
         { tbl with matcher_list := rem_list tbl matcher }⟩ := rfl

theorem matcher_pos_split (l : List mlx5dr_matcher) (matcher : mlx5dr_matcher) (i : Nat)
    (h : matcher_pos l matcher = some i) :
    ∃ l₁ x l₂, l = l₁ ++ x :: l₂ ∧ l₁.length = i ∧ x.id = matcher.id ∧
      ∀ y ∈ l₁, y.id ≠ matcher.id := by
  induction l generalizing i with
  | nil => simp [matcher_pos] at h
  | cons a as ih =>
    by_cases ha : a.id = matcher.id
    · simp only [matcher_pos, ha, if_true, Option.some.injEq] at h
      exact ⟨[], a, as, rfl, by simpa using h, ha, by simp⟩
    · simp only [matcher_pos, ha, if_false, Option.map_eq_some'] at h
      obtain ⟨j, hj, rfl⟩ := h
      obtain ⟨l₁, x, l₂, rfl, hlen, hx, hall⟩ := ih j hj
      refine ⟨a :: l₁, x, l₂, rfl, by simp [hlen], hx, ?_⟩
      intro y hy
      rcases List.mem_cons.mp hy with rfl | hy
      · exact ha
      · exact hall y hy

theorem matcher_pos_of_mem (l : List mlx5dr_matcher) (matcher : mlx5dr_matcher)
    (h : ∃ x ∈ l, x.id = matcher.id) : ∃ i, matcher_pos l matcher = some i := by
  induction l with
  | nil => simp at h
  | cons a as ih =>
    by_cases ha : a.id = matcher.id
    · exact ⟨0, by simp [matcher_pos, ha]⟩
    · obtain ⟨x, hx, hid⟩ := h
      rcases List.mem_cons.mp hx with rfl | hx
      · exact absurd hid ha
      · obtain ⟨j, hj⟩ := ih ⟨x, hx, hid⟩
        exact ⟨j + 1, by simp [matcher_pos, ha, hj]⟩

/-- The neighbours and the remaining list in `dr_matcher_remove_from_tbl`
when the matcher is the entry `x` of `l₁ ++ x :: l₂`. -/
theorem rem_views (tbl : mlx5dr_table) (matcher : mlx5dr_matcher)
    (l₁ l₂ : List mlx5dr_matcher) (x : mlx5dr_matcher)
    (hl : tbl.matcher_list = l₁ ++ x :: l₂)
    (hpos : matcher_pos tbl.matcher_list matcher = some l₁.length) :
    rem_next tbl matcher = l₂.head? ∧ rem_prev tbl matcher = l₁.getLast? ∧
    rem_list tbl matcher = l₁ ++ l₂ := by
  rw [hl] at hpos
  refine ⟨?_, ?_, ?_⟩
  · simp only [rem_next, hl, hpos]
    cases l₂ with
    | nil => simp
    | cons b bs =>
      have : ¬ (l₁.length + 1 = (l₁ ++ x :: b :: bs).length) := by simp
      rw [if_neg this]
      rw [List.getElem?_append_right (by omega)]
      simp
  · simp only [rem_prev, hl, hpos]
    by_cases h0 : l₁.length = 0
    · have : l₁ = [] := List.length_eq_zero.mp h0
      subst this; simp
    · rw [if_neg h0, List.getElem?_append_left (by omega), List.getLast?_eq_getElem?]
  · simp only [rem_list, hl, hpos]
    rw [List.eraseIdx_append_of_length_le (Nat.le_refl _)]
    simp

/-- The neighbours in `dr_matcher_add_to_tbl`: with `l₁` the entries the loop
stepped over and `l₂` the rest, `prev_matcher` is the last entry of `l₁` and
`next_matcher` the first entry of `l₂`. -/
theorem add_views (tbl : mlx5dr_table) (matcher : mlx5dr_matcher) :
    add_next tbl matcher =
      (tbl.matcher_list.drop (ins_pos matcher.prio tbl.matcher_list)).head? ∧
    add_prev tbl matcher =
      (tbl.matcher_list.take (ins_pos matcher.prio tbl.matcher_list)).getLast? := by
  have hle := ins_pos_le matcher.prio tbl.matcher_list
  constructor
  · simp only [add_next, add_next_pos_eq, List.head?_drop]
    split_ifs with h
    · rfl
    · simp only [Option.bind]
      rw [List.getElem?_eq_none (by omega)]
  · simp only [add_prev, add_prev_pos_eq, List.getLast?_take]
    split_ifs with h
    · rfl
    · simp only [Option.bind]
      have hlt : ins_pos matcher.prio tbl.matcher_list - 1 < tbl.matcher_list.length := by omega
      rw [List.getElem?_eq_getElem hlt]
      rfl

theorem sorted_insert (l₁ l₂ : List mlx5dr_matcher) (m : mlx5dr_matcher)
    (hs : sorted_by_prio (l₁ ++ l₂)) (h1 : ∀ x ∈ l₁, x.prio < m.prio)
    (h2 : ∀ y ∈ l₂, m.prio ≤ y.prio) : sorted_by_prio (l₁ ++ m :: l₂) := by
  unfold sorted_by_prio at hs ⊢
  rw [List.pairwise_append] at hs ⊢
  obtain ⟨hs1, hs2, hs12⟩ := hs
  refine ⟨hs1, List.pairwise_cons.mpr ⟨h2, hs2⟩, ?_⟩
  intro a ha b hb
  rcases List.mem_cons.mp hb with rfl | hb
  · exact Nat.le_of_lt (h1 a ha)
  · exact hs12 a ha b hb

/-- C2: on a list sorted by non-decreasing priority, a successful
`dr_matcher_add_to_tbl` leaves a sorted list that is the previous list, in its
previous order, with the new matcher linked in once; a successful
`dr_matcher_remove_from_tbl` leaves the previous list without the entry of
that matcher, still sorted. -/
theorem matcher_list_sorted_after_add_remove (E : Env) (w : World) (tbl : mlx5dr_table)
    (matcher : mlx5dr_matcher) (hs : sorted_by_prio tbl.matcher_list) :
    ((∀ x ∈ tbl.matcher_list, x.id ≠ matcher.id) →
      (dr_matcher_add_to_tbl E w tbl matcher).ret = 0 →
      sorted_by_prio (dr_matcher_add_to_tbl E w tbl matcher).tbl.matcher_list ∧
      (∃ l₁ l₂, tbl.matcher_list = l₁ ++ l₂ ∧
        (dr_matcher_add_to_tbl E w tbl matcher).tbl.matcher_list = l₁ ++ matcher :: l₂) ∧
      ((dr_matcher_add_to_tbl E w tbl matcher).tbl.matcher_list.filter
        (fun m => m.id == matcher.id)).length = 1) ∧
    ((tbl.matcher_list.map (·.id)).Nodup →
      (∃ x ∈ tbl.matcher_list, x.id = matcher.id) →
      (dr_matcher_remove_from_tbl E w tbl matcher).ret = 0 →
      sorted_by_prio (dr_matcher_remove_from_tbl E w tbl matcher).tbl.matcher_list ∧
      (∃ l₁ x l₂, tbl.matcher_list = l₁ ++ x :: l₂ ∧ x.id = matcher.id ∧
        (dr_matcher_remove_from_tbl E w tbl matcher).tbl.matcher_list = l₁ ++ l₂) ∧
      (∀ y ∈ (dr_matcher_remove_from_tbl E w tbl matcher).tbl.matcher_list,
        y.id ≠ matcher.id)) := by
  constructor
  · intro hnew hret
    have hlist := add_to_tbl_list E w tbl matcher hret
    have hsplit := List.take_append_drop (ins_pos matcher.prio tbl.matcher_list) tbl.matcher_list
    rw [hlist]
    refine ⟨?_, ⟨_, _, hsplit.symm, rfl⟩, ?_⟩
    · apply sorted_insert
      · rw [hsplit]; exact hs
      · exact ins_pos_take_lt _ _
      · exact ins_pos_drop_ge _ _ hs
    · have h1 : ∀ x ∈ tbl.matcher_list.take (ins_pos matcher.prio tbl.matcher_list),
          ¬ ((x.id == matcher.id) = true) := by
        intro x hx; simpa using hnew x (List.mem_of_mem_take hx)
      have h2 : ∀ x ∈ tbl.matcher_list.drop (ins_pos matcher.prio tbl.matcher_list),
          ¬ ((x.id == matcher.id) = true) := by
        intro x hx; simpa using hnew x (List.mem_of_mem_drop hx)
      simp only [list_insert_at, List.filter_append, List.filter_cons, beq_self_eq_true,
        if_true, List.length_append, List.length_cons]
      rw [List.filter_eq_nil_iff.mpr h1, List.filter_eq_nil_iff.mpr h2]
      rfl
  · intro hnd hmem hret
    obtain ⟨i, hi⟩ := matcher_pos_of_mem _ _ hmem
    obtain ⟨l₁, x, l₂, hl, hlen, hx, hall⟩ := matcher_pos_split _ _ _ hi
    subst hlen
    obtain ⟨-, -, hrl⟩ := rem_views tbl matcher l₁ l₂ x hl hi
    have hlist : (dr_matcher_remove_from_tbl E w tbl matcher).tbl.matcher_list = l₁ ++ l₂ := by
      rw [remove_from_tbl_eq] at hret ⊢
      split_ifs at hret ⊢ with h1 h2
      · exact absurd hret h1
      · exact absurd hret h2
      · exact hrl
    rw [hlist]
    refine ⟨?_, ⟨l₁, x, l₂, hl, hx, rfl⟩, ?_⟩
    · unfold sorted_by_prio at hs ⊢
      rw [hl] at hs
      exact hs.sublist (List.Sublist.append_left (List.sublist_cons_self x l₂) l₁)
    · intro y hy
      rw [hl, List.map_append, List.map_cons] at hnd
      have hnd' := List.nodup_append.mp hnd
      rcases List.mem_append.mp hy with hy | hy
      · exact hall y hy
      · intro hyid
        have : y.id ∈ List.map (·.id) l₂ := List.mem_map_of_mem _ hy
        have hx' := (List.nodup_cons.mp hnd'.2.1).1
        rw [hyid, ← hx] at this
        exact hx' this

/-- C2, witness: the second matcher is added to the sorted one-entry list of
`ex_first`, and the first matcher is then removed from the two-entry list. -/
theorem matcher_list_sorted_after_add_remove_witness :
    (sorted_by_prio ex_first.tbl.matcher_list ∧
      (∀ x ∈ ex_first.tbl.matcher_list, x.id ≠ ex_second.matcher.id) ∧
      (dr_matcher_add_to_tbl (env_with 11 []) ex_second.w ex_first.tbl
        ex_second.matcher).ret = 0 ∧
      sorted_by_prio (dr_matcher_add_to_tbl (env_with 11 []) ex_second.w ex_first.tbl
        ex_second.matcher).tbl.matcher_list) ∧
    (sorted_by_prio ex_two.tbl.matcher_list ∧
      (ex_two.tbl.matcher_list.map (·.id)).Nodup ∧
      (∃ x ∈ ex_two.tbl.matcher_list, x.id = (10 : Nat)) ∧
      (dr_matcher_remove_from_tbl (env_with 0 []) ex_two.w ex_two.tbl
        { id := 10 }).ret = 0 ∧
      sorted_by_prio (dr_matcher_remove_from_tbl (env_with 0 []) ex_two.w ex_two.tbl
        { id := 10 }).tbl.matcher_list) :=
  have a1 : sorted_by_prio ex_first.tbl.matcher_list := by unfold sorted_by_prio; decide
  have a2 : ∀ x ∈ ex_first.tbl.matcher_list, x.id ≠ ex_second.matcher.id := by decide
  have a3 : (dr_matcher_add_to_tbl (env_with 11 []) ex_second.w ex_first.tbl
      ex_second.matcher).ret = 0 := by decide
  have b1 : sorted_by_prio ex_two.tbl.matcher_list := by unfold sorted_by_prio; decide
  have b2 : (ex_two.tbl.matcher_list.map (·.id)).Nodup := by decide
  have b3 : ∃ x ∈ ex_two.tbl.matcher_list, x.id = (10 : Nat) := by decide
  have b4 : (dr_matcher_remove_from_tbl (env_with 0 []) ex_two.w ex_two.tbl
      { id := 10 }).ret = 0 := by decide
  ⟨⟨a1, a2, a3, ((matcher_list_sorted_after_add_remove _ _ _ _ a1).1 a2 a3).1⟩,
   ⟨b1, b2, b3, b4, ((matcher_list_sorted_after_add_remove _ _ _ _ b1).2 b2 b3 b4).1⟩⟩

theorem postsend_ok (E : Env) (hE : ∀ n, E.postsend_ret n = 0) (w : World) (h : HtblId)
    (info : mlx5dr_htbl_connect_info) (u : Bool) :
    mlx5dr_ste_htbl_init_and_postsend E w h info u = (0, w.set_hw h info u) := by
  simp [mlx5dr_ste_htbl_init_and_postsend, hE, World.set_hw]

theorem set_hw_other (w : World) (h h' : HtblId) (info : mlx5dr_htbl_connect_info) (u : Bool)
    (hne : h' ≠ h) : (w.set_hw h info u).htbls h' = w.htbls h' := by
  simp [World.set_hw, Function.update_apply, hne]

theorem set_hw_next (w : World) (h h' : HtblId) (info : mlx5dr_htbl_connect_info) (u : Bool) :
    ((w.set_hw h info u).htbls h').next_htbl = (w.htbls h').next_htbl := by
  by_cases hh : h' = h <;> simp [World.set_hw, Function.update_apply, hh]

theorem set_hw_pointing (w : World) (h h' : HtblId) (info : mlx5dr_htbl_connect_info) (u : Bool) :
    ((w.set_hw h info u).htbls h').pointing_ste = (w.htbls h').pointing_ste := by
  by_cases hh : h' = h <;> simp [World.set_hw, Function.update_apply, hh]

theorem set_hw_icm (w : World) (h h' : HtblId) (info : mlx5dr_htbl_connect_info) (u : Bool) :
    ((w.set_hw h info u).htbls h').icm_addr = (w.htbls h').icm_addr := by
  by_cases hh : h' = h <;> simp [World.set_hw, Function.update_apply, hh]

theorem set_hw_hw (w : World) (h h' : HtblId) (info : mlx5dr_htbl_connect_info) (u : Bool) :
    ((w.set_hw h info u).htbls h').hw = if h' = h then some info else (w.htbls h').hw := by
  by_cases hh : h' = h <;> simp [World.set_hw, Function.update_apply, hh]

theorem set_next_other (w : World) (h h' : HtblId) (n : Option HtblId)
    (hne : h' ≠ h) : (w.set_next_htbl h n).htbls h' = w.htbls h' := by
  simp [World.set_next_htbl, Function.update_apply, hne]

theorem set_next_next (w : World) (h h' : HtblId) (n : Option HtblId) :
    ((w.set_next_htbl h n).htbls h').next_htbl =
      if h' = h then n else (w.htbls h').next_htbl := by
  by_cases hh : h' = h <;> simp [World.set_next_htbl, Function.update_apply, hh]

theorem set_next_pointing (w : World) (h h' : HtblId) (n : Option HtblId) :
    ((w.set_next_htbl h n).htbls h').pointing_ste = (w.htbls h').pointing_ste := by
  by_cases hh : h' = h <;> simp [World.set_next_htbl, Function.update_apply, hh]

theorem set_next_hw (w : World) (h h' : HtblId) (n : Option HtblId) :
    ((w.set_next_htbl h n).htbls h').hw = (w.htbls h').hw := by
  by_cases hh : h' = h <;> simp [World.set_next_htbl, Function.update_apply, hh]

theorem set_pointing_other (w : World) (h h' : HtblId) (a : Option HtblId)
    (hne : h' ≠ h) : (w.set_pointing_ste h a).htbls h' = w.htbls h' := by
  simp [World.set_pointing_ste, Function.update_apply, hne]

theorem set_pointing_next (w : World) (h h' : HtblId) (a : Option HtblId) :
    ((w.set_pointing_ste h a).htbls h').next_htbl = (w.htbls h').next_htbl := by
  by_cases hh : h' = h <;> simp [World.set_pointing_ste, Function.update_apply, hh]

theorem set_pointing_pointing (w : World) (h h' : HtblId) (a : Option HtblId) :
    ((w.set_pointing_ste h a).htbls h').pointing_ste =
      if h' = h then a else (w.htbls h').pointing_ste := by
  by_cases hh : h' = h <;> simp [World.set_pointing_ste, Function.update_apply, hh]

theorem set_pointing_hw (w : World) (h h' : HtblId) (a : Option HtblId) :
    ((w.set_pointing_ste h a).htbls h').hw = (w.htbls h').hw := by
  by_cases hh : h' = h <;> simp [World.set_pointing_ste, Function.update_apply, hh]

theorem connect_ok (E : Env) (w : World) (nic_tbl : mlx5dr_table_rx_tx)
    (c : mlx5dr_matcher_rx_tx) (next prev : Option mlx5dr_matcher_rx_tx)
    (hE : ∀ n, E.postsend_ret n = 0) :
    dr_matcher_connect E w nic_tbl c next prev = (0, connect_world w nic_tbl c next prev) := by
  simp only [dr_matcher_connect, postsend_ok E hE, connect_world, prev_anchor]
  simp

theorem connect_spec (E : Env) (w : World) (nic_tbl : mlx5dr_table_rx_tx)
    (c : mlx5dr_matcher_rx_tx) (next prev : Option mlx5dr_matcher_rx_tx)
    (hE : ∀ n, E.postsend_ret n = 0) :
    (dr_matcher_connect E w nic_tbl c next prev).1 = 0 ∧
    (∀ h, h ≠ c.e_anchor → h ≠ c.s_htbl → h ≠ prev_anchor nic_tbl prev →
      (∀ n, next = some n → h ≠ n.s_htbl) →
      (dr_matcher_connect E w nic_tbl c next prev).2.htbls h = w.htbls h) ∧
    (prev_anchor nic_tbl prev ≠ c.e_anchor →
      ((dr_matcher_connect E w nic_tbl c next prev).2.htbls
        (prev_anchor nic_tbl prev)).next_htbl = some c.s_htbl) ∧
    ((∀ n, next = some n → c.s_htbl ≠ n.s_htbl) →
      ((dr_matcher_connect E w nic_tbl c next prev).2.htbls c.s_htbl).pointing_ste =
        some (prev_anchor nic_tbl prev)) ∧
    (∀ n, next = some n →
      ((dr_matcher_connect E w nic_tbl c next prev).2.htbls c.e_anchor).next_htbl =
        some n.s_htbl ∧
      ((dr_matcher_connect E w nic_tbl c next prev).2.htbls n.s_htbl).pointing_ste =
          some c.e_anchor) ∧
    (next = none → c.e_anchor ≠ c.s_htbl → c.e_anchor ≠ prev_anchor nic_tbl prev →
      ((dr_matcher_connect E w nic_tbl c next prev).2.htbls c.e_anchor).next_htbl =
        (w.htbls c.e_anchor).next_htbl ∧
      ((dr_matcher_connect E w nic_tbl c next prev).2.htbls c.e_anchor).hw =
        some (CONNECT_MISS nic_tbl.default_icm_addr)) := by
  rw [connect_ok E w nic_tbl c next prev hE]
  refine ⟨rfl, ?_, ?_, ?_, ?_, ?_⟩
  · intro h h1 h2 h3 h4
    cases next with
    | none =>
      simp only [connect_world]
      rw [set_next_other _ _ _ _ h3, set_pointing_other _ _ _ _ h2, set_hw_other _ _ _ _ _ h3,
        set_hw_other _ _ _ _ _ h2, set_hw_other _ _ _ _ _ h1]
    | some n =>
      simp only [connect_world]
      rw [set_next_other _ _ _ _ h1, set_pointing_other _ _ _ _ (h4 n rfl),
        set_next_other _ _ _ _ h3, set_pointing_other _ _ _ _ h2, set_hw_other _ _ _ _ _ h3,
        set_hw_other _ _ _ _ _ h2, set_hw_other _ _ _ _ _ h1]
  · intro h1
    cases next with
    | none => simp [connect_world, set_next_next]
    | some n => simp [connect_world, set_next_next, set_pointing_next, h1]
  · intro h1
    cases next with
    | none => simp [connect_world, set_next_pointing, set_pointing_pointing]
    | some n =>
      simp [connect_world, set_next_pointing, set_pointing_pointing, h1 n rfl]
  · intro n hn
    subst hn
    simp [connect_world, set_next_next, set_next_pointing, set_pointing_pointing]
  · intro hn h1 h2
    subst hn
    simp [connect_world, set_next_next, set_next_hw, set_pointing_next, set_pointing_hw,
      set_hw_next, set_hw_hw, h1, h2]

theorem disconnect_ok (E : Env) (w : World) (nic_tbl : mlx5dr_table_rx_tx)
    (next prev : Option mlx5dr_matcher_rx_tx) (hE : ∀ n, E.postsend_ret n = 0) :
    dr_matcher_disconnect E w nic_tbl next prev =
      (0, disconnect_world w nic_tbl next prev) := by
  cases next <;>
    simp only [dr_matcher_disconnect, postsend_ok E hE, disconnect_world, prev_anchor]

theorem disconnect_spec (E : Env) (w : World) (nic_tbl : mlx5dr_table_rx_tx)
    (next prev : Option mlx5dr_matcher_rx_tx) (hE : ∀ n, E.postsend_ret n = 0) :
    (dr_matcher_disconnect E w nic_tbl next prev).1 = 0 ∧
    (∀ h, h ≠ prev_anchor nic_tbl prev → (∀ n, next = some n → h ≠ n.s_htbl) →
      (dr_matcher_disconnect E w nic_tbl next prev).2.htbls h = w.htbls h) ∧
    (∀ n, next = some n →
      ((dr_matcher_disconnect E w nic_tbl next prev).2.htbls
        (prev_anchor nic_tbl prev)).next_htbl = some n.s_htbl ∧
      ((dr_matcher_disconnect E w nic_tbl next prev).2.htbls n.s_htbl).pointing_ste =
        some (prev_anchor nic_tbl prev)) ∧
    (next = none →
      ((dr_matcher_disconnect E w nic_tbl next prev).2.htbls
        (prev_anchor nic_tbl prev)).next_htbl = none ∧
      ((dr_matcher_disconnect E w nic_tbl next prev).2.htbls
        (prev_anchor nic_tbl prev)).hw = some (CONNECT_MISS nic_tbl.default_icm_addr)) := by
  rw [disconnect_ok E w nic_tbl next prev hE]
  refine ⟨rfl, ?_, ?_, ?_⟩
  · intro h h1 h2
    cases next with
    | none =>
      simp only [disconnect_world]
      rw [set_hw_other _ _ _ _ _ h1, set_next_other _ _ _ _ h1]
    | some n =>
      simp only [disconnect_world]
      rw [set_hw_other _ _ _ _ _ h1, set_next_other _ _ _ _ h1,
        set_pointing_other _ _ _ _ (h2 n rfl)]
  · intro n hn
    subst hn
    simp [disconnect_world, set_hw_next, set_hw_pointing, set_next_next, set_next_pointing,
      set_pointing_pointing]
  · intro hn
    subst hn
    simp [disconnect_world, set_hw_next, set_hw_hw, set_next_next]

/-! ### The chain invariant -/

theorem nic_htbls_append (L₁ L₂ : List mlx5dr_matcher_rx_tx) :
    nic_htbls (L₁ ++ L₂) = nic_htbls L₁ ++ nic_htbls L₂ := by
  induction L₁ with
  | nil => rfl
  | cons m ms ih => simp [nic_htbls, ih]

theorem end_anchor_append (a : HtblId) (L₁ L₂ : List mlx5dr_matcher_rx_tx) :
    end_anchor a (L₁ ++ L₂) = end_anchor (end_anchor a L₁) L₂ := by
  induction L₁ generalizing a with
  | nil => rfl
  | cons m ms ih => simp [end_anchor, ih]

theorem chain_links_append (w : World) (a : HtblId) (L₁ L₂ : List mlx5dr_matcher_rx_tx) :
    chain_links w a (L₁ ++ L₂) ↔
      chain_links w a L₁ ∧ chain_links w (end_anchor a L₁) L₂ := by
  induction L₁ generalizing a with
  | nil => simp [chain_links, end_anchor]
  | cons m ms ih => simp [chain_links, end_anchor, ih, and_assoc]

theorem end_anchor_mem (a : HtblId) (L : List mlx5dr_matcher_rx_tx) :
    end_anchor a L ∈ a :: nic_htbls L := by
  induction L generalizing a with
  | nil => simp [end_anchor]
  | cons m ms ih =>
    have := ih m.e_anchor
    simp only [end_anchor, nic_htbls, List.mem_cons] at this ⊢
    rcases this with h | h
    · exact Or.inr (Or.inr (Or.inl h))
    · exact Or.inr (Or.inr (Or.inr h))

theorem end_anchor_eq_prev (nic_tbl : mlx5dr_table_rx_tx) (L : List mlx5dr_matcher_rx_tx) :
    prev_anchor nic_tbl L.getLast? = end_anchor nic_tbl.s_anchor L := by
  have key : ∀ (a : HtblId) (L : List mlx5dr_matcher_rx_tx),
      end_anchor a L = (match L.getLast? with | some q => q.e_anchor | none => a) := by
    intro a L
    induction L generalizing a with
    | nil => rfl
    | cons m ms ih =>
      cases ms with
      | nil => rfl
      | cons b bs =>
        rw [end_anchor, ih m.e_anchor, List.getLast?_cons_cons]
        cases h : (b :: bs).getLast? with
        | none => simp at h
        | some q => rfl
  rw [key]; rfl

/-- Links are kept when the world changes on no table of the chain. -/
theorem chain_links_frame_all (w w' : World) (a : HtblId) (L : List mlx5dr_matcher_rx_tx)
    (hagree : ∀ h ∈ a :: nic_htbls L, w'.htbls h = w.htbls h)
    (hc : chain_links w a L) : chain_links w' a L := by
  induction L generalizing a with
  | nil => trivial
  | cons m ms ih =>
    obtain ⟨h1, h2, h3⟩ := hc
    refine ⟨?_, ?_, ?_⟩
    · rw [hagree a (by simp)]; exact h1
    · rw [hagree m.s_htbl (by simp [nic_htbls])]; exact h2
    · apply ih m.e_anchor _ h3
      intro h hh
      apply hagree
      simp only [nic_htbls, List.mem_cons] at hh ⊢
      rcases hh with hh | hh
      · exact Or.inr (Or.inr (Or.inl hh))
      · exact Or.inr (Or.inr (Or.inr hh))

/-- Links are kept when the world changes, among the tables of the chain, at
most on its last anchor. -/
theorem chain_links_frame (w w' : World) (a : HtblId) (L : List mlx5dr_matcher_rx_tx)
    (hnd : (a :: nic_htbls L).Nodup)
    (hagree : ∀ h ∈ a :: nic_htbls L, h ≠ end_anchor a L → w'.htbls h = w.htbls h)
    (hc : chain_links w a L) : chain_links w' a L := by
  induction L generalizing a with
  | nil => trivial
  | cons m ms ih =>
    obtain ⟨h1, h2, h3⟩ := hc
    have hmem := end_anchor_mem m.e_anchor ms
    simp only [nic_htbls, List.nodup_cons, List.mem_cons, not_or] at hnd
    obtain ⟨⟨ha1, ha2, ha3⟩, ⟨hs1, hs2⟩, he, hrest⟩ := hnd
    have hae : a ≠ end_anchor m.e_anchor ms := by
      intro heq; rw [heq] at ha2 ha3
      rcases List.mem_cons.mp hmem with h | h
      · exact ha2 h
      · exact ha3 h
    have hse : m.s_htbl ≠ end_anchor m.e_anchor ms := by
      intro heq; rw [heq] at hs1 hs2
      rcases List.mem_cons.mp hmem with h | h
      · exact hs1 h
      · exact hs2 h
    refine ⟨?_, ?_, ?_⟩
    · rw [hagree a (by simp) hae]; exact h1
    · rw [hagree m.s_htbl (by simp [nic_htbls]) hse]; exact h2
    · apply ih m.e_anchor (List.nodup_cons.mpr ⟨he, hrest⟩) _ h3
      intro h hh hne
      apply hagree h _ hne
      simp only [nic_htbls, List.mem_cons] at hh ⊢
      rcases hh with hh | hh
      · exact Or.inr (Or.inr (Or.inl hh))
      · exact Or.inr (Or.inr (Or.inr hh))

theorem nodup_app_ne {l₁ l₂ : List HtblId} (h : (l₁ ++ l₂).Nodup) {x y : HtblId}
    (hx : x ∈ l₁) (hy : y ∈ l₂) : x ≠ y := by
  intro hxy
  subst hxy
  exact (List.nodup_append.mp h).2.2 hx hy

theorem nodup_cons_ne {l : List HtblId} {x y : HtblId} (h : (x :: l).Nodup) (hy : y ∈ l) :
    x ≠ y := by
  intro hxy
  subst hxy
  exact (List.nodup_cons.mp h).1 hy

theorem chain_split_list (a : HtblId) (L₁ L₂ : List mlx5dr_matcher_rx_tx)
    (c : mlx5dr_matcher_rx_tx) :
    a :: nic_htbls (L₁ ++ c :: L₂) =
      (a :: nic_htbls L₁) ++ (c.s_htbl :: c.e_anchor :: nic_htbls L₂) := by
  simp [nic_htbls_append, nic_htbls]

/-- Linking matcher `c` in between `L₁` and `L₂`: if the world changes as
`dr_matcher_connect` changes it, the chain holds for `L₁ ++ c :: L₂`. -/
theorem chain_insert (w w' : World) (a : HtblId) (d : Nat)
    (L₁ L₂ : List mlx5dr_matcher_rx_tx) (c : mlx5dr_matcher_rx_tx)
    (hnd : (a :: nic_htbls (L₁ ++ c :: L₂)).Nodup)
    (hlinks : chain_links w a (L₁ ++ L₂))
    (hend : L₁ ++ L₂ ≠ [] → chain_end w d (end_anchor a (L₁ ++ L₂)))
    (hfresh : (w.htbls c.e_anchor).next_htbl = none)
    (h_other : ∀ h, h ≠ c.e_anchor → h ≠ c.s_htbl → h ≠ end_anchor a L₁ →
      (∀ n, L₂.head? = some n → h ≠ n.s_htbl) → w'.htbls h = w.htbls h)
    (h_p : (w'.htbls (end_anchor a L₁)).next_htbl = some c.s_htbl)
    (h_cs : (w'.htbls c.s_htbl).pointing_ste = some (end_anchor a L₁))
    (h_next : ∀ n, L₂.head? = some n →
      (w'.htbls c.e_anchor).next_htbl = some n.s_htbl ∧
      (w'.htbls n.s_htbl).pointing_ste = some c.e_anchor)
    (h_last : L₂.head? = none →
      (w'.htbls c.e_anchor).next_htbl = (w.htbls c.e_anchor).next_htbl ∧
      (w'.htbls c.e_anchor).hw = some (CONNECT_MISS d)) :
    chain_links w' a (L₁ ++ c :: L₂) ∧ chain_end w' d (end_anchor a (L₁ ++ c :: L₂)) := by
  rw [chain_split_list] at hnd
  have hndA : (a :: nic_htbls L₁).Nodup := (List.nodup_append.mp hnd).1
  have hndB : (c.s_htbl :: c.e_anchor :: nic_htbls L₂).Nodup := (List.nodup_append.mp hnd).2.1
  have hpA : end_anchor a L₁ ∈ a :: nic_htbls L₁ := end_anchor_mem a L₁
  obtain ⟨hl1, hl2⟩ := (chain_links_append w a L₁ L₂).mp hlinks
  -- tables of the first part other than its last anchor are not touched
  have hA : ∀ h ∈ a :: nic_htbls L₁, h ≠ end_anchor a L₁ → w'.htbls h = w.htbls h := by
    intro h hh hne
    apply h_other h _ _ hne
    · intro n hn
      cases L₂ with
      | nil => simp at hn
      | cons b bs =>
        simp only [List.head?_cons, Option.some.injEq] at hn
        subst hn
        exact nodup_app_ne hnd hh (by simp [nic_htbls])
    · exact nodup_app_ne hnd hh (by simp)
    · exact nodup_app_ne hnd hh (by simp)
  rw [chain_links_append, end_anchor_append]
  refine ⟨⟨chain_links_frame w w' a L₁ hndA hA hl1, h_p, h_cs, ?_⟩, ?_⟩
  · cases L₂ with
    | nil => trivial
    | cons n ns =>
      obtain ⟨hn1, hn2⟩ := h_next n rfl
      refine ⟨hn1, hn2, ?_⟩
      apply chain_links_frame_all w w' n.e_anchor ns _ hl2.2.2
      intro h hh
      have hhB : h ∈ nic_htbls (n :: ns) := by
        simp only [nic_htbls, List.mem_cons] at hh ⊢
        exact Or.inr hh
      have hndB' : (c.e_anchor :: nic_htbls (n :: ns)).Nodup := (List.nodup_cons.mp hndB).2
      apply h_other
      · exact (nodup_cons_ne hndB' hhB).symm
      · exact (nodup_cons_ne hndB (List.mem_cons_of_mem _ hhB)).symm
      · exact (nodup_app_ne hnd hpA (List.mem_cons_of_mem _ (List.mem_cons_of_mem _ hhB))).symm
      · intro n' hn'
        simp only [List.head?_cons, Option.some.injEq] at hn'
        subst hn'
        have : (n.s_htbl :: n.e_anchor :: nic_htbls ns).Nodup :=
          (List.nodup_cons.mp hndB').2
        exact (nodup_cons_ne this hh).symm
  · cases L₂ with
    | nil =>
      obtain ⟨hx1, hx2⟩ := h_last rfl
      simp only [end_anchor]
      exact ⟨by rw [hx1]; exact hfresh, hx2⟩
    | cons n ns =>
      have hne : L₁ ++ n :: ns ≠ [] := by simp
      have he := hend hne
      rw [end_anchor_append] at he
      simp only [end_anchor] at he ⊢
      have hmem := end_anchor_mem n.e_anchor ns
      have hhB : end_anchor n.e_anchor ns ∈ nic_htbls (n :: ns) := by
        simp only [nic_htbls, List.mem_cons] at hmem ⊢
        exact Or.inr hmem
      have hndB' : (c.e_anchor :: nic_htbls (n :: ns)).Nodup := (List.nodup_cons.mp hndB).2
      have hsame : w'.htbls (end_anchor n.e_anchor ns) = w.htbls (end_anchor n.e_anchor ns) := by
        apply h_other
        · exact (nodup_cons_ne hndB' hhB).symm
        · exact (nodup_cons_ne hndB (List.mem_cons_of_mem _ hhB)).symm
        · exact (nodup_app_ne hnd hpA
            (List.mem_cons_of_mem _ (List.mem_cons_of_mem _ hhB))).symm
        · intro n' hn'
          simp only [List.head?_cons, Option.some.injEq] at hn'
          subst hn'
          have : (n.s_htbl :: n.e_anchor :: nic_htbls ns).Nodup :=
            (List.nodup_cons.mp hndB').2
          exact (nodup_cons_ne this hmem).symm
      unfold chain_end at he ⊢
      rw [hsame]; exact he

/-- Unlinking matcher `x` from between `L₁` and `L₂`: if the world changes as
`dr_matcher_disconnect` changes it, the chain holds for `L₁ ++ L₂`. -/
theorem chain_remove (w w' : World) (a : HtblId) (d : Nat)
    (L₁ L₂ : List mlx5dr_matcher_rx_tx) (x : mlx5dr_matcher_rx_tx)
    (hnd : (a :: nic_htbls (L₁ ++ x :: L₂)).Nodup)
    (hlinks : chain_links w a (L₁ ++ x :: L₂))
    (hend : chain_end w d (end_anchor a (L₁ ++ x :: L₂)))
    (h_other : ∀ h, h ≠ end_anchor a L₁ →
      (∀ n, L₂.head? = some n → h ≠ n.s_htbl) → w'.htbls h = w.htbls h)
    (h_next : ∀ n, L₂.head? = some n →
      (w'.htbls (end_anchor a L₁)).next_htbl = some n.s_htbl ∧
      (w'.htbls n.s_htbl).pointing_ste = some (end_anchor a L₁))
    (h_last : L₂.head? = none →
      (w'.htbls (end_anchor a L₁)).next_htbl = none ∧
      (w'.htbls (end_anchor a L₁)).hw = some (CONNECT_MISS d)) :
    chain_links w' a (L₁ ++ L₂) ∧ chain_end w' d (end_anchor a (L₁ ++ L₂)) := by
  rw [chain_split_list] at hnd
  have hndA : (a :: nic_htbls L₁).Nodup := (List.nodup_append.mp hnd).1
  have hndB : (x.s_htbl :: x.e_anchor :: nic_htbls L₂).Nodup := (List.nodup_append.mp hnd).2.1
  have hpA : end_anchor a L₁ ∈ a :: nic_htbls L₁ := end_anchor_mem a L₁
  obtain ⟨hl1, hl2⟩ := (chain_links_append w a L₁ (x :: L₂)).mp hlinks
  have hA : ∀ h ∈ a :: nic_htbls L₁, h ≠ end_anchor a L₁ → w'.htbls h = w.htbls h := by
    intro h hh hne
    apply h_other h hne
    intro n hn
    cases L₂ with
    | nil => simp at hn
    | cons b bs =>
      simp only [List.head?_cons, Option.some.injEq] at hn
      subst hn
      exact nodup_app_ne hnd hh (by simp [nic_htbls])
  rw [chain_links_append, end_anchor_append]
  refine ⟨⟨chain_links_frame w w' a L₁ hndA hA hl1, ?_⟩, ?_⟩
  · cases L₂ with
    | nil => trivial
    | cons n ns =>
      obtain ⟨hn1, hn2⟩ := h_next n rfl
      refine ⟨hn1, hn2, ?_⟩
      have hl3 : chain_links w n.e_anchor ns := hl2.2.2.2.2
      apply chain_links_frame_all w w' n.e_anchor ns _ hl3
      intro h hh
      have hhB : h ∈ nic_htbls (n :: ns) := by
        simp only [nic_htbls, List.mem_cons] at hh ⊢
        exact Or.inr hh
      apply h_other
      · exact (nodup_app_ne hnd hpA (List.mem_cons_of_mem _ (List.mem_cons_of_mem _ hhB))).symm
      · intro n' hn'
        simp only [List.head?_cons, Option.some.injEq] at hn'
        subst hn'
        have : (n.s_htbl :: n.e_anchor :: nic_htbls ns).Nodup :=
          (List.nodup_cons.mp (List.nodup_cons.mp hndB).2).2
        exact (nodup_cons_ne this hh).symm
  · cases L₂ with
    | nil => simpa only [end_anchor] using h_last rfl
    | cons n ns =>
      rw [end_anchor_append] at hend
      simp only [end_anchor] at hend ⊢
      have hmem := end_anchor_mem n.e_anchor ns
      have hhB : end_anchor n.e_anchor ns ∈ nic_htbls (n :: ns) := by
        simp only [nic_htbls, List.mem_cons] at hmem ⊢
        exact Or.inr hmem
      have hsame : w'.htbls (end_anchor n.e_anchor ns) = w.htbls (end_anchor n.e_anchor ns) := by
        apply h_other
        · exact (nodup_app_ne hnd hpA
            (List.mem_cons_of_mem _ (List.mem_cons_of_mem _ hhB))).symm
        · intro n' hn'
          simp only [List.head?_cons, Option.some.injEq] at hn'
          subst hn'
          have : (n.s_htbl :: n.e_anchor :: nic_htbls ns).Nodup :=
            (List.nodup_cons.mp (List.nodup_cons.mp hndB).2).2
          exact (nodup_cons_ne this hmem).symm
      unfold chain_end at hend ⊢
      rw [hsame]; exact hend

/-- One direction of `dr_matcher_add_to_tbl`: when the post-sends succeed,
`dr_matcher_connect` of `c` between `L₁` and `L₂` turns the chain of
`L₁ ++ L₂` into the chain of `L₁ ++ c :: L₂` and touches no other table. -/
theorem connect_chain (E : Env) (hE : ∀ n, E.postsend_ret n = 0) (w : World)
    (nic_tbl : mlx5dr_table_rx_tx) (L₁ L₂ : List mlx5dr_matcher_rx_tx)
    (c : mlx5dr_matcher_rx_tx)
    (hnd : (nic_tbl.s_anchor :: nic_htbls (L₁ ++ c :: L₂)).Nodup)
    (hinv : chain_inv w nic_tbl (L₁ ++ L₂))
    (hfresh : (w.htbls c.e_anchor).next_htbl = none) :
    (dr_matcher_connect E w nic_tbl c L₂.head? L₁.getLast?).1 = 0 ∧
    chain_links (dr_matcher_connect E w nic_tbl c L₂.head? L₁.getLast?).2
      nic_tbl.s_anchor (L₁ ++ c :: L₂) ∧
    chain_end (dr_matcher_connect E w nic_tbl c L₂.head? L₁.getLast?).2
      nic_tbl.default_icm_addr (end_anchor nic_tbl.s_anchor (L₁ ++ c :: L₂)) ∧
    (∀ h, h ∉ nic_tbl.s_anchor :: nic_htbls (L₁ ++ c :: L₂) →
      (dr_matcher_connect E w nic_tbl c L₂.head? L₁.getLast?).2.htbls h = w.htbls h) := by
  obtain ⟨s0, s1, s2, s3, s4, s5⟩ := connect_spec E w nic_tbl c L₂.head? L₁.getLast? hE
  rw [end_anchor_eq_prev] at s1 s2 s3 s5
  have hnd' := hnd
  rw [chain_split_list] at hnd'
  have hpA : end_anchor nic_tbl.s_anchor L₁ ∈ nic_tbl.s_anchor :: nic_htbls L₁ :=
    end_anchor_mem _ _
  have hndB : (c.s_htbl :: c.e_anchor :: nic_htbls L₂).Nodup := (List.nodup_append.mp hnd').2.1
  have hpe : end_anchor nic_tbl.s_anchor L₁ ≠ c.e_anchor := nodup_app_ne hnd' hpA (by simp)
  have hse : c.s_htbl ≠ c.e_anchor := nodup_cons_ne hndB (by simp)
  have hsn : ∀ n, L₂.head? = some n → c.s_htbl ≠ n.s_htbl := by
    intro n hn
    cases L₂ with
    | nil => simp at hn
    | cons b bs =>
      simp only [List.head?_cons, Option.some.injEq] at hn
      subst hn
      exact nodup_cons_ne hndB (by simp [nic_htbls])
  have hmain := chain_insert w (dr_matcher_connect E w nic_tbl c L₂.head? L₁.getLast?).2
    nic_tbl.s_anchor nic_tbl.default_icm_addr L₁ L₂ c hnd hinv.1 hinv.2 hfresh s1 (s2 hpe)
    (s3 hsn) s4 (fun hn => s5 hn hse.symm hpe.symm)
  refine ⟨s0, hmain.1, hmain.2, ?_⟩
  intro h hh
  rw [chain_split_list] at hh
  simp only [List.mem_append, List.mem_cons, not_or] at hh
  apply s1 h hh.2.2.1 hh.2.1
  · intro heq
    rw [heq] at hh
    rcases List.mem_cons.mp hpA with h1 | h1
    · exact hh.1.1 h1
    · exact hh.1.2 h1
  · intro n hn
    cases L₂ with
    | nil => simp at hn
    | cons b bs =>
      simp only [List.head?_cons, Option.some.injEq] at hn
      subst hn
      intro heq
      apply hh.2.2.2
      rw [heq]; simp [nic_htbls]

/-- One direction of `dr_matcher_remove_from_tbl`: when the post-send
succeeds, `dr_matcher_disconnect` turns the chain of `L₁ ++ x :: L₂` into the
chain of `L₁ ++ L₂` and touches no table outside the chain. -/
theorem disconnect_chain (E : Env) (hE : ∀ n, E.postsend_ret n = 0) (w : World)
    (nic_tbl : mlx5dr_table_rx_tx) (L₁ L₂ : List mlx5dr_matcher_rx_tx)
    (x : mlx5dr_matcher_rx_tx)
    (hnd : (nic_tbl.s_anchor :: nic_htbls (L₁ ++ x :: L₂)).Nodup)
    (hinv : chain_inv w nic_tbl (L₁ ++ x :: L₂)) :
    (dr_matcher_disconnect E w nic_tbl L₂.head? L₁.getLast?).1 = 0 ∧
    chain_links (dr_matcher_disconnect E w nic_tbl L₂.head? L₁.getLast?).2
      nic_tbl.s_anchor (L₁ ++ L₂) ∧
    chain_end (dr_matcher_disconnect E w nic_tbl L₂.head? L₁.getLast?).2
      nic_tbl.default_icm_addr (end_anchor nic_tbl.s_anchor (L₁ ++ L₂)) ∧
    (∀ h, h ∉ nic_tbl.s_anchor :: nic_htbls (L₁ ++ x :: L₂) →
      (dr_matcher_disconnect E w nic_tbl L₂.head? L₁.getLast?).2.htbls h = w.htbls h) := by
  obtain ⟨s0, s1, s2, s3⟩ := disconnect_spec E w nic_tbl L₂.head? L₁.getLast? hE
  rw [end_anchor_eq_prev] at s1 s2 s3
  have hpA : end_anchor nic_tbl.s_anchor L₁ ∈ nic_tbl.s_anchor :: nic_htbls L₁ :=
    end_anchor_mem _ _
  have hmain := chain_remove w (dr_matcher_disconnect E w nic_tbl L₂.head? L₁.getLast?).2
    nic_tbl.s_anchor nic_tbl.default_icm_addr L₁ L₂ x hnd hinv.1 (hinv.2 (by simp)) s1 s2 s3
  refine ⟨s0, hmain.1, hmain.2, ?_⟩
  intro h hh
  rw [chain_split_list] at hh
  simp only [List.mem_append, List.mem_cons, not_or] at hh
  apply s1 h
  · intro heq
    rw [heq] at hh
    rcases List.mem_cons.mp hpA with h1 | h1
    · exact hh.1.1 h1
    · exact hh.1.2 h1
  · intro n hn
    cases L₂ with
    | nil => simp at hn
    | cons b bs =>
      simp only [List.head?_cons, Option.some.injEq] at hn
      subst hn
      intro heq
      apply hh.2.2.2
      rw [heq]; simp [nic_htbls]

theorem find_by_s_htbl (pre rest : List mlx5dr_matcher_rx_tx) (m : mlx5dr_matcher_rx_tx)
    (hnd : ((pre ++ m :: rest).map (·.s_htbl)).Nodup) :
    (pre ++ m :: rest).find? (fun x => x.s_htbl == m.s_htbl) = some m := by
  induction pre with
  | nil => simp
  | cons b bs ih =>
    simp only [List.cons_append, List.map_cons, List.nodup_cons] at hnd
    have hb : b.s_htbl ≠ m.s_htbl := by
      intro heq
      apply hnd.1
      rw [heq]
      simp
    simp only [List.cons_append, List.find?_cons]
    have : (b.s_htbl == m.s_htbl) = false := by simpa using hb
    rw [this]
    exact ih hnd.2

theorem s_htbl_sublist (L : List mlx5dr_matcher_rx_tx) :
    (L.map (·.s_htbl)).Sublist (nic_htbls L) := by
  induction L with
  | nil => simp [nic_htbls]
  | cons m ms ih =>
    simp only [List.map_cons, nic_htbls]
    exact List.Sublist.cons₂ _ (List.Sublist.cons _ ih)

/-- Walking the hit links of a chain visits the start tables of its matchers
in list order and ends at the default miss address. -/
theorem walk_hits_chain (w : World) (d : Nat) (L : List mlx5dr_matcher_rx_tx)
    (hnd : (L.map (·.s_htbl)).Nodup) :
    ∀ (ms pre : List mlx5dr_matcher_rx_tx) (a : HtblId), L = pre ++ ms →
      chain_links w a ms → chain_end w d (end_anchor a ms) →
      walk_hits w L (ms.length + 1) a = (ms.map (·.s_htbl), some (CONNECT_MISS d)) := by
  intro ms
  induction ms with
  | nil =>
    intro pre a _ _ hend
    simp only [end_anchor] at hend
    simp [walk_hits, hend.1, hend.2]
  | cons m rest ih =>
    intro pre a hL hlinks hend
    obtain ⟨h1, _, h3⟩ := hlinks
    have hfind : L.find? (fun x => x.s_htbl == m.s_htbl) = some m := by
      rw [hL]; exact find_by_s_htbl pre rest m (by rw [← hL]; exact hnd)
    have hrec := ih (pre ++ [m]) m.e_anchor (by rw [hL]; simp) h3 hend
    show walk_hits w L ((rest.length + 1) + 1) a = _
    rw [walk_hits]
    simp only [h1, hfind, hrec, List.map_cons]

theorem walk_hits_of_chain (w : World) (nic_tbl : mlx5dr_table_rx_tx)
    (L : List mlx5dr_matcher_rx_tx) (hnd : (nic_tbl.s_anchor :: nic_htbls L).Nodup)
    (hlinks : chain_links w nic_tbl.s_anchor L)
    (hend : chain_end w nic_tbl.default_icm_addr (end_anchor nic_tbl.s_anchor L)) :
    walk_hits w L (L.length + 1) nic_tbl.s_anchor =
      (L.map (·.s_htbl), some (CONNECT_MISS nic_tbl.default_icm_addr)) :=
  walk_hits_chain w _ L (((List.nodup_cons.mp hnd).2).sublist (s_htbl_sublist L)) L []
    nic_tbl.s_anchor rfl hlinks hend

theorem chain_strong_frame (w w' : World) (nic_tbl : mlx5dr_table_rx_tx)
    (L : List mlx5dr_matcher_rx_tx)
    (hagree : ∀ h ∈ nic_tbl.s_anchor :: nic_htbls L, w'.htbls h = w.htbls h)
    (hc : chain_strong w nic_tbl L) : chain_strong w' nic_tbl L := by
  refine ⟨chain_links_frame_all w w' _ L hagree hc.1, ?_⟩
  have := hc.2
  unfold chain_end at this ⊢
  rw [hagree _ (end_anchor_mem _ _)]
  exact this

theorem chain_inv_frame (w w' : World) (nic_tbl : mlx5dr_table_rx_tx)
    (L : List mlx5dr_matcher_rx_tx)
    (hagree : ∀ h ∈ nic_tbl.s_anchor :: nic_htbls L, w'.htbls h = w.htbls h)
    (hc : chain_inv w nic_tbl L) : chain_inv w' nic_tbl L := by
  refine ⟨chain_links_frame_all w w' _ L hagree hc.1, ?_⟩
  intro hne
  have := hc.2 hne
  unfold chain_end at this ⊢
  rw [hagree _ (end_anchor_mem _ _)]
  exact this

theorem chain_strong_inv (w : World) (nic_tbl : mlx5dr_table_rx_tx)
    (L : List mlx5dr_matcher_rx_tx) (hc : chain_strong w nic_tbl L) :
    chain_inv w nic_tbl L := ⟨hc.1, fun _ => hc.2⟩

theorem nic_htbls_mem_insert (L₁ L₂ : List mlx5dr_matcher_rx_tx) (c : mlx5dr_matcher_rx_tx)
    (a h : HtblId) (hh : h ∈ a :: nic_htbls (L₁ ++ L₂)) :
    h ∈ a :: nic_htbls (L₁ ++ c :: L₂) := by
  simp only [nic_htbls_append, nic_htbls, List.mem_cons, List.mem_append] at hh ⊢
  tauto

theorem add_chain_core (E : Env) (hE : ∀ n, E.postsend_ret n = 0) (w : World)
    (tbl : mlx5dr_table) (matcher : mlx5dr_matcher) (l₁ l₂ : List mlx5dr_matcher)
    (hl : tbl.matcher_list = l₁ ++ l₂)
    (hnext : add_next tbl matcher = l₂.head?)
    (hprev : add_prev tbl matcher = l₁.getLast?)
    (hlist : add_list tbl matcher = l₁ ++ matcher :: l₂)
    (hnd : (tbl_htbls tbl (l₁ ++ matcher :: l₂)).Nodup)
    (hinv : tbl_chain_inv w tbl)
    (hfresh_rx : uses_rx tbl → (w.htbls matcher.rx.e_anchor).next_htbl = none)
    (hfresh_tx : uses_tx tbl → (w.htbls matcher.tx.e_anchor).next_htbl = none) :
    (dr_matcher_add_to_tbl E w tbl matcher).ret = 0 ∧
    (dr_matcher_add_to_tbl E w tbl matcher).tbl =
      { tbl with matcher_list := l₁ ++ matcher :: l₂ } ∧
    (uses_rx tbl → chain_strong (dr_matcher_add_to_tbl E w tbl matcher).w tbl.rx
      ((l₁ ++ matcher :: l₂).map (·.rx))) ∧
    (uses_tx tbl → chain_strong (dr_matcher_add_to_tbl E w tbl matcher).w tbl.tx
      ((l₁ ++ matcher :: l₂).map (·.tx))) := by
  -- the receive step
  have hrx : (add_rx E w tbl matcher).1 = 0 ∧
      (uses_rx tbl → chain_strong (add_rx E w tbl matcher).2 tbl.rx
        ((l₁ ++ matcher :: l₂).map (·.rx))) ∧
      (∀ h, (uses_rx tbl → h ∉ tbl.rx.s_anchor :: nic_htbls ((l₁ ++ matcher :: l₂).map (·.rx))) →
        (add_rx E w tbl matcher).2.htbls h = w.htbls h) := by
    by_cases hr : uses_rx tbl
    · have hndr : (tbl.rx.s_anchor ::
          nic_htbls (l₁.map (·.rx) ++ matcher.rx :: l₂.map (·.rx))).Nodup := by
        have := hnd
        simp only [tbl_htbls, hr, if_true, List.map_append, List.map_cons] at this
        exact (List.nodup_append.mp this).1
      have hi : chain_inv w tbl.rx (l₁.map (·.rx) ++ l₂.map (·.rx)) := by
        have := hinv.1 hr
        rwa [hl, List.map_append] at this
      have hc := connect_chain E hE w tbl.rx (l₁.map (·.rx)) (l₂.map (·.rx)) matcher.rx
        hndr hi (hfresh_rx hr)
      have heq : add_rx E w tbl matcher = dr_matcher_connect E w tbl.rx matcher.rx
          (l₂.map (·.rx)).head? (l₁.map (·.rx)).getLast? := by
        have hr' := hr
        unfold uses_rx at hr'
        simp only [add_rx, hr', if_true, hnext, hprev, List.head?_map, List.getLast?_map]
      rw [heq]
      simp only [List.map_append, List.map_cons]
      exact ⟨hc.1, fun _ => ⟨hc.2.1, hc.2.2.1⟩, fun h hh => hc.2.2.2 h (hh hr)⟩
    · have hr' := hr
      unfold uses_rx at hr'
      have heq : add_rx E w tbl matcher = (0, w) := by simp only [add_rx, hr', if_false]
      rw [heq]
      exact ⟨rfl, fun h => absurd h hr, fun _ _ => rfl⟩
  obtain ⟨hrx0, hrx1, hrx2⟩ := hrx
  -- the transmit step
  have htx : (add_tx E (add_rx E w tbl matcher).2 tbl matcher).1 = 0 ∧
      (uses_tx tbl → chain_strong (add_tx E (add_rx E w tbl matcher).2 tbl matcher).2 tbl.tx
        ((l₁ ++ matcher :: l₂).map (·.tx))) ∧
      (∀ h, (uses_tx tbl → h ∉ tbl.tx.s_anchor :: nic_htbls ((l₁ ++ matcher :: l₂).map (·.tx))) →
        (add_tx E (add_rx E w tbl matcher).2 tbl matcher).2.htbls h =
          (add_rx E w tbl matcher).2.htbls h) := by
    by_cases ht : uses_tx tbl
    · have hndt : (tbl.tx.s_anchor ::
          nic_htbls (l₁.map (·.tx) ++ matcher.tx :: l₂.map (·.tx))).Nodup := by
        have := hnd
        simp only [tbl_htbls, ht, if_true, List.map_append, List.map_cons] at this
        exact (List.nodup_append.mp this).2.1
      -- the receive step touched no transmit table
      have hsame : ∀ h ∈ tbl.tx.s_anchor ::
          nic_htbls (l₁.map (·.tx) ++ matcher.tx :: l₂.map (·.tx)),
          (add_rx E w tbl matcher).2.htbls h = w.htbls h := by
        intro h hh
        apply hrx2
        intro hr hmem
        have := hnd
        simp only [tbl_htbls, hr, ht, if_true, List.map_append, List.map_cons] at this hmem
        exact nodup_app_ne this hmem hh rfl
      have hi : chain_inv (add_rx E w tbl matcher).2 tbl.tx
          (l₁.map (·.tx) ++ l₂.map (·.tx)) := by
        have := hinv.2 ht
        rw [hl, List.map_append] at this
        apply chain_inv_frame w _ tbl.tx _ _ this
        intro h hh
        exact hsame h (nic_htbls_mem_insert _ _ matcher.tx _ _ hh)
      have hf : ((add_rx E w tbl matcher).2.htbls matcher.tx.e_anchor).next_htbl = none := by
        rw [hsame _ (by simp [nic_htbls_append, nic_htbls])]
        exact hfresh_tx ht
      have hc := connect_chain E hE (add_rx E w tbl matcher).2 tbl.tx (l₁.map (·.tx))
        (l₂.map (·.tx)) matcher.tx hndt hi hf
      have heq : add_tx E (add_rx E w tbl matcher).2 tbl matcher =
          dr_matcher_connect E (add_rx E w tbl matcher).2 tbl.tx matcher.tx
          (l₂.map (·.tx)).head? (l₁.map (·.tx)).getLast? := by
        have ht' := ht
        unfold uses_tx at ht'
        simp only [add_tx, ht', if_true, hnext, hprev, List.head?_map, List.getLast?_map]
      rw [heq]
      simp only [List.map_append, List.map_cons]
      exact ⟨hc.1, fun _ => ⟨hc.2.1, hc.2.2.1⟩, fun h hh => hc.2.2.2 h (hh ht)⟩
    · have ht' := ht
      unfold uses_tx at ht'
      have heq : add_tx E (add_rx E w tbl matcher).2 tbl matcher =
          (0, (add_rx E w tbl matcher).2) := by simp only [add_tx, ht', if_false]
      rw [heq]
      exact ⟨rfl, fun h => absurd h ht, fun _ _ => rfl⟩
  obtain ⟨htx0, htx1, htx2⟩ := htx
  rw [add_to_tbl_eq]
  have e1 : ¬ (add_rx E w tbl matcher).1 ≠ 0 := by simp [hrx0]
  have e2 : ¬ (add_tx E (add_rx E w tbl matcher).2 tbl matcher).1 ≠ 0 := by simp [htx0]
  rw [if_neg e1, if_neg e2]
  refine ⟨rfl, by rw [hlist], ?_, htx1⟩
  intro hr
  apply chain_strong_frame _ _ tbl.rx _ _ (hrx1 hr)
  intro h hh
  apply htx2
  intro ht hmem
  have := hnd
  simp only [tbl_htbls, hr, ht, if_true] at this
  exact nodup_app_ne this hh hmem rfl

theorem rem_chain_core (E : Env) (hE : ∀ n, E.postsend_ret n = 0) (w : World)
    (tbl : mlx5dr_table) (matcher : mlx5dr_matcher) (l₁ l₂ : List mlx5dr_matcher)
    (x : mlx5dr_matcher)
    (hl : tbl.matcher_list = l₁ ++ x :: l₂)
    (hnext : rem_next tbl matcher = l₂.head?)
    (hprev : rem_prev tbl matcher = l₁.getLast?)
    (hlist : rem_list tbl matcher = l₁ ++ l₂)
    (hnd : (tbl_htbls tbl (l₁ ++ x :: l₂)).Nodup)
    (hinv : tbl_chain_inv w tbl) :
    (dr_matcher_remove_from_tbl E w tbl matcher).ret = 0 ∧
    (dr_matcher_remove_from_tbl E w tbl matcher).tbl =
      { tbl with matcher_list := l₁ ++ l₂ } ∧
    (uses_rx tbl → chain_strong (dr_matcher_remove_from_tbl E w tbl matcher).w tbl.rx
      ((l₁ ++ l₂).map (·.rx))) ∧
    (uses_tx tbl → chain_strong (dr_matcher_remove_from_tbl E w tbl matcher).w tbl.tx
      ((l₁ ++ l₂).map (·.tx))) := by
  -- the receive step
  have hrx : (rem_rx E w tbl matcher).1 = 0 ∧
      (uses_rx tbl → chain_strong (rem_rx E w tbl matcher).2 tbl.rx
        ((l₁ ++ l₂).map (·.rx))) ∧
      (∀ h, (uses_rx tbl → h ∉ tbl.rx.s_anchor :: nic_htbls ((l₁ ++ x :: l₂).map (·.rx))) →
        (rem_rx E w tbl matcher).2.htbls h = w.htbls h) := by
    by_cases hr : uses_rx tbl
    · have hndr : (tbl.rx.s_anchor ::
          nic_htbls (l₁.map (·.rx) ++ x.rx :: l₂.map (·.rx))).Nodup := by
        have := hnd
        simp only [tbl_htbls, hr, if_true, List.map_append, List.map_cons] at this
        exact (List.nodup_append.mp this).1
      have hi : chain_inv w tbl.rx (l₁.map (·.rx) ++ x.rx :: l₂.map (·.rx)) := by
        have := hinv.1 hr
        rwa [hl, List.map_append, List.map_cons] at this
      have hc := disconnect_chain E hE w tbl.rx (l₁.map (·.rx)) (l₂.map (·.rx)) x.rx hndr hi
      have heq : rem_rx E w tbl matcher = dr_matcher_disconnect E w tbl.rx
          (l₂.map (·.rx)).head? (l₁.map (·.rx)).getLast? := by
        have hr' := hr
        unfold uses_rx at hr'
        simp only [rem_rx, hr', if_true, hnext, hprev, List.head?_map, List.getLast?_map]
      rw [heq]
      simp only [List.map_append, List.map_cons]
      exact ⟨hc.1, fun _ => ⟨hc.2.1, hc.2.2.1⟩, fun h hh => hc.2.2.2 h (hh hr)⟩
    · have hr' := hr
      unfold uses_rx at hr'
      have heq : rem_rx E w tbl matcher = (0, w) := by simp only [rem_rx, hr', if_false]
      rw [heq]
      exact ⟨rfl, fun h => absurd h hr, fun _ _ => rfl⟩
  obtain ⟨hrx0, hrx1, hrx2⟩ := hrx
  -- the transmit step
  have htx : (rem_tx E (rem_rx E w tbl matcher).2 tbl matcher).1 = 0 ∧
      (uses_tx tbl → chain_strong (rem_tx E (rem_rx E w tbl matcher).2 tbl matcher).2 tbl.tx
        ((l₁ ++ l₂).map (·.tx))) ∧
      (∀ h, (uses_tx tbl → h ∉ tbl.tx.s_anchor :: nic_htbls ((l₁ ++ x :: l₂).map (·.tx))) →
        (rem_tx E (rem_rx E w tbl matcher).2 tbl matcher).2.htbls h =
          (rem_rx E w tbl matcher).2.htbls h) := by
    by_cases ht : uses_tx tbl
    · have hndt : (tbl.tx.s_anchor ::
          nic_htbls (l₁.map (·.tx) ++ x.tx :: l₂.map (·.tx))).Nodup := by
        have := hnd
        simp only [tbl_htbls, ht, if_true, List.map_append, List.map_cons] at this
        exact (List.nodup_append.mp this).2.1
      have hsame : ∀ h ∈ tbl.tx.s_anchor ::
          nic_htbls (l₁.map (·.tx) ++ x.tx :: l₂.map (·.tx)),
          (rem_rx E w tbl matcher).2.htbls h = w.htbls h := by
        intro h hh
        apply hrx2
        intro hr hmem
        have := hnd
        simp only [tbl_htbls, hr, ht, if_true, List.map_append, List.map_cons] at this hmem
        exact nodup_app_ne this hmem hh rfl
      have hi : chain_inv (rem_rx E w tbl matcher).2 tbl.tx
          (l₁.map (·.tx) ++ x.tx :: l₂.map (·.tx)) := by
        have := hinv.2 ht
        rw [hl, List.map_append, List.map_cons] at this
        exact chain_inv_frame w _ tbl.tx _ hsame this
      have hc := disconnect_chain E hE (rem_rx E w tbl matcher).2 tbl.tx (l₁.map (·.tx))
        (l₂.map (·.tx)) x.tx hndt hi
      have heq : rem_tx E (rem_rx E w tbl matcher).2 tbl matcher =
          dr_matcher_disconnect E (rem_rx E w tbl matcher).2 tbl.tx
          (l₂.map (·.tx)).head? (l₁.map (·.tx)).getLast? := by
        have ht' := ht
        unfold uses_tx at ht'
        simp only [rem_tx, ht', if_true, hnext, hprev, List.head?_map, List.getLast?_map]
      rw [heq]
      simp only [List.map_append, List.map_cons]
      exact ⟨hc.1, fun _ => ⟨hc.2.1, hc.2.2.1⟩, fun h hh => hc.2.2.2 h (hh ht)⟩
    · have ht' := ht
      unfold uses_tx at ht'
      have heq : rem_tx E (rem_rx E w tbl matcher).2 tbl matcher =
          (0, (rem_rx E w tbl matcher).2) := by simp only [rem_tx, ht', if_false]
      rw [heq]
      exact ⟨rfl, fun h => absurd h ht, fun _ _ => rfl⟩
  obtain ⟨htx0, htx1, htx2⟩ := htx
  rw [remove_from_tbl_eq]
  have e1 : ¬ (rem_rx E w tbl matcher).1 ≠ 0 := by simp [hrx0]
  have e2 : ¬ (rem_tx E (rem_rx E w tbl matcher).2 tbl matcher).1 ≠ 0 := by simp [htx0]
  rw [if_neg e1, if_neg e2]
  refine ⟨rfl, by rw [hlist], ?_, htx1⟩
  intro hr
  apply chain_strong_frame _ _ tbl.rx _ _ (hrx1 hr)
  intro h hh
  apply htx2
  intro ht hmem
  have := hnd
  simp only [tbl_htbls, hr, ht, if_true] at this
  have hh' : h ∈ tbl.rx.s_anchor :: nic_htbls (List.map (·.rx) (l₁ ++ x :: l₂)) := by
    rw [List.map_append] at hh
    rw [List.map_append, List.map_cons]
    exact nic_htbls_mem_insert _ _ x.rx _ _ hh
  exact nodup_app_ne this hh' hmem rfl

theorem nic_htbls_perm (L₁ L₂ : List mlx5dr_matcher_rx_tx) (c : mlx5dr_matcher_rx_tx) :
    (nic_htbls (L₁ ++ c :: L₂)).Perm (nic_htbls (c :: (L₁ ++ L₂))) := by
  simp only [nic_htbls_append, nic_htbls]
  exact List.perm_middle.trans (List.Perm.cons _ List.perm_middle)

theorem nic_htbls_sublist (L₁ L₂ : List mlx5dr_matcher_rx_tx) (c : mlx5dr_matcher_rx_tx) :
    (nic_htbls (L₁ ++ L₂)).Sublist (nic_htbls (L₁ ++ c :: L₂)) := by
  simp only [nic_htbls_append, nic_htbls]
  exact List.Sublist.append_left (List.Sublist.cons _ (List.Sublist.cons _ (List.Sublist.refl _))) _

theorem tbl_htbls_perm (tbl : mlx5dr_table) (l₁ l₂ : List mlx5dr_matcher)
    (m : mlx5dr_matcher) :
    (tbl_htbls tbl (l₁ ++ m :: l₂)).Perm (tbl_htbls tbl (m :: (l₁ ++ l₂))) := by
  unfold tbl_htbls
  apply List.Perm.append
  · split_ifs
    · simp only [List.map_append, List.map_cons]
      exact List.Perm.cons _ (nic_htbls_perm _ _ _)
    · exact List.Perm.refl _
  · split_ifs
    · simp only [List.map_append, List.map_cons]
      exact List.Perm.cons _ (nic_htbls_perm _ _ _)
    · exact List.Perm.refl _

theorem tbl_htbls_sublist (tbl : mlx5dr_table) (l₁ l₂ : List mlx5dr_matcher)
    (x : mlx5dr_matcher) :
    (tbl_htbls tbl (l₁ ++ l₂)).Sublist (tbl_htbls tbl (l₁ ++ x :: l₂)) := by
  unfold tbl_htbls
  apply List.Sublist.append
  · split_ifs
    · simp only [List.map_append, List.map_cons]
      exact List.Sublist.cons₂ _ (nic_htbls_sublist _ _ _)
    · exact List.Sublist.refl _
  · split_ifs
    · simp only [List.map_append, List.map_cons]
      exact List.Sublist.cons₂ _ (nic_htbls_sublist _ _ _)
    · exact List.Sublist.refl _

theorem strong_to_results (w : World) (tbl : mlx5dr_table) (res : List mlx5dr_matcher)
    (hnd : (tbl_htbls tbl res).Nodup)
    (hrx : uses_rx tbl → chain_strong w tbl.rx (res.map (·.rx)))
    (htx : uses_tx tbl → chain_strong w tbl.tx (res.map (·.tx))) :
    tbl_chain_inv w { tbl with matcher_list := res } ∧
    tbl_walk_ok w { tbl with matcher_list := res } := by
  refine ⟨⟨fun hr => chain_strong_inv _ _ _ (hrx hr), fun ht => chain_strong_inv _ _ _ (htx ht)⟩,
    ⟨?_, ?_⟩⟩
  · intro hr
    have hr' : uses_rx tbl := hr
    have hn : (tbl.rx.s_anchor :: nic_htbls (res.map (·.rx))).Nodup := by
      have := hnd
      simp only [tbl_htbls, hr', if_true] at this
      exact (List.nodup_append.mp this).1
    exact walk_hits_of_chain w tbl.rx _ hn (hrx hr').1 (hrx hr').2
  · intro ht
    have ht' : uses_tx tbl := ht
    have hn : (tbl.tx.s_anchor :: nic_htbls (res.map (·.tx))).Nodup := by
      have := hnd
      simp only [tbl_htbls, ht', if_true] at this
      exact (List.nodup_append.mp this).2.1
    exact walk_hits_of_chain w tbl.tx _ hn (htx ht').1 (htx ht').2

/-- C3: when every hardware programming call succeeds, `dr_matcher_add_to_tbl`
(for a new matcher whose hash tables are distinct from those of the table and
whose end anchors have no next table yet) and `dr_matcher_remove_from_tbl`
(for a listed matcher) succeed and preserve the chain invariant in each
direction the domain uses, keep the hash tables pairwise distinct, and leave a
chain whose walk from the start anchor visits every listed matcher in list
order and ends at the default address. -/
theorem chain_invariant_preserved (E : Env) (hE : ∀ n, E.postsend_ret n = 0) (w : World)
    (tbl : mlx5dr_table) (matcher : mlx5dr_matcher) (hinv : tbl_chain_inv w tbl) :
    ((tbl_htbls tbl (matcher :: tbl.matcher_list)).Nodup →
      (uses_rx tbl → (w.htbls matcher.rx.e_anchor).next_htbl = none) →
      (uses_tx tbl → (w.htbls matcher.tx.e_anchor).next_htbl = none) →
      (dr_matcher_add_to_tbl E w tbl matcher).ret = 0 ∧
      tbl_chain_inv (dr_matcher_add_to_tbl E w tbl matcher).w
        (dr_matcher_add_to_tbl E w tbl matcher).tbl ∧
      (tbl_htbls (dr_matcher_add_to_tbl E w tbl matcher).tbl
        (dr_matcher_add_to_tbl E w tbl matcher).tbl.matcher_list).Nodup ∧
      tbl_walk_ok (dr_matcher_add_to_tbl E w tbl matcher).w
        (dr_matcher_add_to_tbl E w tbl matcher).tbl) ∧
    ((tbl_htbls tbl tbl.matcher_list).Nodup →
      (∃ x ∈ tbl.matcher_list, x.id = matcher.id) →
      (dr_matcher_remove_from_tbl E w tbl matcher).ret = 0 ∧
      tbl_chain_inv (dr_matcher_remove_from_tbl E w tbl matcher).w
        (dr_matcher_remove_from_tbl E w tbl matcher).tbl ∧
      (tbl_htbls (dr_matcher_remove_from_tbl E w tbl matcher).tbl
        (dr_matcher_remove_from_tbl E w tbl matcher).tbl.matcher_list).Nodup ∧
      tbl_walk_ok (dr_matcher_remove_from_tbl E w tbl matcher).w
        (dr_matcher_remove_from_tbl E w tbl matcher).tbl) := by
  constructor
  · intro hnd hfr hft
    have hsplit := List.take_append_drop (ins_pos matcher.prio tbl.matcher_list) tbl.matcher_list
    have hv := add_views tbl matcher
    have hnd' : (tbl_htbls tbl (tbl.matcher_list.take (ins_pos matcher.prio tbl.matcher_list) ++
        matcher :: tbl.matcher_list.drop (ins_pos matcher.prio tbl.matcher_list))).Nodup := by
      rw [(tbl_htbls_perm tbl _ _ matcher).nodup_iff, hsplit]
      exact hnd
    obtain ⟨h0, h1, h2, h3⟩ := add_chain_core E hE w tbl matcher _ _ hsplit.symm hv.1 hv.2
      (add_list_eq tbl matcher) hnd' hinv hfr hft
    rw [h1]
    have := strong_to_results _ tbl _ hnd' h2 h3
    exact ⟨h0, this.1, hnd', this.2⟩
  · intro hnd hmem
    obtain ⟨i, hi⟩ := matcher_pos_of_mem _ _ hmem
    obtain ⟨l₁, x, l₂, hl, hlen, -, -⟩ := matcher_pos_split _ _ _ hi
    subst hlen
    obtain ⟨hn, hp, hrl⟩ := rem_views tbl matcher l₁ l₂ x hl hi
    have hnd' : (tbl_htbls tbl (l₁ ++ x :: l₂)).Nodup := by rw [← hl]; exact hnd
    obtain ⟨h0, h1, h2, h3⟩ := rem_chain_core E hE w tbl matcher l₁ l₂ x hl hn hp hrl hnd' hinv
    rw [h1]
    have hnd'' : (tbl_htbls tbl (l₁ ++ l₂)).Nodup := hnd'.sublist (tbl_htbls_sublist tbl l₁ l₂ x)
    have := strong_to_results _ tbl _ hnd'' h2 h3
    exact ⟨h0, this.1, hnd'', this.2⟩

theorem env_with_ok (addr : Nat) : ∀ n, (env_with addr []).postsend_ret n = 0 := by
  intro n; simp [env_with]

/-- C3, witness: in a combined (FDB) table the third matcher is added
between the two listed ones, and this middle matcher is then removed; both
steps succeed, keep the invariant and leave a chain that the walk follows in
list order to the default address. -/
theorem chain_invariant_preserved_witness :
    (tbl_chain_inv fdb_third.w fdb_two.tbl ∧
      (tbl_htbls fdb_two.tbl (fdb_third.matcher :: fdb_two.tbl.matcher_list)).Nodup ∧
      (dr_matcher_add_to_tbl (env_with 12 []) fdb_third.w fdb_two.tbl
        fdb_third.matcher).ret = 0 ∧
      tbl_chain_inv fdb_three.w fdb_three.tbl ∧
      tbl_walk_ok fdb_three.w fdb_three.tbl) ∧
    ((tbl_htbls fdb_three.tbl fdb_three.tbl.matcher_list).Nodup ∧
      (∃ x ∈ fdb_three.tbl.matcher_list, x.id = fdb_third.matcher.id) ∧
      (dr_matcher_remove_from_tbl (env_with 0 []) fdb_three.w fdb_three.tbl
        fdb_third.matcher).ret = 0 ∧
      tbl_walk_ok (dr_matcher_remove_from_tbl (env_with 0 []) fdb_three.w fdb_three.tbl
        fdb_third.matcher).w
        (dr_matcher_remove_from_tbl (env_with 0 []) fdb_three.w fdb_three.tbl
        fdb_third.matcher).tbl) :=
  have a1 : tbl_chain_inv fdb_third.w fdb_two.tbl := by decide
  have a2 : (tbl_htbls fdb_two.tbl (fdb_third.matcher :: fdb_two.tbl.matcher_list)).Nodup := by
    decide
  have a3 : uses_rx fdb_two.tbl → (fdb_third.w.htbls fdb_third.matcher.rx.e_anchor).next_htbl =
      none := by decide
  have a4 : uses_tx fdb_two.tbl → (fdb_third.w.htbls fdb_third.matcher.tx.e_anchor).next_htbl =
      none := by decide
  have ha := (chain_invariant_preserved (env_with 12 []) (env_with_ok 12) fdb_third.w
    fdb_two.tbl fdb_third.matcher a1).1 a2 a3 a4
  have b2 : ∃ x ∈ fdb_three.tbl.matcher_list, x.id = fdb_third.matcher.id := by decide
  have hb := (chain_invariant_preserved (env_with 0 []) (env_with_ok 0) fdb_three.w
    fdb_three.tbl fdb_third.matcher ha.2.1).2 ha.2.2.1 b2
  ⟨⟨a1, a2, ha.1, ha.2.1, ha.2.2.2⟩, ⟨ha.2.2.1, b2, hb.1, hb.2.2.2⟩⟩

theorem postsend_succ (E : Env) (w : World) (h : HtblId)
    (info : mlx5dr_htbl_connect_info) (u : Bool) (h0 : E.postsend_ret w.posts.length = 0) :
    mlx5dr_ste_htbl_init_and_postsend E w h info u = (0, w.set_hw h info u) := by
  simp [mlx5dr_ste_htbl_init_and_postsend, h0, World.set_hw]

theorem postsend_fail (E : Env) (w : World) (h : HtblId)
    (info : mlx5dr_htbl_connect_info) (u : Bool) (h0 : E.postsend_ret w.posts.length ≠ 0) :
    mlx5dr_ste_htbl_init_and_postsend E w h info u =
      (E.postsend_ret w.posts.length, w.log_post h info u) := by
  simp [mlx5dr_ste_htbl_init_and_postsend, h0, World.log_post]

theorem set_hw_posts (w : World) (h : HtblId) (info : mlx5dr_htbl_connect_info) (u : Bool) :
    (w.set_hw h info u).posts = w.posts ++ [⟨h, info, u⟩] := rfl

theorem log_post_posts (w : World) (h : HtblId) (info : mlx5dr_htbl_connect_info) (u : Bool) :
    (w.log_post h info u).posts = w.posts ++ [⟨h, info, u⟩] := rfl

theorem log_post_htbls (w : World) (h : HtblId) (info : mlx5dr_htbl_connect_info) (u : Bool) :
    (w.log_post h info u).htbls = w.htbls := rfl

theorem set_next_posts (w : World) (h : HtblId) (n : Option HtblId) :
    (w.set_next_htbl h n).posts = w.posts := rfl

theorem set_pointing_posts (w : World) (h : HtblId) (a : Option HtblId) :
    (w.set_pointing_ste h a).posts = w.posts := rfl

/-- C5: `dr_matcher_connect` issues its hardware updates in the order (a)
end anchor of the new matcher, (b) start table of the new matcher, (c)
previous anchor; it stops at the first update that fails and returns its
error, and it changes no software link field unless all three succeeded. -/
theorem connect_update_order (E : Env) (w : World) (nic_tbl : mlx5dr_table_rx_tx)
    (curr : mlx5dr_matcher_rx_tx) (next prev : Option mlx5dr_matcher_rx_tx) :
    (dr_matcher_connect E w nic_tbl curr next prev).2.posts =
      w.posts ++
        (if E.postsend_ret w.posts.length ≠ 0 then [connect_call_a nic_tbl curr next]
         else if E.postsend_ret (w.posts.length + 1) ≠ 0 then
           [connect_call_a nic_tbl curr next, connect_call_b w curr]
         else
           [connect_call_a nic_tbl curr next, connect_call_b w curr,
            connect_call_c nic_tbl curr prev]) ∧
    (dr_matcher_connect E w nic_tbl curr next prev).1 =
      (if E.postsend_ret w.posts.length ≠ 0 then E.postsend_ret w.posts.length
       else if E.postsend_ret (w.posts.length + 1) ≠ 0 then E.postsend_ret (w.posts.length + 1)
       else E.postsend_ret (w.posts.length + 2)) ∧
    ((dr_matcher_connect E w nic_tbl curr next prev).1 ≠ 0 →
      links_unchanged w (dr_matcher_connect E w nic_tbl curr next prev).2) := by
  by_cases h0 : E.postsend_ret w.posts.length = 0
  · by_cases h1 : E.postsend_ret (w.posts.length + 1) = 0
    · by_cases h2 : E.postsend_ret (w.posts.length + 2) = 0
      · cases next <;> cases prev <;>
          simp [dr_matcher_connect, postsend_succ, postsend_fail, h0, h1, h2, set_hw_posts,
            log_post_posts, set_next_posts, set_pointing_posts, set_hw_icm,
            connect_call_a, connect_call_b, connect_call_c, links_unchanged]
      · cases next <;> cases prev <;>
          simp [dr_matcher_connect, postsend_succ, postsend_fail, h0, h1, h2, set_hw_posts,
            log_post_posts, log_post_htbls, set_hw_icm, set_hw_next, set_hw_pointing,
            connect_call_a, connect_call_b, connect_call_c, links_unchanged]
    · cases next <;>
        simp [dr_matcher_connect, postsend_succ, postsend_fail, h0, h1, set_hw_posts,
          log_post_posts, log_post_htbls, set_hw_icm, set_hw_next, set_hw_pointing,
          connect_call_a, connect_call_b, links_unchanged]
  · cases next <;>
      simp [dr_matcher_connect, postsend_fail E w _ _ _ h0, h0, log_post_posts,
        log_post_htbls, connect_call_a, links_unchanged]

/-- C5, witness: with the second post-send failing, `dr_matcher_connect`
returns the error after two updates and leaves every link field as it was. -/
theorem connect_update_order_witness :
    (dr_matcher_connect (env_with 0 [1]) world_init (table_init MLX5DR_DOMAIN_TYPE_NIC_RX).rx
      { s_htbl := 4, e_anchor := 3 } none none).1 ≠ 0 ∧
    links_unchanged world_init
      (dr_matcher_connect (env_with 0 [1]) world_init (table_init MLX5DR_DOMAIN_TYPE_NIC_RX).rx
        { s_htbl := 4, e_anchor := 3 } none none).2 :=
  ⟨by decide, (connect_update_order (env_with 0 [1]) world_init
    (table_init MLX5DR_DOMAIN_TYPE_NIC_RX).rx { s_htbl := 4, e_anchor := 3 } none none).2.2
    (by decide)⟩

/-! ## Destroy and the reference counts -/

/-- C6: for a live matcher (reference count at least one, as set at
creation) `mlx5dr_matcher_destroy` proceeds only when the count is exactly
one; for every other count it returns `-EBUSY` and leaves the world (all
link fields of all hash tables) and the table (its matcher list and its
reference count) unchanged. -/
theorem destroy_busy_unless_one (K : dr_hdr) (E : Env) (w : World) (tbl : mlx5dr_table)
    (matcher : mlx5dr_matcher) (hlive : 1 ≤ matcher.refcount) :
    (matcher.refcount = 1 → (mlx5dr_matcher_destroy K E w tbl matcher).ret = 0) ∧
    ((mlx5dr_matcher_destroy K E w tbl matcher).ret ≠ -EBUSY → matcher.refcount = 1) ∧
    (matcher.refcount ≠ 1 →
      (mlx5dr_matcher_destroy K E w tbl matcher).ret = -EBUSY ∧
      (mlx5dr_matcher_destroy K E w tbl matcher).w = w ∧
      (mlx5dr_matcher_destroy K E w tbl matcher).tbl = tbl) := by
  by_cases h : matcher.refcount > 1
  · have hne : matcher.refcount ≠ 1 := by omega
    have e : mlx5dr_matcher_destroy K E w tbl matcher = ⟨-EBUSY, w, tbl⟩ := by
      simp only [mlx5dr_matcher_destroy, h, if_true]
    rw [e]
    exact ⟨fun h1 => absurd h1 hne, fun h1 => absurd rfl h1, fun _ => ⟨rfl, rfl, rfl⟩⟩
  · have heq : matcher.refcount = 1 := by omega
    have e : (mlx5dr_matcher_destroy K E w tbl matcher).ret = 0 := by
      simp only [mlx5dr_matcher_destroy, h, if_false]
    exact ⟨fun _ => e, fun _ => heq, fun h1 => absurd heq h1⟩

/-- C6, witness: a matcher with an outstanding rule reference (count 2) in
the one-entry table of `ex_first`: destroy returns `-EBUSY`, the matcher
stays in the list and the state is unchanged. -/
theorem destroy_busy_unless_one_witness :
    (1 : Nat) ≤ 2 ∧ (2 : Nat) ≠ 1 ∧
    (mlx5dr_matcher_destroy hdr_upstream (env_with 0 []) ex_first.w ex_first.tbl
      { id := 10, prio := 5, refcount := 2 }).ret = -EBUSY ∧
    (mlx5dr_matcher_destroy hdr_upstream (env_with 0 []) ex_first.w ex_first.tbl
      { id := 10, prio := 5, refcount := 2 }).tbl.matcher_list.map (·.id) = [10] ∧
    (mlx5dr_matcher_destroy hdr_upstream (env_with 0 []) ex_first.w ex_first.tbl
      { id := 10, prio := 5, refcount := 2 }).tbl = ex_first.tbl :=
  have h := (destroy_busy_unless_one hdr_upstream (env_with 0 []) ex_first.w ex_first.tbl
    { id := 10, prio := 5, refcount := 2 } (by decide)).2.2 (by decide)
  ⟨by decide, by decide, h.1, by rw [h.2.2]; decide, h.2.2⟩

theorem add_to_tbl_refcount (E : Env) (w : World) (tbl : mlx5dr_table)
    (matcher : mlx5dr_matcher) :
    (dr_matcher_add_to_tbl E w tbl matcher).tbl.refcount = tbl.refcount := by
  rw [add_to_tbl_eq]
  split_ifs <;> rfl

theorem remove_from_tbl_refcount (E : Env) (w : World) (tbl : mlx5dr_table)
    (matcher : mlx5dr_matcher) :
    (dr_matcher_remove_from_tbl E w tbl matcher).tbl.refcount = tbl.refcount := by
  rw [remove_from_tbl_eq]
  split_ifs <;> rfl

theorem create_eq (K : dr_hdr) (ops : ste_ops) (E : Env) (w : World) (tbl : mlx5dr_table)
    (priority match_criteria_enable : Nat) (mask : Option mlx5dr_match_parameters) :
    mlx5dr_matcher_create K ops E w tbl priority match_criteria_enable mask =
      match E.kzalloc with
      | none => ⟨none, w, { create_tbl tbl with refcount := (create_tbl tbl).refcount - 1 }⟩
      | some addr =>
        if (create_init K ops E w tbl priority match_criteria_enable mask addr).ret ≠ 0 then
          ⟨none,
           kfree_matcher (create_init K ops E w tbl priority match_criteria_enable mask addr).w
             (create_init K ops E w tbl priority match_criteria_enable mask addr).matcher,
           { create_tbl tbl with refcount := (create_tbl tbl).refcount - 1 }⟩
        else if (create_add K ops E w tbl priority match_criteria_enable mask addr).ret ≠ 0 then
          ⟨none,
           kfree_matcher
             (dr_matcher_uninit K
               (create_add K ops E w tbl priority match_criteria_enable mask addr).w tbl.dmn
               (create_init K ops E w tbl priority match_criteria_enable mask addr).matcher).1
             (dr_matcher_uninit K
               (create_add K ops E w tbl priority match_criteria_enable mask addr).w tbl.dmn
               (create_init K ops E w tbl priority match_criteria_enable mask addr).matcher).2,
           { (create_add K ops E w tbl priority match_criteria_enable mask addr).tbl with
             refcount :=
               (create_add K ops E w tbl priority match_criteria_enable mask addr).tbl.refcount
                 - 1 }⟩
        else
          ⟨some (create_init K ops E w tbl priority match_criteria_enable mask addr).matcher,
           (create_add K ops E w tbl priority match_criteria_enable mask addr).w,
           (create_add K ops E w tbl priority match_criteria_enable mask addr).tbl⟩ := rfl

theorem destroy_eq (K : dr_hdr) (E : Env) (w : World) (tbl : mlx5dr_table)
    (matcher : mlx5dr_matcher) :
    mlx5dr_matcher_destroy K E w tbl matcher =
      if matcher.refcount > 1 then ⟨-EBUSY, w, tbl⟩
      else
        ⟨0,
         kfree_matcher
           (dr_matcher_uninit K (dr_matcher_remove_from_tbl E w tbl matcher).w tbl.dmn matcher).1
           (dr_matcher_uninit K (dr_matcher_remove_from_tbl E w tbl matcher).w tbl.dmn matcher).2,
         { (dr_matcher_remove_from_tbl E w tbl matcher).tbl with
           refcount := (dr_matcher_remove_from_tbl E w tbl matcher).tbl.refcount - 1 }⟩ := rfl

/-- C8: `mlx5dr_matcher_create` leaves the reference count of the table one
higher when it returns a matcher and at its previous value on every failure
path; `mlx5dr_matcher_destroy` returns either success, with the count of the
table one lower, or `-EBUSY`, with the count unchanged. -/
theorem table_refcount_create_destroy (K : dr_hdr) (ops : ste_ops) (E : Env) (w : World)
    (tbl : mlx5dr_table) (priority match_criteria_enable : Nat)
    (mask : Option mlx5dr_match_parameters) (matcher : mlx5dr_matcher) :
    ((mlx5dr_matcher_create K ops E w tbl priority match_criteria_enable mask).matcher.isSome →
      (mlx5dr_matcher_create K ops E w tbl priority match_criteria_enable mask).tbl.refcount =
        tbl.refcount + 1) ∧
    ((mlx5dr_matcher_create K ops E w tbl priority match_criteria_enable mask).matcher = none →
      (mlx5dr_matcher_create K ops E w tbl priority match_criteria_enable mask).tbl.refcount =
        tbl.refcount) ∧
    ((mlx5dr_matcher_destroy K E w tbl matcher).ret = 0 ∨
      (mlx5dr_matcher_destroy K E w tbl matcher).ret = -EBUSY) ∧
    (0 < tbl.refcount → (mlx5dr_matcher_destroy K E w tbl matcher).ret = 0 →
      (mlx5dr_matcher_destroy K E w tbl matcher).tbl.refcount + 1 = tbl.refcount) ∧
    ((mlx5dr_matcher_destroy K E w tbl matcher).ret = -EBUSY →
      (mlx5dr_matcher_destroy K E w tbl matcher).tbl.refcount = tbl.refcount) := by
  have hadd : ∀ addr, (create_add K ops E w tbl priority match_criteria_enable mask
      addr).tbl.refcount = tbl.refcount + 1 := by
    intro addr
    simp only [create_add, add_to_tbl_refcount, create_tbl]
  refine ⟨?_, ?_, ?_, ?_, ?_⟩
  · intro h
    rw [create_eq] at h ⊢
    cases hk : E.kzalloc with
    | none => simp [hk] at h
    | some addr =>
      simp only [hk] at h ⊢
      split_ifs at h ⊢ with h1 h2
      · simp at h
      · simp at h
      · exact hadd addr
  · intro h
    rw [create_eq] at h ⊢
    cases hk : E.kzalloc with
    | none => simp [create_tbl]
    | some addr =>
      simp only [hk] at h ⊢
      split_ifs at h ⊢ with h1 h2
      · simp [create_tbl]
      · simp [hadd addr]
  · rw [destroy_eq]
    split_ifs
    · exact Or.inr rfl
    · exact Or.inl rfl
  · intro hpos h
    rw [destroy_eq] at h ⊢
    split_ifs at h ⊢ with h1
    · simp [EBUSY] at h
    · simp only [remove_from_tbl_refcount]
      omega
  · intro h
    rw [destroy_eq] at h ⊢
    split_ifs at h ⊢ with h1
    · rfl
    · simp [EBUSY] at h

/-- C8, witness: creating a matcher in the empty table (count 1) gives count
2, and destroying it gives count 1 again. -/
theorem table_refcount_create_destroy_witness :
    ex_first.matcher.isSome ∧ ex_first.tbl.refcount = 1 + 1 ∧
    0 < ex_first.tbl.refcount ∧
    (mlx5dr_matcher_destroy hdr_upstream (env_with 0 []) ex_first.w ex_first.tbl
      { id := 10, prio := 5, refcount := 1 }).ret = 0 ∧
    (mlx5dr_matcher_destroy hdr_upstream (env_with 0 []) ex_first.w ex_first.tbl
      { id := 10, prio := 5, refcount := 1 }).tbl.refcount + 1 = ex_first.tbl.refcount :=
  have a1 : ex_first.matcher.isSome := by decide
  have b1 : 0 < ex_first.tbl.refcount := by decide
  have b2 : (mlx5dr_matcher_destroy hdr_upstream (env_with 0 []) ex_first.w ex_first.tbl
      { id := 10, prio := 5, refcount := 1 }).ret = 0 := by decide
  ⟨a1,
   (table_refcount_create_destroy hdr_upstream ops_idle (env_with 10 []) world_init
     (table_init MLX5DR_DOMAIN_TYPE_NIC_RX) 5 0 none { id := 0 }).1 a1,
   b1, b2,
   (table_refcount_create_destroy hdr_upstream ops_idle (env_with 0 []) ex_first.w
     ex_first.tbl 0 0 none { id := 10, prio := 5, refcount := 1 }).2.2.2.1 b1 b2⟩

/-- C4, the code at the failing input: in a combined (FDB) domain the
receive-side link completes and the first transmit-side update fails.
`mlx5dr_matcher_create` returns `NULL` and the list stays empty, but the
receive start anchor of the table still has the start table of the failed
matcher as its next table and as its programmed hit target, and that start
table has been released. -/
theorem create_fdb_tx_failure_leaves_rx_link :
    fdb_failed.matcher.isNone = true ∧
    fdb_failed.tbl.matcher_list.length = 0 ∧
    fdb_failed_init.ret = 0 ∧
    (fdb_failed.w.htbls (table_init MLX5DR_DOMAIN_TYPE_FDB).rx.s_anchor).next_htbl =
      some fdb_failed_init.matcher.rx.s_htbl ∧
    (fdb_failed.w.htbls (table_init MLX5DR_DOMAIN_TYPE_FDB).rx.s_anchor).hw =
      some (CONNECT_HIT fdb_failed_init.matcher.rx.s_htbl) ∧
    (fdb_failed.w.htbls fdb_failed_init.matcher.rx.s_htbl).freed = true ∧
    fdb_failed.w.kfreed = [10] := by
  decide

/-- C7, the code at the failing input: the table holds one matcher and the
hardware relink made during the destroy fails. `mlx5dr_matcher_destroy`
returns success, the matcher is freed and its hash tables are released, but
its entry is still in the matcher list of the table. -/
theorem destroy_relink_failure_keeps_entry :
    ex_first.matcher.map (fun m => (m.id, m.refcount)) = some (10, 1) ∧
    ex_first.tbl.matcher_list.map (fun m => (m.id, m.rx.s_htbl, m.rx.e_anchor)) = [(10, 4, 3)] ∧
    destroy_failed.ret = 0 ∧
    destroy_failed.tbl.matcher_list.map (fun m => (m.id, m.rx.s_htbl, m.rx.e_anchor)) =
      [(10, 4, 3)] ∧
    destroy_failed.w.kfreed = [10] ∧
    (destroy_failed.w.htbls 4).freed = true ∧
    (destroy_failed.w.htbls 3).freed = true ∧
    (destroy_failed.w.htbls ex_first.tbl.rx.s_anchor).hw = some (CONNECT_HIT 4) := by
  decide

theorem ipv6_only_iff (spec : mlx5dr_match_spec) :
    dr_mask_is_ipv6_only_match_set spec = true ↔ ipv6_only_fields_present spec := by
  simp [dr_mask_is_ipv6_only_match_set, ipv6_only_fields_present, or_assoc]

theorem get_versions_error (K : dr_hdr) (matcher : mlx5dr_matcher)
    (h : ipv4_with_ipv6_fields K matcher.match_criteria matcher.mask) :
    dr_matcher_get_mask_ip_versions K matcher = .error (-EINVAL) := by
  unfold ipv4_with_ipv6_fields at h
  rcases h with ⟨h1, h2, h3⟩ | ⟨h1, h2, h3⟩
  · have h3' := (ipv6_only_iff _).mpr h3
    simp [dr_matcher_get_mask_ip_versions, h1, h2, h3']
  · have h3' := (ipv6_only_iff _).mpr h3
    simp [dr_matcher_get_mask_ip_versions, h1, h2, h3']

theorem set_all_error (K : dr_hdr) (ops : ste_ops) (dmn : mlx5dr_domain)
    (matcher : mlx5dr_matcher) (nic_tbl : mlx5dr_table_rx_tx)
    (nic_matcher : mlx5dr_matcher_rx_tx) (e : Int)
    (h : dr_matcher_get_mask_ip_versions K matcher = .error e) :
    dr_matcher_set_all_ste_builders K ops dmn matcher nic_tbl nic_matcher = (e, nic_matcher) := by
  simp only [dr_matcher_set_all_ste_builders, h]

theorem init_nic_error (K : dr_hdr) (ops : ste_ops) (E : Env) (w : World)
    (dmn : mlx5dr_domain) (matcher : mlx5dr_matcher) (nic_tbl : mlx5dr_table_rx_tx)
    (nic_matcher : mlx5dr_matcher_rx_tx) (e : Int) (he : e ≠ 0)
    (h : dr_matcher_get_mask_ip_versions K matcher = .error e) :
    dr_matcher_init_nic K ops E w dmn matcher nic_tbl nic_matcher = ⟨e, w, nic_matcher⟩ := by
  simp only [dr_matcher_init_nic, set_all_error K ops dmn matcher nic_tbl nic_matcher e h]
  simp [he]

theorem get_versions_congr (K : dr_hdr) (m m' : mlx5dr_matcher)
    (hc : m'.match_criteria = m.match_criteria) (hm : m'.mask = m.mask) :
    dr_matcher_get_mask_ip_versions K m' = dr_matcher_get_mask_ip_versions K m := by
  simp only [dr_matcher_get_mask_ip_versions, hc, hm]

theorem init_error (K : dr_hdr) (ops : ste_ops) (E : Env) (w : World) (tbl : mlx5dr_table)
    (matcher : mlx5dr_matcher) (mask : Option mlx5dr_match_parameters)
    (h : ipv4_with_ipv6_fields K matcher.match_criteria (init_mask ops matcher mask)) :
    (dr_matcher_init K ops E w tbl matcher mask).ret = -EINVAL := by
  have hne : (-EINVAL : Int) ≠ 0 := by decide
  have hE0 : ¬ (EINVAL = 0) := by decide
  have hget : ∀ m' : mlx5dr_matcher, m'.match_criteria = matcher.match_criteria →
      m'.mask = init_mask ops matcher mask →
      dr_matcher_get_mask_ip_versions K m' = .error (-EINVAL) := by
    intro m' hc hm
    apply get_versions_error
    rw [hc, hm]; exact h
  unfold dr_matcher_init
  simp only []
  split_ifs with h1 h2
  · rfl
  · rfl
  · cases mask with
    | none =>
      have hg := hget matcher rfl rfl
      cases hd : tbl.dmn.type <;>
        simp [hd, hE0, dr_matcher_init_fdb, init_nic_error K ops E w tbl.dmn _ _ _ _ hne hg]
    | some p =>
      have hg := hget { matcher with
        mask := ops.mlx5dr_ste_copy_param matcher.match_criteria matcher.mask p } rfl rfl
      cases hd : tbl.dmn.type <;>
        simp [hd, hE0, dr_matcher_init_fdb, init_nic_error K ops E w tbl.dmn _ _ _ _ hne hg]

/-- C9: when the mask of a matcher has `ip_version = 4` on an active layer
(outer or inner, criteria bit set) while an IPv6-only field of that layer is
nonzero, `dr_matcher_get_mask_ip_versions` fails with `-EINVAL`,
`dr_matcher_set_all_ste_builders` returns that error with the per-direction
state untouched and without entering the selector for any family pair, and
`mlx5dr_matcher_create` for such a mask returns `NULL`. -/
theorem ipv4_with_ipv6_fields_rejected (K : dr_hdr) (ops : ste_ops) (dmn : mlx5dr_domain)
    (matcher : mlx5dr_matcher) (nic_tbl : mlx5dr_table_rx_tx)
    (nic_matcher : mlx5dr_matcher_rx_tx)
    (h : ipv4_with_ipv6_fields K matcher.match_criteria matcher.mask) :
    dr_matcher_get_mask_ip_versions K matcher = .error (-EINVAL) ∧
    dr_matcher_set_all_ste_builders K ops dmn matcher nic_tbl nic_matcher =
      (-EINVAL, nic_matcher) ∧
    (dr_matcher_set_all_ste_builders K ops dmn matcher nic_tbl nic_matcher).2.sel_runs =
      nic_matcher.sel_runs ∧
    (∀ (E : Env) (w : World) (tbl : mlx5dr_table),
      (dr_matcher_init K ops E w tbl matcher none).ret = -EINVAL) ∧
    (∀ (E : Env) (w : World) (tbl : mlx5dr_table) (priority : Nat)
      (mask : Option mlx5dr_match_parameters),
      init_mask ops (create_matcher 0 priority matcher.match_criteria) mask = matcher.mask →
      (mlx5dr_matcher_create K ops E w tbl priority matcher.match_criteria mask).matcher =
        none) := by
  have hg := get_versions_error K matcher h
  have hs := set_all_error K ops dmn matcher nic_tbl nic_matcher _ hg
  refine ⟨hg, hs, by rw [hs], fun E w tbl => init_error K ops E w tbl matcher none h, ?_⟩
  intro E w tbl priority mask hmask
  rw [create_eq]
  cases hk : E.kzalloc with
  | none => rfl
  | some addr =>
    have hi : (create_init K ops E w tbl priority matcher.match_criteria mask addr).ret =
        -EINVAL := by
      apply init_error
      have : init_mask ops (create_matcher addr priority matcher.match_criteria) mask =
          init_mask ops (create_matcher 0 priority matcher.match_criteria) mask := by
        cases mask <;> rfl
      rw [this, hmask]
      exact h
    have hne : (create_init K ops E w tbl priority matcher.match_criteria mask addr).ret ≠ 0 := by
      rw [hi]; decide
    simp only [hne, if_true, ne_eq, not_false_eq_true]

/-- C9, witness: the matcher `ex_v4_with_v6` is rejected with `-EINVAL`. -/
theorem ipv4_with_ipv6_fields_rejected_witness :
    ipv4_with_ipv6_fields hdr_upstream ex_v4_with_v6.match_criteria ex_v4_with_v6.mask ∧
    dr_matcher_get_mask_ip_versions hdr_upstream ex_v4_with_v6 = .error (-EINVAL) :=
  ⟨by decide,
   (ipv4_with_ipv6_fields_rejected hdr_upstream ops_idle
     (table_init MLX5DR_DOMAIN_TYPE_NIC_RX).dmn ex_v4_with_v6
     (table_init MLX5DR_DOMAIN_TYPE_NIC_RX).rx {} (by decide)).1⟩

theorem get_versions_eq (K : dr_hdr) (matcher : mlx5dr_matcher) :
    dr_matcher_get_mask_ip_versions K matcher =
      if (layer_ipv matcher.match_criteria K.DR_MATCHER_CRITERIA_OUTER matcher.mask.outer == 4 &&
          layer_present matcher.match_criteria K.DR_MATCHER_CRITERIA_OUTER matcher.mask.outer) ||
         (layer_ipv matcher.match_criteria K.DR_MATCHER_CRITERIA_INNER matcher.mask.inner == 4 &&
          layer_present matcher.match_criteria K.DR_MATCHER_CRITERIA_INNER matcher.mask.inner)
      then .error (-EINVAL)
      else .ok
        { outer_ipv4 := (layer_families
            (layer_ipv matcher.match_criteria K.DR_MATCHER_CRITERIA_OUTER matcher.mask.outer)
            (layer_present matcher.match_criteria K.DR_MATCHER_CRITERIA_OUTER
              matcher.mask.outer)).1
          outer_ipv6 := (layer_families
            (layer_ipv matcher.match_criteria K.DR_MATCHER_CRITERIA_OUTER matcher.mask.outer)
            (layer_present matcher.match_criteria K.DR_MATCHER_CRITERIA_OUTER
              matcher.mask.outer)).2
          inner_ipv4 := (layer_families
            (layer_ipv matcher.match_criteria K.DR_MATCHER_CRITERIA_INNER matcher.mask.inner)
            (layer_present matcher.match_criteria K.DR_MATCHER_CRITERIA_INNER
              matcher.mask.inner)).1
          inner_ipv6 := (layer_families
            (layer_ipv matcher.match_criteria K.DR_MATCHER_CRITERIA_INNER matcher.mask.inner)
            (layer_present matcher.match_criteria K.DR_MATCHER_CRITERIA_INNER
              matcher.mask.inner)).2 } := by
  unfold dr_matcher_get_mask_ip_versions layer_ipv layer_present layer_families
  by_cases ho : (matcher.match_criteria &&& K.DR_MATCHER_CRITERIA_OUTER != 0) = true <;>
    by_cases hi : (matcher.match_criteria &&& K.DR_MATCHER_CRITERIA_INNER != 0) = true <;>
    simp only [ho, hi, if_true, if_false] <;>
    split_ifs <;> rfl

/-- The layer rule of C10 for the values read on one layer. -/
theorem layer_families_spec (ipv : Nat) (b : Bool) (P : Prop) (hb : b = true ↔ P) :
    (((layer_families ipv b).1 = true ∧ (layer_families ipv b).2 = true) ↔ ipv = 0xf) ∧
    (ipv ≠ 0xf → (((layer_families ipv b).1 = false ∧ (layer_families ipv b).2 = true) ↔
      (ipv = 6 ∨ P))) ∧
    (ipv ≠ 0xf → ¬ (ipv = 6 ∨ P) →
      (layer_families ipv b).1 = true ∧ (layer_families ipv b).2 = false) ∧
    ((layer_families ipv b).1 = true ∨ (layer_families ipv b).2 = true) := by
  unfold layer_families
  by_cases h15 : ipv = 15
  · subst h15; simp
  · by_cases h6 : ipv = 6
    · subst h6; simp
    · cases b
      · have hP : ¬ P := fun hp => by simpa using hb.mpr hp
        simp [h15, h6, hP]
      · have hP : P := hb.mp rfl
        simp [h15, h6, hP]

/-- C10: when `dr_matcher_get_mask_ip_versions` succeeds then, for the outer
and for the inner layer independently: on an active layer both families are
selected iff `ip_version` is `0xf`; otherwise IPv6 alone iff `ip_version` is 6
or an IPv6-only field of the layer is nonzero; otherwise IPv4 alone. A layer
whose criteria bit is not set gets IPv4 alone. At least one family is
selected for each layer. -/
theorem ip_versions_selected (K : dr_hdr) (matcher : mlx5dr_matcher) (v : mask_ip_versions)
    (h : dr_matcher_get_mask_ip_versions K matcher = .ok v) :
    (matcher.match_criteria &&& K.DR_MATCHER_CRITERIA_OUTER ≠ 0 →
      ((v.outer_ipv4 = true ∧ v.outer_ipv6 = true) ↔ matcher.mask.outer.ip_version = 0xf) ∧
      (matcher.mask.outer.ip_version ≠ 0xf →
        ((v.outer_ipv4 = false ∧ v.outer_ipv6 = true) ↔
          (matcher.mask.outer.ip_version = 6 ∨ ipv6_only_fields_present matcher.mask.outer))) ∧
      (matcher.mask.outer.ip_version ≠ 0xf →
        ¬ (matcher.mask.outer.ip_version = 6 ∨ ipv6_only_fields_present matcher.mask.outer) →
        v.outer_ipv4 = true ∧ v.outer_ipv6 = false)) ∧
    (matcher.match_criteria &&& K.DR_MATCHER_CRITERIA_OUTER = 0 →
      v.outer_ipv4 = true ∧ v.outer_ipv6 = false) ∧
    (matcher.match_criteria &&& K.DR_MATCHER_CRITERIA_INNER ≠ 0 →
      ((v.inner_ipv4 = true ∧ v.inner_ipv6 = true) ↔ matcher.mask.inner.ip_version = 0xf) ∧
      (matcher.mask.inner.ip_version ≠ 0xf →
        ((v.inner_ipv4 = false ∧ v.inner_ipv6 = true) ↔
          (matcher.mask.inner.ip_version = 6 ∨ ipv6_only_fields_present matcher.mask.inner))) ∧
      (matcher.mask.inner.ip_version ≠ 0xf →
        ¬ (matcher.mask.inner.ip_version = 6 ∨ ipv6_only_fields_present matcher.mask.inner) →
        v.inner_ipv4 = true ∧ v.inner_ipv6 = false)) ∧
    (matcher.match_criteria &&& K.DR_MATCHER_CRITERIA_INNER = 0 →
      v.inner_ipv4 = true ∧ v.inner_ipv6 = false) ∧
    (v.outer_ipv4 = true ∨ v.outer_ipv6 = true) ∧
    (v.inner_ipv4 = true ∨ v.inner_ipv6 = true) := by
  rw [get_versions_eq] at h
  split_ifs at h with herr
  simp only [Except.ok.injEq] at h
  subst h
  have so := layer_families_spec
    (layer_ipv matcher.match_criteria K.DR_MATCHER_CRITERIA_OUTER matcher.mask.outer)
    (layer_present matcher.match_criteria K.DR_MATCHER_CRITERIA_OUTER matcher.mask.outer)
  have si := layer_families_spec
    (layer_ipv matcher.match_criteria K.DR_MATCHER_CRITERIA_INNER matcher.mask.inner)
    (layer_present matcher.match_criteria K.DR_MATCHER_CRITERIA_INNER matcher.mask.inner)
  refine ⟨?_, ?_, ?_, ?_, ?_, ?_⟩
  · intro ha
    have e1 : layer_ipv matcher.match_criteria K.DR_MATCHER_CRITERIA_OUTER matcher.mask.outer =
        matcher.mask.outer.ip_version := by simp [layer_ipv, ha]
    have e2 : layer_present matcher.match_criteria K.DR_MATCHER_CRITERIA_OUTER
        matcher.mask.outer = dr_mask_is_ipv6_only_match_set matcher.mask.outer := by
      simp [layer_present, ha]
    rw [e1, e2] at so ⊢
    have := so _ (ipv6_only_iff matcher.mask.outer)
    exact ⟨this.1, this.2.1, this.2.2.1⟩
  · intro ha
    have e1 : layer_ipv matcher.match_criteria K.DR_MATCHER_CRITERIA_OUTER matcher.mask.outer =
        0 := by simp [layer_ipv, ha]
    have e2 : layer_present matcher.match_criteria K.DR_MATCHER_CRITERIA_OUTER
        matcher.mask.outer = false := by simp [layer_present, ha]
    rw [e1, e2]
    exact ⟨rfl, rfl⟩
  · intro ha
    have e1 : layer_ipv matcher.match_criteria K.DR_MATCHER_CRITERIA_INNER matcher.mask.inner =
        matcher.mask.inner.ip_version := by simp [layer_ipv, ha]
    have e2 : layer_present matcher.match_criteria K.DR_MATCHER_CRITERIA_INNER
        matcher.mask.inner = dr_mask_is_ipv6_only_match_set matcher.mask.inner := by
      simp [layer_present, ha]
    rw [e1, e2] at si ⊢
    have := si _ (ipv6_only_iff matcher.mask.inner)
    exact ⟨this.1, this.2.1, this.2.2.1⟩
  · intro ha
    have e1 : layer_ipv matcher.match_criteria K.DR_MATCHER_CRITERIA_INNER matcher.mask.inner =
        0 := by simp [layer_ipv, ha]
    have e2 : layer_present matcher.match_criteria K.DR_MATCHER_CRITERIA_INNER
        matcher.mask.inner = false := by simp [layer_present, ha]
    rw [e1, e2]
    exact ⟨rfl, rfl⟩
  · exact (so _ Iff.rfl).2.2.2
  · exact (si _ Iff.rfl).2.2.2

/-- C10, witness: for `ex_wild_outer_v6_inner` the check succeeds and selects
both families for the outer layer and IPv6 alone for the inner layer. -/
theorem ip_versions_selected_witness :
    dr_matcher_get_mask_ip_versions hdr_upstream ex_wild_outer_v6_inner =
      .ok { outer_ipv4 := true, outer_ipv6 := true, inner_ipv4 := false, inner_ipv6 := true } ∧
    (((true = true ∧ true = true) ↔ ex_wild_outer_v6_inner.mask.outer.ip_version = 0xf) ∧
      (ex_wild_outer_v6_inner.mask.outer.ip_version ≠ 0xf →
        ((true = false ∧ true = true) ↔
          (ex_wild_outer_v6_inner.mask.outer.ip_version = 6 ∨
            ipv6_only_fields_present ex_wild_outer_v6_inner.mask.outer))) ∧
      (ex_wild_outer_v6_inner.mask.outer.ip_version ≠ 0xf →
        ¬ (ex_wild_outer_v6_inner.mask.outer.ip_version = 6 ∨
            ipv6_only_fields_present ex_wild_outer_v6_inner.mask.outer) →
        true = true ∧ true = false)) :=
  ⟨rfl,
   (ip_versions_selected hdr_upstream ex_wild_outer_v6_inner
     { outer_ipv4 := true, outer_ipv6 := true, inner_ipv4 := false, inner_ipv6 := true }
     rfl).1 (by decide)⟩

/-! ## Views of the template selector -/

theorem seqs_cons_run (ops : ste_ops) (dmn : mlx5dr_domain) (rx : Bool) (p : sel_prog)
    (ps : List sel_prog) (s : sel_state) :
    (sel_prog.seqs (p :: ps)).run ops dmn rx s =
      (sel_prog.seqs ps).run ops dmn rx (p.run ops dmn rx s) := rfl

theorem seqs_nil_run (ops : ste_ops) (dmn : mlx5dr_domain) (rx : Bool) (s : sel_state) :
    (sel_prog.seqs []).run ops dmn rx s = s := rfl

theorem outer_prog_run (K : dr_hdr) (ops : ste_ops) (dmn : mlx5dr_domain) (rx : Bool)
    (outer_ipv : mlx5dr_ipv) (s : sel_state) :
    dr_matcher_set_ste_builders_outer K ops dmn rx outer_ipv s =
      (outer_prog K dmn outer_ipv).run ops dmn rx s := by
  unfold dr_matcher_set_ste_builders_outer outer_prog
  lift_lets
  extract_lets inner s1 s2 s3 s4 s5 s6 s7 a1 a2 a3 b1 b2 s8 g1 g2 s9 s10 s11 s12 s13 s14
  rw [seqs_cons_run]; change _ = sel_prog.run ops dmn rx _ s1; clear_value s1
  rw [seqs_cons_run]; change _ = sel_prog.run ops dmn rx _ s2; clear_value s2
  rw [seqs_cons_run]; change _ = sel_prog.run ops dmn rx _ s3; clear_value s3
  rw [seqs_cons_run]; change _ = sel_prog.run ops dmn rx _ s4; clear_value s4
  rw [seqs_cons_run]; change _ = sel_prog.run ops dmn rx _ s5; clear_value s5
  rw [seqs_cons_run]; change _ = sel_prog.run ops dmn rx _ s6; clear_value s6
  rw [seqs_cons_run]; change _ = sel_prog.run ops dmn rx _ s7; clear_value s7
  rw [seqs_cons_run]; change _ = sel_prog.run ops dmn rx _ s8; clear_value s8
  rw [seqs_cons_run]; change _ = sel_prog.run ops dmn rx _ s9; clear_value s9
  rw [seqs_cons_run]; change _ = sel_prog.run ops dmn rx _ s10; clear_value s10
  rw [seqs_cons_run]; change _ = sel_prog.run ops dmn rx _ s11; clear_value s11
  rw [seqs_cons_run]; change _ = sel_prog.run ops dmn rx _ s12; clear_value s12
  rw [seqs_cons_run]; change _ = sel_prog.run ops dmn rx _ s13; clear_value s13
  rw [seqs_cons_run]; change _ = sel_prog.run ops dmn rx _ s14; clear_value s14
  rfl

theorem inner_prog_run (K : dr_hdr) (ops : ste_ops) (dmn : mlx5dr_domain) (rx : Bool)
    (inner_ipv : mlx5dr_ipv) (s : sel_state) :
    dr_matcher_set_ste_builders_inner K ops dmn rx inner_ipv s =
      (inner_prog K dmn inner_ipv).run ops dmn rx s := by
  unfold dr_matcher_set_ste_builders_inner inner_prog
  lift_lets
  extract_lets inner s1 s2 s3 s4 a1 a2 a3 b1 b2 s5 s6 s7 s8
  rw [seqs_cons_run]; change _ = sel_prog.run ops dmn rx _ s1; clear_value s1
  rw [seqs_cons_run]; change _ = sel_prog.run ops dmn rx _ s2; clear_value s2
  rw [seqs_cons_run]; change _ = sel_prog.run ops dmn rx _ s3; clear_value s3
  rw [seqs_cons_run]; change _ = sel_prog.run ops dmn rx _ s4; clear_value s4
  rw [seqs_cons_run]; change _ = sel_prog.run ops dmn rx _ s5; clear_value s5
  rw [seqs_cons_run]; change _ = sel_prog.run ops dmn rx _ s6; clear_value s6
  rw [seqs_cons_run]; change _ = sel_prog.run ops dmn rx _ s7; clear_value s7
  rw [seqs_cons_run]; change _ = sel_prog.run ops dmn rx _ s8; clear_value s8
  rfl

theorem block_run (ops : ste_ops) (dmn : mlx5dr_domain) (rx : Bool) (c : Bool)
    (p : sel_prog) (s : sel_state) :
    (sel_prog.ite (fun _ => c) p .skip).run ops dmn rx s =
      if c then p.run ops dmn rx s else s := rfl

theorem set_ste_builders_run_eq (K : dr_hdr) (ops : ste_ops) (dmn : mlx5dr_domain)
    (matcher : mlx5dr_matcher) (rx : Bool) (sb : Nat → mlx5dr_ste_build)
    (outer_ipv inner_ipv : mlx5dr_ipv) :
    dr_matcher_set_ste_builders_run K ops dmn matcher rx sb outer_ipv inner_ipv =
      (sel_fallback K ops matcher rx (sel_wire_opt K dmn matcher rx)
        (sel_pre K ops dmn matcher rx sb outer_ipv inner_ipv),
       sel_wire_opt K dmn matcher rx) := by
  unfold dr_matcher_set_ste_builders_run
  lift_lets
  extract_lets mask0 opt misc0 mask1 allow s0 s1 s2 f1 f2 s3 s4
  have h0 : sel_pre K ops dmn matcher rx sb outer_ipv inner_ipv =
      (full_prog K dmn matcher.match_criteria outer_ipv inner_ipv).run ops dmn rx s0 := rfl
  have h1 : s1 = (sel_prog.ite (fun _ => matcher.match_criteria &&&
        (K.DR_MATCHER_CRITERIA_OUTER ||| K.DR_MATCHER_CRITERIA_MISC |||
         K.DR_MATCHER_CRITERIA_MISC2 ||| K.DR_MATCHER_CRITERIA_MISC3) != 0)
      (outer_prog K dmn outer_ipv) .skip).run ops dmn rx s0 := by
    rw [block_run, ← outer_prog_run]
  have h2 : s2 = (sel_prog.ite (fun _ => matcher.match_criteria &&&
        (K.DR_MATCHER_CRITERIA_INNER ||| K.DR_MATCHER_CRITERIA_MISC |||
         K.DR_MATCHER_CRITERIA_MISC2 ||| K.DR_MATCHER_CRITERIA_MISC3) != 0)
      (inner_prog K dmn inner_ipv) .skip).run ops dmn rx s1 := by
    rw [block_run, ← inner_prog_run]
  have h3 : sel_pre K ops dmn matcher rx sb outer_ipv inner_ipv = s3 := by
    rw [h0]; unfold full_prog
    rw [seqs_cons_run, ← h1]; clear_value s1
    rw [seqs_cons_run, ← h2]; clear_value s2
    rfl
  rw [h3]
  rfl

/-! ### Properties preserved by a statement tree -/

theorem keeps_run (ops : ste_ops) (dmn : mlx5dr_domain) (rx : Bool) (I : sel_state → Prop)
    (p : sel_prog) (h : p.keeps ops dmn rx I) (s : sel_state) (hs : I s) :
    I (p.run ops dmn rx s) := by
  unfold sel_prog.keeps at h; exact h s hs

theorem keeps_skip (ops : ste_ops) (dmn : mlx5dr_domain) (rx : Bool) (I : sel_state → Prop) :
    sel_prog.skip.keeps ops dmn rx I := by
  unfold sel_prog.keeps; exact fun _ h => h

theorem keeps_call (ops : ste_ops) (dmn : mlx5dr_domain) (rx : Bool) (I : sel_state → Prop)
    (b : ste_build_id) (inner : Bool)
    (h : ∀ s, I s → I (s.build ops dmn rx b inner)) :
    (sel_prog.call b inner).keeps ops dmn rx I := by
  unfold sel_prog.keeps; exact h

theorem keeps_seq (ops : ste_ops) (dmn : mlx5dr_domain) (rx : Bool) (I : sel_state → Prop)
    (p q : sel_prog) (hp : p.keeps ops dmn rx I) (hq : q.keeps ops dmn rx I) :
    (sel_prog.seq p q).keeps ops dmn rx I := by
  unfold sel_prog.keeps at *; exact fun s h => hq _ (hp s h)

theorem keeps_ite (ops : ste_ops) (dmn : mlx5dr_domain) (rx : Bool) (I : sel_state → Prop)
    (c : mlx5dr_match_param → Bool) (p q : sel_prog)
    (hp : ∀ s, I s → c s.mask = true → I (p.run ops dmn rx s))
    (hq : q.keeps ops dmn rx I) :
    (sel_prog.ite c p q).keeps ops dmn rx I := by
  unfold sel_prog.keeps at *
  intro s h
  show I (if c s.mask then p.run ops dmn rx s else q.run ops dmn rx s)
  split_ifs with hc
  · exact hp s h hc
  · exact hq s h

theorem keeps_ite_dead (ops : ste_ops) (dmn : mlx5dr_domain) (rx : Bool)
    (I : sel_state → Prop) (c : mlx5dr_match_param → Bool) (p q : sel_prog)
    (hc : ∀ s, I s → c s.mask = false) (hq : q.keeps ops dmn rx I) :
    (sel_prog.ite c p q).keeps ops dmn rx I :=
  keeps_ite ops dmn rx I c p q (fun s h h' => by rw [hc s h] at h'; cases h') hq

theorem keeps_block (ops : ste_ops) (dmn : mlx5dr_domain) (rx : Bool) (I : sel_state → Prop)
    (c : mlx5dr_match_param → Bool) (p q : sel_prog)
    (hp : p.keeps ops dmn rx I) (hq : q.keeps ops dmn rx I) :
    (sel_prog.ite c p q).keeps ops dmn rx I :=
  keeps_ite ops dmn rx I c p q (fun s h _ => by unfold sel_prog.keeps at hp; exact hp s h) hq

theorem keeps_when (ops : ste_ops) (dmn : mlx5dr_domain) (rx : Bool) (I : sel_state → Prop)
    (c : mlx5dr_match_param → Bool) (b : ste_build_id) (inner : Bool)
    (h : ∀ s, I s → c s.mask = true → I (s.build ops dmn rx b inner)) :
    (sel_prog.when c b inner).keeps ops dmn rx I :=
  keeps_ite ops dmn rx I c _ _ h (keeps_skip ops dmn rx I)

theorem keeps_seqs_nil (ops : ste_ops) (dmn : mlx5dr_domain) (rx : Bool)
    (I : sel_state → Prop) : (sel_prog.seqs []).keeps ops dmn rx I := by
  unfold sel_prog.keeps; exact fun _ h => h

theorem keeps_seqs_cons (ops : ste_ops) (dmn : mlx5dr_domain) (rx : Bool)
    (I : sel_state → Prop) (p : sel_prog) (ps : List sel_prog)
    (hp : p.keeps ops dmn rx I) (hq : (sel_prog.seqs ps).keeps ops dmn rx I) :
    (sel_prog.seqs (p :: ps)).keeps ops dmn rx I := by
  unfold sel_prog.keeps at *; exact fun s h => hq _ (hp s h)

/-- A property preserved by every builder call except possibly the always-match
builder is preserved by the three blocks of the selector. -/
theorem full_prog_keeps (K : dr_hdr) (ops : ste_ops) (dmn : mlx5dr_domain) (rx : Bool)
    (I : sel_state → Prop) (match_criteria : Nat) (outer_ipv inner_ipv : mlx5dr_ipv)
    (h : ∀ b inner s, b ≠ ste_build_id.empty_always_hit → I s →
      I (s.build ops dmn rx b inner)) :
    (full_prog K dmn match_criteria outer_ipv inner_ipv).keeps ops dmn rx I := by
  unfold full_prog outer_prog inner_prog
  repeat' first
    | apply keeps_seqs_nil
    | apply keeps_seqs_cons
    | apply keeps_skip
    | apply keeps_seq
    | apply keeps_when
    | apply keeps_call
    | apply keeps_block
  all_goals first
    | exact fun s hs _ => h _ _ s (by decide) hs
    | exact fun s hs => h _ _ s (by decide) hs

/-! ### The run does not depend on the builder array it writes to -/

theorem run_congr (ops : ste_ops) (dmn : mlx5dr_domain) (rx : Bool) (p : sel_prog) :
    ∀ s s' : sel_state, s.mask = s'.mask → s.idx = s'.idx → s.calls = s'.calls →
      (p.run ops dmn rx s).mask = (p.run ops dmn rx s').mask ∧
      (p.run ops dmn rx s).idx = (p.run ops dmn rx s').idx ∧
      (p.run ops dmn rx s).calls = (p.run ops dmn rx s').calls := by
  induction p with
  | skip => intro s s' h1 h2 h3; exact ⟨h1, h2, h3⟩
  | call b inner =>
    intro s s' h1 h2 h3
    simp only [sel_prog.run, sel_state.build, h1, h2, h3, and_self]
  | seq p q ihp ihq =>
    intro s s' h1 h2 h3
    obtain ⟨a, b, c⟩ := ihp s s' h1 h2 h3
    exact ihq _ _ a b c
  | ite c p q ihp ihq =>
    intro s s' h1 h2 h3
    simp only [sel_prog.run, h1]
    split_ifs
    · exact ihp s s' h1 h2 h3
    · exact ihq s s' h1 h2 h3

theorem sel_final_eq (K : dr_hdr) (ops : ste_ops) (dmn : mlx5dr_domain)
    (matcher : mlx5dr_matcher) (nic_tbl : mlx5dr_table_rx_tx) (sb : Nat → mlx5dr_ste_build)
    (o i : mlx5dr_ipv) :
    sel_final K ops dmn matcher nic_tbl sb o i =
      sel_fallback K ops matcher (nic_tbl.nic_dmn_type == DR_DOMAIN_NIC_TYPE_RX)
        (sel_wire_opt K dmn matcher (nic_tbl.nic_dmn_type == DR_DOMAIN_NIC_TYPE_RX))
        (sel_pre K ops dmn matcher (nic_tbl.nic_dmn_type == DR_DOMAIN_NIC_TYPE_RX) sb o i) := by
  unfold sel_final; rw [set_ste_builders_run_eq]

theorem sel_pre_congr (K : dr_hdr) (ops : ste_ops) (dmn : mlx5dr_domain)
    (matcher : mlx5dr_matcher) (rx : Bool) (sb sb' : Nat → mlx5dr_ste_build)
    (o i : mlx5dr_ipv) :
    (sel_pre K ops dmn matcher rx sb o i).mask = (sel_pre K ops dmn matcher rx sb' o i).mask ∧
    (sel_pre K ops dmn matcher rx sb o i).idx = (sel_pre K ops dmn matcher rx sb' o i).idx ∧
    (sel_pre K ops dmn matcher rx sb o i).calls = (sel_pre K ops dmn matcher rx sb' o i).calls :=
  run_congr ops dmn rx _ _ _ rfl rfl rfl

theorem sel_final_congr (K : dr_hdr) (ops : ste_ops) (dmn : mlx5dr_domain)
    (matcher : mlx5dr_matcher) (nic_tbl : mlx5dr_table_rx_tx) (sb sb' : Nat → mlx5dr_ste_build)
    (o i : mlx5dr_ipv) :
    (sel_final K ops dmn matcher nic_tbl sb o i).mask =
      (sel_final K ops dmn matcher nic_tbl sb' o i).mask ∧
    (sel_final K ops dmn matcher nic_tbl sb o i).idx =
      (sel_final K ops dmn matcher nic_tbl sb' o i).idx ∧
    (sel_final K ops dmn matcher nic_tbl sb o i).calls =
      (sel_final K ops dmn matcher nic_tbl sb' o i).calls := by
  obtain ⟨h1, h2, h3⟩ := sel_pre_congr K ops dmn matcher
    (nic_tbl.nic_dmn_type == DR_DOMAIN_NIC_TYPE_RX) sb sb' o i
  rw [sel_final_eq, sel_final_eq]
  unfold sel_fallback
  rw [h2]
  split_ifs
  · simp only [sel_state.build_empty, h1, h2, h3, and_self]
  · exact ⟨h1, h2, h3⟩

/-! ### Return code and state left by one run -/

theorem set_ste_builders_ret (K : dr_hdr) (ops : ste_ops) (dmn : mlx5dr_domain)
    (matcher : mlx5dr_matcher) (nic_tbl : mlx5dr_table_rx_tx)
    (nic_matcher : mlx5dr_matcher_rx_tx) (o i : mlx5dr_ipv) :
    (dr_matcher_set_ste_builders K ops dmn matcher nic_tbl nic_matcher o i).1 =
      if ops.mlx5dr_ste_build_pre_check dmn matcher.match_criteria matcher.mask ≠ 0 then
        ops.mlx5dr_ste_build_pre_check dmn matcher.match_criteria matcher.mask
      else if (sel_final K ops dmn matcher nic_tbl
          (nic_matcher.ste_builder_arr o i) o i).idx = 0 then -EINVAL
      else if dr_matcher_is_mask_consumed (sel_final K ops dmn matcher nic_tbl
          (nic_matcher.ste_builder_arr o i) o i).mask = false then -EOPNOTSUPP
      else 0 := by
  unfold dr_matcher_set_ste_builders sel_final
  simp only [dr_matcher_set_large_ste_builders, EOPNOTSUPP, bne_iff_ne, ne_eq, beq_iff_eq,
    Bool.not_eq_true']
  split_ifs <;> simp_all

theorem set_ste_builders_sel_runs (K : dr_hdr) (ops : ste_ops) (dmn : mlx5dr_domain)
    (matcher : mlx5dr_matcher) (nic_tbl : mlx5dr_table_rx_tx)
    (nic_matcher : mlx5dr_matcher_rx_tx) (o i : mlx5dr_ipv) :
    (dr_matcher_set_ste_builders K ops dmn matcher nic_tbl nic_matcher o i).2.sel_runs =
      nic_matcher.sel_runs ++ [(o, i)] := by
  unfold dr_matcher_set_ste_builders
  simp only [dr_matcher_set_large_ste_builders, EOPNOTSUPP]
  split_ifs <;> simp_all

theorem set_ste_builders_state (K : dr_hdr) (ops : ste_ops) (dmn : mlx5dr_domain)
    (matcher : mlx5dr_matcher) (nic_tbl : mlx5dr_table_rx_tx)
    (nic_matcher : mlx5dr_matcher_rx_tx) (o i : mlx5dr_ipv) :
    (dr_matcher_set_ste_builders K ops dmn matcher nic_tbl nic_matcher o i).2.ste_builder =
      (if (dr_matcher_set_ste_builders K ops dmn matcher nic_tbl nic_matcher o i).1 = 0 then
        some (o, i) else nic_matcher.ste_builder) ∧
    (dr_matcher_set_ste_builders K ops dmn matcher nic_tbl nic_matcher o i).2.num_of_builders_arr =
      (if (dr_matcher_set_ste_builders K ops dmn matcher nic_tbl nic_matcher o i).1 = 0 then
        fun o' i' => if o' = o ∧ i' = i then
          (sel_final K ops dmn matcher nic_tbl (nic_matcher.ste_builder_arr o i) o i).idx
          else nic_matcher.num_of_builders_arr o' i'
       else nic_matcher.num_of_builders_arr) := by
  unfold dr_matcher_set_ste_builders sel_final
  simp only [dr_matcher_set_large_ste_builders, EOPNOTSUPP, EINVAL]
  split_ifs <;> simp_all

/-! ## Running the selector for every family combination -/

theorem set_all_eq (K : dr_hdr) (ops : ste_ops) (dmn : mlx5dr_domain)
    (matcher : mlx5dr_matcher) (nic_tbl : mlx5dr_table_rx_tx)
    (nic_matcher : mlx5dr_matcher_rx_tx) (v : mask_ip_versions)
    (hv : dr_matcher_get_mask_ip_versions K matcher = .ok v) :
    dr_matcher_set_all_ste_builders K ops dmn matcher nic_tbl nic_matcher =
      (if (set_all_runs K ops dmn matcher nic_tbl nic_matcher v).ste_builder.isNone then -EINVAL
       else 0, set_all_runs K ops dmn matcher nic_tbl nic_matcher v) := by
  unfold dr_matcher_set_all_ste_builders
  rw [hv]
  show (if (set_all_runs K ops dmn matcher nic_tbl nic_matcher v).ste_builder.isNone then
      (-EINVAL, set_all_runs K ops dmn matcher nic_tbl nic_matcher v)
    else (0, set_all_runs K ops dmn matcher nic_tbl nic_matcher v)) = _
  split_ifs <;> rfl

theorem set_all_step_sel_runs (K : dr_hdr) (ops : ste_ops) (dmn : mlx5dr_domain)
    (matcher : mlx5dr_matcher) (nic_tbl : mlx5dr_table_rx_tx) (b : Bool) (o i : mlx5dr_ipv)
    (nic_matcher : mlx5dr_matcher_rx_tx) :
    (set_all_step K ops dmn matcher nic_tbl b o i nic_matcher).sel_runs =
      nic_matcher.sel_runs ++ (if b then [(o, i)] else []) := by
  unfold set_all_step
  cases b
  · simp
  · simp [set_ste_builders_sel_runs]

theorem set_ste_builders_ok_iff (K : dr_hdr) (ops : ste_ops) (dmn : mlx5dr_domain)
    (matcher : mlx5dr_matcher) (nic_tbl : mlx5dr_table_rx_tx)
    (nic_matcher : mlx5dr_matcher_rx_tx) (o i : mlx5dr_ipv) :
    (dr_matcher_set_ste_builders K ops dmn matcher nic_tbl nic_matcher o i).1 = 0 ↔
      sel_run_ok K ops dmn matcher nic_tbl o i = true := by
  obtain ⟨h1, h2, -⟩ := sel_final_congr K ops dmn matcher nic_tbl
    (nic_matcher.ste_builder_arr o i) (fun _ => {}) o i
  rw [set_ste_builders_ret, h1, h2]
  unfold sel_run_ok
  have hE : (-EINVAL : Int) ≠ 0 := by decide
  have hO : (-EOPNOTSUPP : Int) ≠ 0 := by decide
  split_ifs with a b c <;> simp_all

theorem set_all_step_ste_builder (K : dr_hdr) (ops : ste_ops) (dmn : mlx5dr_domain)
    (matcher : mlx5dr_matcher) (nic_tbl : mlx5dr_table_rx_tx) (b : Bool) (o i : mlx5dr_ipv)
    (nic_matcher : mlx5dr_matcher_rx_tx) :
    (set_all_step K ops dmn matcher nic_tbl b o i nic_matcher).ste_builder.isSome =
      (nic_matcher.ste_builder.isSome || (b && sel_run_ok K ops dmn matcher nic_tbl o i)) := by
  unfold set_all_step
  cases b
  · simp
  · simp only [if_true, Bool.true_and, (set_ste_builders_state K ops dmn matcher nic_tbl
      nic_matcher o i).1, set_ste_builders_ok_iff]
    cases h : sel_run_ok K ops dmn matcher nic_tbl o i <;> simp

/-! ### Builder count and the call log -/

theorem sel_pre_idx_len (K : dr_hdr) (ops : ste_ops) (dmn : mlx5dr_domain)
    (matcher : mlx5dr_matcher) (rx : Bool) (sb : Nat → mlx5dr_ste_build) (o i : mlx5dr_ipv) :
    (sel_pre K ops dmn matcher rx sb o i).idx = (sel_pre K ops dmn matcher rx sb o i).calls.length :=
  keeps_run ops dmn rx (fun s => s.idx = s.calls.length) _
    (full_prog_keeps K ops dmn rx _ matcher.match_criteria o i
      (fun b inner s _ hs => by simp [sel_state.build, hs])) _ rfl

theorem sel_final_idx_len (K : dr_hdr) (ops : ste_ops) (dmn : mlx5dr_domain)
    (matcher : mlx5dr_matcher) (nic_tbl : mlx5dr_table_rx_tx) (sb : Nat → mlx5dr_ste_build)
    (o i : mlx5dr_ipv) :
    (sel_final K ops dmn matcher nic_tbl sb o i).idx =
      (sel_final K ops dmn matcher nic_tbl sb o i).calls.length := by
  rw [sel_final_eq]
  unfold sel_fallback
  split_ifs
  · simp [sel_state.build_empty, sel_pre_idx_len]
  · exact sel_pre_idx_len _ _ _ _ _ _ _ _

theorem consumed_iff (mask : mlx5dr_match_param) :
    dr_matcher_is_mask_consumed mask = true ↔ mask = {} := by
  unfold dr_matcher_is_mask_consumed; exact beq_iff_eq

/-- C11: when the IP-version check yields the selection `v`, the selector
entries logged by `dr_matcher_set_all_ste_builders` are those logged before
followed by the product of the families selected for the outer layer and of
those selected for the inner layer, each pair once; a layer whose criteria bit
is set and whose `ip_version` is the wildcard `0xf` contributes both
families. -/
theorem set_all_runs_each_pair_once (K : dr_hdr) (ops : ste_ops) (dmn : mlx5dr_domain)
    (matcher : mlx5dr_matcher) (nic_tbl : mlx5dr_table_rx_tx)
    (nic_matcher : mlx5dr_matcher_rx_tx) (v : mask_ip_versions)
    (hv : dr_matcher_get_mask_ip_versions K matcher = .ok v) :
    (dr_matcher_set_all_ste_builders K ops dmn matcher nic_tbl nic_matcher).2.sel_runs =
      nic_matcher.sel_runs ++ family_pairs v ∧
    (family_pairs v).Nodup ∧
    (matcher.match_criteria &&& K.DR_MATCHER_CRITERIA_OUTER ≠ 0 →
      matcher.mask.outer.ip_version = 0xf →
      ipv_families v.outer_ipv4 v.outer_ipv6 = [DR_RULE_IPV4, DR_RULE_IPV6]) ∧
    (matcher.match_criteria &&& K.DR_MATCHER_CRITERIA_INNER ≠ 0 →
      matcher.mask.inner.ip_version = 0xf →
      ipv_families v.inner_ipv4 v.inner_ipv6 = [DR_RULE_IPV4, DR_RULE_IPV6]) := by
  refine ⟨?_, ?_, ?_, ?_⟩
  · rw [set_all_eq K ops dmn matcher nic_tbl nic_matcher v hv]
    simp only [set_all_runs, set_all_step_sel_runs]
    rcases v with ⟨a, b, c, d⟩
    cases a <;> cases b <;> cases c <;> cases d <;>
      simp [family_pairs, ipv_families, List.product]
  · rcases v with ⟨a, b, c, d⟩
    cases a <;> cases b <;> cases c <;> cases d <;> decide
  · intro hc h15
    rw [get_versions_eq] at hv
    split_ifs at hv
    simp only [Except.ok.injEq] at hv
    subst hv
    simp [layer_ipv, hc, h15, layer_families, ipv_families]
  · intro hc h15
    rw [get_versions_eq] at hv
    split_ifs at hv
    simp only [Except.ok.injEq] at hv
    subst hv
    simp [layer_ipv, hc, h15, layer_families, ipv_families]

theorem set_all_runs_each_pair_once_witness :
    dr_matcher_get_mask_ip_versions hdr_upstream ex_wild_outer_v6_inner = .ok ex_sel_wild_v6 ∧
    family_pairs ex_sel_wild_v6 = [(DR_RULE_IPV4, DR_RULE_IPV6), (DR_RULE_IPV6, DR_RULE_IPV6)] ∧
    (dr_matcher_set_all_ste_builders hdr_upstream ops_idle
      (table_init MLX5DR_DOMAIN_TYPE_NIC_RX).dmn ex_wild_outer_v6_inner
      (table_init MLX5DR_DOMAIN_TYPE_NIC_RX).rx {}).2.sel_runs =
      [] ++ family_pairs ex_sel_wild_v6 :=
  ⟨rfl, by decide,
   (set_all_runs_each_pair_once hdr_upstream ops_idle
     (table_init MLX5DR_DOMAIN_TYPE_NIC_RX).dmn ex_wild_outer_v6_inner
     (table_init MLX5DR_DOMAIN_TYPE_NIC_RX).rx {} ex_sel_wild_v6 rfl).1⟩

theorem set_all_runs_ste_builder (K : dr_hdr) (ops : ste_ops) (dmn : mlx5dr_domain)
    (matcher : mlx5dr_matcher) (nic_tbl : mlx5dr_table_rx_tx)
    (nic_matcher : mlx5dr_matcher_rx_tx) (v : mask_ip_versions)
    (hz : nic_matcher.ste_builder = none) :
    (set_all_runs K ops dmn matcher nic_tbl nic_matcher v).ste_builder.isSome = true ↔
      ∃ p ∈ family_pairs v, sel_run_ok K ops dmn matcher nic_tbl p.1 p.2 = true := by
  simp only [set_all_runs, set_all_step_ste_builder, hz]
  rcases v with ⟨a, b, c, d⟩
  cases a <;> cases b <;> cases c <;> cases d <;>
    simp [family_pairs, ipv_families, List.product, or_assoc]

/-- C12: on a per-direction state without a current builder set and a mask
that passes the IP-version check with selection `v`,
`dr_matcher_set_all_ste_builders` returns 0 exactly when one of the attempted
family combinations yields a nonempty builder set that fully consumes the
working mask; one such combination suffices whatever the others do. A
combination does so exactly when its run of `dr_matcher_set_ste_builders`
returns 0. -/
theorem set_all_succeeds_iff_some_run_ok (K : dr_hdr) (ops : ste_ops) (dmn : mlx5dr_domain)
    (matcher : mlx5dr_matcher) (nic_tbl : mlx5dr_table_rx_tx)
    (nic_matcher : mlx5dr_matcher_rx_tx) (v : mask_ip_versions)
    (hv : dr_matcher_get_mask_ip_versions K matcher = .ok v)
    (hz : nic_matcher.ste_builder = none) :
    ((dr_matcher_set_all_ste_builders K ops dmn matcher nic_tbl nic_matcher).1 = 0 ↔
      ∃ p ∈ family_pairs v, sel_run_ok K ops dmn matcher nic_tbl p.1 p.2 = true) ∧
    (∀ p ∈ family_pairs v, sel_run_ok K ops dmn matcher nic_tbl p.1 p.2 = true →
      (dr_matcher_set_all_ste_builders K ops dmn matcher nic_tbl nic_matcher).1 = 0) ∧
    (∀ o i, sel_run_ok K ops dmn matcher nic_tbl o i = true ↔
      (dr_matcher_set_ste_builders K ops dmn matcher nic_tbl nic_matcher o i).1 = 0) := by
  have key : (dr_matcher_set_all_ste_builders K ops dmn matcher nic_tbl nic_matcher).1 = 0 ↔
      ∃ p ∈ family_pairs v, sel_run_ok K ops dmn matcher nic_tbl p.1 p.2 = true := by
    rw [← set_all_runs_ste_builder K ops dmn matcher nic_tbl nic_matcher v hz,
      set_all_eq K ops dmn matcher nic_tbl nic_matcher v hv]
    have hE : (-EINVAL : Int) ≠ 0 := by decide
    cases h : (set_all_runs K ops dmn matcher nic_tbl nic_matcher v).ste_builder <;> simp [hE]
  exact ⟨key, fun p hp hok => key.2 ⟨p, hp, hok⟩,
    fun o i => (set_ste_builders_ok_iff K ops dmn matcher nic_tbl nic_matcher o i).symm⟩

theorem set_all_succeeds_iff_some_run_ok_witness :
    dr_matcher_get_mask_ip_versions hdr_upstream ex_wild_v6_dst = .ok ex_sel_wild_outer ∧
    sel_run_ok hdr_upstream ops_clearing (table_init MLX5DR_DOMAIN_TYPE_NIC_RX).dmn
      ex_wild_v6_dst (table_init MLX5DR_DOMAIN_TYPE_NIC_RX).rx DR_RULE_IPV4 DR_RULE_IPV4 = false ∧
    sel_run_ok hdr_upstream ops_clearing (table_init MLX5DR_DOMAIN_TYPE_NIC_RX).dmn
      ex_wild_v6_dst (table_init MLX5DR_DOMAIN_TYPE_NIC_RX).rx DR_RULE_IPV6 DR_RULE_IPV4 = true ∧
    ((dr_matcher_set_all_ste_builders hdr_upstream ops_clearing
        (table_init MLX5DR_DOMAIN_TYPE_NIC_RX).dmn ex_wild_v6_dst
        (table_init MLX5DR_DOMAIN_TYPE_NIC_RX).rx {}).1 = 0 ↔
      ∃ p ∈ family_pairs ex_sel_wild_outer,
        sel_run_ok hdr_upstream ops_clearing (table_init MLX5DR_DOMAIN_TYPE_NIC_RX).dmn
          ex_wild_v6_dst (table_init MLX5DR_DOMAIN_TYPE_NIC_RX).rx p.1 p.2 = true) :=
  ⟨rfl, by set_option maxRecDepth 100000 in decide,
   by set_option maxRecDepth 100000 in decide,
   (set_all_succeeds_iff_some_run_ok hdr_upstream ops_clearing
     (table_init MLX5DR_DOMAIN_TYPE_NIC_RX).dmn ex_wild_v6_dst
     (table_init MLX5DR_DOMAIN_TYPE_NIC_RX).rx {} ex_sel_wild_outer rfl rfl).1⟩

/-- C15 (amended): `dr_matcher_set_all_ste_builders` returns either 0 or
`-EINVAL` and never `-EOPNOTSUPP`, and it returns `-EINVAL` when the
IP-version check fails. On a per-direction state without a current builder set
and a mask that passes the check with selection `v`, the selector is entered
for the family combinations of `v`, and the function returns `-EINVAL` exactly
when the run of `dr_matcher_set_ste_builders` fails for every one of them
(with whatever nonzero code: `-EOPNOTSUPP` for residual mask bits, `-EINVAL`
for zero builders, or the code of the pre-check); the state is then left
without a current builder set. Whether a run fails does not depend on the
per-direction state it starts from. -/
theorem set_all_error_is_einval (K : dr_hdr) (ops : ste_ops) (dmn : mlx5dr_domain)
    (matcher : mlx5dr_matcher) (nic_tbl : mlx5dr_table_rx_tx)
    (nic_matcher : mlx5dr_matcher_rx_tx) :
    ((dr_matcher_set_all_ste_builders K ops dmn matcher nic_tbl nic_matcher).1 = 0 ∨
      (dr_matcher_set_all_ste_builders K ops dmn matcher nic_tbl nic_matcher).1 = -EINVAL) ∧
    (dr_matcher_set_all_ste_builders K ops dmn matcher nic_tbl nic_matcher).1 ≠ -EOPNOTSUPP ∧
    (∀ e, dr_matcher_get_mask_ip_versions K matcher = .error e →
      (dr_matcher_set_all_ste_builders K ops dmn matcher nic_tbl nic_matcher).1 = -EINVAL) ∧
    (∀ v, dr_matcher_get_mask_ip_versions K matcher = .ok v →
      nic_matcher.ste_builder = none →
      (dr_matcher_set_all_ste_builders K ops dmn matcher nic_tbl nic_matcher).2.sel_runs =
        nic_matcher.sel_runs ++ family_pairs v ∧
      ((dr_matcher_set_all_ste_builders K ops dmn matcher nic_tbl nic_matcher).1 = -EINVAL ↔
        ∀ p ∈ family_pairs v,
          (dr_matcher_set_ste_builders K ops dmn matcher nic_tbl nic_matcher p.1 p.2).1 ≠ 0) ∧
      ((∀ p ∈ family_pairs v,
          (dr_matcher_set_ste_builders K ops dmn matcher nic_tbl nic_matcher p.1 p.2).1 ≠ 0) →
        (dr_matcher_set_all_ste_builders K ops dmn matcher nic_tbl
          nic_matcher).2.ste_builder = none)) ∧
    (∀ nic o i,
      (dr_matcher_set_ste_builders K ops dmn matcher nic_tbl nic o i).1 = 0 ↔
        (dr_matcher_set_ste_builders K ops dmn matcher nic_tbl nic_matcher o i).1 = 0) := by
  have hE : (-EINVAL : Int) ≠ 0 := by decide
  have hEO : (-EINVAL : Int) ≠ -EOPNOTSUPP := by decide
  have hO : (0 : Int) ≠ -EOPNOTSUPP := by decide
  have herr : ∀ e, dr_matcher_get_mask_ip_versions K matcher = .error e →
      (dr_matcher_set_all_ste_builders K ops dmn matcher nic_tbl nic_matcher).1 = -EINVAL := by
    intro e hv
    have he : e = -EINVAL := by
      rw [get_versions_eq] at hv
      split_ifs at hv
      simp only [Except.error.injEq] at hv
      exact hv.symm
    unfold dr_matcher_set_all_ste_builders
    rw [hv, he]
  have h : (dr_matcher_set_all_ste_builders K ops dmn matcher nic_tbl nic_matcher).1 = 0 ∨
      (dr_matcher_set_all_ste_builders K ops dmn matcher nic_tbl nic_matcher).1 = -EINVAL := by
    cases hv : dr_matcher_get_mask_ip_versions K matcher with
    | error e => exact Or.inr (herr e hv)
    | ok v =>
      rw [set_all_eq K ops dmn matcher nic_tbl nic_matcher v hv]
      by_cases hn : (set_all_runs K ops dmn matcher nic_tbl nic_matcher v).ste_builder.isNone
      · right; simp [hn]
      · left; simp [hn]
  refine ⟨h, ?_, herr, ?_, ?_⟩
  · rcases h with h | h <;> rw [h]
    · exact hO
    · exact hEO
  · intro v hv hz
    have hsome := set_all_runs_ste_builder K ops dmn matcher nic_tbl nic_matcher v hz
    have hall : (set_all_runs K ops dmn matcher nic_tbl nic_matcher v).ste_builder = none ↔
        ∀ p ∈ family_pairs v,
          (dr_matcher_set_ste_builders K ops dmn matcher nic_tbl nic_matcher p.1 p.2).1 ≠ 0 := by
      constructor
      · intro hnone p hp h0
        have hex := hsome.2 ⟨p, hp,
          (set_ste_builders_ok_iff K ops dmn matcher nic_tbl nic_matcher p.1 p.2).1 h0⟩
        rw [hnone] at hex
        cases hex
      · intro hfail
        cases hsb : (set_all_runs K ops dmn matcher nic_tbl nic_matcher v).ste_builder with
        | none => rfl
        | some q =>
          rw [hsb] at hsome
          obtain ⟨p, hp, hok⟩ := hsome.1 rfl
          exact absurd
            ((set_ste_builders_ok_iff K ops dmn matcher nic_tbl nic_matcher p.1 p.2).2 hok)
            (hfail p hp)
    rw [set_all_eq K ops dmn matcher nic_tbl nic_matcher v hv]
    refine ⟨?_, ?_, fun hfail => hall.2 hfail⟩
    · simp only [set_all_runs, set_all_step_sel_runs]
      rcases v with ⟨a, b, c, d⟩
      cases a <;> cases b <;> cases c <;> cases d <;>
        simp [family_pairs, ipv_families, List.product]
    · rw [← hall]
      cases hsb : (set_all_runs K ops dmn matcher nic_tbl nic_matcher v).ste_builder with
      | none => simp
      | some q => simp [hE.symm]
  · intro nic o i
    rw [set_ste_builders_ok_iff, set_ste_builders_ok_iff]

theorem set_all_error_is_einval_witness :
    dr_matcher_get_mask_ip_versions hdr_upstream ex_wild_vxlan_gpe = .ok ex_sel_wild_outer ∧
    family_pairs ex_sel_wild_outer = [(DR_RULE_IPV4, DR_RULE_IPV4), (DR_RULE_IPV6, DR_RULE_IPV4)] ∧
    (sel_final hdr_upstream ops_l2_src (table_init MLX5DR_DOMAIN_TYPE_NIC_RX).dmn
      ex_wild_vxlan_gpe (table_init MLX5DR_DOMAIN_TYPE_NIC_RX).rx
      (({} : mlx5dr_matcher_rx_tx).ste_builder_arr DR_RULE_IPV4 DR_RULE_IPV4)
      DR_RULE_IPV4 DR_RULE_IPV4).calls = [(ste_build_id.eth_l2_dst, false)] ∧
    (sel_final hdr_upstream ops_l2_src (table_init MLX5DR_DOMAIN_TYPE_NIC_RX).dmn
      ex_wild_vxlan_gpe (table_init MLX5DR_DOMAIN_TYPE_NIC_RX).rx
      (({} : mlx5dr_matcher_rx_tx).ste_builder_arr DR_RULE_IPV6 DR_RULE_IPV4)
      DR_RULE_IPV6 DR_RULE_IPV4).calls = [(ste_build_id.eth_l2_dst, false)] ∧
    (dr_matcher_set_ste_builders hdr_upstream ops_l2_src
      (table_init MLX5DR_DOMAIN_TYPE_NIC_RX).dmn ex_wild_vxlan_gpe
      (table_init MLX5DR_DOMAIN_TYPE_NIC_RX).rx {} DR_RULE_IPV4 DR_RULE_IPV4).1 = -EOPNOTSUPP ∧
    (dr_matcher_set_ste_builders hdr_upstream ops_l2_src
      (table_init MLX5DR_DOMAIN_TYPE_NIC_RX).dmn ex_wild_vxlan_gpe
      (table_init MLX5DR_DOMAIN_TYPE_NIC_RX).rx {} DR_RULE_IPV6 DR_RULE_IPV4).1 = -EOPNOTSUPP ∧
    (dr_matcher_set_all_ste_builders hdr_upstream ops_l2_src
      (table_init MLX5DR_DOMAIN_TYPE_NIC_RX).dmn ex_wild_vxlan_gpe
      (table_init MLX5DR_DOMAIN_TYPE_NIC_RX).rx {}).1 = -EINVAL :=
  ⟨rfl, by decide,
   by set_option maxRecDepth 100000 in decide,
   by set_option maxRecDepth 100000 in decide,
   by set_option maxRecDepth 100000 in decide,
   by set_option maxRecDepth 100000 in decide,
   ((set_all_error_is_einval hdr_upstream ops_l2_src
     (table_init MLX5DR_DOMAIN_TYPE_NIC_RX).dmn ex_wild_vxlan_gpe
     (table_init MLX5DR_DOMAIN_TYPE_NIC_RX).rx {}).2.2.2.1 ex_sel_wild_outer rfl rfl).2.1.2
     (by set_option maxRecDepth 100000 in decide)⟩

/-- C15, counterexample: criteria OUTER and MISC3, a mask with the source MAC
and the VXLAN-GPE VNI, a device without VXLAN-GPE support, and builders of
which the L2 source builder consumes the source MAC. The single run of the
selector calls the L2 source builder alone, is left with the VNI, which no
builder was called for, and returns `-EOPNOTSUPP`; yet
`dr_matcher_set_all_ste_builders` returns `-EINVAL`, which is not
`-EOPNOTSUPP` and is the code it also returns for a conflicting
`ip_version`. -/
theorem set_all_unsupported_counterexample :
    dr_matcher_supp_vxlan_gpe hdr_upstream
      (table_init MLX5DR_DOMAIN_TYPE_NIC_RX).dmn.caps = false ∧
    (sel_final hdr_upstream ops_l2_src (table_init MLX5DR_DOMAIN_TYPE_NIC_RX).dmn
      ex_smac_vxlan_gpe (table_init MLX5DR_DOMAIN_TYPE_NIC_RX).rx
      (({} : mlx5dr_matcher_rx_tx).ste_builder_arr DR_RULE_IPV4 DR_RULE_IPV4)
      DR_RULE_IPV4 DR_RULE_IPV4).calls = [(ste_build_id.eth_l2_src, false)] ∧
    (sel_final hdr_upstream ops_l2_src (table_init MLX5DR_DOMAIN_TYPE_NIC_RX).dmn
      ex_smac_vxlan_gpe (table_init MLX5DR_DOMAIN_TYPE_NIC_RX).rx
      (({} : mlx5dr_matcher_rx_tx).ste_builder_arr DR_RULE_IPV4 DR_RULE_IPV4)
      DR_RULE_IPV4 DR_RULE_IPV4).mask = ex_mask_vni ∧
    (dr_matcher_set_ste_builders hdr_upstream ops_l2_src
      (table_init MLX5DR_DOMAIN_TYPE_NIC_RX).dmn ex_smac_vxlan_gpe
      (table_init MLX5DR_DOMAIN_TYPE_NIC_RX).rx {} DR_RULE_IPV4 DR_RULE_IPV4).1 = -EOPNOTSUPP ∧
    (dr_matcher_set_all_ste_builders hdr_upstream ops_l2_src
      (table_init MLX5DR_DOMAIN_TYPE_NIC_RX).dmn ex_smac_vxlan_gpe
      (table_init MLX5DR_DOMAIN_TYPE_NIC_RX).rx {}).2.sel_runs =
        [(DR_RULE_IPV4, DR_RULE_IPV4)] ∧
    (dr_matcher_set_all_ste_builders hdr_upstream ops_l2_src
      (table_init MLX5DR_DOMAIN_TYPE_NIC_RX).dmn ex_smac_vxlan_gpe
      (table_init MLX5DR_DOMAIN_TYPE_NIC_RX).rx {}).1 = -EINVAL ∧
    (dr_matcher_set_all_ste_builders hdr_upstream ops_l2_src
      (table_init MLX5DR_DOMAIN_TYPE_NIC_RX).dmn ex_smac_vxlan_gpe
      (table_init MLX5DR_DOMAIN_TYPE_NIC_RX).rx {}).1 ≠ -EOPNOTSUPP ∧
    (dr_matcher_set_all_ste_builders hdr_upstream ops_l2_src
      (table_init MLX5DR_DOMAIN_TYPE_NIC_RX).dmn ex_v4_with_v6
      (table_init MLX5DR_DOMAIN_TYPE_NIC_RX).rx {}).1 = -EINVAL := by
  set_option maxRecDepth 100000 in decide

/-! ## The always-match fallback and the FDB receive optimisation -/

theorem nat_or_eq_zero (a b : Nat) : a ||| b = 0 ↔ a = 0 ∧ b = 0 := by
  constructor
  · intro h
    have ht : ∀ i, (a.testBit i || b.testBit i) = false := fun i => by
      rw [← Nat.testBit_or, h, Nat.zero_testBit]
    constructor <;> apply Nat.eq_of_testBit_eq <;> intro i <;>
      have := ht i <;> simp_all
  · rintro ⟨rfl, rfl⟩; simp

theorem sel_pre_no_empty (K : dr_hdr) (ops : ste_ops) (dmn : mlx5dr_domain)
    (matcher : mlx5dr_matcher) (rx : Bool) (sb : Nat → mlx5dr_ste_build) (o i : mlx5dr_ipv)
    (inner : Bool) :
    (ste_build_id.empty_always_hit, inner) ∉ (sel_pre K ops dmn matcher rx sb o i).calls :=
  keeps_run ops dmn rx (fun s => ∀ inner, (ste_build_id.empty_always_hit, inner) ∉ s.calls) _
    (full_prog_keeps K ops dmn rx _ matcher.match_criteria o i
      (fun b inner' s hb hs inner => by
        simp only [sel_state.build, List.mem_append, List.mem_singleton, Prod.mk.injEq, not_or]
        exact ⟨hs inner, fun h => hb h.1.symm⟩)) _
    (fun _ => List.not_mem_nil _) inner

theorem sel_pre_empty_criteria (K : dr_hdr) (ops : ste_ops) (dmn : mlx5dr_domain)
    (matcher : mlx5dr_matcher) (rx : Bool) (sb : Nat → mlx5dr_ste_build) (o i : mlx5dr_ipv)
    (h0 : matcher.match_criteria = 0) :
    sel_pre K ops dmn matcher rx sb o i = { mask := {}, sb := sb, idx := 0, calls := [] } := by
  have hm : sel_working_mask K dmn matcher rx = {} := by
    simp [sel_working_mask, sel_wire_opt, sel_copied_mask, dr_matcher_copy_mask, h0]
  unfold sel_pre full_prog
  rw [hm, h0]
  simp only [seqs_cons_run, seqs_nil_run, block_run, Nat.zero_and, bne_self_eq_false,
    Bool.false_eq_true, if_false]

/-- C19: in a run of the selector the always-match builder is appended
exactly when the criteria are `DR_MATCHER_CRITERIA_EMPTY`, or no builder was
appended by the three blocks and the FDB receive optimisation applied; when it
is appended it is the only builder of the run; with empty criteria and a
passing pre-check the run returns 0 and records one builder, for every
direction, domain and capability record. -/
theorem always_match_appended_iff (K : dr_hdr) (ops : ste_ops) (dmn : mlx5dr_domain)
    (matcher : mlx5dr_matcher) (nic_tbl : mlx5dr_table_rx_tx)
    (nic_matcher : mlx5dr_matcher_rx_tx) (o i : mlx5dr_ipv)
    (hE0 : K.DR_MATCHER_CRITERIA_EMPTY = 0) :
    ((ste_build_id.empty_always_hit, false) ∈
        (sel_final K ops dmn matcher nic_tbl (nic_matcher.ste_builder_arr o i) o i).calls ↔
      (matcher.match_criteria = K.DR_MATCHER_CRITERIA_EMPTY ∨
       ((sel_pre K ops dmn matcher (nic_tbl.nic_dmn_type == DR_DOMAIN_NIC_TYPE_RX)
          (nic_matcher.ste_builder_arr o i) o i).calls = [] ∧
        sel_wire_opt K dmn matcher (nic_tbl.nic_dmn_type == DR_DOMAIN_NIC_TYPE_RX) = true))) ∧
    ((ste_build_id.empty_always_hit, false) ∈
        (sel_final K ops dmn matcher nic_tbl (nic_matcher.ste_builder_arr o i) o i).calls →
      (sel_final K ops dmn matcher nic_tbl (nic_matcher.ste_builder_arr o i) o i).calls =
        [(ste_build_id.empty_always_hit, false)]) ∧
    (matcher.match_criteria = K.DR_MATCHER_CRITERIA_EMPTY →
      ops.mlx5dr_ste_build_pre_check dmn matcher.match_criteria matcher.mask = 0 →
      (dr_matcher_set_ste_builders K ops dmn matcher nic_tbl nic_matcher o i).1 = 0 ∧
      (sel_final K ops dmn matcher nic_tbl (nic_matcher.ste_builder_arr o i) o i).calls =
        [(ste_build_id.empty_always_hit, false)] ∧
      (dr_matcher_set_ste_builders K ops dmn matcher nic_tbl nic_matcher
        o i).2.num_of_builders_arr o i = 1) := by
  have hne := sel_pre_no_empty K ops dmn matcher (nic_tbl.nic_dmn_type == DR_DOMAIN_NIC_TYPE_RX)
    (nic_matcher.ste_builder_arr o i) o i false
  have hlen := sel_pre_idx_len K ops dmn matcher (nic_tbl.nic_dmn_type == DR_DOMAIN_NIC_TYPE_RX)
    (nic_matcher.ste_builder_arr o i) o i
  have hnil : (sel_pre K ops dmn matcher (nic_tbl.nic_dmn_type == DR_DOMAIN_NIC_TYPE_RX)
      (nic_matcher.ste_builder_arr o i) o i).idx = 0 ↔
      (sel_pre K ops dmn matcher (nic_tbl.nic_dmn_type == DR_DOMAIN_NIC_TYPE_RX)
        (nic_matcher.ste_builder_arr o i) o i).calls = [] := by
    rw [hlen, List.length_eq_zero]
  have hempty : matcher.match_criteria = K.DR_MATCHER_CRITERIA_EMPTY →
      sel_final K ops dmn matcher nic_tbl (nic_matcher.ste_builder_arr o i) o i =
        sel_state.build_empty ops (nic_tbl.nic_dmn_type == DR_DOMAIN_NIC_TYPE_RX)
          { mask := {}, sb := nic_matcher.ste_builder_arr o i, idx := 0, calls := [] } := by
    intro hc
    rw [sel_final_eq, sel_pre_empty_criteria K ops dmn matcher _ _ o i (hc.trans hE0)]
    simp [sel_fallback, hc]
  have hiff : (ste_build_id.empty_always_hit, false) ∈
        (sel_final K ops dmn matcher nic_tbl (nic_matcher.ste_builder_arr o i) o i).calls ↔
      (matcher.match_criteria = K.DR_MATCHER_CRITERIA_EMPTY ∨
       ((sel_pre K ops dmn matcher (nic_tbl.nic_dmn_type == DR_DOMAIN_NIC_TYPE_RX)
          (nic_matcher.ste_builder_arr o i) o i).calls = [] ∧
        sel_wire_opt K dmn matcher (nic_tbl.nic_dmn_type == DR_DOMAIN_NIC_TYPE_RX) = true)) := by
    rw [sel_final_eq]
    unfold sel_fallback
    split_ifs with hc
    · simp only [Bool.or_eq_true, Bool.and_eq_true, beq_iff_eq] at hc
      simp only [sel_state.build_empty, List.mem_append, List.mem_singleton, or_true, true_iff]
      rcases hc with ⟨h1, h2⟩ | h
      · exact Or.inr ⟨hnil.1 h1, h2⟩
      · exact Or.inl h
    · simp only [Bool.or_eq_true, Bool.and_eq_true, beq_iff_eq, not_or, not_and] at hc
      constructor
      · intro h; exact absurd h hne
      · rintro (h | ⟨h1, h2⟩)
        · exact absurd h hc.2
        · exact absurd h2 (hc.1 (hnil.2 h1))
  refine ⟨hiff, ?_, ?_⟩
  · intro hin
    rcases hiff.1 hin with hc | ⟨h1, h2⟩
    · rw [hempty hc]; rfl
    · rw [sel_final_eq]
      unfold sel_fallback
      rw [if_pos (by simp [hnil.2 h1, h2])]
      simp [sel_state.build_empty, h1]
  · intro hc hpre
    have hret := set_ste_builders_ret K ops dmn matcher nic_tbl nic_matcher o i
    obtain ⟨-, hnum⟩ := set_ste_builders_state K ops dmn matcher nic_tbl nic_matcher o i
    rw [hempty hc] at hret hnum
    have h0 : (dr_matcher_set_ste_builders K ops dmn matcher nic_tbl nic_matcher o i).1 = 0 := by
      rw [hret]
      simp [hpre, sel_state.build_empty, dr_matcher_is_mask_consumed]
    refine ⟨h0, by rw [hempty hc]; rfl, ?_⟩
    rw [hnum, if_pos h0]
    simp [sel_state.build_empty]

theorem always_match_appended_iff_witness :
    hdr_upstream.DR_MATCHER_CRITERIA_EMPTY = 0 ∧
    (dr_matcher_set_ste_builders hdr_upstream ops_idle
      (table_init MLX5DR_DOMAIN_TYPE_NIC_TX).dmn ex_empty_criteria
      (table_init MLX5DR_DOMAIN_TYPE_NIC_TX).tx {} DR_RULE_IPV4 DR_RULE_IPV4).1 = 0 ∧
    (sel_final hdr_upstream ops_idle (table_init MLX5DR_DOMAIN_TYPE_NIC_TX).dmn
      ex_empty_criteria (table_init MLX5DR_DOMAIN_TYPE_NIC_TX).tx
      (({} : mlx5dr_matcher_rx_tx).ste_builder_arr DR_RULE_IPV4 DR_RULE_IPV4)
      DR_RULE_IPV4 DR_RULE_IPV4).calls = [(ste_build_id.empty_always_hit, false)] ∧
    (dr_matcher_set_ste_builders hdr_upstream ops_idle
      (table_init MLX5DR_DOMAIN_TYPE_NIC_TX).dmn ex_empty_criteria
      (table_init MLX5DR_DOMAIN_TYPE_NIC_TX).tx {} DR_RULE_IPV4 DR_RULE_IPV4).2.num_of_builders_arr
        DR_RULE_IPV4 DR_RULE_IPV4 = 1 :=
  ⟨rfl, (always_match_appended_iff hdr_upstream ops_idle
    (table_init MLX5DR_DOMAIN_TYPE_NIC_TX).dmn ex_empty_criteria
    (table_init MLX5DR_DOMAIN_TYPE_NIC_TX).tx {} DR_RULE_IPV4 DR_RULE_IPV4 rfl).2.2 rfl rfl⟩

/-- C20, counterexample: in an FDB domain on the receive direction, for
criteria MISC and a mask with only `source_eswitch_owner_vhca_id = 0xffff`
(`source_port` zero), the working mask of the selector keeps
`source_eswitch_owner_vhca_id = 0xffff`; with builders that consume nothing
no builder is selected and the field is still there at the end of the run. -/
theorem fdb_rx_vhca_id_kept_counterexample :
    (sel_working_mask hdr_upstream (table_init MLX5DR_DOMAIN_TYPE_FDB).dmn ex_vhca
      true).misc.source_eswitch_owner_vhca_id = 0xffff ∧
    (dr_matcher_set_ste_builders_run hdr_upstream ops_idle
      (table_init MLX5DR_DOMAIN_TYPE_FDB).dmn ex_vhca true (fun _ => {})
      DR_RULE_IPV4 DR_RULE_IPV4).1.calls = [] ∧
    (dr_matcher_set_ste_builders_run hdr_upstream ops_idle
      (table_init MLX5DR_DOMAIN_TYPE_FDB).dmn ex_vhca true (fun _ => {})
      DR_RULE_IPV4 DR_RULE_IPV4).1.mask.misc.source_eswitch_owner_vhca_id = 0xffff := by
  set_option maxRecDepth 100000 in decide

/-- C20 (amended): the selector starts the builder selection from the working
mask `sel_working_mask`. In an FDB domain on the receive direction
`source_port` is zero in it for every mask, while
`source_eswitch_owner_vhca_id` is zeroed only when the copied `source_port` is
nonzero and keeps its copied value otherwise; every other field is the copied
one. In any other domain type or direction the working mask is the copied
mask. -/
theorem fdb_rx_source_port_dropped (K : dr_hdr) (ops : ste_ops) (dmn : mlx5dr_domain)
    (matcher : mlx5dr_matcher) (rx : Bool) (sb : Nat → mlx5dr_ste_build) (o i : mlx5dr_ipv) :
    (dr_matcher_set_ste_builders_run K ops dmn matcher rx sb o i).1 =
      sel_fallback K ops matcher rx (sel_wire_opt K dmn matcher rx)
        ((full_prog K dmn matcher.match_criteria o i).run ops dmn rx
          { mask := sel_working_mask K dmn matcher rx, sb := sb, idx := 0, calls := [] }) ∧
    (dmn.type = MLX5DR_DOMAIN_TYPE_FDB ∧ rx = true →
      (sel_working_mask K dmn matcher rx).misc.source_port = 0 ∧
      (sel_working_mask K dmn matcher rx).misc.source_eswitch_owner_vhca_id =
        (if (sel_copied_mask K matcher).misc.source_port ≠ 0 then 0
         else (sel_copied_mask K matcher).misc.source_eswitch_owner_vhca_id) ∧
      sel_working_mask K dmn matcher rx =
        { sel_copied_mask K matcher with
          misc := { (sel_copied_mask K matcher).misc with
            source_port := 0
            source_eswitch_owner_vhca_id :=
              (sel_working_mask K dmn matcher rx).misc.source_eswitch_owner_vhca_id } }) ∧
    (¬ (dmn.type = MLX5DR_DOMAIN_TYPE_FDB ∧ rx = true) →
      sel_working_mask K dmn matcher rx = sel_copied_mask K matcher) := by
  refine ⟨by rw [set_ste_builders_run_eq]; rfl, ?_, ?_⟩
  · rintro ⟨hd, hr⟩
    by_cases hp : (sel_copied_mask K matcher).misc.source_port = 0
    · have hw : sel_working_mask K dmn matcher rx = sel_copied_mask K matcher := by
        simp [sel_working_mask, sel_wire_opt, hp]
      rw [hw]
      have key : ∀ m : mlx5dr_match_param, m.misc.source_port = 0 →
          m = { m with misc := { m.misc with
            source_port := 0
            source_eswitch_owner_vhca_id := m.misc.source_eswitch_owner_vhca_id } } := by
        intro m hm
        obtain ⟨mo, mm, mi, m2, m3, m4⟩ := m
        cases mm
        simp only at hm
        subst hm
        rfl
      exact ⟨hp, by simp [hp], key _ hp⟩
    · have hw : sel_working_mask K dmn matcher rx =
          { sel_copied_mask K matcher with
            misc := { (sel_copied_mask K matcher).misc with
              source_port := 0, source_eswitch_owner_vhca_id := 0 } } := by
        simp [sel_working_mask, sel_wire_opt, hp, hd, hr]
      rw [hw]
      exact ⟨rfl, by simp [hp], rfl⟩
  · intro h
    have : sel_wire_opt K dmn matcher rx = false := by
      unfold sel_wire_opt
      by_cases hd : dmn.type = MLX5DR_DOMAIN_TYPE_FDB
      · have hr : rx = false := by
          cases rx
          · rfl
          · exact absurd ⟨hd, rfl⟩ h
        simp [hr]
      · simp [hd]
    simp [sel_working_mask, this]

/-! ## Runs for criteria OUTER -/

theorem when_run_true (ops : ste_ops) (dmn : mlx5dr_domain) (rx : Bool)
    (c : mlx5dr_match_param → Bool) (b : ste_build_id) (inner : Bool) (s : sel_state)
    (h : c s.mask = true) :
    (sel_prog.when c b inner).run ops dmn rx s = s.build ops dmn rx b inner := by
  show (if c s.mask then _ else _) = _
  rw [if_pos h]; rfl

theorem when_run_false (ops : ste_ops) (dmn : mlx5dr_domain) (rx : Bool)
    (c : mlx5dr_match_param → Bool) (b : ste_build_id) (inner : Bool) (s : sel_state)
    (h : c s.mask = false) :
    (sel_prog.when c b inner).run ops dmn rx s = s := by
  show (if c s.mask then _ else _) = _
  rw [if_neg (by simp [h])]; rfl

theorem ite_run_true (ops : ste_ops) (dmn : mlx5dr_domain) (rx : Bool)
    (c : mlx5dr_match_param → Bool) (p q : sel_prog) (s : sel_state)
    (h : c s.mask = true) :
    (sel_prog.ite c p q).run ops dmn rx s = p.run ops dmn rx s := by
  show (if c s.mask then _ else _) = _
  rw [if_pos h]

theorem ite_run_false (ops : ste_ops) (dmn : mlx5dr_domain) (rx : Bool)
    (c : mlx5dr_match_param → Bool) (p q : sel_prog) (s : sel_state)
    (h : c s.mask = false) :
    (sel_prog.ite c p q).run ops dmn rx s = q.run ops dmn rx s := by
  show (if c s.mask then _ else _) = _
  rw [if_neg (by simp [h])]

theorem criteria_outer_only_blocks (K : dr_hdr) (c : Nat) (h : criteria_outer_only K c) :
    (c &&& (K.DR_MATCHER_CRITERIA_OUTER ||| K.DR_MATCHER_CRITERIA_MISC |||
      K.DR_MATCHER_CRITERIA_MISC2 ||| K.DR_MATCHER_CRITERIA_MISC3) != 0) = true ∧
    (c &&& (K.DR_MATCHER_CRITERIA_INNER ||| K.DR_MATCHER_CRITERIA_MISC |||
      K.DR_MATCHER_CRITERIA_MISC2 ||| K.DR_MATCHER_CRITERIA_MISC3) != 0) = false := by
  obtain ⟨ho, hm, hi, h2, h3, -, -⟩ := h
  simp only [Nat.and_or_distrib_left, hm, hi, h2, h3, Nat.or_zero, bne_iff_ne, ne_eq,
    bne_self_eq_false, and_true]
  exact ho

theorem outer_only_working_mask (K : dr_hdr) (dmn : mlx5dr_domain) (matcher : mlx5dr_matcher)
    (rx : Bool) (h : criteria_outer_only K matcher.match_criteria) :
    sel_wire_opt K dmn matcher rx = false ∧
    sel_working_mask K dmn matcher rx = { outer := matcher.mask.outer } := by
  obtain ⟨ho, hm, hi, h2, h3, h4, -⟩ := h
  have hc : sel_copied_mask K matcher = { outer := matcher.mask.outer } := by
    simp [sel_copied_mask, dr_matcher_copy_mask, ho, hm, hi, h2, h3, h4]
  have hw : sel_wire_opt K dmn matcher rx = false := by
    simp [sel_wire_opt, hc]
  exact ⟨hw, by simp [sel_working_mask, hw, hc]⟩

theorem outer_only_final (K : dr_hdr) (ops : ste_ops) (dmn : mlx5dr_domain)
    (matcher : mlx5dr_matcher) (nic_tbl : mlx5dr_table_rx_tx) (sb : Nat → mlx5dr_ste_build)
    (o i : mlx5dr_ipv) (h : criteria_outer_only K matcher.match_criteria) :
    sel_final K ops dmn matcher nic_tbl sb o i =
      (outer_prog K dmn o).run ops dmn (nic_tbl.nic_dmn_type == DR_DOMAIN_NIC_TYPE_RX)
        { mask := { outer := matcher.mask.outer }, sb := sb, idx := 0, calls := [] } := by
  obtain ⟨hw, hm⟩ := outer_only_working_mask K dmn matcher
    (nic_tbl.nic_dmn_type == DR_DOMAIN_NIC_TYPE_RX) h
  obtain ⟨hb1, hb2⟩ := criteria_outer_only_blocks K _ h
  have h4 : (matcher.match_criteria &&& K.DR_MATCHER_CRITERIA_MISC4 != 0) = false := by
    simp [h.2.2.2.2.2.1]
  have hE : (matcher.match_criteria == K.DR_MATCHER_CRITERIA_EMPTY) = false := by
    simp [h.2.2.2.2.2.2]
  rw [sel_final_eq]
  unfold sel_fallback sel_pre full_prog
  rw [hw, hm, hE]
  simp only [seqs_cons_run, seqs_nil_run, block_run, hb1, hb2, h4, if_true,
    Bool.false_eq_true, if_false, Bool.and_false, Bool.or_false]

theorem outer_only_versions (K : dr_hdr) (matcher : mlx5dr_matcher)
    (h : criteria_outer_only K matcher.match_criteria) :
    dr_matcher_get_mask_ip_versions K matcher =
      if matcher.mask.outer.ip_version == 4 &&
          dr_mask_is_ipv6_only_match_set matcher.mask.outer then .error (-EINVAL)
      else .ok
        { outer_ipv4 := (layer_families matcher.mask.outer.ip_version
            (dr_mask_is_ipv6_only_match_set matcher.mask.outer)).1
          outer_ipv6 := (layer_families matcher.mask.outer.ip_version
            (dr_mask_is_ipv6_only_match_set matcher.mask.outer)).2
          inner_ipv4 := true
          inner_ipv6 := false } := by
  obtain ⟨ho, -, hi, -⟩ := h
  rw [get_versions_eq]
  simp [layer_ipv, layer_present, ho, hi, layer_families]

theorem build_mask (ops : ste_ops) (dmn : mlx5dr_domain) (rx : Bool) (b : ste_build_id)
    (inner : Bool) (s : sel_state) :
    (s.build ops dmn rx b inner).mask = (ops.build b dmn s.mask inner rx).2 := rfl

theorem build_calls (ops : ste_ops) (dmn : mlx5dr_domain) (rx : Bool) (b : ste_build_id)
    (inner : Bool) (s : sel_state) :
    (s.build ops dmn rx b inner).calls = s.calls ++ [(b, inner)] := rfl

theorem call_run (ops : ste_ops) (dmn : mlx5dr_domain) (rx : Bool) (b : ste_build_id)
    (inner : Bool) (s : sel_state) :
    (sel_prog.call b inner).run ops dmn rx s = s.build ops dmn rx b inner := rfl

theorem skip_run (ops : ste_ops) (dmn : mlx5dr_domain) (rx : Bool) (s : sel_state) :
    sel_prog.skip.run ops dmn rx s = s := rfl

/-- On the all-zero mask (with the ICMPv4 macro false on the zero record)
no builder condition of the outer block holds. -/
theorem outer_prog_run_zero (K : dr_hdr) (ops : ste_ops) (dmn : mlx5dr_domain) (rx : Bool)
    (hicmp : K.DR_MASK_IS_ICMPV4_SET {} = false) (s : sel_state) (hs : s.mask = {})
    (ps : List sel_prog)
    (hps : ps = [
      .ite (fun m => dr_mask_is_tnl_vxlan_gpe K m dmn.caps)
        (.call .tnl_vxlan_gpe false)
        (.ite (fun m => dr_mask_is_tnl_geneve K m dmn.caps)
          (.seq (.call .tnl_geneve false)
            (.when (fun m => dr_mask_is_tnl_geneve_tlv_option m.misc3)
              .tnl_geneve_tlv_option false))
          .skip),
      .when (fun m => DR_MASK_IS_ETH_L4_MISC_SET m.misc3 false) .eth_l4_misc false,
      .when (fun m => DR_MASK_IS_FIRST_MPLS_SET m.misc2 false) .mpls false,
      .ite (fun m => dr_mask_is_tnl_mpls_over_gre K m dmn.caps)
        (.call .tnl_mpls_over_gre false)
        (.when (fun m => dr_mask_is_tnl_mpls_over_udp K m dmn.caps) .tnl_mpls_over_udp false),
      .when (fun m => dr_mask_is_icmp K m dmn.caps) .icmp false,
      .when (fun m => dr_mask_is_tnl_gre_set m.misc) .tnl_gre false]) :
    (sel_prog.seqs ps).run ops dmn rx s = s := by
  subst hps
  rw [seqs_cons_run, ite_run_false _ _ _ _ _ _ _ (by
      simp [hs, dr_mask_is_tnl_vxlan_gpe, dr_mask_is_vxlan_gpe_set]),
    ite_run_false _ _ _ _ _ _ _ (by
      simp [hs, dr_mask_is_tnl_geneve, dr_mask_is_tnl_geneve_set]), skip_run]
  rw [seqs_cons_run, when_run_false _ _ _ _ _ _ _ (by
      simp [hs, DR_MASK_IS_ETH_L4_MISC_SET])]
  rw [seqs_cons_run, when_run_false _ _ _ _ _ _ _ (by
      simp [hs, DR_MASK_IS_FIRST_MPLS_SET])]
  rw [seqs_cons_run, ite_run_false _ _ _ _ _ _ _ (by
      simp [hs, dr_mask_is_tnl_mpls_over_gre, DR_MASK_IS_OUTER_MPLS_OVER_GRE_SET]),
    when_run_false _ _ _ _ _ _ _ (by
      simp [hs, dr_mask_is_tnl_mpls_over_udp, DR_MASK_IS_OUTER_MPLS_OVER_UDP_SET])]
  rw [seqs_cons_run, when_run_false _ _ _ _ _ _ _ (by
      simp [hs, dr_mask_is_icmp, dr_mask_is_icmpv6_set, hicmp])]
  rw [seqs_cons_run, when_run_false _ _ _ _ _ _ _ (by
      simp [hs, dr_mask_is_tnl_gre_set])]
  rfl

theorem outer_only_final_pre (K : dr_hdr) (ops : ste_ops) (dmn : mlx5dr_domain)
    (matcher : mlx5dr_matcher) (nic_tbl : mlx5dr_table_rx_tx) (sb : Nat → mlx5dr_ste_build)
    (o i : mlx5dr_ipv) (h : criteria_outer_only K matcher.match_criteria) :
    sel_final K ops dmn matcher nic_tbl sb o i =
      sel_pre K ops dmn matcher (nic_tbl.nic_dmn_type == DR_DOMAIN_NIC_TYPE_RX) sb o i := by
  obtain ⟨hw, -⟩ := outer_only_working_mask K dmn matcher
    (nic_tbl.nic_dmn_type == DR_DOMAIN_NIC_TYPE_RX) h
  have hE : (matcher.match_criteria == K.DR_MATCHER_CRITERIA_EMPTY) = false := by
    simp [h.2.2.2.2.2.2]
  rw [sel_final_eq]
  unfold sel_fallback
  rw [hw, hE]
  simp

theorem run_calls_prefix (ops : ste_ops) (dmn : mlx5dr_domain) (rx : Bool) (p : sel_prog) :
    ∀ s : sel_state, ∃ l, (p.run ops dmn rx s).calls = s.calls ++ l := by
  induction p with
  | skip => intro s; exact ⟨[], by simp [sel_prog.run]⟩
  | call b inner => intro s; exact ⟨[(b, inner)], rfl⟩
  | seq p q ihp ihq =>
    intro s
    obtain ⟨l₁, h₁⟩ := ihp s
    obtain ⟨l₂, h₂⟩ := ihq (p.run ops dmn rx s)
    exact ⟨l₁ ++ l₂, by simp only [sel_prog.run]; rw [h₂, h₁, List.append_assoc]⟩
  | ite c p q ihp ihq =>
    intro s
    simp only [sel_prog.run]
    split_ifs
    · exact ihp s
    · exact ihq s

theorem set_all_v4_only (K : dr_hdr) (ops : ste_ops) (dmn : mlx5dr_domain)
    (matcher : mlx5dr_matcher) (nic_tbl : mlx5dr_table_rx_tx)
    (nic_matcher : mlx5dr_matcher_rx_tx) :
    set_all_runs K ops dmn matcher nic_tbl nic_matcher ex_sel_v4 =
      (dr_matcher_set_ste_builders K ops dmn matcher nic_tbl nic_matcher
        DR_RULE_IPV4 DR_RULE_IPV4).2 := rfl

/-- C16: for criteria that select only the outer header and an outer mask in
which only `dst_ip_31_0` and `src_ip_31_0` are nonzero, the IPv4 5-tuple
predicate holds without an L3-base or L4 field, the selection is IPv4 alone,
the selector runs once, for (IPv4, IPv4), and that run appends exactly one
builder, the outer IPv4 5-tuple builder, and no always-match builder; given
that this builder clears the two fields, the working mask ends all zero and
the run and `dr_matcher_set_all_ste_builders` return 0. -/
theorem ipv4_addresses_single_builder (K : dr_hdr) (ops : ste_ops) (dmn : mlx5dr_domain)
    (matcher : mlx5dr_matcher) (nic_tbl : mlx5dr_table_rx_tx)
    (nic_matcher : mlx5dr_matcher_rx_tx) (a b : Nat)
    (hc : criteria_outer_only K matcher.match_criteria)
    (hm : matcher.mask.outer = { dst_ip_31_0 := a, src_ip_31_0 := b })
    (hab : a ≠ 0 ∨ b ≠ 0)
    (hicmp : K.DR_MASK_IS_ICMPV4_SET {} = false)
    (hpre : ops.mlx5dr_ste_build_pre_check dmn matcher.match_criteria matcher.mask = 0)
    (hclr : (ops.build .eth_l3_ipv4_5_tuple dmn { outer := matcher.mask.outer } false
      (nic_tbl.nic_dmn_type == DR_DOMAIN_NIC_TYPE_RX)).2 = {}) :
    (dr_mask_is_ipv4_5_tuple_set matcher.mask.outer = true ∧
      dr_mask_is_l3_base_set matcher.mask.outer = false ∧
      dr_mask_is_tcp_udp_base_set matcher.mask.outer = false) ∧
    dr_matcher_get_mask_ip_versions K matcher = .ok ex_sel_v4 ∧
    (dr_matcher_set_all_ste_builders K ops dmn matcher nic_tbl nic_matcher).2.sel_runs =
      nic_matcher.sel_runs ++ [(DR_RULE_IPV4, DR_RULE_IPV4)] ∧
    (sel_final K ops dmn matcher nic_tbl
      (nic_matcher.ste_builder_arr DR_RULE_IPV4 DR_RULE_IPV4) DR_RULE_IPV4 DR_RULE_IPV4).calls =
      [(ste_build_id.eth_l3_ipv4_5_tuple, false)] ∧
    (sel_final K ops dmn matcher nic_tbl
      (nic_matcher.ste_builder_arr DR_RULE_IPV4 DR_RULE_IPV4) DR_RULE_IPV4 DR_RULE_IPV4).mask =
      {} ∧
    (dr_matcher_set_ste_builders K ops dmn matcher nic_tbl nic_matcher
      DR_RULE_IPV4 DR_RULE_IPV4).1 = 0 ∧
    (dr_matcher_set_all_ste_builders K ops dmn matcher nic_tbl nic_matcher).1 = 0 := by
  have hset : dr_mask_is_ipv4_set { dst_ip_31_0 := a, src_ip_31_0 := b } = true := by
    rcases hab with h | h <;> simp [dr_mask_is_ipv4_set, h]
  have hv : dr_matcher_get_mask_ip_versions K matcher = .ok ex_sel_v4 := by
    rw [outer_only_versions K matcher hc, hm]
    simp [dr_mask_is_ipv6_only_match_set, layer_families, ex_sel_v4]
  have hfin : sel_final K ops dmn matcher nic_tbl
      (nic_matcher.ste_builder_arr DR_RULE_IPV4 DR_RULE_IPV4) DR_RULE_IPV4 DR_RULE_IPV4 =
      sel_state.build ops dmn (nic_tbl.nic_dmn_type == DR_DOMAIN_NIC_TYPE_RX)
        .eth_l3_ipv4_5_tuple false
        { mask := { outer := matcher.mask.outer },
          sb := nic_matcher.ste_builder_arr DR_RULE_IPV4 DR_RULE_IPV4, idx := 0, calls := [] } := by
    rw [outer_only_final K ops dmn matcher nic_tbl _ _ _ hc]
    have hin : (sel_prog.seqs [
        .when (fun m => dr_mask_is_ipv4_5_tuple_set m.outer) .eth_l3_ipv4_5_tuple false,
        .when (fun m => dr_mask_is_ttl_set m.outer) .eth_l3_ipv4_misc false]).run ops dmn
          (nic_tbl.nic_dmn_type == DR_DOMAIN_NIC_TYPE_RX)
          { mask := { outer := matcher.mask.outer },
            sb := nic_matcher.ste_builder_arr DR_RULE_IPV4 DR_RULE_IPV4,
            idx := 0, calls := [] } =
        sel_state.build ops dmn (nic_tbl.nic_dmn_type == DR_DOMAIN_NIC_TYPE_RX)
          .eth_l3_ipv4_5_tuple false
          { mask := { outer := matcher.mask.outer },
            sb := nic_matcher.ste_builder_arr DR_RULE_IPV4 DR_RULE_IPV4,
            idx := 0, calls := [] } := by
      rw [seqs_cons_run, when_run_true _ _ _ _ _ _ _ (by
          simp [hm, dr_mask_is_ipv4_5_tuple_set, hset]),
        seqs_cons_run, when_run_false _ _ _ _ _ _ _ (by
          simp [build_mask, hclr, dr_mask_is_ttl_set]), seqs_nil_run]
    unfold outer_prog
    rw [seqs_cons_run, when_run_false _ _ _ _ _ _ _ (by simp [dr_mask_is_wqe_metadata_set])]
    rw [seqs_cons_run, when_run_false _ _ _ _ _ _ _ (by simp [dr_mask_is_reg_c_0_3_set])]
    rw [seqs_cons_run, when_run_false _ _ _ _ _ _ _ (by simp [dr_mask_is_reg_c_4_7_set])]
    rw [seqs_cons_run, when_run_false _ _ _ _ _ _ _ (by simp [dr_mask_is_gvmi_or_qpn_set])]
    rw [seqs_cons_run, when_run_false _ _ _ _ _ _ _ (by simp [hm, dr_mask_is_smac_set])]
    rw [seqs_cons_run, when_run_false _ _ _ _ _ _ _ (by simp [hm, dr_mask_is_smac_set])]
    rw [seqs_cons_run, when_run_false _ _ _ _ _ _ _ (by simp [hm, DR_MASK_IS_L2_DST])]
    rw [seqs_cons_run, ite_run_false _ _ _ _ _ _ _ (by decide), hin]
    exact outer_prog_run_zero K ops dmn _ hicmp _ (by rw [build_mask]; exact hclr) _ rfl
  have hret : (dr_matcher_set_ste_builders K ops dmn matcher nic_tbl nic_matcher
      DR_RULE_IPV4 DR_RULE_IPV4).1 = 0 := by
    rw [set_ste_builders_ret, hfin]
    simp [hpre, sel_state.build, hclr, dr_matcher_is_mask_consumed]
  refine ⟨?_, hv, ?_, by rw [hfin]; rfl, by rw [hfin, build_mask]; exact hclr, hret, ?_⟩
  · rw [hm]
    simp [dr_mask_is_ipv4_5_tuple_set, hset, dr_mask_is_l3_base_set,
      dr_mask_is_tcp_udp_base_set]
  · rw [set_all_eq K ops dmn matcher nic_tbl nic_matcher _ hv, set_all_v4_only,
      set_ste_builders_sel_runs]
  · rw [set_all_eq K ops dmn matcher nic_tbl nic_matcher _ hv, set_all_v4_only,
      (set_ste_builders_state K ops dmn matcher nic_tbl nic_matcher _ _).1, if_pos hret]
    simp

theorem ipv4_addresses_single_builder_witness :
    criteria_outer_only hdr_upstream ex_ipv4_addrs.match_criteria ∧
    (sel_final hdr_upstream ops_clearing (table_init MLX5DR_DOMAIN_TYPE_NIC_RX).dmn
      ex_ipv4_addrs (table_init MLX5DR_DOMAIN_TYPE_NIC_RX).rx
      (({} : mlx5dr_matcher_rx_tx).ste_builder_arr DR_RULE_IPV4 DR_RULE_IPV4)
      DR_RULE_IPV4 DR_RULE_IPV4).calls = [(ste_build_id.eth_l3_ipv4_5_tuple, false)] ∧
    (dr_matcher_set_all_ste_builders hdr_upstream ops_clearing
      (table_init MLX5DR_DOMAIN_TYPE_NIC_RX).dmn ex_ipv4_addrs
      (table_init MLX5DR_DOMAIN_TYPE_NIC_RX).rx {}).1 = 0 :=
  ⟨by decide,
   (ipv4_addresses_single_builder hdr_upstream ops_clearing
     (table_init MLX5DR_DOMAIN_TYPE_NIC_RX).dmn ex_ipv4_addrs
     (table_init MLX5DR_DOMAIN_TYPE_NIC_RX).rx {} 0xffffffff 0xffffff00
     (by decide) rfl (by decide) rfl rfl rfl).2.2.2.1,
   (ipv4_addresses_single_builder hdr_upstream ops_clearing
     (table_init MLX5DR_DOMAIN_TYPE_NIC_RX).dmn ex_ipv4_addrs
     (table_init MLX5DR_DOMAIN_TYPE_NIC_RX).rx {} 0xffffffff 0xffffff00
     (by decide) rfl (by decide) rfl rfl rfl).2.2.2.2.2.2⟩

theorem set_all_wild_outer (K : dr_hdr) (ops : ste_ops) (dmn : mlx5dr_domain)
    (matcher : mlx5dr_matcher) (nic_tbl : mlx5dr_table_rx_tx)
    (nic_matcher : mlx5dr_matcher_rx_tx) :
    set_all_runs K ops dmn matcher nic_tbl nic_matcher ex_sel_wild_outer =
      (dr_matcher_set_ste_builders K ops dmn matcher nic_tbl
        (dr_matcher_set_ste_builders K ops dmn matcher nic_tbl nic_matcher
          DR_RULE_IPV4 DR_RULE_IPV4).2 DR_RULE_IPV6 DR_RULE_IPV4).2 := rfl

/-- For criteria that select only the outer header and an outer mask with
only `ip_version = 0xf`, the outer block calls the L2 destination builder
first and continues from the state that call leaves. -/
theorem wild_only_final (K : dr_hdr) (ops : ste_ops) (dmn : mlx5dr_domain)
    (matcher : mlx5dr_matcher) (nic_tbl : mlx5dr_table_rx_tx) (sb : Nat → mlx5dr_ste_build)
    (o i : mlx5dr_ipv) (hc : criteria_outer_only K matcher.match_criteria)
    (hm : matcher.mask.outer = { ip_version := 0xf }) :
    ∃ ps, sel_final K ops dmn matcher nic_tbl sb o i =
      (sel_prog.seqs (.ite (fun _ => o == DR_RULE_IPV6)
        (.seqs [
          .when (fun m => dr_mask_is_dst_addr_set m.outer) .eth_l3_ipv6_dst false,
          .when (fun m => dr_mask_is_src_addr_set m.outer) .eth_l3_ipv6_src false,
          .when (fun m => DR_MASK_IS_ETH_L4_SET m.outer m.misc false) .eth_ipv6_l3_l4 false])
        (.seqs [
          .when (fun m => dr_mask_is_ipv4_5_tuple_set m.outer) .eth_l3_ipv4_5_tuple false,
          .when (fun m => dr_mask_is_ttl_set m.outer) .eth_l3_ipv4_misc false]) :: ps)).run
        ops dmn (nic_tbl.nic_dmn_type == DR_DOMAIN_NIC_TYPE_RX)
        (sel_state.build ops dmn (nic_tbl.nic_dmn_type == DR_DOMAIN_NIC_TYPE_RX)
          .eth_l2_dst false
          { mask := { outer := matcher.mask.outer }, sb := sb, idx := 0, calls := [] }) ∧
      ps = [
        .ite (fun m => dr_mask_is_tnl_vxlan_gpe K m dmn.caps)
          (.call .tnl_vxlan_gpe false)
          (.ite (fun m => dr_mask_is_tnl_geneve K m dmn.caps)
            (.seq (.call .tnl_geneve false)
              (.when (fun m => dr_mask_is_tnl_geneve_tlv_option m.misc3)
                .tnl_geneve_tlv_option false))
            .skip),
        .when (fun m => DR_MASK_IS_ETH_L4_MISC_SET m.misc3 false) .eth_l4_misc false,
        .when (fun m => DR_MASK_IS_FIRST_MPLS_SET m.misc2 false) .mpls false,
        .ite (fun m => dr_mask_is_tnl_mpls_over_gre K m dmn.caps)
          (.call .tnl_mpls_over_gre false)
          (.when (fun m => dr_mask_is_tnl_mpls_over_udp K m dmn.caps)
            .tnl_mpls_over_udp false),
        .when (fun m => dr_mask_is_icmp K m dmn.caps) .icmp false,
        .when (fun m => dr_mask_is_tnl_gre_set m.misc) .tnl_gre false] := by
  refine ⟨_, ?_, rfl⟩
  rw [outer_only_final K ops dmn matcher nic_tbl _ _ _ hc]
  unfold outer_prog
  rw [seqs_cons_run, when_run_false _ _ _ _ _ _ _ (by simp [dr_mask_is_wqe_metadata_set])]
  rw [seqs_cons_run, when_run_false _ _ _ _ _ _ _ (by simp [dr_mask_is_reg_c_0_3_set])]
  rw [seqs_cons_run, when_run_false _ _ _ _ _ _ _ (by simp [dr_mask_is_reg_c_4_7_set])]
  rw [seqs_cons_run, when_run_false _ _ _ _ _ _ _ (by simp [dr_mask_is_gvmi_or_qpn_set])]
  rw [seqs_cons_run, when_run_false _ _ _ _ _ _ _ (by simp [hm, dr_mask_is_smac_set])]
  rw [seqs_cons_run, when_run_false _ _ _ _ _ _ _ (by simp [hm, dr_mask_is_smac_set])]
  rw [seqs_cons_run, when_run_true _ _ _ _ _ _ _ (by simp [hm, DR_MASK_IS_L2_DST])]

/-- C17, counterexample: for criteria OUTER and an outer mask with only
`ip_version = 0xf`, with an L2 destination builder that clears `ip_version`,
both runs (IPv4 and IPv6 outer) append the field-matching L2 destination
builder and return 0: neither consists of the always-match builder and
neither fails with `-EINVAL`. -/
theorem wildcard_only_counterexample :
    (sel_final hdr_upstream ops_clearing (table_init MLX5DR_DOMAIN_TYPE_NIC_RX).dmn
      ex_wild_only (table_init MLX5DR_DOMAIN_TYPE_NIC_RX).rx (fun _ => {})
      DR_RULE_IPV4 DR_RULE_IPV4).calls = [(ste_build_id.eth_l2_dst, false)] ∧
    (sel_final hdr_upstream ops_clearing (table_init MLX5DR_DOMAIN_TYPE_NIC_RX).dmn
      ex_wild_only (table_init MLX5DR_DOMAIN_TYPE_NIC_RX).rx (fun _ => {})
      DR_RULE_IPV6 DR_RULE_IPV4).calls = [(ste_build_id.eth_l2_dst, false)] ∧
    (dr_matcher_set_ste_builders hdr_upstream ops_clearing
      (table_init MLX5DR_DOMAIN_TYPE_NIC_RX).dmn ex_wild_only
      (table_init MLX5DR_DOMAIN_TYPE_NIC_RX).rx {} DR_RULE_IPV4 DR_RULE_IPV4).1 = 0 ∧
    (dr_matcher_set_ste_builders hdr_upstream ops_clearing
      (table_init MLX5DR_DOMAIN_TYPE_NIC_RX).dmn ex_wild_only
      (table_init MLX5DR_DOMAIN_TYPE_NIC_RX).rx {} DR_RULE_IPV6 DR_RULE_IPV4).1 = 0 := by
  set_option maxRecDepth 100000 in decide

/-- C17 (amended): for criteria that select only the outer header and an
outer mask with only `ip_version = 0xf`, the selection is both outer families
with inner IPv4, so the selector runs for (IPv4, IPv4) and (IPv6, IPv4); each
run appends the outer L2 destination builder first (`ip_version` is one of its
fields), does not append the always-match builder, and does not return
`-EINVAL`; when the L2 destination builder clears `ip_version` the run
consists of that builder alone and returns 0. -/
theorem wildcard_only_runs_l2_dst (K : dr_hdr) (ops : ste_ops) (dmn : mlx5dr_domain)
    (matcher : mlx5dr_matcher) (nic_tbl : mlx5dr_table_rx_tx)
    (nic_matcher : mlx5dr_matcher_rx_tx)
    (hc : criteria_outer_only K matcher.match_criteria)
    (hm : matcher.mask.outer = { ip_version := 0xf })
    (hpre : ops.mlx5dr_ste_build_pre_check dmn matcher.match_criteria matcher.mask = 0) :
    dr_matcher_get_mask_ip_versions K matcher = .ok ex_sel_wild_outer ∧
    (dr_matcher_set_all_ste_builders K ops dmn matcher nic_tbl nic_matcher).2.sel_runs =
      nic_matcher.sel_runs ++ [(DR_RULE_IPV4, DR_RULE_IPV4), (DR_RULE_IPV6, DR_RULE_IPV4)] ∧
    ∀ (o : mlx5dr_ipv) (nic : mlx5dr_matcher_rx_tx),
      (∃ rest, (sel_final K ops dmn matcher nic_tbl (nic.ste_builder_arr o DR_RULE_IPV4)
        o DR_RULE_IPV4).calls = (ste_build_id.eth_l2_dst, false) :: rest) ∧
      (ste_build_id.empty_always_hit, false) ∉
        (sel_final K ops dmn matcher nic_tbl (nic.ste_builder_arr o DR_RULE_IPV4)
          o DR_RULE_IPV4).calls ∧
      (dr_matcher_set_ste_builders K ops dmn matcher nic_tbl nic o DR_RULE_IPV4).1 ≠ -EINVAL ∧
      ((ops.build .eth_l2_dst dmn { outer := matcher.mask.outer } false
          (nic_tbl.nic_dmn_type == DR_DOMAIN_NIC_TYPE_RX)).2 = {} →
        K.DR_MASK_IS_ICMPV4_SET {} = false →
        (sel_final K ops dmn matcher nic_tbl (nic.ste_builder_arr o DR_RULE_IPV4)
          o DR_RULE_IPV4).calls = [(ste_build_id.eth_l2_dst, false)] ∧
        (dr_matcher_set_ste_builders K ops dmn matcher nic_tbl nic o DR_RULE_IPV4).1 = 0) := by
  have hv : dr_matcher_get_mask_ip_versions K matcher = .ok ex_sel_wild_outer := by
    rw [outer_only_versions K matcher hc, hm]
    simp [dr_mask_is_ipv6_only_match_set, layer_families, ex_sel_wild_outer]
  refine ⟨hv, ?_, ?_⟩
  · rw [set_all_eq K ops dmn matcher nic_tbl nic_matcher _ hv, set_all_wild_outer,
      set_ste_builders_sel_runs, set_ste_builders_sel_runs, List.append_assoc]
    rfl
  · intro o nic
    obtain ⟨ps, hfin, hps⟩ := wild_only_final K ops dmn matcher nic_tbl
      (nic.ste_builder_arr o DR_RULE_IPV4) o DR_RULE_IPV4 hc hm
    obtain ⟨l, hl⟩ := run_calls_prefix ops dmn (nic_tbl.nic_dmn_type == DR_DOMAIN_NIC_TYPE_RX)
      (sel_prog.seqs (.ite (fun _ => o == DR_RULE_IPV6)
        (.seqs [
          .when (fun m => dr_mask_is_dst_addr_set m.outer) .eth_l3_ipv6_dst false,
          .when (fun m => dr_mask_is_src_addr_set m.outer) .eth_l3_ipv6_src false,
          .when (fun m => DR_MASK_IS_ETH_L4_SET m.outer m.misc false) .eth_ipv6_l3_l4 false])
        (.seqs [
          .when (fun m => dr_mask_is_ipv4_5_tuple_set m.outer) .eth_l3_ipv4_5_tuple false,
          .when (fun m => dr_mask_is_ttl_set m.outer) .eth_l3_ipv4_misc false]) :: ps))
      (sel_state.build ops dmn (nic_tbl.nic_dmn_type == DR_DOMAIN_NIC_TYPE_RX)
        .eth_l2_dst false
        { mask := { outer := matcher.mask.outer },
          sb := nic.ste_builder_arr o DR_RULE_IPV4, idx := 0, calls := [] })
    have hcalls : (sel_final K ops dmn matcher nic_tbl (nic.ste_builder_arr o DR_RULE_IPV4)
        o DR_RULE_IPV4).calls = (ste_build_id.eth_l2_dst, false) :: l := by
      rw [hfin, hl]; rfl
    have hlen := sel_final_idx_len K ops dmn matcher nic_tbl
      (nic.ste_builder_arr o DR_RULE_IPV4) o DR_RULE_IPV4
    have hret := set_ste_builders_ret K ops dmn matcher nic_tbl nic o DR_RULE_IPV4
    have hidx : (sel_final K ops dmn matcher nic_tbl (nic.ste_builder_arr o DR_RULE_IPV4)
        o DR_RULE_IPV4).idx ≠ 0 := by
      rw [hlen, hcalls]; simp
    refine ⟨⟨l, hcalls⟩, ?_, ?_, ?_⟩
    · rw [outer_only_final_pre K ops dmn matcher nic_tbl _ _ _ hc]
      exact sel_pre_no_empty _ _ _ _ _ _ _ _ _
    · rw [hret]
      simp only [hpre, ne_eq, not_true_eq_false, if_false, if_neg hidx]
      split_ifs <;> decide
    · intro hclr hicmp
      have hzero : (sel_state.build ops dmn (nic_tbl.nic_dmn_type == DR_DOMAIN_NIC_TYPE_RX)
          .eth_l2_dst false
          { mask := { outer := matcher.mask.outer },
            sb := nic.ste_builder_arr o DR_RULE_IPV4, idx := 0, calls := [] }).mask = {} := by
        rw [build_mask]; exact hclr
      have hfin2 : sel_final K ops dmn matcher nic_tbl (nic.ste_builder_arr o DR_RULE_IPV4)
          o DR_RULE_IPV4 =
          sel_state.build ops dmn (nic_tbl.nic_dmn_type == DR_DOMAIN_NIC_TYPE_RX)
            .eth_l2_dst false
            { mask := { outer := matcher.mask.outer },
              sb := nic.ste_builder_arr o DR_RULE_IPV4, idx := 0, calls := [] } := by
        rw [hfin, seqs_cons_run]
        cases o
        · rw [ite_run_false _ _ _ _ _ _ _ (by decide),
            seqs_cons_run, when_run_false _ _ _ _ _ _ _ (by
              simp [hzero, dr_mask_is_ipv4_5_tuple_set, dr_mask_is_l3_base_set,
                dr_mask_is_tcp_udp_base_set, dr_mask_is_ipv4_set]),
            seqs_cons_run, when_run_false _ _ _ _ _ _ _ (by
              simp [hzero, dr_mask_is_ttl_set]), seqs_nil_run]
          exact outer_prog_run_zero K ops dmn _ hicmp _ hzero _ hps
        · rw [ite_run_true _ _ _ _ _ _ _ (by decide),
            seqs_cons_run, when_run_false _ _ _ _ _ _ _ (by
              simp [hzero, dr_mask_is_dst_addr_set]),
            seqs_cons_run, when_run_false _ _ _ _ _ _ _ (by
              simp [hzero, dr_mask_is_src_addr_set]),
            seqs_cons_run, when_run_false _ _ _ _ _ _ _ (by
              simp [hzero, DR_MASK_IS_ETH_L4_SET, dr_mask_is_l3_base_set,
                dr_mask_is_tcp_udp_base_set, dr_mask_is_ttl_set]), seqs_nil_run]
          exact outer_prog_run_zero K ops dmn _ hicmp _ hzero _ hps
      refine ⟨by rw [hfin2]; rfl, ?_⟩
      rw [hret, hfin2]
      simp [hpre, sel_state.build, hclr, dr_matcher_is_mask_consumed]

theorem wildcard_only_runs_l2_dst_witness :
    criteria_outer_only hdr_upstream ex_wild_only.match_criteria ∧
    dr_matcher_get_mask_ip_versions hdr_upstream ex_wild_only = .ok ex_sel_wild_outer ∧
    (dr_matcher_set_all_ste_builders hdr_upstream ops_idle
      (table_init MLX5DR_DOMAIN_TYPE_NIC_RX).dmn ex_wild_only
      (table_init MLX5DR_DOMAIN_TYPE_NIC_RX).rx {}).2.sel_runs =
      [] ++ [(DR_RULE_IPV4, DR_RULE_IPV4), (DR_RULE_IPV6, DR_RULE_IPV4)] :=
  ⟨by decide,
   (wildcard_only_runs_l2_dst hdr_upstream ops_idle
     (table_init MLX5DR_DOMAIN_TYPE_NIC_RX).dmn ex_wild_only
     (table_init MLX5DR_DOMAIN_TYPE_NIC_RX).rx {} (by decide) rfl rfl).1,
   (wildcard_only_runs_l2_dst hdr_upstream ops_idle
     (table_init MLX5DR_DOMAIN_TYPE_NIC_RX).dmn ex_wild_only
     (table_init MLX5DR_DOMAIN_TYPE_NIC_RX).rx {} (by decide) rfl rfl).2.1⟩

/-! ## Capability-gated protocols -/

theorem keeps_ite_call (ops : ste_ops) (dmn : mlx5dr_domain) (rx : Bool)
    (I : sel_state → Prop) (c : mlx5dr_match_param → Bool) (b : ste_build_id) (inner : Bool)
    (q : sel_prog)
    (h : ∀ s, I s → c s.mask = true → I (s.build ops dmn rx b inner))
    (hq : q.keeps ops dmn rx I) :
    (sel_prog.ite c (.call b inner) q).keeps ops dmn rx I :=
  keeps_ite ops dmn rx I c _ q h hq

theorem keeps_ite_seq_call (ops : ste_ops) (dmn : mlx5dr_domain) (rx : Bool)
    (I : sel_state → Prop) (c : mlx5dr_match_param → Bool) (b : ste_build_id) (inner : Bool)
    (r q : sel_prog)
    (h : ∀ s, I s → c s.mask = true → I (s.build ops dmn rx b inner))
    (hr : r.keeps ops dmn rx I) (hq : q.keeps ops dmn rx I) :
    (sel_prog.ite c (.seq (.call b inner) r) q).keeps ops dmn rx I :=
  keeps_ite ops dmn rx I c _ q
    (fun s hs hc => keeps_run ops dmn rx I r hr _ (h s hs hc)) hq

theorem sel_final_mask (K : dr_hdr) (ops : ste_ops) (dmn : mlx5dr_domain)
    (matcher : mlx5dr_matcher) (nic_tbl : mlx5dr_table_rx_tx) (sb : Nat → mlx5dr_ste_build)
    (o i : mlx5dr_ipv) :
    (sel_final K ops dmn matcher nic_tbl sb o i).mask =
      (sel_pre K ops dmn matcher (nic_tbl.nic_dmn_type == DR_DOMAIN_NIC_TYPE_RX) sb o i).mask := by
  rw [sel_final_eq]
  unfold sel_fallback
  split_ifs <;> rfl

/-- The return code of a run that leaves a nonzero field in the working mask. -/
theorem set_ste_builders_residual (K : dr_hdr) (ops : ste_ops) (dmn : mlx5dr_domain)
    (matcher : mlx5dr_matcher) (nic_tbl : mlx5dr_table_rx_tx)
    (nic_matcher : mlx5dr_matcher_rx_tx) (o i : mlx5dr_ipv)
    (hpre : ops.mlx5dr_ste_build_pre_check dmn matcher.match_criteria matcher.mask = 0)
    (hm : (sel_final K ops dmn matcher nic_tbl (nic_matcher.ste_builder_arr o i) o i).mask ≠ {}) :
    (dr_matcher_set_ste_builders K ops dmn matcher nic_tbl nic_matcher o i).1 =
      (if (sel_final K ops dmn matcher nic_tbl (nic_matcher.ste_builder_arr o i) o i).calls = []
        then -EINVAL else -EOPNOTSUPP) ∧
    (dr_matcher_set_ste_builders K ops dmn matcher nic_tbl nic_matcher o i).1 ≠ 0 := by
  have hlen := sel_final_idx_len K ops dmn matcher nic_tbl (nic_matcher.ste_builder_arr o i) o i
  have hnil : (sel_final K ops dmn matcher nic_tbl (nic_matcher.ste_builder_arr o i) o i).calls
      = [] ↔ (sel_final K ops dmn matcher nic_tbl (nic_matcher.ste_builder_arr o i) o i).idx
      = 0 := by
    rw [hlen, List.length_eq_zero]
  have hcons : dr_matcher_is_mask_consumed
      (sel_final K ops dmn matcher nic_tbl (nic_matcher.ste_builder_arr o i) o i).mask = false := by
    unfold dr_matcher_is_mask_consumed; exact beq_eq_false_iff_ne.2 hm
  have hE : (-EINVAL : Int) ≠ 0 := by decide
  have hO : (-EOPNOTSUPP : Int) ≠ 0 := by decide
  rw [set_ste_builders_ret]
  simp only [hpre, ne_eq, not_true_eq_false, if_false, hcons, if_true, hnil]
  split_ifs <;> simp [hE, hO]

theorem gated_is_set_working (K : dr_hdr) (dmn : mlx5dr_domain) (matcher : mlx5dr_matcher)
    (rx : Bool) (X : gated_proto) :
    X.is_set K (sel_working_mask K dmn matcher rx) = X.is_set K (sel_copied_mask K matcher) := by
  unfold sel_working_mask
  split_ifs
  · cases X <;> rfl
  · rfl

theorem gated_is_set_zero (K : dr_hdr) (hzero : K.DR_MASK_IS_ICMPV4_SET {} = false)
    (X : gated_proto) : X.is_set K {} = false := by
  cases X
  · rfl
  · rfl
  · rfl
  · rfl
  · exact hzero
  · rfl

theorem gated_keeps (K : dr_hdr) (ops : ste_ops) (dmn : mlx5dr_domain) (rx : Bool)
    (X : gated_proto) (match_criteria : Nat) (o i : mlx5dr_ipv)
    (hframe : ∀ b inner m, (b = X.builder → X.gate K m dmn.caps = true) →
      X.is_set K m = true → X.is_set K (ops.build b dmn m inner rx).2 = true) :
    (full_prog K dmn match_criteria o i).keeps ops dmn rx
      (fun s => X.is_set K s.mask = true) := by
  have hG : ∀ b inner (s : sel_state) (P : Prop),
      (b = X.builder → P → X.gate K s.mask dmn.caps = true) →
      X.is_set K s.mask = true → P →
        X.is_set K (s.build ops dmn rx b inner).mask = true :=
    fun b inner s P hb hs hc => hframe b inner s.mask (fun e => hb e hc) hs
  unfold full_prog outer_prog inner_prog
  cases X <;>
  · repeat' first
      | apply keeps_seqs_nil
      | apply keeps_seqs_cons
      | apply keeps_skip
      | apply keeps_when
      | apply keeps_ite_call
      | apply keeps_ite_seq_call
      | apply keeps_block
    all_goals
      intro s hs hc
      refine hG _ _ s _ ?_ hs hc
      first
        | (intro h; exact absurd h (by decide))
        | (intro _ hc; exact hc)

/-- C14, counterexample: in a NIC receive domain whose capabilities do not
support VXLAN-GPE, for criteria MISC3 and a mask with only the VXLAN-GPE VNI,
no builder is appended and the run returns `-EINVAL`, not `-EOPNOTSUPP`. -/
theorem vxlan_gpe_unsupported_counterexample :
    gated_proto.vxlan_gpe.is_set hdr_upstream ex_vxlan_gpe_only.mask = true ∧
    gated_proto.vxlan_gpe.supp hdr_upstream (table_init MLX5DR_DOMAIN_TYPE_NIC_RX).dmn.caps
      = false ∧
    (sel_final hdr_upstream ops_idle (table_init MLX5DR_DOMAIN_TYPE_NIC_RX).dmn
      ex_vxlan_gpe_only (table_init MLX5DR_DOMAIN_TYPE_NIC_RX).rx (fun _ => {})
      DR_RULE_IPV4 DR_RULE_IPV4).calls = [] ∧
    (dr_matcher_set_ste_builders hdr_upstream ops_idle
      (table_init MLX5DR_DOMAIN_TYPE_NIC_RX).dmn ex_vxlan_gpe_only
      (table_init MLX5DR_DOMAIN_TYPE_NIC_RX).rx {} DR_RULE_IPV4 DR_RULE_IPV4).1 = -EINVAL := by
  set_option maxRecDepth 100000 in decide

/-- C14 (amended): when a field of a capability-gated protocol (VXLAN-GPE,
GENEVE, MPLS over GRE, MPLS over UDP, ICMPv4, ICMPv6) is set in the copied
mask, the capabilities do not support the protocol, the pre-check passes, and
every builder call leaves the protocol's fields set (for the protocol's own
builder: every call made under the selector's guard for it), then the run
does not return 0 and the protocol's fields are still set at its end; it
returns `-EOPNOTSUPP` when some builder was appended and `-EINVAL` when none
was. Except for ICMPv6 (whose builder is shared with ICMPv4) the guard of the
protocol's builder is false on the working mask. -/
theorem gated_proto_unsupported_fails (K : dr_hdr) (ops : ste_ops) (dmn : mlx5dr_domain)
    (matcher : mlx5dr_matcher) (nic_tbl : mlx5dr_table_rx_tx)
    (nic_matcher : mlx5dr_matcher_rx_tx) (o i : mlx5dr_ipv) (X : gated_proto)
    (hset : X.is_set K (sel_copied_mask K matcher) = true)
    (hsupp : X.supp K dmn.caps = false)
    (hzero : K.DR_MASK_IS_ICMPV4_SET {} = false)
    (hpre : ops.mlx5dr_ste_build_pre_check dmn matcher.match_criteria matcher.mask = 0)
    (hframe : ∀ b inner m, (b = X.builder → X.gate K m dmn.caps = true) →
      X.is_set K m = true →
      X.is_set K (ops.build b dmn m inner
        (nic_tbl.nic_dmn_type == DR_DOMAIN_NIC_TYPE_RX)).2 = true) :
    (dr_matcher_set_ste_builders K ops dmn matcher nic_tbl nic_matcher o i).1 =
      (if (sel_final K ops dmn matcher nic_tbl (nic_matcher.ste_builder_arr o i) o i).calls = []
        then -EINVAL else -EOPNOTSUPP) ∧
    (dr_matcher_set_ste_builders K ops dmn matcher nic_tbl nic_matcher o i).1 ≠ 0 ∧
    X.is_set K (sel_final K ops dmn matcher nic_tbl
      (nic_matcher.ste_builder_arr o i) o i).mask = true ∧
    (X ≠ .icmp_v6 →
      X.gate K (sel_working_mask K dmn matcher
        (nic_tbl.nic_dmn_type == DR_DOMAIN_NIC_TYPE_RX)) dmn.caps = false) := by
  have hkeep := gated_keeps K ops dmn (nic_tbl.nic_dmn_type == DR_DOMAIN_NIC_TYPE_RX) X
    matcher.match_criteria o i hframe
  have hw := gated_is_set_working K dmn matcher (nic_tbl.nic_dmn_type == DR_DOMAIN_NIC_TYPE_RX) X
  have hfin : X.is_set K (sel_final K ops dmn matcher nic_tbl
      (nic_matcher.ste_builder_arr o i) o i).mask = true := by
    rw [sel_final_mask]
    exact keeps_run _ _ _ _ _ hkeep _ (by rw [← hset, ← hw])
  have hne : (sel_final K ops dmn matcher nic_tbl
      (nic_matcher.ste_builder_arr o i) o i).mask ≠ {} := by
    intro h
    rw [h, gated_is_set_zero K hzero X] at hfin
    cases hfin
  obtain ⟨h1, h2⟩ := set_ste_builders_residual K ops dmn matcher nic_tbl nic_matcher o i hpre hne
  refine ⟨h1, h2, hfin, ?_⟩
  intro hx
  have hs := hsupp
  rw [hset] at hw
  cases X
  · simp only [gated_proto.gate, gated_proto.supp, dr_mask_is_tnl_vxlan_gpe] at hs ⊢
    rw [hs, Bool.and_false]
  · simp only [gated_proto.gate, gated_proto.supp, dr_mask_is_tnl_geneve] at hs ⊢
    rw [hs, Bool.and_false]
  · simp only [gated_proto.gate, gated_proto.supp, dr_mask_is_tnl_mpls_over_gre] at hs ⊢
    rw [hs, Bool.and_false]
  · simp only [gated_proto.gate, gated_proto.supp, dr_mask_is_tnl_mpls_over_udp] at hs ⊢
    rw [hs, Bool.and_false]
  · simp only [gated_proto.gate, gated_proto.supp, gated_proto.is_set, dr_mask_is_icmp]
      at hs hw ⊢
    rw [hw, hs]; rfl
  · exact absurd rfl hx

theorem gated_proto_unsupported_fails_witness :
    gated_proto.vxlan_gpe.is_set hdr_upstream (sel_copied_mask hdr_upstream ex_smac_vxlan_gpe)
      = true ∧
    gated_proto.vxlan_gpe.supp hdr_upstream (table_init MLX5DR_DOMAIN_TYPE_NIC_RX).dmn.caps
      = false ∧
    (sel_final hdr_upstream ops_idle (table_init MLX5DR_DOMAIN_TYPE_NIC_RX).dmn
      ex_smac_vxlan_gpe (table_init MLX5DR_DOMAIN_TYPE_NIC_RX).rx
      (({} : mlx5dr_matcher_rx_tx).ste_builder_arr DR_RULE_IPV4 DR_RULE_IPV4)
      DR_RULE_IPV4 DR_RULE_IPV4).calls ≠ [] ∧
    (dr_matcher_set_ste_builders hdr_upstream ops_idle
      (table_init MLX5DR_DOMAIN_TYPE_NIC_RX).dmn ex_smac_vxlan_gpe
      (table_init MLX5DR_DOMAIN_TYPE_NIC_RX).rx {} DR_RULE_IPV4 DR_RULE_IPV4).1 =
      (if (sel_final hdr_upstream ops_idle (table_init MLX5DR_DOMAIN_TYPE_NIC_RX).dmn
        ex_smac_vxlan_gpe (table_init MLX5DR_DOMAIN_TYPE_NIC_RX).rx
        (({} : mlx5dr_matcher_rx_tx).ste_builder_arr DR_RULE_IPV4 DR_RULE_IPV4)
        DR_RULE_IPV4 DR_RULE_IPV4).calls = [] then -EINVAL else -EOPNOTSUPP) :=
  ⟨by decide, by decide, by set_option maxRecDepth 100000 in decide,
   (gated_proto_unsupported_fails hdr_upstream ops_idle
     (table_init MLX5DR_DOMAIN_TYPE_NIC_RX).dmn ex_smac_vxlan_gpe
     (table_init MLX5DR_DOMAIN_TYPE_NIC_RX).rx {} DR_RULE_IPV4 DR_RULE_IPV4 .vxlan_gpe
     (by decide) (by decide) rfl rfl (fun _ _ _ _ h => h)).1⟩

/-! ## GENEVE TLV option without the GENEVE base fields -/

theorem geneve_tlv_keeps (K : dr_hdr) (ops : ste_ops) (dmn : mlx5dr_domain) (rx : Bool)
    (match_criteria : Nat) (o i : mlx5dr_ipv)
    (hframe : ∀ b inner m, b ≠ ste_build_id.tnl_geneve →
      b ≠ ste_build_id.tnl_geneve_tlv_option → geneve_tlv_without_base m = true →
      geneve_tlv_without_base (ops.build b dmn m inner rx).2 = true) :
    (full_prog K dmn match_criteria o i).keeps ops dmn rx
      (fun s => geneve_tlv_without_base s.mask = true ∧
        ∀ inner, (ste_build_id.tnl_geneve_tlv_option, inner) ∉ s.calls ∧
          (ste_build_id.tnl_geneve, inner) ∉ s.calls) := by
  have hstep : ∀ b inner (s : sel_state), b ≠ ste_build_id.tnl_geneve →
      b ≠ ste_build_id.tnl_geneve_tlv_option →
      (geneve_tlv_without_base s.mask = true ∧
        ∀ inner, (ste_build_id.tnl_geneve_tlv_option, inner) ∉ s.calls ∧
          (ste_build_id.tnl_geneve, inner) ∉ s.calls) →
      (geneve_tlv_without_base (s.build ops dmn rx b inner).mask = true ∧
        ∀ inner', (ste_build_id.tnl_geneve_tlv_option, inner') ∉
            (s.build ops dmn rx b inner).calls ∧
          (ste_build_id.tnl_geneve, inner') ∉ (s.build ops dmn rx b inner).calls) := by
    intro b inner s h1 h2 hs
    refine ⟨hframe b inner s.mask h1 h2 hs.1, fun inner' => ?_⟩
    simp only [build_calls, List.mem_append, List.mem_singleton, Prod.mk.injEq, not_or]
    exact ⟨⟨(hs.2 inner').1, fun h => h2 h.1.symm⟩, ⟨(hs.2 inner').2, fun h => h1 h.1.symm⟩⟩
  have hdead : ∀ s : sel_state,
      (geneve_tlv_without_base s.mask = true ∧
        ∀ inner, (ste_build_id.tnl_geneve_tlv_option, inner) ∉ s.calls ∧
          (ste_build_id.tnl_geneve, inner) ∉ s.calls) →
      (fun m => dr_mask_is_tnl_geneve K m dmn.caps) s.mask = false := by
    intro s hs
    have := hs.1
    simp only [geneve_tlv_without_base, Bool.and_eq_true, Bool.not_eq_true'] at this
    simp [dr_mask_is_tnl_geneve, this.1]
  unfold full_prog outer_prog inner_prog
  repeat' first
    | apply keeps_seqs_nil
    | apply keeps_seqs_cons
    | apply keeps_skip
    | apply keeps_when
    | exact keeps_ite_dead _ _ _ _ _ _ _ hdead (keeps_skip _ _ _ _)
    | apply keeps_ite_call
    | apply keeps_block
  all_goals exact fun s hs _ => hstep _ _ s (by decide) (by decide) hs

/-- C18, counterexample: for criteria MISC3 and a mask with only
`geneve_tlv_option_0_data`, no builder is appended and the run returns
`-EINVAL`, not `-EOPNOTSUPP`. -/
theorem geneve_tlv_only_counterexample :
    geneve_tlv_without_base ex_geneve_tlv_only.mask = true ∧
    (sel_final hdr_upstream ops_idle (table_init MLX5DR_DOMAIN_TYPE_NIC_RX).dmn
      ex_geneve_tlv_only (table_init MLX5DR_DOMAIN_TYPE_NIC_RX).rx (fun _ => {})
      DR_RULE_IPV4 DR_RULE_IPV4).calls = [] ∧
    (dr_matcher_set_ste_builders hdr_upstream ops_idle
      (table_init MLX5DR_DOMAIN_TYPE_NIC_RX).dmn ex_geneve_tlv_only
      (table_init MLX5DR_DOMAIN_TYPE_NIC_RX).rx {} DR_RULE_IPV4 DR_RULE_IPV4).1 = -EINVAL := by
  set_option maxRecDepth 100000 in decide

/-- C18 (amended): when `geneve_tlv_option_0_data` is nonzero in the copied
mask while the GENEVE base fields are zero, the pre-check passes, and every
builder other than the two GENEVE builders leaves that situation as it is,
then the GENEVE predicate is false on the working mask, neither GENEVE builder
is appended, the field is still set at the end of the run, and the run returns
`-EOPNOTSUPP` when some builder was appended and `-EINVAL` when none was. -/
theorem geneve_tlv_without_base_fails (K : dr_hdr) (ops : ste_ops) (dmn : mlx5dr_domain)
    (matcher : mlx5dr_matcher) (nic_tbl : mlx5dr_table_rx_tx)
    (nic_matcher : mlx5dr_matcher_rx_tx) (o i : mlx5dr_ipv)
    (hset : geneve_tlv_without_base (sel_copied_mask K matcher) = true)
    (hpre : ops.mlx5dr_ste_build_pre_check dmn matcher.match_criteria matcher.mask = 0)
    (hframe : ∀ b inner m, b ≠ ste_build_id.tnl_geneve →
      b ≠ ste_build_id.tnl_geneve_tlv_option → geneve_tlv_without_base m = true →
      geneve_tlv_without_base (ops.build b dmn m inner
        (nic_tbl.nic_dmn_type == DR_DOMAIN_NIC_TYPE_RX)).2 = true) :
    dr_mask_is_tnl_geneve K (sel_working_mask K dmn matcher
      (nic_tbl.nic_dmn_type == DR_DOMAIN_NIC_TYPE_RX)) dmn.caps = false ∧
    (∀ inner, (ste_build_id.tnl_geneve_tlv_option, inner) ∉
        (sel_final K ops dmn matcher nic_tbl (nic_matcher.ste_builder_arr o i) o i).calls ∧
      (ste_build_id.tnl_geneve, inner) ∉
        (sel_final K ops dmn matcher nic_tbl (nic_matcher.ste_builder_arr o i) o i).calls) ∧
    (sel_final K ops dmn matcher nic_tbl
      (nic_matcher.ste_builder_arr o i) o i).mask.misc3.geneve_tlv_option_0_data ≠ 0 ∧
    (dr_matcher_set_ste_builders K ops dmn matcher nic_tbl nic_matcher o i).1 =
      (if (sel_final K ops dmn matcher nic_tbl (nic_matcher.ste_builder_arr o i) o i).calls = []
        then -EINVAL else -EOPNOTSUPP) ∧
    (dr_matcher_set_ste_builders K ops dmn matcher nic_tbl nic_matcher o i).1 ≠ 0 := by
  have hw : geneve_tlv_without_base (sel_working_mask K dmn matcher
      (nic_tbl.nic_dmn_type == DR_DOMAIN_NIC_TYPE_RX)) = true := by
    unfold sel_working_mask
    split_ifs
    · exact hset
    · exact hset
  have hkeep := geneve_tlv_keeps K ops dmn (nic_tbl.nic_dmn_type == DR_DOMAIN_NIC_TYPE_RX)
    matcher.match_criteria o i hframe
  have hpre' := keeps_run _ _ _ _ _ hkeep
    { mask := sel_working_mask K dmn matcher (nic_tbl.nic_dmn_type == DR_DOMAIN_NIC_TYPE_RX),
      sb := nic_matcher.ste_builder_arr o i, idx := 0, calls := [] }
    ⟨hw, fun _ => ⟨List.not_mem_nil _, List.not_mem_nil _⟩⟩
  have hmask : geneve_tlv_without_base (sel_final K ops dmn matcher nic_tbl
      (nic_matcher.ste_builder_arr o i) o i).mask = true := by
    rw [sel_final_mask]; exact hpre'.1
  have htlv : (sel_final K ops dmn matcher nic_tbl
      (nic_matcher.ste_builder_arr o i) o i).mask.misc3.geneve_tlv_option_0_data ≠ 0 := by
    have := hmask
    simp only [geneve_tlv_without_base, dr_mask_is_tnl_geneve_tlv_option, Bool.and_eq_true,
      bne_iff_ne, ne_eq] at this
    exact this.2
  have hne : (sel_final K ops dmn matcher nic_tbl
      (nic_matcher.ste_builder_arr o i) o i).mask ≠ {} := by
    intro h
    rw [h] at htlv
    exact htlv rfl
  obtain ⟨h1, h2⟩ := set_ste_builders_residual K ops dmn matcher nic_tbl nic_matcher o i hpre hne
  refine ⟨?_, ?_, htlv, h1, h2⟩
  · simp only [geneve_tlv_without_base, Bool.and_eq_true, Bool.not_eq_true'] at hw
    simp [dr_mask_is_tnl_geneve, hw.1]
  · intro inner
    rw [sel_final_eq]
    unfold sel_fallback
    split_ifs
    · simp only [sel_state.build_empty, List.mem_append, List.mem_singleton, Prod.mk.injEq,
        not_or]
      exact ⟨⟨(hpre'.2 inner).1, fun h => by cases h.1⟩,
        ⟨(hpre'.2 inner).2, fun h => by cases h.1⟩⟩
    · exact hpre'.2 inner

theorem geneve_tlv_without_base_fails_witness :
    geneve_tlv_without_base (sel_copied_mask hdr_upstream ex_smac_geneve_tlv) = true ∧
    (sel_final hdr_upstream ops_idle (table_init MLX5DR_DOMAIN_TYPE_NIC_RX).dmn
      ex_smac_geneve_tlv (table_init MLX5DR_DOMAIN_TYPE_NIC_RX).rx
      (({} : mlx5dr_matcher_rx_tx).ste_builder_arr DR_RULE_IPV4 DR_RULE_IPV4)
      DR_RULE_IPV4 DR_RULE_IPV4).calls ≠ [] ∧
    (dr_matcher_set_ste_builders hdr_upstream ops_idle
      (table_init MLX5DR_DOMAIN_TYPE_NIC_RX).dmn ex_smac_geneve_tlv
      (table_init MLX5DR_DOMAIN_TYPE_NIC_RX).rx {} DR_RULE_IPV4 DR_RULE_IPV4).1 =
      (if (sel_final hdr_upstream ops_idle (table_init MLX5DR_DOMAIN_TYPE_NIC_RX).dmn
        ex_smac_geneve_tlv (table_init MLX5DR_DOMAIN_TYPE_NIC_RX).rx
        (({} : mlx5dr_matcher_rx_tx).ste_builder_arr DR_RULE_IPV4 DR_RULE_IPV4)
        DR_RULE_IPV4 DR_RULE_IPV4).calls = [] then -EINVAL else -EOPNOTSUPP) :=
  ⟨by decide, by set_option maxRecDepth 100000 in decide,
   (geneve_tlv_without_base_fails hdr_upstream ops_idle
     (table_init MLX5DR_DOMAIN_TYPE_NIC_RX).dmn ex_smac_geneve_tlv
     (table_init MLX5DR_DOMAIN_TYPE_NIC_RX).rx {} DR_RULE_IPV4 DR_RULE_IPV4
     (by decide) rfl (fun _ _ _ _ _ h => h)).2.2.2.1⟩

/-! ## Mask copy, ICMP predicate and argument checks -/

/-- C30: `dr_matcher_copy_mask` makes each of the six sub-records of the
destination equal to that of the source when its criteria bit is set and
leaves it as it was otherwise (the source is an input only); a second copy
changes nothing; and on an all-zero destination a sub-record whose bit is
clear stays all-zero whatever the source holds. -/
theorem copy_mask_exact (K : dr_hdr) (dst src : mlx5dr_match_param) (c : Nat) :
    ((dr_matcher_copy_mask K dst src c).outer =
        if c &&& K.DR_MATCHER_CRITERIA_OUTER ≠ 0 then src.outer else dst.outer) ∧
    ((dr_matcher_copy_mask K dst src c).misc =
        if c &&& K.DR_MATCHER_CRITERIA_MISC ≠ 0 then src.misc else dst.misc) ∧
    ((dr_matcher_copy_mask K dst src c).inner =
        if c &&& K.DR_MATCHER_CRITERIA_INNER ≠ 0 then src.inner else dst.inner) ∧
    ((dr_matcher_copy_mask K dst src c).misc2 =
        if c &&& K.DR_MATCHER_CRITERIA_MISC2 ≠ 0 then src.misc2 else dst.misc2) ∧
    ((dr_matcher_copy_mask K dst src c).misc3 =
        if c &&& K.DR_MATCHER_CRITERIA_MISC3 ≠ 0 then src.misc3 else dst.misc3) ∧
    ((dr_matcher_copy_mask K dst src c).misc4 =
        if c &&& K.DR_MATCHER_CRITERIA_MISC4 ≠ 0 then src.misc4 else dst.misc4) ∧
    dr_matcher_copy_mask K (dr_matcher_copy_mask K dst src c) src c =
      dr_matcher_copy_mask K dst src c ∧
    (c &&& K.DR_MATCHER_CRITERIA_OUTER = 0 → (dr_matcher_copy_mask K {} src c).outer = {}) ∧
    (c &&& K.DR_MATCHER_CRITERIA_MISC = 0 → (dr_matcher_copy_mask K {} src c).misc = {}) ∧
    (c &&& K.DR_MATCHER_CRITERIA_INNER = 0 → (dr_matcher_copy_mask K {} src c).inner = {}) ∧
    (c &&& K.DR_MATCHER_CRITERIA_MISC2 = 0 → (dr_matcher_copy_mask K {} src c).misc2 = {}) ∧
    (c &&& K.DR_MATCHER_CRITERIA_MISC3 = 0 → (dr_matcher_copy_mask K {} src c).misc3 = {}) ∧
    (c &&& K.DR_MATCHER_CRITERIA_MISC4 = 0 → (dr_matcher_copy_mask K {} src c).misc4 = {}) := by
  unfold dr_matcher_copy_mask
  by_cases h1 : c &&& K.DR_MATCHER_CRITERIA_OUTER = 0 <;>
  by_cases h2 : c &&& K.DR_MATCHER_CRITERIA_MISC = 0 <;>
  by_cases h3 : c &&& K.DR_MATCHER_CRITERIA_INNER = 0 <;>
  by_cases h4 : c &&& K.DR_MATCHER_CRITERIA_MISC2 = 0 <;>
  by_cases h5 : c &&& K.DR_MATCHER_CRITERIA_MISC3 = 0 <;>
  by_cases h6 : c &&& K.DR_MATCHER_CRITERIA_MISC4 = 0 <;>
  simp [h1, h2, h3, h4, h5, h6]

/-- C26: `dr_mask_is_icmp` tests the ICMPv4 fields first: when the ICMPv4
macro holds the result is the ICMPv4 capability, whatever the ICMPv6 fields
and capability; otherwise, when an ICMPv6 field (type, code or header data)
is set, it is the ICMPv6 capability; otherwise it is false. -/
theorem icmp_checks_v4_first (K : dr_hdr) (mask : mlx5dr_match_param)
    (caps : mlx5dr_cmd_caps) :
    (K.DR_MASK_IS_ICMPV4_SET mask.misc3 = true →
      dr_mask_is_icmp K mask caps = dr_matcher_supp_icmp_v4 K caps) ∧
    (K.DR_MASK_IS_ICMPV4_SET mask.misc3 = false → dr_mask_is_icmpv6_set mask.misc3 = true →
      dr_mask_is_icmp K mask caps = dr_matcher_supp_icmp_v6 K caps) ∧
    (K.DR_MASK_IS_ICMPV4_SET mask.misc3 = false → dr_mask_is_icmpv6_set mask.misc3 = false →
      dr_mask_is_icmp K mask caps = false) ∧
    (dr_mask_is_icmpv6_set mask.misc3 = true ↔
      (mask.misc3.icmpv6_type ≠ 0 ∨ mask.misc3.icmpv6_code ≠ 0 ∨
        mask.misc3.icmpv6_header_data ≠ 0)) := by
  refine ⟨?_, ?_, ?_, ?_⟩
  · intro h; simp [dr_mask_is_icmp, h]
  · intro h h6; simp [dr_mask_is_icmp, h, h6]
  · intro h h6; simp [dr_mask_is_icmp, h, h6]
  · simp [dr_mask_is_icmpv6_set, or_assoc]

/-- C25: for a criteria value not below `DR_MATCHER_CRITERIA_MAX`, or a mask
buffer larger than the match parameter, `dr_matcher_init` returns `-EINVAL`
and leaves the world and the matcher as they were (no mask copy, no selector
run, no allocation); `mlx5dr_matcher_create` then returns `NULL`, with the
matcher list and the reference count of the table as before and no table
allocated and nothing sent to the device. -/
theorem init_rejects_bad_arguments (K : dr_hdr) (ops : ste_ops) (E : Env) (w : World)
    (tbl : mlx5dr_table) (priority crit : Nat) (mask : Option mlx5dr_match_parameters)
    (h : crit ≥ K.DR_MATCHER_CRITERIA_MAX ∨
      ∃ p, mask = some p ∧ p.match_sz > K.MLX5_ST_SZ_DW_MATCH_PARAM * 4) :
    (∀ matcher : mlx5dr_matcher, matcher.match_criteria = crit →
      dr_matcher_init K ops E w tbl matcher mask = ⟨-EINVAL, w, matcher⟩) ∧
    (mlx5dr_matcher_create K ops E w tbl priority crit mask).matcher = none ∧
    (mlx5dr_matcher_create K ops E w tbl priority crit mask).tbl.matcher_list =
      tbl.matcher_list ∧
    (mlx5dr_matcher_create K ops E w tbl priority crit mask).tbl.refcount = tbl.refcount ∧
    (mlx5dr_matcher_create K ops E w tbl priority crit mask).w.alloc_calls = w.alloc_calls ∧
    (mlx5dr_matcher_create K ops E w tbl priority crit mask).w.brk = w.brk ∧
    (mlx5dr_matcher_create K ops E w tbl priority crit mask).w.posts = w.posts := by
  have hinit : ∀ (tbl' : mlx5dr_table) (matcher : mlx5dr_matcher),
      matcher.match_criteria = crit →
      dr_matcher_init K ops E w tbl' matcher mask = ⟨-EINVAL, w, matcher⟩ := by
    intro tbl' matcher hc
    unfold dr_matcher_init
    rcases h with h | ⟨p, hp, hsz⟩
    · simp only [hc, h, if_true]
    · subst hp
      by_cases hmax : matcher.match_criteria ≥ K.DR_MATCHER_CRITERIA_MAX
      · simp only [hmax, if_true]
      · simp only [hmax, if_false, hsz, decide_True, if_true]
  have hE : (-EINVAL : Int) ≠ 0 := by decide
  refine ⟨hinit tbl, ?_⟩
  rw [create_eq]
  cases hk : E.kzalloc with
  | none => simp [create_tbl]
  | some addr =>
    have hi : create_init K ops E w tbl priority crit mask addr =
        ⟨-EINVAL, w, create_matcher addr priority crit⟩ := hinit _ _ rfl
    simp [hi, hE, create_tbl, kfree_matcher]

theorem init_rejects_bad_arguments_witness :
    (mlx5dr_matcher_create hdr_upstream ops_idle (env_with 10 []) world_init
      (table_init MLX5DR_DOMAIN_TYPE_FDB) 5 1 (some ex_oversized)).matcher = none ∧
    (mlx5dr_matcher_create hdr_upstream ops_idle (env_with 10 []) world_init
      (table_init MLX5DR_DOMAIN_TYPE_FDB) 5 1 (some ex_oversized)).w.alloc_calls = 0 :=
  ⟨(init_rejects_bad_arguments hdr_upstream ops_idle (env_with 10 []) world_init
      (table_init MLX5DR_DOMAIN_TYPE_FDB) 5 1 (some ex_oversized)
      (Or.inr ⟨ex_oversized, rfl, by decide⟩)).2.1,
   (init_rejects_bad_arguments hdr_upstream ops_idle (env_with 10 []) world_init
      (table_init MLX5DR_DOMAIN_TYPE_FDB) 5 1 (some ex_oversized)
      (Or.inr ⟨ex_oversized, rfl, by decide⟩)).2.2.2.2.1⟩

/-! ## Selecting the builders of a family pair -/

theorem sel_run_ok_idx (K : dr_hdr) (ops : ste_ops) (dmn : mlx5dr_domain)
    (matcher : mlx5dr_matcher) (nic_tbl : mlx5dr_table_rx_tx) (sb : Nat → mlx5dr_ste_build)
    (o i : mlx5dr_ipv) (h : sel_run_ok K ops dmn matcher nic_tbl o i = true) :
    (sel_final K ops dmn matcher nic_tbl sb o i).idx ≠ 0 := by
  obtain ⟨-, h2, -⟩ := sel_final_congr K ops dmn matcher nic_tbl sb (fun _ => {}) o i
  rw [h2]
  unfold sel_run_ok at h
  simp only [Bool.and_eq_true, bne_iff_ne, ne_eq] at h
  exact h.1.2

theorem set_all_step_num (K : dr_hdr) (ops : ste_ops) (dmn : mlx5dr_domain)
    (matcher : mlx5dr_matcher) (nic_tbl : mlx5dr_table_rx_tx) (b : Bool) (o' i' : mlx5dr_ipv)
    (nic_matcher : mlx5dr_matcher_rx_tx) (o i : mlx5dr_ipv) :
    (set_all_step K ops dmn matcher nic_tbl b o' i' nic_matcher).num_of_builders_arr o i ≠ 0 ↔
      (nic_matcher.num_of_builders_arr o i ≠ 0 ∨
        (b = true ∧ sel_run_ok K ops dmn matcher nic_tbl o' i' = true ∧ o = o' ∧ i = i')) := by
  unfold set_all_step
  cases b
  · simp
  · simp only [if_true, (set_ste_builders_state K ops dmn matcher nic_tbl
      nic_matcher o' i').2, set_ste_builders_ok_iff, true_and]
    by_cases hok : sel_run_ok K ops dmn matcher nic_tbl o' i' = true
    · have hidx := sel_run_ok_idx K ops dmn matcher nic_tbl
        (nic_matcher.ste_builder_arr o' i') o' i' hok
      simp only [hok, if_true, true_and]
      by_cases hoi : o = o' ∧ i = i'
      · simp [hoi, hidx]
      · simp [hoi]
    · simp [hok]

theorem set_all_runs_num (K : dr_hdr) (ops : ste_ops) (dmn : mlx5dr_domain)
    (matcher : mlx5dr_matcher) (nic_tbl : mlx5dr_table_rx_tx)
    (nic_matcher : mlx5dr_matcher_rx_tx) (v : mask_ip_versions) (o i : mlx5dr_ipv)
    (hz : nic_matcher.num_of_builders_arr = fun _ _ => 0) :
    (set_all_runs K ops dmn matcher nic_tbl nic_matcher v).num_of_builders_arr o i ≠ 0 ↔
      ((o, i) ∈ family_pairs v ∧ sel_run_ok K ops dmn matcher nic_tbl o i = true) := by
  simp only [set_all_runs, set_all_step_num, hz]
  rcases v with ⟨a, b, c, d⟩
  cases a <;> cases b <;> cases c <;> cases d <;> cases o <;> cases i <;>
    simp [family_pairs, ipv_families, List.product]

/-- C21, counterexample: after `dr_matcher_set_all_ste_builders` on a fresh
state, where the run for (IPv4, IPv4) failed and the run for (IPv6, IPv4)
succeeded, `mlx5dr_matcher_select_builders` returns 0 for (IPv6, IPv4) and
`-EINVAL` for (IPv4, IPv4); `-EINVAL` is not the code `-EOPNOTSUPP`. -/
theorem select_builders_einval_counterexample :
    (mlx5dr_matcher_select_builders ex_after_set_all DR_RULE_IPV6 DR_RULE_IPV4).1 = 0 ∧
    (mlx5dr_matcher_select_builders ex_after_set_all DR_RULE_IPV4 DR_RULE_IPV4).1 = -EINVAL ∧
    (mlx5dr_matcher_select_builders ex_after_set_all DR_RULE_IPV4 DR_RULE_IPV4).1 ≠
      -EOPNOTSUPP := by
  set_option maxRecDepth 100000 in decide

/-- C21 (amended): `mlx5dr_matcher_select_builders` makes the builder array
and the builder count of the requested pair current and changes nothing else
of the per-direction state; it returns 0 when that count is nonzero and
`-EINVAL` when it is zero. After `dr_matcher_set_all_ste_builders` on a state
whose recorded counts are all zero it returns 0 exactly for the attempted
pairs whose selector run succeeded. -/
theorem select_builders_spec (K : dr_hdr) (ops : ste_ops) (dmn : mlx5dr_domain)
    (matcher : mlx5dr_matcher) (nic_tbl : mlx5dr_table_rx_tx)
    (nic_matcher : mlx5dr_matcher_rx_tx) (v : mask_ip_versions)
    (hv : dr_matcher_get_mask_ip_versions K matcher = .ok v)
    (hz : nic_matcher.num_of_builders_arr = fun _ _ => 0) :
    (∀ (nic : mlx5dr_matcher_rx_tx) (o i : mlx5dr_ipv),
      (mlx5dr_matcher_select_builders nic o i).2 =
        { nic with ste_builder := some (o, i)
                   num_of_builders := nic.num_of_builders_arr o i } ∧
      ((mlx5dr_matcher_select_builders nic o i).1 = 0 ↔ nic.num_of_builders_arr o i ≠ 0) ∧
      (nic.num_of_builders_arr o i = 0 →
        (mlx5dr_matcher_select_builders nic o i).1 = -EINVAL)) ∧
    (∀ o i : mlx5dr_ipv,
      (mlx5dr_matcher_select_builders
        (dr_matcher_set_all_ste_builders K ops dmn matcher nic_tbl nic_matcher).2 o i).1 = 0 ↔
      ((o, i) ∈ family_pairs v ∧ sel_run_ok K ops dmn matcher nic_tbl o i = true)) := by
  have hE : (-EINVAL : Int) ≠ 0 := by decide
  have hsel : ∀ (nic : mlx5dr_matcher_rx_tx) (o i : mlx5dr_ipv),
      (mlx5dr_matcher_select_builders nic o i).2 =
        { nic with ste_builder := some (o, i)
                   num_of_builders := nic.num_of_builders_arr o i } ∧
      ((mlx5dr_matcher_select_builders nic o i).1 = 0 ↔ nic.num_of_builders_arr o i ≠ 0) ∧
      (nic.num_of_builders_arr o i = 0 →
        (mlx5dr_matcher_select_builders nic o i).1 = -EINVAL) := by
    intro nic o i
    unfold mlx5dr_matcher_select_builders
    by_cases h0 : nic.num_of_builders_arr o i = 0
    · simp [h0, hE]
    · simp [h0]
  refine ⟨hsel, fun o i => ?_⟩
  rw [(hsel _ o i).2.1, set_all_eq K ops dmn matcher nic_tbl nic_matcher v hv]
  exact set_all_runs_num K ops dmn matcher nic_tbl nic_matcher v o i hz

theorem select_builders_spec_witness :
    dr_matcher_get_mask_ip_versions hdr_upstream ex_wild_v6_dst = .ok ex_sel_wild_outer ∧
    ((mlx5dr_matcher_select_builders
        (dr_matcher_set_all_ste_builders hdr_upstream ops_clearing
          (table_init MLX5DR_DOMAIN_TYPE_NIC_RX).dmn ex_wild_v6_dst
          (table_init MLX5DR_DOMAIN_TYPE_NIC_RX).rx {}).2 DR_RULE_IPV6 DR_RULE_IPV4).1 = 0 ↔
      ((DR_RULE_IPV6, DR_RULE_IPV4) ∈ family_pairs ex_sel_wild_outer ∧
        sel_run_ok hdr_upstream ops_clearing (table_init MLX5DR_DOMAIN_TYPE_NIC_RX).dmn
          ex_wild_v6_dst (table_init MLX5DR_DOMAIN_TYPE_NIC_RX).rx
          DR_RULE_IPV6 DR_RULE_IPV4 = true)) :=
  ⟨rfl,
   (select_builders_spec hdr_upstream ops_clearing
     (table_init MLX5DR_DOMAIN_TYPE_NIC_RX).dmn ex_wild_v6_dst
     (table_init MLX5DR_DOMAIN_TYPE_NIC_RX).rx {} ex_sel_wild_outer rfl rfl).2
     DR_RULE_IPV6 DR_RULE_IPV4⟩

/-! ## The matcher's mask is an input of the selector -/

theorem init_nic_fields (K : dr_hdr) (ops : ste_ops) (E : Env) (w : World)
    (tbl : mlx5dr_table) (matcher : mlx5dr_matcher) (mask : Option mlx5dr_match_parameters) :
    (dr_matcher_init K ops E w tbl matcher mask).matcher.match_criteria =
      matcher.match_criteria ∧
    (¬ init_rejected K matcher mask →
      (dr_matcher_init K ops E w tbl matcher mask).matcher.mask = init_mask ops matcher mask) ∧
    (init_rejected K matcher mask →
      (dr_matcher_init K ops E w tbl matcher mask).matcher.mask = matcher.mask) := by
  unfold init_rejected
  by_cases hmax : matcher.match_criteria ≥ K.DR_MATCHER_CRITERIA_MAX
  · unfold dr_matcher_init
    simp only [hmax, if_true, true_or, not_true_eq_false, false_implies, true_implies,
      and_self]
  · cases mask with
    | none =>
      unfold dr_matcher_init dr_matcher_init_fdb init_mask
      simp only [hmax, if_false, false_or]
      cases tbl.dmn.type with
      | MLX5DR_DOMAIN_TYPE_NIC_RX => simp
      | MLX5DR_DOMAIN_TYPE_NIC_TX => simp
      | MLX5DR_DOMAIN_TYPE_FDB => simp; split_ifs <;> simp
    | some p =>
      by_cases hsz : p.match_sz > K.MLX5_ST_SZ_DW_MATCH_PARAM * 4
      · unfold dr_matcher_init
        simp [hmax, hsz]
      · unfold dr_matcher_init dr_matcher_init_fdb init_mask
        simp only [hmax, if_false, false_or, hsz]
        cases tbl.dmn.type with
        | MLX5DR_DOMAIN_TYPE_NIC_RX => simp [hsz]
        | MLX5DR_DOMAIN_TYPE_NIC_TX => simp [hsz]
        | MLX5DR_DOMAIN_TYPE_FDB => simp [hsz]; split_ifs <;> simp

theorem set_ste_builders_ret_congr (K : dr_hdr) (ops : ste_ops) (dmn : mlx5dr_domain)
    (matcher : mlx5dr_matcher) (nic_tbl : mlx5dr_table_rx_tx)
    (nic nic' : mlx5dr_matcher_rx_tx) (o i : mlx5dr_ipv) :
    (dr_matcher_set_ste_builders K ops dmn matcher nic_tbl nic o i).1 =
      (dr_matcher_set_ste_builders K ops dmn matcher nic_tbl nic' o i).1 := by
  obtain ⟨h1, h2, -⟩ := sel_final_congr K ops dmn matcher nic_tbl
    (nic.ste_builder_arr o i) (nic'.ste_builder_arr o i) o i
  rw [set_ste_builders_ret, set_ste_builders_ret, h1, h2]

/-- C23: the selector reads the matcher's mask and criteria and never writes
them. `dr_matcher_init` leaves the criteria as they were and the mask as the
copy of the caller's mask left it (unchanged when the arguments are
rejected); every run of `dr_matcher_set_ste_builders` starts from a working
mask that is the copy of the criteria-active sub-records into an all-zero
mask (after the FDB receive optimisation); and the return code, the builder
count, the calls and the final working mask of the run for a family
combination are the same for every per-direction state it starts from, so
they do not depend on the runs for other combinations. -/
theorem selector_keeps_matcher_mask (K : dr_hdr) (ops : ste_ops) (E : Env) (w : World)
    (tbl : mlx5dr_table) (matcher : mlx5dr_matcher) (mask : Option mlx5dr_match_parameters)
    (nic_tbl : mlx5dr_table_rx_tx) (nic nic' : mlx5dr_matcher_rx_tx) (o i : mlx5dr_ipv) :
    (dr_matcher_init K ops E w tbl matcher mask).matcher.match_criteria =
      matcher.match_criteria ∧
    (¬ init_rejected K matcher mask →
      (dr_matcher_init K ops E w tbl matcher mask).matcher.mask = init_mask ops matcher mask) ∧
    (init_rejected K matcher mask →
      (dr_matcher_init K ops E w tbl matcher mask).matcher.mask = matcher.mask) ∧
    sel_final K ops tbl.dmn matcher nic_tbl (nic.ste_builder_arr o i) o i =
      sel_fallback K ops matcher (nic_tbl.nic_dmn_type == DR_DOMAIN_NIC_TYPE_RX)
        (sel_wire_opt K tbl.dmn matcher (nic_tbl.nic_dmn_type == DR_DOMAIN_NIC_TYPE_RX))
        ((full_prog K tbl.dmn matcher.match_criteria o i).run ops tbl.dmn
          (nic_tbl.nic_dmn_type == DR_DOMAIN_NIC_TYPE_RX)
          { mask := sel_working_mask K tbl.dmn matcher
              (nic_tbl.nic_dmn_type == DR_DOMAIN_NIC_TYPE_RX)
            sb := nic.ste_builder_arr o i, idx := 0, calls := [] }) ∧
    sel_copied_mask K matcher = dr_matcher_copy_mask K {} matcher.mask matcher.match_criteria ∧
    (dr_matcher_set_ste_builders K ops tbl.dmn matcher nic_tbl nic o i).1 =
      (dr_matcher_set_ste_builders K ops tbl.dmn matcher nic_tbl nic' o i).1 ∧
    (sel_final K ops tbl.dmn matcher nic_tbl (nic.ste_builder_arr o i) o i).idx =
      (sel_final K ops tbl.dmn matcher nic_tbl (nic'.ste_builder_arr o i) o i).idx ∧
    (sel_final K ops tbl.dmn matcher nic_tbl (nic.ste_builder_arr o i) o i).calls =
      (sel_final K ops tbl.dmn matcher nic_tbl (nic'.ste_builder_arr o i) o i).calls ∧
    (sel_final K ops tbl.dmn matcher nic_tbl (nic.ste_builder_arr o i) o i).mask =
      (sel_final K ops tbl.dmn matcher nic_tbl (nic'.ste_builder_arr o i) o i).mask := by
  obtain ⟨a, b, c⟩ := init_nic_fields K ops E w tbl matcher mask
  obtain ⟨h1, h2, h3⟩ := sel_final_congr K ops tbl.dmn matcher nic_tbl
    (nic.ste_builder_arr o i) (nic'.ste_builder_arr o i) o i
  exact ⟨a, b, c, by rw [sel_final_eq]; rfl, rfl,
    set_ste_builders_ret_congr K ops tbl.dmn matcher nic_tbl nic nic' o i, h2, h3, h1⟩

/-! ## Flex parser groups -/

theorem destroy_definer_objs_eq (w : World) (sb : Nat → mlx5dr_ste_build) (idx : Nat) :
    dr_matcher_destroy_definer_objs w sb idx =
      ({ w with destroyed_definers :=
          w.destroyed_definers ++ (List.range idx).map (fun j => (sb j).definer_id) },
       fun j => if j < idx then {} else sb j) := by
  unfold dr_matcher_destroy_definer_objs
  induction idx with
  | zero => simp
  | succ n ih =>
    rw [List.range_succ, List.foldl_append, ih]
    simp only [List.foldl_cons, List.foldl_nil, lt_self_iff_false, if_false, List.map_append,
      List.map_cons, List.map_nil, List.append_assoc]
    congr 1
    funext j
    by_cases hj : j = n
    · subst hj; simp
    · rw [Function.update_noteq hj]
      by_cases hlt : j < n
      · simp [hlt, Nat.lt_succ_of_lt hlt]
      · have : ¬ j < n + 1 := by omega
        simp [hlt, this]

theorem create_loop_ok (K : dr_hdr) (W : Nat) (create : Nat → Nat → Nat → Int × Nat)
    (w : World) (n : Nat) :
    ∀ (i : Nat) (sb : Nat → mlx5dr_ste_build),
      (∀ j, i ≤ j → j < i + n → (create j (sb j).format_id (sb j).match_buf).1 = 0) →
      dr_matcher_create_definer_objs_loop K W create w n i sb =
        (0, w, fun j => if i ≤ j ∧ j < i + n then
          definer_created K W (sb j) (create j (sb j).format_id (sb j).match_buf).2
          else sb j) := by
  induction n with
  | zero =>
    intro i sb _
    simp only [dr_matcher_create_definer_objs_loop, Nat.add_zero]
    congr 2
    funext j
    rw [if_neg (by omega)]
  | succ n ih =>
    intro i sb h
    have h0 := h i (Nat.le_refl i) (by omega)
    rw [dr_matcher_create_definer_objs_loop]
    simp only [h0, ne_eq, not_true_eq_false, if_false]
    rw [ih (i + 1)]
    · congr 2
      funext j
      by_cases hj : j = i
      · subst hj
        simp
      · rw [Function.update_noteq hj]
        have : (i + 1 ≤ j ∧ j < i + 1 + n) ↔ (i ≤ j ∧ j < i + (n + 1)) := by omega
        simp only [this]
    · intro j h1 h2
      have hj : j ≠ i := by omega
      rw [Function.update_noteq hj]
      exact h j (by omega) (by omega)

theorem create_loop_fail (K : dr_hdr) (W : Nat) (create : Nat → Nat → Nat → Int × Nat)
    (w : World) (n : Nat) :
    ∀ (i k : Nat) (sb : Nat → mlx5dr_ste_build), i ≤ k → k < i + n →
      (∀ j, i ≤ j → j < k → (create j (sb j).format_id (sb j).match_buf).1 = 0) →
      (create k (sb k).format_id (sb k).match_buf).1 ≠ 0 →
      dr_matcher_create_definer_objs_loop K W create w n i sb =
        ((create k (sb k).format_id (sb k).match_buf).1,
         (dr_matcher_destroy_definer_objs w
           (fun j => if i ≤ j ∧ j < k then
             definer_created K W (sb j) (create j (sb j).format_id (sb j).match_buf).2
             else sb j) k).1,
         (dr_matcher_destroy_definer_objs w
           (fun j => if i ≤ j ∧ j < k then
             definer_created K W (sb j) (create j (sb j).format_id (sb j).match_buf).2
             else sb j) k).2) := by
  induction n with
  | zero => intro i k sb h1 h2; omega
  | succ n ih =>
    intro i k sb h1 h2 hok hfail
    rw [dr_matcher_create_definer_objs_loop]
    by_cases hk : k = i
    · subst hk
      simp only [hfail, ne_eq, not_false_eq_true, if_true]
      have : (fun j => if k ≤ j ∧ j < k then
          definer_created K W (sb j) (create j (sb j).format_id (sb j).match_buf).2
          else sb j) = sb := by
        funext j; rw [if_neg (by omega)]
      rw [this]
    · have h0 := hok i (Nat.le_refl i) (by omega)
      simp only [h0, ne_eq, not_true_eq_false, if_false]
      have hki : k ≠ i := hk
      rw [ih (i + 1) k _ (by omega) (by omega)]
      · rw [Function.update_noteq hki]
        have : (fun j => if i + 1 ≤ j ∧ j < k then
            definer_created K W
              (Function.update sb i (definer_created K W (sb i)
                (create i (sb i).format_id (sb i).match_buf).2) j)
              (create j
                (Function.update sb i (definer_created K W (sb i)
                  (create i (sb i).format_id (sb i).match_buf).2) j).format_id
                (Function.update sb i (definer_created K W (sb i)
                  (create i (sb i).format_id (sb i).match_buf).2) j).match_buf).2
            else Function.update sb i (definer_created K W (sb i)
              (create i (sb i).format_id (sb i).match_buf).2) j) =
            (fun j => if i ≤ j ∧ j < k then
              definer_created K W (sb j) (create j (sb j).format_id (sb j).match_buf).2
              else sb j) := by
          funext j
          by_cases hj : j = i
          · subst hj
            have hlt : j < k := by omega
            simp [hlt]
          · rw [Function.update_noteq hj]
            have : (i + 1 ≤ j ∧ j < k) ↔ (i ≤ j ∧ j < k) := by omega
            simp only [this]
        rw [this]
      · intro j hj1 hj2
        have hj : j ≠ i := by omega
        rw [Function.update_noteq hj]
        exact hok j (by omega) hj2
      · rw [Function.update_noteq hki]
        exact hfail

/-- C22: let the creations of `dr_matcher_create_definer_objs` succeed for the
builders before `k`. If `k < idx` and the creation for builder `k` fails, the
function returns that error, the definers destroyed are exactly the ids
returned for builders `0..k-1`, each once and in this order, the slots before
`k` are zeroed, the slots from `k` on are as they were, and nothing else of
the world changes. If `k = idx` (every creation succeeds) it returns 0,
destroys nothing, and each builder `j < idx` has `definer_id` equal to the id
returned for it, `lu_type` OR-ed with that id (in the width of the field) and
table type `DR_STE_HTBL_TYPE_MATCH`, its other fields and the slots from `idx`
on being as they were. -/
theorem create_definer_objs_cleanup (K : dr_hdr) (W : Nat)
    (create : Nat → Nat → Nat → Int × Nat) (w : World) (sb : Nat → mlx5dr_ste_build)
    (idx k : Nat) (hk : k ≤ idx)
    (hok : ∀ j, j < k → (create j (sb j).format_id (sb j).match_buf).1 = 0) :
    (k < idx → (create k (sb k).format_id (sb k).match_buf).1 ≠ 0 →
      (dr_matcher_create_definer_objs K W create w sb idx).1 =
        (create k (sb k).format_id (sb k).match_buf).1 ∧
      (dr_matcher_create_definer_objs K W create w sb idx).2.1 =
        { w with destroyed_definers := w.destroyed_definers ++
            (List.range k).map (fun j => (create j (sb j).format_id (sb j).match_buf).2) } ∧
      (∀ j, j < k → (dr_matcher_create_definer_objs K W create w sb idx).2.2 j = {}) ∧
      (∀ j, k ≤ j → (dr_matcher_create_definer_objs K W create w sb idx).2.2 j = sb j)) ∧
    (k = idx →
      (dr_matcher_create_definer_objs K W create w sb idx).1 = 0 ∧
      (dr_matcher_create_definer_objs K W create w sb idx).2.1 = w ∧
      (∀ j, j < idx →
        (dr_matcher_create_definer_objs K W create w sb idx).2.2 j =
          { sb j with
            lu_type := ((sb j).lu_type |||
              (create j (sb j).format_id (sb j).match_buf).2) % 2 ^ W
            htbl_type := K.DR_STE_HTBL_TYPE_MATCH
            definer_id := (create j (sb j).format_id (sb j).match_buf).2 }) ∧
      (∀ j, idx ≤ j → (dr_matcher_create_definer_objs K W create w sb idx).2.2 j = sb j)) := by
  constructor
  · intro hlt hfail
    unfold dr_matcher_create_definer_objs
    rw [create_loop_fail K W create w idx 0 k sb (Nat.zero_le k) (by omega)
      (fun j _ hj => hok j hj) hfail, destroy_definer_objs_eq]
    refine ⟨rfl, ?_, ?_, ?_⟩
    · simp only
      congr 2
      apply List.map_congr_left
      intro j hj
      have hj' : j < k := List.mem_range.1 hj
      simp [hj', definer_created]
    · intro j hj
      simp [hj]
    · intro j hj
      have : ¬ j < k := by omega
      simp [this]
  · intro hkidx
    subst hkidx
    unfold dr_matcher_create_definer_objs
    rw [create_loop_ok K W create w k 0 sb (fun j _ hj => hok j (by omega))]
    refine ⟨rfl, rfl, ?_, ?_⟩
    · intro j hj
      simp [hj, definer_created]
    · intro j hj
      have : ¬ j < k := by omega
      simp [this]

theorem create_definer_objs_cleanup_witness :
    (dr_matcher_create_definer_objs hdr_upstream 16 (create_with [2]) world_init
      ex_three_builders 3).1 = -5 ∧
    (dr_matcher_create_definer_objs hdr_upstream 16 (create_with [2]) world_init
      ex_three_builders 3).2.1.destroyed_definers = [100, 101] ∧
    (dr_matcher_create_definer_objs hdr_upstream 16 (create_with [2]) world_init
      ex_three_builders 3).2.1 =
      { world_init with destroyed_definers := world_init.destroyed_definers ++
          (List.range 2).map (fun j => (create_with [2] j (ex_three_builders j).format_id
            (ex_three_builders j).match_buf).2) } :=
  ⟨by decide, by decide,
   ((create_definer_objs_cleanup hdr_upstream 16 (create_with [2]) world_init
     ex_three_builders 3 2 (by decide) (by decide)).1 (by decide) (by decide)).2.1⟩

/-! ## Allocation of the two tables of a direction -/

theorem clear_ste_builders_step_world (K : dr_hdr) (acc : World × mlx5dr_matcher_rx_tx)
    (ij : mlx5dr_ipv × mlx5dr_ipv) :
    (clear_ste_builders_step K acc ij).1 =
      { acc.1 with destroyed_definers :=
          acc.1.destroyed_definers ++ held_definers_at K acc.2 ij } := by
  unfold clear_ste_builders_step held_definers_at
  by_cases h : (acc.2.ste_builder_arr ij.1 ij.2 0).htbl_type = K.DR_STE_HTBL_TYPE_MATCH
  · simp only [h, if_true]
    rw [destroy_definer_objs_eq]
  · simp only [h, if_false, List.append_nil]

theorem clear_ste_builders_step_other (K : dr_hdr) (acc : World × mlx5dr_matcher_rx_tx)
    (ij ij' : mlx5dr_ipv × mlx5dr_ipv) (hne : ij' ≠ ij) :
    held_definers_at K (clear_ste_builders_step K acc ij).2 ij' =
      held_definers_at K acc.2 ij' := by
  have hc : ¬ (ij'.1 = ij.1 ∧ ij'.2 = ij.2) := fun h => hne (Prod.ext h.1 h.2)
  unfold clear_ste_builders_step held_definers_at
  by_cases h : (acc.2.ste_builder_arr ij.1 ij.2 0).htbl_type = K.DR_STE_HTBL_TYPE_MATCH
  · simp only [h, if_true, hc, if_false]
  · simp only [h, if_false]

theorem clear_ste_builders_fold (K : dr_hdr) :
    ∀ (l : List (mlx5dr_ipv × mlx5dr_ipv)), l.Nodup →
      ∀ acc : World × mlx5dr_matcher_rx_tx,
        (l.foldl (clear_ste_builders_step K) acc).1 =
          { acc.1 with destroyed_definers :=
              acc.1.destroyed_definers ++ l.flatMap (held_definers_at K acc.2) } := by
  intro l
  induction l with
  | nil => intro _ acc; simp
  | cons ij l ih =>
    intro hnd acc
    rw [List.nodup_cons] at hnd
    rw [List.foldl_cons, ih hnd.2, clear_ste_builders_step_world, List.flatMap_cons]
    have hl : l.flatMap (held_definers_at K (clear_ste_builders_step K acc ij).2) =
        l.flatMap (held_definers_at K acc.2) := by
      simp only [List.flatMap]
      congr 1
      apply List.map_congr_left
      intro ij' hmem
      exact clear_ste_builders_step_other K acc ij ij' (fun h => hnd.1 (h ▸ hmem))
    rw [hl]
    simp only [List.append_assoc]

theorem clear_ste_builders_fold_tables (K : dr_hdr) :
    ∀ (l : List (mlx5dr_ipv × mlx5dr_ipv)) (acc : World × mlx5dr_matcher_rx_tx),
      (l.foldl (clear_ste_builders_step K) acc).2.s_htbl = acc.2.s_htbl ∧
      (l.foldl (clear_ste_builders_step K) acc).2.e_anchor = acc.2.e_anchor := by
  intro l
  induction l with
  | nil => intro acc; exact ⟨rfl, rfl⟩
  | cons ij l ih =>
    intro acc
    rw [List.foldl_cons, (ih _).1, (ih _).2]
    unfold clear_ste_builders_step
    by_cases h : (acc.2.ste_builder_arr ij.1 ij.2 0).htbl_type = K.DR_STE_HTBL_TYPE_MATCH
    · simp only [h, if_true, and_self]
    · simp only [h, if_false, and_self]

/-- The function `dr_matcher_clear_ste_builders` leaves the two table pointers
of the direction as they are. -/
theorem clear_ste_builders_tables (K : dr_hdr) (w : World) (nic_matcher : mlx5dr_matcher_rx_tx) :
    (dr_matcher_clear_ste_builders K w nic_matcher).2.s_htbl = nic_matcher.s_htbl ∧
    (dr_matcher_clear_ste_builders K w nic_matcher).2.e_anchor = nic_matcher.e_anchor :=
  clear_ste_builders_fold_tables K _ (w, nic_matcher)

/-- The only effect of `dr_matcher_clear_ste_builders` on the world is the
destruction of the definer objects the builder arrays hold. -/
theorem clear_ste_builders_world (K : dr_hdr) (w : World) (nic_matcher : mlx5dr_matcher_rx_tx) :
    (dr_matcher_clear_ste_builders K w nic_matcher).1 =
      { w with destroyed_definers := w.destroyed_definers ++ held_definers K nic_matcher } :=
  clear_ste_builders_fold K _ (by decide) (w, nic_matcher)

/-- C29: `dr_matcher_init_nic` allocates nothing when builder selection fails;
otherwise it allocates the end anchor and then the start table, each with the
size class `DR_CHUNK_SIZE_1`, and on success takes exactly one reference on
each. When the end-anchor allocation fails it returns `-ENOMEM` after that
single allocation attempt; when the start-table allocation fails it returns
`-ENOMEM` with the end anchor freed. In both failure cases the definer objects
of the builder arrays are destroyed, no reference is held and no table
allocated by the call is left unfreed. -/
theorem init_nic_allocates_and_rolls_back (K : dr_hdr) (ops : ste_ops) (E : Env) (w : World)
    (dmn : mlx5dr_domain) (matcher : mlx5dr_matcher) (nic_tbl : mlx5dr_table_rx_tx)
    (nic_matcher : mlx5dr_matcher_rx_tx) :
    let sa := dr_matcher_set_all_ste_builders K ops dmn matcher nic_tbl nic_matcher
    let r := dr_matcher_init_nic K ops E w dmn matcher nic_tbl nic_matcher
    (sa.1 ≠ 0 → r.ret = sa.1 ∧ r.w = w) ∧
    (sa.1 = 0 → E.htbl_alloc_ok w.alloc_calls = false →
      r.ret = -ENOMEM ∧ r.nic_matcher.e_anchor = 0 ∧
      r.w = { w with alloc_calls := w.alloc_calls + 1,
                     destroyed_definers := w.destroyed_definers ++ held_definers K sa.2 }) ∧
    (sa.1 = 0 → E.htbl_alloc_ok w.alloc_calls = true →
      E.htbl_alloc_ok (w.alloc_calls + 1) = false →
      r.ret = -ENOMEM ∧ r.nic_matcher.s_htbl = 0 ∧
      r.w.alloc_calls = w.alloc_calls + 2 ∧ r.w.brk = w.brk + 1 ∧
      r.w.htbls (w.brk + 1) =
        { chunk_size := K.DR_CHUNK_SIZE_1, htbl_type := K.DR_STE_HTBL_TYPE_LEGACY,
          lu_type := K.MLX5DR_STE_LU_TYPE_DONT_CARE, byte_mask := 0,
          icm_addr := E.icm_addr (w.brk + 1), refcount := 0, freed := true } ∧
      (∀ h, h ≠ w.brk + 1 → r.w.htbls h = w.htbls h) ∧
      r.w.destroyed_definers = w.destroyed_definers ++ held_definers K sa.2) ∧
    (sa.1 = 0 → E.htbl_alloc_ok w.alloc_calls = true →
      E.htbl_alloc_ok (w.alloc_calls + 1) = true →
      r.ret = 0 ∧ r.nic_matcher = { sa.2 with e_anchor := w.brk + 1, s_htbl := w.brk + 2 } ∧
      r.w.alloc_calls = w.alloc_calls + 2 ∧ r.w.brk = w.brk + 2 ∧
      r.w.htbls (w.brk + 1) =
        { chunk_size := K.DR_CHUNK_SIZE_1, htbl_type := K.DR_STE_HTBL_TYPE_LEGACY,
          lu_type := K.MLX5DR_STE_LU_TYPE_DONT_CARE, byte_mask := 0,
          icm_addr := E.icm_addr (w.brk + 1), refcount := 1, freed := false } ∧
      (r.w.htbls (w.brk + 2)).chunk_size = K.DR_CHUNK_SIZE_1 ∧
      (r.w.htbls (w.brk + 2)).refcount = 1 ∧
      (r.w.htbls (w.brk + 2)).freed = false ∧
      (∀ h, h ≠ w.brk + 1 → h ≠ w.brk + 2 → r.w.htbls h = w.htbls h) ∧
      r.w.destroyed_definers = w.destroyed_definers) := by
  unfold dr_matcher_init_nic
  generalize dr_matcher_set_all_ste_builders K ops dmn matcher nic_tbl nic_matcher = sa
  simp only []
  refine ⟨?_, ?_, ?_, ?_⟩
  · intro h
    simp [h]
  · intro h h0
    rw [if_neg (not_not.mpr h)]
    simp only [mlx5dr_ste_htbl_alloc, h0, Bool.false_eq_true, if_false, if_true]
    rw [clear_ste_builders_world, (clear_ste_builders_tables _ _ _).2]
    exact ⟨trivial, rfl, rfl⟩
  · intro h h0 h1
    rw [if_neg (not_not.mpr h)]
    simp only [mlx5dr_ste_htbl_alloc, h0, h1, Bool.false_eq_true, if_false, if_true,
      Nat.add_one_ne_zero]
    rw [clear_ste_builders_world, (clear_ste_builders_tables _ _ _).1]
    refine ⟨trivial, rfl, rfl, rfl, ?_, ?_, rfl⟩
    · simp [mlx5dr_ste_htbl_free]
    · intro t ht
      simp [mlx5dr_ste_htbl_free, Function.update, ht]
  · intro h h0 h1
    rw [if_neg (not_not.mpr h)]
    simp only [mlx5dr_ste_htbl_alloc, h0, h1, Bool.false_eq_true, if_false, if_true,
      Nat.add_one_ne_zero]
    refine ⟨trivial, trivial, rfl, rfl, ?_, ?_, ?_, ?_, ?_, rfl⟩
    · simp [mlx5dr_htbl_get, Function.update]
    · simp [mlx5dr_htbl_get, Function.update]
    · simp [mlx5dr_htbl_get, Function.update]
    · simp [mlx5dr_htbl_get, Function.update]
    · intro t ht ht2
      simp [mlx5dr_htbl_get, Function.update, ht, ht2]

/-! ## Direction fan-out -/

theorem init_accepted_eq (K : dr_hdr) (ops : ste_ops) (E : Env) (w : World)
    (tbl : mlx5dr_table) (matcher : mlx5dr_matcher) (mask : Option mlx5dr_match_parameters)
    (h : ¬ init_rejected K matcher mask) :
    dr_matcher_init K ops E w tbl matcher mask =
      match tbl.dmn.type with
      | MLX5DR_DOMAIN_TYPE_NIC_RX =>
        ⟨(dr_matcher_init_nic K ops E w tbl.dmn (init_copied ops matcher mask) tbl.rx
            matcher.rx).ret,
         (dr_matcher_init_nic K ops E w tbl.dmn (init_copied ops matcher mask) tbl.rx
            matcher.rx).w,
         { init_copied ops matcher mask with
           rx := (dr_matcher_init_nic K ops E w tbl.dmn (init_copied ops matcher mask) tbl.rx
            matcher.rx).nic_matcher }⟩
      | MLX5DR_DOMAIN_TYPE_NIC_TX =>
        ⟨(dr_matcher_init_nic K ops E w tbl.dmn (init_copied ops matcher mask) tbl.tx
            matcher.tx).ret,
         (dr_matcher_init_nic K ops E w tbl.dmn (init_copied ops matcher mask) tbl.tx
            matcher.tx).w,
         { init_copied ops matcher mask with
           tx := (dr_matcher_init_nic K ops E w tbl.dmn (init_copied ops matcher mask) tbl.tx
            matcher.tx).nic_matcher }⟩
      | MLX5DR_DOMAIN_TYPE_FDB =>
        dr_matcher_init_fdb K ops E w tbl (init_copied ops matcher mask) := by
  unfold init_rejected at h
  rw [not_or] at h
  obtain ⟨h1, h2⟩ := h
  unfold dr_matcher_init
  simp only [h1, if_false]
  cases mask with
  | none =>
    simp only [Bool.false_eq_true, if_false]
    rfl
  | some p =>
    have hp : ¬ p.match_sz > K.MLX5_ST_SZ_DW_MATCH_PARAM * 4 := fun hc => h2 ⟨p, rfl, hc⟩
    simp only [hp, decide_False, Bool.false_eq_true, if_false]
    rfl

theorem init_rejected_eq (K : dr_hdr) (ops : ste_ops) (E : Env) (w : World)
    (tbl : mlx5dr_table) (matcher : mlx5dr_matcher) (mask : Option mlx5dr_match_parameters)
    (h : init_rejected K matcher mask) :
    dr_matcher_init K ops E w tbl matcher mask = ⟨-EINVAL, w, matcher⟩ := by
  unfold dr_matcher_init
  rcases h with h | ⟨p, hp, hsz⟩
  · simp only [h, if_true]
  · subst hp
    by_cases hmax : matcher.match_criteria ≥ K.DR_MATCHER_CRITERIA_MAX
    · simp only [hmax, if_true]
    · simp only [hmax, if_false, hsz, decide_True, if_true]

theorem init_fdb_eq (K : dr_hdr) (ops : ste_ops) (E : Env) (w : World)
    (tbl : mlx5dr_table) (M : mlx5dr_matcher) (irx itx : nic_result)
    (hrx : irx = dr_matcher_init_nic K ops E w tbl.dmn M tbl.rx M.rx)
    (htx : itx = dr_matcher_init_nic K ops E irx.w tbl.dmn { M with rx := irx.nic_matcher }
      tbl.tx M.tx) :
    dr_matcher_init_fdb K ops E w tbl M =
      if irx.ret ≠ 0 then ⟨irx.ret, irx.w, { M with rx := irx.nic_matcher }⟩
      else if itx.ret ≠ 0 then
        ⟨itx.ret, (dr_matcher_uninit_nic K itx.w irx.nic_matcher).1,
         { M with rx := (dr_matcher_uninit_nic K itx.w irx.nic_matcher).2
                  tx := itx.nic_matcher }⟩
      else ⟨0, itx.w, { M with rx := irx.nic_matcher, tx := itx.nic_matcher }⟩ := by
  subst htx
  subst hrx
  rfl

/-- C24: the domain type decides which per-direction states the lifecycle
functions work on. In a NIC_RX domain initialisation, linking, unlinking and
release act on the receive state alone and leave the transmit state as it
was; in a NIC_TX domain the same holds with the directions exchanged. In an
FDB domain each function handles the receive state first and the transmit
state in the world the receive step left; a failed receive initialisation is
returned without a transmit initialisation, and a failed transmit
initialisation is returned after `dr_matcher_uninit_nic` released the receive
state. -/
theorem direction_fan_out (K : dr_hdr) (ops : ste_ops) (E : Env) (w : World)
    (tbl : mlx5dr_table) (matcher : mlx5dr_matcher) (mask : Option mlx5dr_match_parameters) :
    let M := init_copied ops matcher mask
    let irx := dr_matcher_init_nic K ops E w tbl.dmn M tbl.rx matcher.rx
    let itx := fun w' m => dr_matcher_init_nic K ops E w' tbl.dmn m tbl.tx matcher.tx
    let arx := dr_matcher_connect E w tbl.rx matcher.rx
      ((add_next tbl matcher).map (·.rx)) ((add_prev tbl matcher).map (·.rx))
    let atx := fun w' => dr_matcher_connect E w' tbl.tx matcher.tx
      ((add_next tbl matcher).map (·.tx)) ((add_prev tbl matcher).map (·.tx))
    let drx := dr_matcher_disconnect E w tbl.rx
      ((rem_next tbl matcher).map (·.rx)) ((rem_prev tbl matcher).map (·.rx))
    let dtx := fun w' => dr_matcher_disconnect E w' tbl.tx
      ((rem_next tbl matcher).map (·.tx)) ((rem_prev tbl matcher).map (·.tx))
    let urx := dr_matcher_uninit_nic K w matcher.rx
    let utx := fun w' => dr_matcher_uninit_nic K w' matcher.tx
    let init := dr_matcher_init K ops E w tbl matcher mask
    let add := dr_matcher_add_to_tbl E w tbl matcher
    let rem := dr_matcher_remove_from_tbl E w tbl matcher
    let un := dr_matcher_uninit K w tbl.dmn matcher
    (tbl.dmn.type = MLX5DR_DOMAIN_TYPE_NIC_RX →
      init.matcher.tx = matcher.tx ∧
      (¬ init_rejected K matcher mask →
        init.ret = irx.ret ∧ init.w = irx.w ∧ init.matcher.rx = irx.nic_matcher) ∧
      add.ret = arx.1 ∧ add.w = arx.2 ∧
      rem.ret = drx.1 ∧ rem.w = drx.2 ∧
      un.1 = urx.1 ∧ un.2.rx = urx.2 ∧ un.2.tx = matcher.tx) ∧
    (tbl.dmn.type = MLX5DR_DOMAIN_TYPE_NIC_TX →
      init.matcher.rx = matcher.rx ∧
      (¬ init_rejected K matcher mask →
        init.ret = (itx w M).ret ∧ init.w = (itx w M).w ∧
        init.matcher.tx = (itx w M).nic_matcher) ∧
      add.ret = (atx w).1 ∧ add.w = (atx w).2 ∧
      rem.ret = (dtx w).1 ∧ rem.w = (dtx w).2 ∧
      un.1 = (utx w).1 ∧ un.2.tx = (utx w).2 ∧ un.2.rx = matcher.rx) ∧
    (tbl.dmn.type = MLX5DR_DOMAIN_TYPE_FDB →
      (¬ init_rejected K matcher mask →
        (irx.ret ≠ 0 →
          init.ret = irx.ret ∧ init.w = irx.w ∧ init.matcher.rx = irx.nic_matcher ∧
          init.matcher.tx = matcher.tx) ∧
        (irx.ret = 0 → (itx irx.w { M with rx := irx.nic_matcher }).ret ≠ 0 →
          init.ret = (itx irx.w { M with rx := irx.nic_matcher }).ret ∧
          init.w = (dr_matcher_uninit_nic K (itx irx.w { M with rx := irx.nic_matcher }).w
            irx.nic_matcher).1 ∧
          init.matcher.rx = (dr_matcher_uninit_nic K
            (itx irx.w { M with rx := irx.nic_matcher }).w irx.nic_matcher).2) ∧
        (irx.ret = 0 → (itx irx.w { M with rx := irx.nic_matcher }).ret = 0 →
          init.ret = 0 ∧ init.w = (itx irx.w { M with rx := irx.nic_matcher }).w ∧
          init.matcher.rx = irx.nic_matcher ∧
          init.matcher.tx = (itx irx.w { M with rx := irx.nic_matcher }).nic_matcher)) ∧
      (arx.1 ≠ 0 → add.ret = arx.1 ∧ add.w = arx.2) ∧
      (arx.1 = 0 → add.ret = (atx arx.2).1 ∧ add.w = (atx arx.2).2) ∧
      (drx.1 ≠ 0 → rem.ret = drx.1 ∧ rem.w = drx.2) ∧
      (drx.1 = 0 → rem.ret = (dtx drx.2).1 ∧ rem.w = (dtx drx.2).2) ∧
      un.1 = (utx urx.1).1 ∧ un.2.rx = urx.2 ∧ un.2.tx = (utx urx.1).2) := by
  intro M irx itx arx atx drx dtx urx utx init add rem un
  have hadd : add = dr_matcher_add_to_tbl E w tbl matcher := rfl
  have hrem : rem = dr_matcher_remove_from_tbl E w tbl matcher := rfl
  rw [add_to_tbl_eq] at hadd
  rw [remove_from_tbl_eq] at hrem
  refine ⟨?_, ?_, ?_⟩
  · intro hty
    have harx : add_rx E w tbl matcher = arx := by simp [add_rx, hty, arx]
    have hatx : ∀ w', add_tx E w' tbl matcher = (0, w') := by intro w'; simp [add_tx, hty]
    have hdrx : rem_rx E w tbl matcher = drx := by simp [rem_rx, hty, drx]
    have hdtx : ∀ w', rem_tx E w' tbl matcher = (0, w') := by intro w'; simp [rem_tx, hty]
    rw [harx, hatx] at hadd
    rw [hdrx, hdtx] at hrem
    have hacc : ¬ init_rejected K matcher mask → init =
        ⟨irx.ret, irx.w, { M with rx := irx.nic_matcher }⟩ := by
      intro hacc
      have := init_accepted_eq K ops E w tbl matcher mask hacc
      rw [hty] at this
      exact this
    refine ⟨?_, ?_, ?_, ?_, ?_, ?_, ?_, ?_, ?_⟩
    · by_cases hrej : init_rejected K matcher mask
      · have := init_rejected_eq K ops E w tbl matcher mask hrej
        change init = _ at this
        rw [this]
      · rw [hacc hrej]
        rfl
    · intro hrej
      rw [hacc hrej]
      exact ⟨rfl, rfl, rfl⟩
    · rw [hadd]; split_ifs with h1 <;> simp_all
    · rw [hadd]; split_ifs with h1 <;> simp_all
    · rw [hrem]; split_ifs with h1 <;> simp_all
    · rw [hrem]; split_ifs with h1 <;> simp_all
    · simp [un, dr_matcher_uninit, hty, urx]
    · simp [un, dr_matcher_uninit, hty, urx]
    · simp [un, dr_matcher_uninit, hty]
  · intro hty
    have harx : add_rx E w tbl matcher = (0, w) := by simp [add_rx, hty]
    have hatx : ∀ w', add_tx E w' tbl matcher = atx w' := by intro w'; simp [add_tx, hty, atx]
    have hdrx : rem_rx E w tbl matcher = (0, w) := by simp [rem_rx, hty]
    have hdtx : ∀ w', rem_tx E w' tbl matcher = dtx w' := by intro w'; simp [rem_tx, hty, dtx]
    rw [harx, hatx] at hadd
    rw [hdrx, hdtx] at hrem
    have hacc : ¬ init_rejected K matcher mask → init =
        ⟨(itx w M).ret, (itx w M).w, { M with tx := (itx w M).nic_matcher }⟩ := by
      intro hacc
      have := init_accepted_eq K ops E w tbl matcher mask hacc
      rw [hty] at this
      exact this
    refine ⟨?_, ?_, ?_, ?_, ?_, ?_, ?_, ?_, ?_⟩
    · by_cases hrej : init_rejected K matcher mask
      · have := init_rejected_eq K ops E w tbl matcher mask hrej
        change init = _ at this
        rw [this]
      · rw [hacc hrej]
        rfl
    · intro hrej
      rw [hacc hrej]
      exact ⟨rfl, rfl, rfl⟩
    · rw [hadd]; split_ifs with h1 <;> simp_all
    · rw [hadd]; split_ifs with h1 <;> simp_all
    · rw [hrem]; split_ifs with h1 <;> simp_all
    · rw [hrem]; split_ifs with h1 <;> simp_all
    · simp [un, dr_matcher_uninit, hty, utx]
    · simp [un, dr_matcher_uninit, hty, utx]
    · simp [un, dr_matcher_uninit, hty]
  · intro hty
    have harx : add_rx E w tbl matcher = arx := by simp [add_rx, hty, arx]
    have hatx : ∀ w', add_tx E w' tbl matcher = atx w' := by intro w'; simp [add_tx, hty, atx]
    have hdrx : rem_rx E w tbl matcher = drx := by simp [rem_rx, hty, drx]
    have hdtx : ∀ w', rem_tx E w' tbl matcher = dtx w' := by intro w'; simp [rem_tx, hty, dtx]
    rw [harx, hatx] at hadd
    rw [hdrx, hdtx] at hrem
    refine ⟨?_, ?_, ?_, ?_, ?_, ?_, ?_, ?_⟩
    · intro hrej
      have hacc := init_accepted_eq K ops E w tbl matcher mask hrej
      rw [hty] at hacc
      change init = dr_matcher_init_fdb K ops E w tbl M at hacc
      have hfdb := init_fdb_eq K ops E w tbl M irx (itx irx.w { M with rx := irx.nic_matcher })
        rfl rfl
      rw [hfdb] at hacc
      clear hfdb hadd hrem harx hatx hdrx hdtx
      clear_value irx itx init
      refine ⟨?_, ?_, ?_⟩
      · intro h1
        rw [hacc, if_pos h1]
        exact ⟨rfl, rfl, rfl, rfl⟩
      · intro h1 h2
        rw [hacc, if_neg (not_not.mpr h1), if_pos h2]
        exact ⟨rfl, rfl, rfl⟩
      · intro h1 h2
        rw [hacc, if_neg (not_not.mpr h1), if_neg (not_not.mpr h2)]
        exact ⟨rfl, rfl, rfl, rfl⟩
    · intro h1; rw [hadd, if_pos h1]; exact ⟨rfl, rfl⟩
    · intro h1; rw [hadd, if_neg (not_not.mpr h1)]; split_ifs with h2 <;> simp_all
    · intro h1; rw [hrem, if_pos h1]; exact ⟨rfl, rfl⟩
    · intro h1; rw [hrem, if_neg (not_not.mpr h1)]; split_ifs with h2 <;> simp_all
    · simp [un, dr_matcher_uninit, hty, dr_matcher_uninit_fdb, utx, urx]
    · simp [un, dr_matcher_uninit, hty, dr_matcher_uninit_fdb, urx]
    · simp [un, dr_matcher_uninit, hty, dr_matcher_uninit_fdb, utx, urx]

/-! ## Tunnel builders -/

theorem run_countP_le (ops : ste_ops) (dmn : mlx5dr_domain) (rx : Bool)
    (Q : ste_build_id × Bool → Bool) (p : sel_prog) :
    ∀ s : sel_state,
      (p.run ops dmn rx s).calls.countP Q ≤ s.calls.countP Q + p.maxc Q := by
  induction p with
  | skip => intro s; simp [sel_prog.run, sel_prog.maxc]
  | call b inner =>
    intro s
    simp only [sel_prog.run, build_calls, sel_prog.maxc, List.countP_append,
      List.countP_cons, List.countP_nil]
    split_ifs <;> simp
  | seq p q ihp ihq =>
    intro s
    have h1 := ihp s
    have h2 := ihq (p.run ops dmn rx s)
    simp only [sel_prog.run, sel_prog.maxc]
    omega
  | ite c p q ihp ihq =>
    intro s
    have h1 := ihp s
    have h2 := ihq s
    simp only [sel_prog.run, sel_prog.maxc]
    split_ifs <;> omega

/-- The calls of a selector run are those of the three blocks, followed by the
always-match builder when the fallback statement appends it. -/
theorem sel_final_calls (K : dr_hdr) (ops : ste_ops) (dmn : mlx5dr_domain)
    (matcher : mlx5dr_matcher) (nic_tbl : mlx5dr_table_rx_tx) (sb : Nat → mlx5dr_ste_build)
    (o i : mlx5dr_ipv) :
    (sel_final K ops dmn matcher nic_tbl sb o i).calls =
        (sel_pre K ops dmn matcher (nic_tbl.nic_dmn_type == DR_DOMAIN_NIC_TYPE_RX)
          sb o i).calls ∨
    (sel_final K ops dmn matcher nic_tbl sb o i).calls =
        (sel_pre K ops dmn matcher (nic_tbl.nic_dmn_type == DR_DOMAIN_NIC_TYPE_RX)
          sb o i).calls ++ [(ste_build_id.empty_always_hit, false)] := by
  rw [sel_final_eq]
  unfold sel_fallback
  split_ifs
  · exact Or.inr rfl
  · exact Or.inl rfl

/-- A run of the selector issues at most `maxc Q` calls that satisfy `Q`, for
a `Q` that excludes the always-match builder. -/
theorem sel_final_countP_le (K : dr_hdr) (ops : ste_ops) (dmn : mlx5dr_domain)
    (matcher : mlx5dr_matcher) (nic_tbl : mlx5dr_table_rx_tx) (sb : Nat → mlx5dr_ste_build)
    (o i : mlx5dr_ipv) (Q : ste_build_id × Bool → Bool)
    (hQ : Q (ste_build_id.empty_always_hit, false) = false) :
    (sel_final K ops dmn matcher nic_tbl sb o i).calls.countP Q ≤
      (full_prog K dmn matcher.match_criteria o i).maxc Q := by
  have h := run_countP_le ops dmn (nic_tbl.nic_dmn_type == DR_DOMAIN_NIC_TYPE_RX) Q
    (full_prog K dmn matcher.match_criteria o i)
    { mask := sel_working_mask K dmn matcher (nic_tbl.nic_dmn_type == DR_DOMAIN_NIC_TYPE_RX),
      sb := sb, idx := 0, calls := [] }
  simp only [List.countP_nil, Nat.zero_add] at h
  rcases sel_final_calls K ops dmn matcher nic_tbl sb o i with hc | hc
  · rw [hc]; exact h
  · rw [hc, List.countP_append]
    simp only [List.countP_cons, List.countP_nil, hQ, Bool.false_eq_true, if_false,
      Nat.add_zero]
    exact h

theorem full_prog_maxc_tunnel (K : dr_hdr) (dmn : mlx5dr_domain) (crit : Nat)
    (o i : mlx5dr_ipv) :
    (full_prog K dmn crit o i).maxc
      (fun c => c.1 == .tnl_vxlan_gpe || c.1 == .tnl_geneve) = 1 := by
  simp [full_prog, outer_prog, inner_prog, sel_prog.seqs, sel_prog.when, sel_prog.maxc]

theorem full_prog_maxc_tlv (K : dr_hdr) (dmn : mlx5dr_domain) (crit : Nat)
    (o i : mlx5dr_ipv) :
    (full_prog K dmn crit o i).maxc (fun c => c.1 == .tnl_geneve_tlv_option) = 1 := by
  simp [full_prog, outer_prog, inner_prog, sel_prog.seqs, sel_prog.when, sel_prog.maxc]

theorem full_prog_maxc_mpls (K : dr_hdr) (dmn : mlx5dr_domain) (crit : Nat)
    (o i : mlx5dr_ipv) (inner : Bool) :
    (full_prog K dmn crit o i).maxc
      (fun c => (c.1 == .tnl_mpls_over_gre || c.1 == .tnl_mpls_over_udp) && c.2 == inner)
      = 1 := by
  cases inner <;>
    simp [full_prog, outer_prog, inner_prog, sel_prog.seqs, sel_prog.when, sel_prog.maxc]

/-- Every GENEVE TLV-option call in a call log is immediately preceded by a
GENEVE call with the same `inner` argument: appending a call of another
builder keeps this. -/
theorem tlv_infix_append (l : List (ste_build_id × Bool)) (x : ste_build_id × Bool)
    (hx : x.1 ≠ ste_build_id.tnl_geneve_tlv_option)
    (h : ∀ inner, (ste_build_id.tnl_geneve_tlv_option, inner) ∈ l →
      [(ste_build_id.tnl_geneve, inner), (ste_build_id.tnl_geneve_tlv_option, inner)] <:+: l) :
    ∀ inner, (ste_build_id.tnl_geneve_tlv_option, inner) ∈ l ++ [x] →
      [(ste_build_id.tnl_geneve, inner), (ste_build_id.tnl_geneve_tlv_option, inner)] <:+:
        l ++ [x] := by
  intro inner hmem
  rw [List.mem_append, List.mem_singleton] at hmem
  rcases hmem with hmem | hmem
  · exact (h inner hmem).trans (List.prefix_append l [x]).isInfix
  · exact absurd (congrArg Prod.fst hmem).symm hx

theorem tlv_infix_geneve_tlv (l : List (ste_build_id × Bool)) (b : Bool)
    (h : ∀ inner, (ste_build_id.tnl_geneve_tlv_option, inner) ∈ l →
      [(ste_build_id.tnl_geneve, inner), (ste_build_id.tnl_geneve_tlv_option, inner)] <:+: l) :
    ∀ inner, (ste_build_id.tnl_geneve_tlv_option, inner) ∈
        l ++ [(ste_build_id.tnl_geneve, b)] ++ [(ste_build_id.tnl_geneve_tlv_option, b)] →
      [(ste_build_id.tnl_geneve, inner), (ste_build_id.tnl_geneve_tlv_option, inner)] <:+:
        l ++ [(ste_build_id.tnl_geneve, b)] ++ [(ste_build_id.tnl_geneve_tlv_option, b)] := by
  intro inner hmem
  simp only [List.mem_append, List.mem_singleton, Prod.mk.injEq, reduceCtorEq, false_and,
    or_false, true_and] at hmem
  rcases hmem with hmem | hmem
  · refine (h inner hmem).trans ?_
    rw [List.append_assoc]
    exact (List.prefix_append l _).isInfix
  · subst hmem
    rw [List.append_assoc]
    exact (List.suffix_append l _).isInfix

/-- The three blocks of the selector keep the property that every GENEVE
TLV-option call directly follows a GENEVE call. -/
theorem full_prog_tlv_keeps (K : dr_hdr) (ops : ste_ops) (dmn : mlx5dr_domain) (rx : Bool)
    (crit : Nat) (o i : mlx5dr_ipv) :
    (full_prog K dmn crit o i).keeps ops dmn rx
      (fun s => ∀ inner, (ste_build_id.tnl_geneve_tlv_option, inner) ∈ s.calls →
        [(ste_build_id.tnl_geneve, inner), (ste_build_id.tnl_geneve_tlv_option, inner)] <:+:
          s.calls) := by
  have hstep : ∀ b inner (s : sel_state), b ≠ ste_build_id.tnl_geneve_tlv_option →
      (∀ inner, (ste_build_id.tnl_geneve_tlv_option, inner) ∈ s.calls →
        [(ste_build_id.tnl_geneve, inner), (ste_build_id.tnl_geneve_tlv_option, inner)] <:+:
          s.calls) →
      (∀ inner', (ste_build_id.tnl_geneve_tlv_option, inner') ∈
          (s.build ops dmn rx b inner).calls →
        [(ste_build_id.tnl_geneve, inner'), (ste_build_id.tnl_geneve_tlv_option, inner')] <:+:
          (s.build ops dmn rx b inner).calls) := by
    intro b inner s hb hs
    exact tlv_infix_append s.calls (b, inner) hb hs
  have hnode : ∀ c : mlx5dr_match_param → Bool,
      (sel_prog.seq (.call .tnl_geneve false)
        (.when c .tnl_geneve_tlv_option false)).keeps ops dmn rx
      (fun s => ∀ inner, (ste_build_id.tnl_geneve_tlv_option, inner) ∈ s.calls →
        [(ste_build_id.tnl_geneve, inner), (ste_build_id.tnl_geneve_tlv_option, inner)] <:+:
          s.calls) := by
    intro c
    unfold sel_prog.keeps
    intro s hs
    have hrun : (sel_prog.seq (.call .tnl_geneve false)
        (.when c .tnl_geneve_tlv_option false)).run ops dmn rx s =
        if c (s.build ops dmn rx .tnl_geneve false).mask then
          (s.build ops dmn rx .tnl_geneve false).build ops dmn rx .tnl_geneve_tlv_option false
        else s.build ops dmn rx .tnl_geneve false := rfl
    simp only [hrun]
    split_ifs
    · exact tlv_infix_geneve_tlv s.calls false hs
    · exact hstep _ _ s (by decide) hs
  unfold full_prog outer_prog inner_prog
  repeat' first
    | apply keeps_seqs_nil
    | apply keeps_seqs_cons
    | apply keeps_skip
    | exact hnode _
    | apply keeps_when
    | apply keeps_call
    | apply keeps_block
  all_goals first
    | exact fun s hs _ => hstep _ _ s (by decide) hs
    | exact fun s hs => hstep _ _ s (by decide) hs

theorem seqs_first_wins (ops : ste_ops) (dmn : mlx5dr_domain) (rx : Bool)
    (I0 I1 : sel_state → Prop) (c : mlx5dr_match_param → Bool) (b : ste_build_id)
    (inner : Bool) (q : sel_prog) (rest : List sel_prog)
    (hc : ∀ s, I0 s → c s.mask = true)
    (hb : ∀ s, I0 s → I1 (s.build ops dmn rx b inner))
    (hrest : (sel_prog.seqs rest).keeps ops dmn rx I1) (s : sel_state) (hs : I0 s) :
    I1 ((sel_prog.seqs (.ite c (.call b inner) q :: rest)).run ops dmn rx s) := by
  rw [seqs_cons_run]
  refine keeps_run ops dmn rx I1 _ hrest _ ?_
  rw [ite_run_true _ _ _ _ _ _ _ (hc s hs)]
  exact hb s hs

/-- In the outer block a state property `I0` that makes the VXLAN-GPE
condition true and survives the builders before the tunnel statement leads to
the VXLAN-GPE call, after which `I1` survives the builders that can follow. -/
theorem outer_vxlan_gpe_first (K : dr_hdr) (ops : ste_ops) (dmn : mlx5dr_domain) (rx : Bool)
    (o : mlx5dr_ipv) (I0 I1 : sel_state → Prop)
    (hc : ∀ s, I0 s → dr_mask_is_tnl_vxlan_gpe K s.mask dmn.caps = true)
    (h0 : ∀ b inner s, b ≠ ste_build_id.tnl_vxlan_gpe → b ≠ ste_build_id.tnl_geneve →
      b ≠ ste_build_id.tnl_geneve_tlv_option → I0 s → I0 (s.build ops dmn rx b inner))
    (hb : ∀ s, I0 s → I1 (s.build ops dmn rx .tnl_vxlan_gpe false))
    (h1 : ∀ b inner s, b ≠ ste_build_id.tnl_vxlan_gpe → b ≠ ste_build_id.tnl_geneve →
      b ≠ ste_build_id.tnl_geneve_tlv_option → I1 s → I1 (s.build ops dmn rx b inner))
    (s : sel_state) (hs : I0 s) :
    I1 ((outer_prog K dmn o).run ops dmn rx s) := by
  unfold outer_prog
  iterate 8 rw [seqs_cons_run]
  refine seqs_first_wins ops dmn rx I0 I1 _ _ _ _ _ hc hb ?_ _ ?_
  · repeat' first
      | apply keeps_seqs_nil
      | apply keeps_seqs_cons
      | apply keeps_skip
      | apply keeps_when
      | apply keeps_ite_call
      | apply keeps_block
    all_goals exact fun s hs _ => h1 _ _ s (by decide) (by decide) (by decide) hs
  · repeat' first
      | refine keeps_run ops dmn rx I0 _ ?_ _ ?_
      | apply keeps_seqs_nil
      | apply keeps_seqs_cons
      | apply keeps_skip
      | apply keeps_when
      | apply keeps_block
    all_goals first
      | exact fun s hs _ => h0 _ _ s (by decide) (by decide) (by decide) hs
      | exact hs

/-- The same for the MPLS-over-GRE call of the outer block. -/
theorem outer_mpls_over_gre_first (K : dr_hdr) (ops : ste_ops) (dmn : mlx5dr_domain)
    (rx : Bool) (o : mlx5dr_ipv) (I0 I1 : sel_state → Prop)
    (hc : ∀ s, I0 s → dr_mask_is_tnl_mpls_over_gre K s.mask dmn.caps = true)
    (h0 : ∀ b inner s, b ≠ ste_build_id.tnl_mpls_over_gre →
      b ≠ ste_build_id.tnl_mpls_over_udp → I0 s → I0 (s.build ops dmn rx b inner))
    (hb : ∀ s, I0 s → I1 (s.build ops dmn rx .tnl_mpls_over_gre false))
    (h1 : ∀ b inner s, b ≠ ste_build_id.tnl_mpls_over_gre →
      b ≠ ste_build_id.tnl_mpls_over_udp → I1 s → I1 (s.build ops dmn rx b inner))
    (s : sel_state) (hs : I0 s) :
    I1 ((outer_prog K dmn o).run ops dmn rx s) := by
  unfold outer_prog
  iterate 11 rw [seqs_cons_run]
  refine seqs_first_wins ops dmn rx I0 I1 _ _ _ _ _ hc hb ?_ _ ?_
  · repeat' first
      | apply keeps_seqs_nil
      | apply keeps_seqs_cons
      | apply keeps_skip
      | apply keeps_when
      | apply keeps_block
    all_goals exact fun s hs _ => h1 _ _ s (by decide) (by decide) hs
  · repeat' first
      | refine keeps_run ops dmn rx I0 _ ?_ _ ?_
      | apply keeps_seqs_nil
      | apply keeps_seqs_cons
      | apply keeps_skip
      | apply keeps_seq
      | apply keeps_when
      | apply keeps_call
      | apply keeps_block
    all_goals first
      | exact fun s hs _ => h0 _ _ s (by decide) (by decide) hs
      | exact fun s hs => h0 _ _ s (by decide) (by decide) hs
      | exact hs

/-- The same for the MPLS-over-GRE call of the inner block. -/
theorem inner_mpls_over_gre_first (K : dr_hdr) (ops : ste_ops) (dmn : mlx5dr_domain)
    (rx : Bool) (i : mlx5dr_ipv) (I0 I1 : sel_state → Prop)
    (hc : ∀ s, I0 s → dr_mask_is_tnl_mpls_over_gre K s.mask dmn.caps = true)
    (h0 : ∀ b inner s, b ≠ ste_build_id.tnl_mpls_over_gre →
      b ≠ ste_build_id.tnl_mpls_over_udp → I0 s → I0 (s.build ops dmn rx b inner))
    (hb : ∀ s, I0 s → I1 (s.build ops dmn rx .tnl_mpls_over_gre true))
    (s : sel_state) (hs : I0 s) :
    I1 ((inner_prog K dmn i).run ops dmn rx s) := by
  unfold inner_prog
  iterate 7 rw [seqs_cons_run]
  refine seqs_first_wins ops dmn rx I0 I1 _ _ _ _ _ hc hb ?_ _ ?_
  · apply keeps_seqs_nil
  · repeat' first
      | refine keeps_run ops dmn rx I0 _ ?_ _ ?_
      | apply keeps_seqs_nil
      | apply keeps_seqs_cons
      | apply keeps_skip
      | apply keeps_when
      | apply keeps_block
    all_goals first
      | exact fun s hs _ => h0 _ _ s (by decide) (by decide) hs
      | exact hs

theorem build_count (ops : ste_ops) (dmn : mlx5dr_domain) (rx : Bool) (b : ste_build_id)
    (inner : Bool) (s : sel_state) (c : ste_build_id × Bool) :
    (s.build ops dmn rx b inner).calls.count c =
      s.calls.count c + if (b, inner) = c then 1 else 0 := by
  rw [build_calls, List.count_append, List.count_cons, List.count_nil]
  by_cases h : (b, inner) = c
  · simp [h]
  · simp [h]

/-- C28: in a selector run at most one call is a VXLAN-GPE or GENEVE builder,
at most one is the GENEVE TLV-option builder, and a TLV-option call stands
directly after a GENEVE call with the same `inner` argument; for each value of
`inner` at most one call is an MPLS-over-GRE or MPLS-over-UDP builder with
that argument. When the VXLAN-GPE condition holds at the entry of the outer
block and no other builder makes it false, the outer block appends the
VXLAN-GPE builder and neither the GENEVE nor the TLV-option builder; when the
MPLS-over-GRE condition holds at the entry of the outer (inner) block and no
other builder makes it false, the block appends the MPLS-over-GRE builder and
not the MPLS-over-UDP builder. -/
theorem tunnel_builders_exclusive (K : dr_hdr) (ops : ste_ops) (dmn : mlx5dr_domain)
    (matcher : mlx5dr_matcher) (nic_tbl : mlx5dr_table_rx_tx) (sb : Nat → mlx5dr_ste_build)
    (o i : mlx5dr_ipv) :
    (sel_final K ops dmn matcher nic_tbl sb o i).calls.countP
      (fun c => c.1 == .tnl_vxlan_gpe || c.1 == .tnl_geneve) ≤ 1 ∧
    (sel_final K ops dmn matcher nic_tbl sb o i).calls.countP
      (fun c => c.1 == .tnl_geneve_tlv_option) ≤ 1 ∧
    (∀ inner, (ste_build_id.tnl_geneve_tlv_option, inner) ∈
        (sel_final K ops dmn matcher nic_tbl sb o i).calls →
      [(ste_build_id.tnl_geneve, inner), (ste_build_id.tnl_geneve_tlv_option, inner)] <:+:
        (sel_final K ops dmn matcher nic_tbl sb o i).calls) ∧
    (∀ inner : Bool, (sel_final K ops dmn matcher nic_tbl sb o i).calls.countP
      (fun c => (c.1 == .tnl_mpls_over_gre || c.1 == .tnl_mpls_over_udp) && c.2 == inner)
        ≤ 1) ∧
    (∀ (rx : Bool) (s : sel_state),
      (∀ b inner m, b ≠ ste_build_id.tnl_vxlan_gpe →
        dr_mask_is_tnl_vxlan_gpe K m dmn.caps = true →
        dr_mask_is_tnl_vxlan_gpe K (ops.build b dmn m inner rx).2 dmn.caps = true) →
      dr_mask_is_tnl_vxlan_gpe K s.mask dmn.caps = true →
      (dr_matcher_set_ste_builders_outer K ops dmn rx o s).calls.count (.tnl_vxlan_gpe, false) =
        s.calls.count (.tnl_vxlan_gpe, false) + 1 ∧
      ∀ inner,
        (dr_matcher_set_ste_builders_outer K ops dmn rx o s).calls.count (.tnl_geneve, inner) =
          s.calls.count (.tnl_geneve, inner) ∧
        (dr_matcher_set_ste_builders_outer K ops dmn rx o s).calls.count
            (.tnl_geneve_tlv_option, inner) =
          s.calls.count (.tnl_geneve_tlv_option, inner)) ∧
    (∀ (rx : Bool) (s : sel_state),
      (∀ b inner m, b ≠ ste_build_id.tnl_mpls_over_gre →
        dr_mask_is_tnl_mpls_over_gre K m dmn.caps = true →
        dr_mask_is_tnl_mpls_over_gre K (ops.build b dmn m inner rx).2 dmn.caps = true) →
      dr_mask_is_tnl_mpls_over_gre K s.mask dmn.caps = true →
      ((dr_matcher_set_ste_builders_outer K ops dmn rx o s).calls.count
          (.tnl_mpls_over_gre, false) = s.calls.count (.tnl_mpls_over_gre, false) + 1 ∧
        ∀ inner,
          (dr_matcher_set_ste_builders_outer K ops dmn rx o s).calls.count
            (.tnl_mpls_over_udp, inner) = s.calls.count (.tnl_mpls_over_udp, inner)) ∧
      ((dr_matcher_set_ste_builders_inner K ops dmn rx i s).calls.count
          (.tnl_mpls_over_gre, true) = s.calls.count (.tnl_mpls_over_gre, true) + 1 ∧
        ∀ inner,
          (dr_matcher_set_ste_builders_inner K ops dmn rx i s).calls.count
            (.tnl_mpls_over_udp, inner) = s.calls.count (.tnl_mpls_over_udp, inner))) := by
  refine ⟨?_, ?_, ?_, ?_, ?_, ?_⟩
  · exact (sel_final_countP_le K ops dmn matcher nic_tbl sb o i _ rfl).trans
      (full_prog_maxc_tunnel K dmn _ o i).le
  · exact (sel_final_countP_le K ops dmn matcher nic_tbl sb o i _ rfl).trans
      (full_prog_maxc_tlv K dmn _ o i).le
  · have hpre := keeps_run ops dmn (nic_tbl.nic_dmn_type == DR_DOMAIN_NIC_TYPE_RX) _ _
      (full_prog_tlv_keeps K ops dmn (nic_tbl.nic_dmn_type == DR_DOMAIN_NIC_TYPE_RX)
        matcher.match_criteria o i)
      { mask := sel_working_mask K dmn matcher (nic_tbl.nic_dmn_type == DR_DOMAIN_NIC_TYPE_RX),
        sb := sb, idx := 0, calls := [] }
      (fun inner h => absurd h (List.not_mem_nil _))
    rcases sel_final_calls K ops dmn matcher nic_tbl sb o i with hc | hc
    · rw [hc]; exact hpre
    · rw [hc]; exact tlv_infix_append _ _ (by decide) hpre
  · intro inner
    exact (sel_final_countP_le K ops dmn matcher nic_tbl sb o i _ (by cases inner <;> rfl)).trans
      (full_prog_maxc_mpls K dmn _ o i inner).le
  · intro rx s hframe hs
    rw [outer_prog_run]
    refine outer_vxlan_gpe_first K ops dmn rx o
      (fun t => dr_mask_is_tnl_vxlan_gpe K t.mask dmn.caps = true ∧
        t.calls.count (.tnl_vxlan_gpe, false) = s.calls.count (.tnl_vxlan_gpe, false) ∧
        ∀ inner, t.calls.count (.tnl_geneve, inner) = s.calls.count (.tnl_geneve, inner) ∧
          t.calls.count (.tnl_geneve_tlv_option, inner) =
            s.calls.count (.tnl_geneve_tlv_option, inner))
      (fun t =>
        t.calls.count (.tnl_vxlan_gpe, false) = s.calls.count (.tnl_vxlan_gpe, false) + 1 ∧
        ∀ inner, t.calls.count (.tnl_geneve, inner) = s.calls.count (.tnl_geneve, inner) ∧
          t.calls.count (.tnl_geneve_tlv_option, inner) =
            s.calls.count (.tnl_geneve_tlv_option, inner))
      (fun t ht => ht.1) ?_ ?_ ?_ s ⟨hs, rfl, fun _ => ⟨rfl, rfl⟩⟩
    · intro b inner t h1 h2 h3 ht
      refine ⟨hframe b inner t.mask h1 ht.1, ?_, fun inner' => ⟨?_, ?_⟩⟩
      · rw [build_count, if_neg (fun h => h1 (congrArg Prod.fst h)), ht.2.1]; rfl
      · rw [build_count, if_neg (fun h => h2 (congrArg Prod.fst h)), (ht.2.2 inner').1]; rfl
      · rw [build_count, if_neg (fun h => h3 (congrArg Prod.fst h)), (ht.2.2 inner').2]; rfl
    · intro t ht
      refine ⟨?_, fun inner' => ⟨?_, ?_⟩⟩
      · rw [build_count, if_pos rfl, ht.2.1]
      · rw [build_count, if_neg (by simp), (ht.2.2 inner').1]; rfl
      · rw [build_count, if_neg (by simp), (ht.2.2 inner').2]; rfl
    · intro b inner t h1 h2 h3 ht
      refine ⟨?_, fun inner' => ⟨?_, ?_⟩⟩
      · rw [build_count, if_neg (fun h => h1 (congrArg Prod.fst h)), ht.1]
      · rw [build_count, if_neg (fun h => h2 (congrArg Prod.fst h)), (ht.2 inner').1]; rfl
      · rw [build_count, if_neg (fun h => h3 (congrArg Prod.fst h)), (ht.2 inner').2]; rfl
  · intro rx s hframe hs
    constructor
    · rw [outer_prog_run]
      refine outer_mpls_over_gre_first K ops dmn rx o
        (fun t => dr_mask_is_tnl_mpls_over_gre K t.mask dmn.caps = true ∧
          t.calls.count (.tnl_mpls_over_gre, false) =
            s.calls.count (.tnl_mpls_over_gre, false) ∧
          ∀ inner, t.calls.count (.tnl_mpls_over_udp, inner) =
            s.calls.count (.tnl_mpls_over_udp, inner))
        (fun t =>
          t.calls.count (.tnl_mpls_over_gre, false) =
            s.calls.count (.tnl_mpls_over_gre, false) + 1 ∧
          ∀ inner, t.calls.count (.tnl_mpls_over_udp, inner) =
            s.calls.count (.tnl_mpls_over_udp, inner))
        (fun t ht => ht.1) ?_ ?_ ?_ s ⟨hs, rfl, fun _ => rfl⟩
      · intro b inner t h1 h2 ht
        refine ⟨hframe b inner t.mask h1 ht.1, ?_, fun inner' => ?_⟩
        · rw [build_count, if_neg (fun h => h1 (congrArg Prod.fst h)), ht.2.1]; rfl
        · rw [build_count, if_neg (fun h => h2 (congrArg Prod.fst h)), ht.2.2 inner']; rfl
      · intro t ht
        refine ⟨?_, fun inner' => ?_⟩
        · rw [build_count, if_pos rfl, ht.2.1]
        · rw [build_count, if_neg (by simp), ht.2.2 inner']; rfl
      · intro b inner t h1 h2 ht
        refine ⟨?_, fun inner' => ?_⟩
        · rw [build_count, if_neg (fun h => h1 (congrArg Prod.fst h)), ht.1]
        · rw [build_count, if_neg (fun h => h2 (congrArg Prod.fst h)), ht.2 inner']; rfl
    · rw [inner_prog_run]
      refine inner_mpls_over_gre_first K ops dmn rx i
        (fun t => dr_mask_is_tnl_mpls_over_gre K t.mask dmn.caps = true ∧
          t.calls.count (.tnl_mpls_over_gre, true) =
            s.calls.count (.tnl_mpls_over_gre, true) ∧
          ∀ inner, t.calls.count (.tnl_mpls_over_udp, inner) =
            s.calls.count (.tnl_mpls_over_udp, inner))
        (fun t =>
          t.calls.count (.tnl_mpls_over_gre, true) =
            s.calls.count (.tnl_mpls_over_gre, true) + 1 ∧
          ∀ inner, t.calls.count (.tnl_mpls_over_udp, inner) =
            s.calls.count (.tnl_mpls_over_udp, inner))
        (fun t ht => ht.1) ?_ ?_ s ⟨hs, rfl, fun _ => rfl⟩
      · intro b inner t h1 h2 ht
        refine ⟨hframe b inner t.mask h1 ht.1, ?_, fun inner' => ?_⟩
        · rw [build_count, if_neg (fun h => h1 (congrArg Prod.fst h)), ht.2.1]; rfl
        · rw [build_count, if_neg (fun h => h2 (congrArg Prod.fst h)), ht.2.2 inner']; rfl
      · intro t ht
        refine ⟨?_, fun inner' => ?_⟩
        · rw [build_count, if_pos rfl, ht.2.1]
        · rw [build_count, if_neg (by simp), ht.2.2 inner']; rfl

/-! ## The current builder set and the start table -/

theorem set_all_step_builder_val (K : dr_hdr) (ops : ste_ops) (dmn : mlx5dr_domain)
    (matcher : mlx5dr_matcher) (nic_tbl : mlx5dr_table_rx_tx) (b : Bool) (o i : mlx5dr_ipv)
    (nic_matcher : mlx5dr_matcher_rx_tx) :
    (set_all_step K ops dmn matcher nic_tbl b o i nic_matcher).ste_builder =
      if (b && sel_run_ok K ops dmn matcher nic_tbl o i) = true then some (o, i)
      else nic_matcher.ste_builder := by
  unfold set_all_step
  cases b
  · simp
  · simp only [if_true, Bool.true_and, (set_ste_builders_state K ops dmn matcher nic_tbl
      nic_matcher o i).1, set_ste_builders_ok_iff]

theorem set_ste_builders_arr (K : dr_hdr) (ops : ste_ops) (dmn : mlx5dr_domain)
    (matcher : mlx5dr_matcher) (nic_tbl : mlx5dr_table_rx_tx)
    (nic_matcher : mlx5dr_matcher_rx_tx) (o i : mlx5dr_ipv) :
    (dr_matcher_set_ste_builders K ops dmn matcher nic_tbl nic_matcher o i).2.ste_builder_arr =
      if ops.mlx5dr_ste_build_pre_check dmn matcher.match_criteria matcher.mask ≠ 0 then
        nic_matcher.ste_builder_arr
      else fun o' i' =>
        if o' = o ∧ i' = i then
          (sel_final K ops dmn matcher nic_tbl (nic_matcher.ste_builder_arr o i) o i).sb
        else nic_matcher.ste_builder_arr o' i' := by
  unfold dr_matcher_set_ste_builders sel_final
  simp only [dr_matcher_set_large_ste_builders, EOPNOTSUPP, EINVAL]
  split_ifs <;> simp_all

theorem set_all_step_arr (K : dr_hdr) (ops : ste_ops) (dmn : mlx5dr_domain)
    (matcher : mlx5dr_matcher) (nic_tbl : mlx5dr_table_rx_tx) (b : Bool) (o i : mlx5dr_ipv)
    (nic_matcher : mlx5dr_matcher_rx_tx) (o' i' : mlx5dr_ipv) :
    (set_all_step K ops dmn matcher nic_tbl b o i nic_matcher).ste_builder_arr o' i' =
      if b = true ∧
          ops.mlx5dr_ste_build_pre_check dmn matcher.match_criteria matcher.mask = 0 ∧
          o' = o ∧ i' = i then
        (sel_final K ops dmn matcher nic_tbl (nic_matcher.ste_builder_arr o i) o i).sb
      else nic_matcher.ste_builder_arr o' i' := by
  unfold set_all_step
  cases b
  · simp
  · rw [if_pos rfl, set_ste_builders_arr]
    by_cases hp : ops.mlx5dr_ste_build_pre_check dmn matcher.match_criteria matcher.mask = 0
    · simp [hp]
    · simp [hp]

/-- After the guarded calls the array of a pair that was attempted with a
passing pre-check holds what the run for that pair wrote into it. -/
theorem set_all_runs_arr (K : dr_hdr) (ops : ste_ops) (dmn : mlx5dr_domain)
    (matcher : mlx5dr_matcher) (nic_tbl : mlx5dr_table_rx_tx)
    (nic_matcher : mlx5dr_matcher_rx_tx) (v : mask_ip_versions) (o i : mlx5dr_ipv)
    (hmem : (o, i) ∈ family_pairs v)
    (hpre : ops.mlx5dr_ste_build_pre_check dmn matcher.match_criteria matcher.mask = 0) :
    (set_all_runs K ops dmn matcher nic_tbl nic_matcher v).ste_builder_arr o i =
      (sel_final K ops dmn matcher nic_tbl (nic_matcher.ste_builder_arr o i) o i).sb := by
  simp only [set_all_runs, set_all_step_arr, hpre, true_and]
  rcases v with ⟨a, b, c, d⟩
  cases a <;> cases b <;> cases c <;> cases d <;> cases o <;> cases i <;>
    simp [family_pairs, ipv_families, List.product] at hmem ⊢

/-- On a state without a current builder set the guarded calls leave the
last attempted pair whose run succeeds as the current builder set. -/
theorem set_all_runs_last_ok (K : dr_hdr) (ops : ste_ops) (dmn : mlx5dr_domain)
    (matcher : mlx5dr_matcher) (nic_tbl : mlx5dr_table_rx_tx)
    (nic_matcher : mlx5dr_matcher_rx_tx) (v : mask_ip_versions)
    (hz : nic_matcher.ste_builder = none) :
    (set_all_runs K ops dmn matcher nic_tbl nic_matcher v).ste_builder =
      last_ok_pair K ops dmn matcher nic_tbl v := by
  simp only [set_all_runs, set_all_step_builder_val, hz, last_ok_pair]
  generalize hf : (fun p : mlx5dr_ipv × mlx5dr_ipv =>
    sel_run_ok K ops dmn matcher nic_tbl p.1 p.2) = f
  have key : ∀ o i, sel_run_ok K ops dmn matcher nic_tbl o i = f (o, i) := by
    intro o i; rw [← hf]
  simp only [key]
  clear hf key
  rcases v with ⟨a, b, c, d⟩
  cases h1 : f (DR_RULE_IPV4, DR_RULE_IPV4) <;> cases h2 : f (DR_RULE_IPV4, DR_RULE_IPV6) <;>
    cases h3 : f (DR_RULE_IPV6, DR_RULE_IPV4) <;> cases h4 : f (DR_RULE_IPV6, DR_RULE_IPV6) <;>
    cases a <;> cases b <;> cases c <;> cases d <;>
    simp [family_pairs, ipv_families, List.product, List.filter, h1, h2, h3, h4]

/-- With builder selection successful and both allocations successful,
`dr_matcher_init_nic` allocates the start table with the parameters of the
first builder of the current builder set. -/
theorem init_nic_start_table (K : dr_hdr) (ops : ste_ops) (E : Env) (w : World)
    (dmn : mlx5dr_domain) (matcher : mlx5dr_matcher) (nic_tbl : mlx5dr_table_rx_tx)
    (nic_matcher : mlx5dr_matcher_rx_tx) (o i : mlx5dr_ipv)
    (hret : (dr_matcher_set_all_ste_builders K ops dmn matcher nic_tbl nic_matcher).1 = 0)
    (hb : (dr_matcher_set_all_ste_builders K ops dmn matcher nic_tbl
      nic_matcher).2.ste_builder = some (o, i))
    (h0 : E.htbl_alloc_ok w.alloc_calls = true)
    (h1 : E.htbl_alloc_ok (w.alloc_calls + 1) = true) :
    (dr_matcher_init_nic K ops E w dmn matcher nic_tbl nic_matcher).ret = 0 ∧
    (dr_matcher_init_nic K ops E w dmn matcher nic_tbl nic_matcher).nic_matcher.ste_builder =
      some (o, i) ∧
    (dr_matcher_init_nic K ops E w dmn matcher nic_tbl nic_matcher).nic_matcher.ste_builder_arr =
      (dr_matcher_set_all_ste_builders K ops dmn matcher nic_tbl nic_matcher).2.ste_builder_arr ∧
    (dr_matcher_init_nic K ops E w dmn matcher nic_tbl nic_matcher).nic_matcher.s_htbl =
      w.brk + 2 ∧
    ((dr_matcher_init_nic K ops E w dmn matcher nic_tbl nic_matcher).w.htbls
        (w.brk + 2)).htbl_type =
      ((dr_matcher_set_all_ste_builders K ops dmn matcher nic_tbl
        nic_matcher).2.ste_builder_arr o i 0).htbl_type ∧
    ((dr_matcher_init_nic K ops E w dmn matcher nic_tbl nic_matcher).w.htbls
        (w.brk + 2)).lu_type =
      ((dr_matcher_set_all_ste_builders K ops dmn matcher nic_tbl
        nic_matcher).2.ste_builder_arr o i 0).lu_type ∧
    ((dr_matcher_init_nic K ops E w dmn matcher nic_tbl nic_matcher).w.htbls
        (w.brk + 2)).byte_mask =
      ((dr_matcher_set_all_ste_builders K ops dmn matcher nic_tbl
        nic_matcher).2.ste_builder_arr o i 0).byte_mask := by
  unfold dr_matcher_init_nic
  revert hret hb
  generalize dr_matcher_set_all_ste_builders K ops dmn matcher nic_tbl nic_matcher = sa
  intro hret hb
  simp only []
  rw [if_neg (not_not.mpr hret)]
  simp only [mlx5dr_ste_htbl_alloc, h0, h1, Bool.false_eq_true, if_false, if_true,
    Nat.add_one_ne_zero, hb]
  refine ⟨trivial, trivial, trivial, trivial, ?_, ?_, ?_⟩
  · simp [mlx5dr_htbl_get, Function.update]
  · simp [mlx5dr_htbl_get, Function.update]
  · simp [mlx5dr_htbl_get, Function.update]

/-- C31: on a per-direction state without a current builder set and a mask
whose IP-version check yields the selection `v`, the current builder set
after `dr_matcher_set_all_ste_builders` is the array of the last pair, in the
order (IPv4,IPv4), (IPv4,IPv6), (IPv6,IPv4), (IPv6,IPv6) of the attempted
pairs, whose selector run succeeds, and the call returns 0 exactly when there
is such a pair; a run that fails leaves the current builder set as it was and
a run that succeeds makes its own array current. That array holds what the
run for its pair wrote, and when both allocations succeed
`dr_matcher_init_nic` allocates the start table with the table type, lookup
type and byte mask of its first builder. -/
theorem ste_builder_is_last_success (K : dr_hdr) (ops : ste_ops) (E : Env) (w : World)
    (dmn : mlx5dr_domain) (matcher : mlx5dr_matcher) (nic_tbl : mlx5dr_table_rx_tx)
    (nic_matcher : mlx5dr_matcher_rx_tx) (v : mask_ip_versions)
    (hv : dr_matcher_get_mask_ip_versions K matcher = .ok v)
    (hfresh : nic_matcher.ste_builder = none) :
    (dr_matcher_set_all_ste_builders K ops dmn matcher nic_tbl nic_matcher).2.ste_builder =
      last_ok_pair K ops dmn matcher nic_tbl v ∧
    (family_pairs v).Sublist [(DR_RULE_IPV4, DR_RULE_IPV4), (DR_RULE_IPV4, DR_RULE_IPV6),
      (DR_RULE_IPV6, DR_RULE_IPV4), (DR_RULE_IPV6, DR_RULE_IPV6)] ∧
    ((dr_matcher_set_all_ste_builders K ops dmn matcher nic_tbl nic_matcher).1 = 0 ↔
      (last_ok_pair K ops dmn matcher nic_tbl v).isSome = true) ∧
    (∀ (nic : mlx5dr_matcher_rx_tx) (o i : mlx5dr_ipv),
      ((dr_matcher_set_ste_builders K ops dmn matcher nic_tbl nic o i).1 ≠ 0 →
        (dr_matcher_set_ste_builders K ops dmn matcher nic_tbl nic o i).2.ste_builder =
          nic.ste_builder) ∧
      ((dr_matcher_set_ste_builders K ops dmn matcher nic_tbl nic o i).1 = 0 →
        (dr_matcher_set_ste_builders K ops dmn matcher nic_tbl nic o i).2.ste_builder =
          some (o, i))) ∧
    (∀ o i : mlx5dr_ipv,
      (dr_matcher_set_all_ste_builders K ops dmn matcher nic_tbl nic_matcher).2.ste_builder =
        some (o, i) →
      (dr_matcher_set_all_ste_builders K ops dmn matcher nic_tbl
          nic_matcher).2.ste_builder_arr o i =
        (sel_final K ops dmn matcher nic_tbl (nic_matcher.ste_builder_arr o i) o i).sb ∧
      (E.htbl_alloc_ok w.alloc_calls = true → E.htbl_alloc_ok (w.alloc_calls + 1) = true →
        (dr_matcher_init_nic K ops E w dmn matcher nic_tbl nic_matcher).ret = 0 ∧
        (dr_matcher_init_nic K ops E w dmn matcher nic_tbl nic_matcher).nic_matcher.s_htbl =
          w.brk + 2 ∧
        ((dr_matcher_init_nic K ops E w dmn matcher nic_tbl nic_matcher).w.htbls
            (w.brk + 2)).htbl_type =
          ((dr_matcher_set_all_ste_builders K ops dmn matcher nic_tbl
            nic_matcher).2.ste_builder_arr o i 0).htbl_type ∧
        ((dr_matcher_init_nic K ops E w dmn matcher nic_tbl nic_matcher).w.htbls
            (w.brk + 2)).lu_type =
          ((dr_matcher_set_all_ste_builders K ops dmn matcher nic_tbl
            nic_matcher).2.ste_builder_arr o i 0).lu_type ∧
        ((dr_matcher_init_nic K ops E w dmn matcher nic_tbl nic_matcher).w.htbls
            (w.brk + 2)).byte_mask =
          ((dr_matcher_set_all_ste_builders K ops dmn matcher nic_tbl
            nic_matcher).2.ste_builder_arr o i 0).byte_mask)) := by
  have hsa := set_all_eq K ops dmn matcher nic_tbl nic_matcher v hv
  have hlast := set_all_runs_last_ok K ops dmn matcher nic_tbl nic_matcher v hfresh
  have hb : (dr_matcher_set_all_ste_builders K ops dmn matcher nic_tbl
      nic_matcher).2.ste_builder = last_ok_pair K ops dmn matcher nic_tbl v := by
    rw [hsa]; exact hlast
  have hret : (dr_matcher_set_all_ste_builders K ops dmn matcher nic_tbl nic_matcher).1 = 0 ↔
      (last_ok_pair K ops dmn matcher nic_tbl v).isSome = true := by
    have hE : (-EINVAL : Int) ≠ 0 := by decide
    rw [hsa, hlast]
    cases last_ok_pair K ops dmn matcher nic_tbl v <;> simp [hE]
  refine ⟨hb, ?_, hret, ?_, ?_⟩
  · rcases v with ⟨a, b, c, d⟩
    cases a <;> cases b <;> cases c <;> cases d <;>
      simp [family_pairs, ipv_families, List.product]
  · intro nic o i
    have hst := (set_ste_builders_state K ops dmn matcher nic_tbl nic o i).1
    constructor
    · intro h; rw [hst, if_neg h]
    · intro h; rw [hst, if_pos h]
  · intro o i hoi
    have hsome : last_ok_pair K ops dmn matcher nic_tbl v = some (o, i) := hb ▸ hoi
    have hmem := List.mem_of_getLast?_eq_some hsome
    rw [List.mem_filter] at hmem
    have hpre : ops.mlx5dr_ste_build_pre_check dmn matcher.match_criteria matcher.mask = 0 := by
      have := hmem.2
      simp only [sel_run_ok, Bool.and_eq_true, beq_iff_eq] at this
      exact this.1.1
    refine ⟨?_, fun h0 h1 => ?_⟩
    · rw [hsa]
      exact set_all_runs_arr K ops dmn matcher nic_tbl nic_matcher v o i hmem.1 hpre
    · have hz : (dr_matcher_set_all_ste_builders K ops dmn matcher nic_tbl nic_matcher).1 = 0 :=
        hret.2 (by rw [hsome]; rfl)
      obtain ⟨a, -, -, b, c, d, e⟩ := init_nic_start_table K ops E w dmn matcher nic_tbl
        nic_matcher o i hz hoi h0 h1
      exact ⟨a, b, c, d, e⟩

theorem ste_builder_is_last_success_witness :
    dr_matcher_get_mask_ip_versions hdr_upstream ex_wild_v6_dst = .ok ex_sel_wild_outer ∧
    last_ok_pair hdr_upstream ops_clearing (table_init MLX5DR_DOMAIN_TYPE_NIC_RX).dmn
      ex_wild_v6_dst (table_init MLX5DR_DOMAIN_TYPE_NIC_RX).rx ex_sel_wild_outer =
        some (DR_RULE_IPV6, DR_RULE_IPV4) ∧
    (dr_matcher_set_all_ste_builders hdr_upstream ops_clearing
        (table_init MLX5DR_DOMAIN_TYPE_NIC_RX).dmn ex_wild_v6_dst
        (table_init MLX5DR_DOMAIN_TYPE_NIC_RX).rx {}).2.ste_builder =
      last_ok_pair hdr_upstream ops_clearing (table_init MLX5DR_DOMAIN_TYPE_NIC_RX).dmn
        ex_wild_v6_dst (table_init MLX5DR_DOMAIN_TYPE_NIC_RX).rx ex_sel_wild_outer :=
  ⟨rfl, by set_option maxRecDepth 100000 in decide,
   (ste_builder_is_last_success hdr_upstream ops_clearing (env_with 10 []) world_init
     (table_init MLX5DR_DOMAIN_TYPE_NIC_RX).dmn ex_wild_v6_dst
     (table_init MLX5DR_DOMAIN_TYPE_NIC_RX).rx {} ex_sel_wild_outer rfl rfl).1⟩

/-! ## Builder slots of a selector run -/

theorem run_idx_le (ops : ste_ops) (dmn : mlx5dr_domain) (rx : Bool) (p : sel_prog) :
    ∀ s : sel_state,
      s.idx ≤ (p.run ops dmn rx s).idx ∧
      (p.run ops dmn rx s).idx ≤ s.idx + p.maxc (fun _ => true) := by
  induction p with
  | skip => intro s; simp [sel_prog.run, sel_prog.maxc]
  | call b inner => intro s; simp [sel_prog.run, sel_prog.maxc, sel_state.build]
  | seq p q ihp ihq =>
    intro s
    have h1 := ihp s
    have h2 := ihq (p.run ops dmn rx s)
    simp only [sel_prog.run, sel_prog.maxc]
    omega
  | ite c p q ihp ihq =>
    intro s
    have h1 := ihp s
    have h2 := ihq s
    simp only [sel_prog.run, sel_prog.maxc]
    split_ifs <;> omega

theorem outer_prog_maxc (K : dr_hdr) (dmn : mlx5dr_domain) (o : mlx5dr_ipv) :
    (outer_prog K dmn o).maxc (fun _ => true) = 17 := by
  cases o <;> simp [outer_prog, sel_prog.seqs, sel_prog.when, sel_prog.maxc]

theorem inner_prog_maxc (K : dr_hdr) (dmn : mlx5dr_domain) (i : mlx5dr_ipv) :
    (inner_prog K dmn i).maxc (fun _ => true) = 10 := by
  cases i <;> simp [inner_prog, sel_prog.seqs, sel_prog.when, sel_prog.maxc]

theorem full_prog_maxc (K : dr_hdr) (dmn : mlx5dr_domain) (crit : Nat) (o i : mlx5dr_ipv) :
    (full_prog K dmn crit o i).maxc (fun _ => true) = 29 := by
  have h : (full_prog K dmn crit o i).maxc (fun _ => true) =
      max ((outer_prog K dmn o).maxc (fun _ => true)) 0 +
        (max ((inner_prog K dmn i).maxc (fun _ => true)) 0 + (max (1 + (1 + 0)) 0 + 0)) := rfl
  rw [h, outer_prog_maxc, inner_prog_maxc]
  rfl

theorem full_prog_maxc_flex (K : dr_hdr) (dmn : mlx5dr_domain) (crit : Nat)
    (o i : mlx5dr_ipv) :
    (full_prog K dmn crit o i).maxc
      (fun c => c.1 == .flex_parser_0 || c.1 == .flex_parser_1) = 2 := by
  simp [full_prog, outer_prog, inner_prog, sel_prog.seqs, sel_prog.when, sel_prog.maxc]

/-- Two runs of a statement tree from states that agree on the mask, on `idx`
and on the slots below `idx` end in states that agree in the same way: the
slots below the final `idx` do not depend on what the array held before. -/
theorem run_sb_congr (ops : ste_ops) (dmn : mlx5dr_domain) (rx : Bool) (p : sel_prog) :
    ∀ s s' : sel_state, s.mask = s'.mask → s.idx = s'.idx →
      (∀ j, j < s.idx → s.sb j = s'.sb j) →
      (p.run ops dmn rx s).mask = (p.run ops dmn rx s').mask ∧
      (p.run ops dmn rx s).idx = (p.run ops dmn rx s').idx ∧
      (∀ j, j < (p.run ops dmn rx s).idx →
        (p.run ops dmn rx s).sb j = (p.run ops dmn rx s').sb j) := by
  induction p with
  | skip => intro s s' h1 h2 h3; exact ⟨h1, h2, h3⟩
  | call b inner =>
    intro s s' h1 h2 h3
    refine ⟨?_, ?_, ?_⟩
    · simp only [sel_prog.run, sel_state.build, h1]
    · simp only [sel_prog.run, sel_state.build, h2]
    · intro j hj
      simp only [sel_prog.run, sel_state.build] at hj ⊢
      rw [← h1, ← h2]
      by_cases hji : j = s.idx
      · subst hji; simp
      · rw [Function.update_noteq hji, Function.update_noteq hji]
        exact h3 j (by omega)
  | seq p q ihp ihq =>
    intro s s' h1 h2 h3
    obtain ⟨a, b, c⟩ := ihp s s' h1 h2 h3
    exact ihq _ _ a b c
  | ite c p q ihp ihq =>
    intro s s' h1 h2 h3
    simp only [sel_prog.run, h1]
    split_ifs
    · exact ihp s s' h1 h2 h3
    · exact ihq s s' h1 h2 h3

/-- A run of the selector leaves the slots from the final `idx` on as they
were. -/
theorem sel_final_sb_frame (K : dr_hdr) (ops : ste_ops) (dmn : mlx5dr_domain)
    (matcher : mlx5dr_matcher) (nic_tbl : mlx5dr_table_rx_tx) (sb : Nat → mlx5dr_ste_build)
    (o i : mlx5dr_ipv) (j : Nat)
    (hj : (sel_final K ops dmn matcher nic_tbl sb o i).idx ≤ j) :
    (sel_final K ops dmn matcher nic_tbl sb o i).sb j = sb j := by
  have hpre := keeps_run ops dmn (nic_tbl.nic_dmn_type == DR_DOMAIN_NIC_TYPE_RX)
    (fun s => ∀ j, s.idx ≤ j → s.sb j = sb j) _
    (full_prog_keeps K ops dmn (nic_tbl.nic_dmn_type == DR_DOMAIN_NIC_TYPE_RX) _
      matcher.match_criteria o i
      (fun b inner s _ hs j hj => by
        simp only [sel_state.build] at hj ⊢
        rw [Function.update_noteq (by omega)]
        exact hs j (by omega)))
    { mask := sel_working_mask K dmn matcher (nic_tbl.nic_dmn_type == DR_DOMAIN_NIC_TYPE_RX),
      sb := sb, idx := 0, calls := [] }
    (fun _ _ => rfl)
  rw [sel_final_eq] at hj ⊢
  unfold sel_fallback at hj ⊢
  unfold sel_pre at hj ⊢
  split_ifs at hj ⊢
  · simp only [sel_state.build_empty] at hj ⊢
    rw [Function.update_noteq (by omega)]
    exact hpre j (by omega)
  · exact hpre j hj

/-- The slots below the final `idx` of a run of the selector do not depend on
what the array held before the run. -/
theorem sel_final_sb_congr (K : dr_hdr) (ops : ste_ops) (dmn : mlx5dr_domain)
    (matcher : mlx5dr_matcher) (nic_tbl : mlx5dr_table_rx_tx) (sb sb' : Nat → mlx5dr_ste_build)
    (o i : mlx5dr_ipv) (j : Nat)
    (hj : j < (sel_final K ops dmn matcher nic_tbl sb o i).idx) :
    (sel_final K ops dmn matcher nic_tbl sb o i).sb j =
      (sel_final K ops dmn matcher nic_tbl sb' o i).sb j := by
  obtain ⟨h1, h2, h3⟩ := run_sb_congr ops dmn (nic_tbl.nic_dmn_type == DR_DOMAIN_NIC_TYPE_RX)
    (full_prog K dmn matcher.match_criteria o i)
    { mask := sel_working_mask K dmn matcher (nic_tbl.nic_dmn_type == DR_DOMAIN_NIC_TYPE_RX),
      sb := sb, idx := 0, calls := [] }
    { mask := sel_working_mask K dmn matcher (nic_tbl.nic_dmn_type == DR_DOMAIN_NIC_TYPE_RX),
      sb := sb', idx := 0, calls := [] }
    rfl rfl (fun j hj => absurd hj (Nat.not_lt_zero j))
  rw [sel_final_eq] at hj ⊢
  rw [sel_final_eq]
  unfold sel_fallback at hj ⊢
  unfold sel_pre at hj ⊢
  rw [← h2]
  split_ifs at hj ⊢
  · simp only [sel_state.build_empty] at hj ⊢
    rw [← h2]
    by_cases hji : j = ((full_prog K dmn matcher.match_criteria o i).run ops dmn
        (nic_tbl.nic_dmn_type == DR_DOMAIN_NIC_TYPE_RX)
        { mask := sel_working_mask K dmn matcher
            (nic_tbl.nic_dmn_type == DR_DOMAIN_NIC_TYPE_RX),
          sb := sb, idx := 0, calls := [] }).idx
    · rw [hji]; simp
    · rw [Function.update_noteq hji, Function.update_noteq hji]
      exact h3 j (by omega)
  · exact h3 j hj

/-- The fallback statement either does nothing, and then the run has no
always-match call, or it finds no builder appended and appends the
always-match builder (for `DR_MATCHER_CRITERIA_EMPTY = 0`). -/
theorem sel_final_cases (K : dr_hdr) (ops : ste_ops) (dmn : mlx5dr_domain)
    (matcher : mlx5dr_matcher) (nic_tbl : mlx5dr_table_rx_tx) (sb : Nat → mlx5dr_ste_build)
    (o i : mlx5dr_ipv) (hE : K.DR_MATCHER_CRITERIA_EMPTY = 0) :
    (sel_final K ops dmn matcher nic_tbl sb o i =
        sel_pre K ops dmn matcher (nic_tbl.nic_dmn_type == DR_DOMAIN_NIC_TYPE_RX) sb o i ∧
      ∀ inner, (ste_build_id.empty_always_hit, inner) ∉
        (sel_final K ops dmn matcher nic_tbl sb o i).calls) ∨
    ((sel_pre K ops dmn matcher (nic_tbl.nic_dmn_type == DR_DOMAIN_NIC_TYPE_RX) sb o i).idx = 0 ∧
      (sel_pre K ops dmn matcher (nic_tbl.nic_dmn_type == DR_DOMAIN_NIC_TYPE_RX)
        sb o i).calls = [] ∧
      sel_final K ops dmn matcher nic_tbl sb o i =
        (sel_pre K ops dmn matcher (nic_tbl.nic_dmn_type == DR_DOMAIN_NIC_TYPE_RX)
          sb o i).build_empty ops (nic_tbl.nic_dmn_type == DR_DOMAIN_NIC_TYPE_RX)) := by
  have hlen := sel_pre_idx_len K ops dmn matcher (nic_tbl.nic_dmn_type == DR_DOMAIN_NIC_TYPE_RX)
    sb o i
  rw [sel_final_eq]
  unfold sel_fallback
  split_ifs with hc
  · right
    have h0 : (sel_pre K ops dmn matcher (nic_tbl.nic_dmn_type == DR_DOMAIN_NIC_TYPE_RX)
        sb o i).idx = 0 := by
      simp only [Bool.or_eq_true, Bool.and_eq_true, beq_iff_eq] at hc
      rcases hc with ⟨h1, -⟩ | h
      · exact h1
      · rw [sel_pre_empty_criteria K ops dmn matcher _ sb o i (h.trans hE)]
    refine ⟨h0, ?_, rfl⟩
    rw [hlen] at h0
    exact List.length_eq_zero.1 h0
  · left
    exact ⟨rfl, fun inner => sel_pre_no_empty K ops dmn matcher _ sb o i inner⟩

/-- C32: for `DR_MATCHER_CRITERIA_EMPTY = 0`, in every run of the selector
`idx` ends as the number of builder calls and is at most 29; the slots from
the final `idx` on are as before the run and the slots below it do not depend
on what the array held before, so the run writes exactly the slots
`0 .. idx - 1`. The outer block advances `idx` by at most 17 and the inner
block by at most 10, from every state and whatever the builders return; at
most 2 calls are flex-parser builders. When the always-match builder is called
it is the only call of the run and its descriptor is in slot 0. A run that
returns 0 records a builder count between 1 and 29. -/
theorem selector_slots_bounded (K : dr_hdr) (ops : ste_ops) (dmn : mlx5dr_domain)
    (matcher : mlx5dr_matcher) (nic_tbl : mlx5dr_table_rx_tx)
    (nic_matcher : mlx5dr_matcher_rx_tx) (sb : Nat → mlx5dr_ste_build) (o i : mlx5dr_ipv)
    (hE : K.DR_MATCHER_CRITERIA_EMPTY = 0) :
    (sel_final K ops dmn matcher nic_tbl sb o i).idx =
      (sel_final K ops dmn matcher nic_tbl sb o i).calls.length ∧
    (sel_final K ops dmn matcher nic_tbl sb o i).idx ≤ 29 ∧
    (∀ j, (sel_final K ops dmn matcher nic_tbl sb o i).idx ≤ j →
      (sel_final K ops dmn matcher nic_tbl sb o i).sb j = sb j) ∧
    (∀ (sb' : Nat → mlx5dr_ste_build) (j : Nat),
      j < (sel_final K ops dmn matcher nic_tbl sb o i).idx →
      (sel_final K ops dmn matcher nic_tbl sb o i).sb j =
        (sel_final K ops dmn matcher nic_tbl sb' o i).sb j) ∧
    (∀ (rx : Bool) (s : sel_state),
      s.idx ≤ (dr_matcher_set_ste_builders_outer K ops dmn rx o s).idx ∧
      (dr_matcher_set_ste_builders_outer K ops dmn rx o s).idx ≤ s.idx + 17 ∧
      s.idx ≤ (dr_matcher_set_ste_builders_inner K ops dmn rx i s).idx ∧
      (dr_matcher_set_ste_builders_inner K ops dmn rx i s).idx ≤ s.idx + 10) ∧
    (sel_final K ops dmn matcher nic_tbl sb o i).calls.countP
      (fun c => c.1 == .flex_parser_0 || c.1 == .flex_parser_1) ≤ 2 ∧
    (∀ inner, (ste_build_id.empty_always_hit, inner) ∈
        (sel_final K ops dmn matcher nic_tbl sb o i).calls →
      (sel_final K ops dmn matcher nic_tbl sb o i).calls =
        [(ste_build_id.empty_always_hit, false)] ∧
      (sel_final K ops dmn matcher nic_tbl sb o i).idx = 1 ∧
      (sel_final K ops dmn matcher nic_tbl sb o i).sb 0 =
        ops.mlx5dr_ste_build_empty_always_hit (nic_tbl.nic_dmn_type == DR_DOMAIN_NIC_TYPE_RX)) ∧
    ((dr_matcher_set_ste_builders K ops dmn matcher nic_tbl nic_matcher o i).1 = 0 →
      1 ≤ (dr_matcher_set_ste_builders K ops dmn matcher nic_tbl
        nic_matcher o i).2.num_of_builders_arr o i ∧
      (dr_matcher_set_ste_builders K ops dmn matcher nic_tbl
        nic_matcher o i).2.num_of_builders_arr o i ≤ 29) := by
  have hpre : ∀ sb0 : Nat → mlx5dr_ste_build,
      (sel_pre K ops dmn matcher (nic_tbl.nic_dmn_type == DR_DOMAIN_NIC_TYPE_RX)
        sb0 o i).idx ≤ 29 := by
    intro sb0
    have h := (run_idx_le ops dmn (nic_tbl.nic_dmn_type == DR_DOMAIN_NIC_TYPE_RX)
      (full_prog K dmn matcher.match_criteria o i)
      { mask := sel_working_mask K dmn matcher (nic_tbl.nic_dmn_type == DR_DOMAIN_NIC_TYPE_RX),
        sb := sb0, idx := 0, calls := [] }).2
    rw [full_prog_maxc] at h
    simpa [sel_pre] using h
  have hidx : ∀ sb0 : Nat → mlx5dr_ste_build,
      (sel_final K ops dmn matcher nic_tbl sb0 o i).idx ≤ 29 := by
    intro sb0
    rcases sel_final_cases K ops dmn matcher nic_tbl sb0 o i hE with ⟨h, -⟩ | ⟨h0, -, h⟩
    · rw [h]; exact hpre sb0
    · rw [h]; simp [sel_state.build_empty, h0]
  refine ⟨sel_final_idx_len K ops dmn matcher nic_tbl sb o i, hidx sb,
    fun j hj => sel_final_sb_frame K ops dmn matcher nic_tbl sb o i j hj,
    fun sb' j hj => sel_final_sb_congr K ops dmn matcher nic_tbl sb sb' o i j hj, ?_, ?_, ?_, ?_⟩
  · intro rx s
    have ho := run_idx_le ops dmn rx (outer_prog K dmn o) s
    have hi := run_idx_le ops dmn rx (inner_prog K dmn i) s
    rw [outer_prog_maxc] at ho
    rw [inner_prog_maxc] at hi
    rw [outer_prog_run, inner_prog_run]
    exact ⟨ho.1, ho.2, hi.1, hi.2⟩
  · exact (sel_final_countP_le K ops dmn matcher nic_tbl sb o i _ rfl).trans
      (full_prog_maxc_flex K dmn _ o i).le
  · intro inner hin
    rcases sel_final_cases K ops dmn matcher nic_tbl sb o i hE with ⟨-, h⟩ | ⟨h0, hc, h⟩
    · exact absurd hin (h inner)
    · rw [h]
      simp [sel_state.build_empty, h0, hc]
  · intro hret
    obtain ⟨-, hnum⟩ := set_ste_builders_state K ops dmn matcher nic_tbl nic_matcher o i
    rw [hnum, if_pos hret]
    simp only [and_self, if_true]
    have hne : (sel_final K ops dmn matcher nic_tbl (nic_matcher.ste_builder_arr o i) o i).idx
        ≠ 0 := by
      intro h0
      rw [set_ste_builders_ret] at hret
      have hE' : (-EINVAL : Int) ≠ 0 := by decide
      split_ifs at hret with h1 <;> simp_all
    exact ⟨Nat.one_le_iff_ne_zero.2 hne, hidx _⟩

theorem selector_slots_bounded_witness :
    hdr_upstream.DR_MATCHER_CRITERIA_EMPTY = 0 ∧
    (sel_final hdr_upstream ops_clearing (table_init MLX5DR_DOMAIN_TYPE_NIC_RX).dmn
      ex_wild_v6_dst (table_init MLX5DR_DOMAIN_TYPE_NIC_RX).rx (fun _ => {})
      DR_RULE_IPV6 DR_RULE_IPV4).calls =
        [(ste_build_id.eth_l2_dst, false), (ste_build_id.eth_l3_ipv6_dst, false)] ∧
    (sel_final hdr_upstream ops_clearing (table_init MLX5DR_DOMAIN_TYPE_NIC_RX).dmn
      ex_wild_v6_dst (table_init MLX5DR_DOMAIN_TYPE_NIC_RX).rx (fun _ => {})
      DR_RULE_IPV6 DR_RULE_IPV4).idx ≤ 29 :=
  ⟨rfl, by set_option maxRecDepth 100000 in decide,
   (selector_slots_bounded hdr_upstream ops_clearing
     (table_init MLX5DR_DOMAIN_TYPE_NIC_RX).dmn ex_wild_v6_dst
     (table_init MLX5DR_DOMAIN_TYPE_NIC_RX).rx {} (fun _ => {})
     DR_RULE_IPV6 DR_RULE_IPV4 rfl).2.1⟩

end DrMatcher
